import Mathlib

/-!
# MIPS R4000 interpreter core

A shallow embedding of `src/devices/cpu/mips/r4000.cpp` (the stripped-down
MIPS-III interpreter): the dispatch loop `execute_run`, the integer unit
`cpu_execute`, the exception controller `cpu_exception`, coprocessor 0 with the
TLB instructions, the translation unit `translate` and the memory access
primitives.

Conventions.
* A C++ unsigned value of width `w` is a natural number below `2 ^ w`; the casts
  `u8 .. u64` reduce modulo `2 ^ w`, the casts `s8 .. s64` give the signed
  reading of the low `w` bits as an integer.
* A member function of `r4000_base_device` becomes a function on `State`.
* Behaviour the C++ standard leaves undefined (integer division by zero or
  `INT_MIN / -1`) and `fatalerror` end the run of the host program: they are the
  `Except.error` results of the embedding.
-/

namespace R4000

/-! ## Machine integers -/

/-- Cast to `u8`. -/
def u8 (x : Int) : Nat := (x % 2 ^ 8).toNat

/-- Cast to `u16`. -/
def u16 (x : Int) : Nat := (x % 2 ^ 16).toNat

/-- Cast to `u32`. -/
def u32 (x : Int) : Nat := (x % 2 ^ 32).toNat

/-- Cast to `u64`. -/
def u64 (x : Int) : Nat := (x % 2 ^ 64).toNat

/-- Cast to `s8`: the signed reading of the low 8 bits. -/
def s8 (x : Int) : Int := (x + 2 ^ 7) % 2 ^ 8 - 2 ^ 7

/-- Cast to `s16`: the signed reading of the low 16 bits. -/
def s16 (x : Int) : Int := (x + 2 ^ 15) % 2 ^ 16 - 2 ^ 15

/-- Cast to `s32`: the signed reading of the low 32 bits. -/
def s32 (x : Int) : Int := (x + 2 ^ 31) % 2 ^ 32 - 2 ^ 31

/-- Cast to `s64`: the signed reading of the low 64 bits. -/
def s64 (x : Int) : Int := (x + 2 ^ 63) % 2 ^ 64 - 2 ^ 63

/-- The macro `BIT(x, n)`: bit `n` of `x`. -/
def BIT (x n : Nat) : Bool := Nat.testBit x n

/-- Bitwise complement of a `u32`. -/
def not32 (x : Nat) : Nat := 0xffffffff - x % 2 ^ 32

/-- Bitwise complement of a `u64`. -/
def not64 (x : Nat) : Nat := 0xffffffffffffffff - x % 2 ^ 64

/-- C++ signed division, truncating toward zero. -/
def sdiv (a b : Int) : Int := Int.tdiv a b

/-- C++ signed remainder, with the sign of the dividend. -/
def smod (a b : Int) : Int := Int.tmod a b

/-- Arithmetic right shift of a signed value. -/
def sar (a : Int) (n : Nat) : Int := a / 2 ^ n

/-- The function `count_leading_zeros` on a `u32` argument. -/
def count_leading_zeros (x : Nat) : Nat :=
  if u32 x = 0 then 32 else 31 - Nat.log2 (u32 x)

/-! ## Instruction fields (`#define RSREG` .. `FDREG`) -/

/-- Field `RSREG`. -/
def RSREG (op : Nat) : Nat := (op >>> 21) &&& 31
/-- Field `RTREG`. -/
def RTREG (op : Nat) : Nat := (op >>> 16) &&& 31
/-- Field `RDREG`. -/
def RDREG (op : Nat) : Nat := (op >>> 11) &&& 31
/-- Field `SHIFT`. -/
def SHIFT (op : Nat) : Nat := (op >>> 6) &&& 31
/-- Field `FRREG`. -/
def FRREG (op : Nat) : Nat := (op >>> 21) &&& 31
/-- Field `FTREG`. -/
def FTREG (op : Nat) : Nat := (op >>> 16) &&& 31
/-- Field `FSREG`. -/
def FSREG (op : Nat) : Nat := (op >>> 11) &&& 31
/-- Field `FDREG`. -/
def FDREG (op : Nat) : Nat := (op >>> 6) &&& 31

/-- Mask `ODD_REGS`: identifies odd-numbered cop1 registers. -/
def ODD_REGS : Nat := 0x00010840

/-! ## Constants of the absent header `r4000.h` and of the device framework

The header is not among the sources. The values below are the bit layout of the
MIPS R4000 architecture that the specification names. -/

/-- Modelled from the spec: `r4000.h` is absent; the TLB is a fixed array of 48
slots (`ARRAY_LENGTH(m_tlb)`). -/
def TLB_SIZE : Nat := 48

/-- Modelled from the spec: `r4000.h` is absent; coprocessor 0 register number of Index. -/
def CP0_Index : Nat := 0
/-- Modelled from the spec: `r4000.h` is absent; coprocessor 0 register number of Random. -/
def CP0_Random : Nat := 1
/-- Modelled from the spec: `r4000.h` is absent; coprocessor 0 register number of EntryLo0. -/
def CP0_EntryLo0 : Nat := 2
/-- Modelled from the spec: `r4000.h` is absent; coprocessor 0 register number of EntryLo1. -/
def CP0_EntryLo1 : Nat := 3
/-- Modelled from the spec: `r4000.h` is absent; coprocessor 0 register number of Context. -/
def CP0_Context : Nat := 4
/-- Modelled from the spec: `r4000.h` is absent; coprocessor 0 register number of PageMask. -/
def CP0_PageMask : Nat := 5
/-- Modelled from the spec: `r4000.h` is absent; coprocessor 0 register number of Wired. -/
def CP0_Wired : Nat := 6
/-- Modelled from the spec: `r4000.h` is absent; coprocessor 0 register number of BadVAddr. -/
def CP0_BadVAddr : Nat := 8
/-- Modelled from the spec: `r4000.h` is absent; coprocessor 0 register number of Count. -/
def CP0_Count : Nat := 9
/-- Modelled from the spec: `r4000.h` is absent; coprocessor 0 register number of EntryHi. -/
def CP0_EntryHi : Nat := 10
/-- Modelled from the spec: `r4000.h` is absent; coprocessor 0 register number of Compare. -/
def CP0_Compare : Nat := 11
/-- Modelled from the spec: `r4000.h` is absent; coprocessor 0 register number of Status. -/
def CP0_Status : Nat := 12
/-- Modelled from the spec: `r4000.h` is absent; coprocessor 0 register number of Cause. -/
def CP0_Cause : Nat := 13
/-- Modelled from the spec: `r4000.h` is absent; coprocessor 0 register number of EPC. -/
def CP0_EPC : Nat := 14
/-- Modelled from the spec: `r4000.h` is absent; coprocessor 0 register number of PRId. -/
def CP0_PRId : Nat := 15
/-- Modelled from the spec: `r4000.h` is absent; coprocessor 0 register number of Config. -/
def CP0_Config : Nat := 16
/-- Modelled from the spec: `r4000.h` is absent; coprocessor 0 register number of LLAddr. -/
def CP0_LLAddr : Nat := 17
/-- Modelled from the spec: `r4000.h` is absent; coprocessor 0 register number of WatchLo. -/
def CP0_WatchLo : Nat := 18
/-- Modelled from the spec: `r4000.h` is absent; coprocessor 0 register number of WatchHi. -/
def CP0_WatchHi : Nat := 19
/-- Modelled from the spec: `r4000.h` is absent; coprocessor 0 register number of XContext. -/
def CP0_XContext : Nat := 20
/-- Modelled from the spec: `r4000.h` is absent; coprocessor 0 register number of ECC. -/
def CP0_ECC : Nat := 26
/-- Modelled from the spec: `r4000.h` is absent; coprocessor 0 register number of TagLo. -/
def CP0_TagLo : Nat := 28
/-- Modelled from the spec: `r4000.h` is absent; coprocessor 0 register number of ErrorEPC. -/
def CP0_ErrorEPC : Nat := 30

/-- Modelled from the spec: `r4000.h` is absent; Status interrupt enable. -/
def SR_IE : Nat := 0x00000001
/-- Modelled from the spec: `r4000.h` is absent; Status exception level. -/
def SR_EXL : Nat := 0x00000002
/-- Modelled from the spec: `r4000.h` is absent; Status error level. -/
def SR_ERL : Nat := 0x00000004
/-- Modelled from the spec: `r4000.h` is absent; Status kernel/supervisor/user mode field. -/
def SR_KSU : Nat := 0x00000018
/-- Modelled from the spec: `r4000.h` is absent; Status 64-bit addressing in user mode. -/
def SR_UX : Nat := 0x00000020
/-- Modelled from the spec: `r4000.h` is absent; Status 64-bit addressing in supervisor mode. -/
def SR_SX : Nat := 0x00000040
/-- Modelled from the spec: `r4000.h` is absent; Status 64-bit addressing in kernel mode. -/
def SR_KX : Nat := 0x00000080
/-- Modelled from the spec: `r4000.h` is absent; Status software interrupt mask bits. -/
def SR_IMSW : Nat := 0x00000300
/-- Modelled from the spec: `r4000.h` is absent; Status bootstrap exception vectors. -/
def SR_BEV : Nat := 0x00400000
/-- Modelled from the spec: `r4000.h` is absent; Status reverse endian. -/
def SR_RE : Nat := 0x02000000
/-- Modelled from the spec: `r4000.h` is absent; Status additional floating-point registers. -/
def SR_FR : Nat := 0x04000000
/-- Modelled from the spec: `r4000.h` is absent; Status coprocessor 0 usable. -/
def SR_CU0 : Nat := 0x10000000
/-- Modelled from the spec: `r4000.h` is absent; Status coprocessor 1 usable. -/
def SR_CU1 : Nat := 0x20000000
/-- Modelled from the spec: `r4000.h` is absent; Status coprocessor 2 usable. -/
def SR_CU2 : Nat := 0x40000000

/-- Modelled from the spec: `r4000.h` is absent; KSU field value for kernel mode. -/
def SR_KSU_K : Nat := 0x00000000
/-- Modelled from the spec: `r4000.h` is absent; KSU field value for supervisor mode. -/
def SR_KSU_S : Nat := 0x00000008
/-- Modelled from the spec: `r4000.h` is absent; KSU field value for user mode. -/
def SR_KSU_U : Nat := 0x00000010

/-- Modelled from the spec: `r4000.h` is absent; Cause exception code field. -/
def CAUSE_EXCCODE : Nat := 0x0000007c
/-- Modelled from the spec: `r4000.h` is absent; Cause software interrupt pending bits. -/
def CAUSE_IPSW : Nat := 0x00000300
/-- Modelled from the spec: `r4000.h` is absent; Cause external interrupt 0 pending. -/
def CAUSE_IPEX0 : Nat := 0x00000400
/-- Modelled from the spec: `r4000.h` is absent; Cause external interrupt 5 (timer) pending. -/
def CAUSE_IPEX5 : Nat := 0x00008000
/-- Modelled from the spec: `r4000.h` is absent; Cause interrupt pending field. -/
def CAUSE_IP : Nat := 0x0000ff00
/-- Modelled from the spec: `r4000.h` is absent; Cause branch delay slot bit. -/
def CAUSE_BD : Nat := 0x80000000

/-- Modelled from the spec: `r4000.h` is absent; exception code, interrupt. -/
def EXCEPTION_INT : Nat := 0x00000000
/-- Modelled from the spec: `r4000.h` is absent; exception code, TLB modification. -/
def EXCEPTION_MOD : Nat := 0x00000004
/-- Modelled from the spec: `r4000.h` is absent; exception code, TLB load. -/
def EXCEPTION_TLBL : Nat := 0x00000008
/-- Modelled from the spec: `r4000.h` is absent; exception code, TLB store. -/
def EXCEPTION_TLBS : Nat := 0x0000000c
/-- Modelled from the spec: `r4000.h` is absent; exception code, address error on load. -/
def EXCEPTION_ADEL : Nat := 0x00000010
/-- Modelled from the spec: `r4000.h` is absent; exception code, address error on store. -/
def EXCEPTION_ADES : Nat := 0x00000014
/-- Modelled from the spec: `r4000.h` is absent; exception code, system call. -/
def EXCEPTION_SYS : Nat := 0x00000020
/-- Modelled from the spec: `r4000.h` is absent; exception code, breakpoint. -/
def EXCEPTION_BP : Nat := 0x00000024
/-- Modelled from the spec: `r4000.h` is absent; exception code, reserved instruction. -/
def EXCEPTION_RI : Nat := 0x00000028
/-- Modelled from the spec: `r4000.h` is absent; exception code, coprocessor 0 unusable. -/
def EXCEPTION_CP0 : Nat := 0x0000002c
/-- Modelled from the spec: `r4000.h` is absent; exception code, coprocessor 1 unusable. -/
def EXCEPTION_CP1 : Nat := 0x1000002c
/-- Modelled from the spec: `r4000.h` is absent; exception code, coprocessor 2 unusable. -/
def EXCEPTION_CP2 : Nat := 0x2000002c
/-- Modelled from the spec: `r4000.h` is absent; exception code, arithmetic overflow. -/
def EXCEPTION_OV : Nat := 0x00000030
/-- Modelled from the spec: `r4000.h` is absent; exception code, trap. -/
def EXCEPTION_TR : Nat := 0x00000034
/-- Modelled from the spec: `r4000.h` is absent; exception code, floating point. -/
def EXCEPTION_FPE : Nat := 0x0000003c
/-- Modelled from the spec: `r4000.h` is absent; exception code, watchpoint. -/
def EXCEPTION_WATCH : Nat := 0x0000005c

/-- Modelled from the spec: `r4000.h` is absent; EntryHi address space id. -/
def EH_ASID : Nat := 0x00000000000000ff
/-- Modelled from the spec: `r4000.h` is absent; global flag kept in the TLB copy of EntryHi. -/
def EH_G : Nat := 0x0000000000001000
/-- Modelled from the spec: `r4000.h` is absent; EntryHi virtual page number, 32-bit mode. -/
def EH_VPN2_32 : Nat := 0x00000000ffffe000
/-- Modelled from the spec: `r4000.h` is absent; EntryHi virtual page number, 64-bit mode. -/
def EH_VPN2_64 : Nat := 0x000000ffffffe000
/-- Modelled from the spec: `r4000.h` is absent; EntryHi region, 64-bit mode. -/
def EH_R : Nat := 0xc000000000000000

/-- Modelled from the spec: `r4000.h` is absent; EntryLo global bit. -/
def EL_G : Nat := 0x0000000000000001
/-- Modelled from the spec: `r4000.h` is absent; EntryLo valid bit. -/
def EL_V : Nat := 0x0000000000000002
/-- Modelled from the spec: `r4000.h` is absent; EntryLo dirty bit. -/
def EL_D : Nat := 0x0000000000000004
/-- Modelled from the spec: `r4000.h` is absent; EntryLo coherency field. -/
def EL_C : Nat := 0x0000000000000038
/-- Modelled from the spec: `r4000.h` is absent; EntryLo page frame number. -/
def EL_PFN : Nat := 0x000000003fffffc0
/-- Modelled from the spec: `r4000.h` is absent; coherency value "uncached". -/
def C_2 : Nat := 0x10

/-- Modelled from the spec: `r4000.h` is absent; Context page table entry base. -/
def CONTEXT_PTEBASE : Nat := 0xffffffffff800000
/-- Modelled from the spec: `r4000.h` is absent; Context bad virtual page number. -/
def CONTEXT_BADVPN2 : Nat := 0x00000000007ffff0
/-- Modelled from the spec: `r4000.h` is absent; XContext page table entry base. -/
def XCONTEXT_PTEBASE : Nat := 0xfffffffe00000000
/-- Modelled from the spec: `r4000.h` is absent; XContext region. -/
def XCONTEXT_R : Nat := 0x0000000180000000
/-- Modelled from the spec: `r4000.h` is absent; XContext bad virtual page number. -/
def XCONTEXT_BADVPN2 : Nat := 0x000000007ffffff0

/-- Modelled from the spec: `r4000.h` is absent; Config big endian bit. -/
def CONFIG_BE : Nat := 0x00008000
/-- Modelled from the spec: `r4000.h` is absent; Config software-writable bits. -/
def CONFIG_WM : Nat := 0x0000003f
/-- Modelled from the spec: `r4000.h` is absent; Config primary instruction cache line size. -/
def CONFIG_IB : Nat := 0x00000020

/-- Modelled from the spec: `r4000.h` is absent; WatchLo trap on store. -/
def WATCHLO_W : Nat := 0x00000001
/-- Modelled from the spec: `r4000.h` is absent; WatchLo trap on load. -/
def WATCHLO_R : Nat := 0x00000002
/-- Modelled from the spec: `r4000.h` is absent; WatchLo physical address bits 31:3. -/
def WATCHLO_PADDR0 : Nat := 0xfffffff8
/-- Modelled from the spec: `r4000.h` is absent; WatchHi physical address bits 35:32. -/
def WATCHHI_PADDR1 : Nat := 0x0000000f

/-- Modelled from the spec: `r4000.h` is absent; FCR31 rounding mode. -/
def FCR31_RM : Nat := 0x00000003
/-- Modelled from the spec: `r4000.h` is absent; FCR31 exception enable field. -/
def FCR31_EM : Nat := 0x00000f80
/-- Modelled from the spec: `r4000.h` is absent; FCR31 cause field (maskable causes). -/
def FCR31_CM : Nat := 0x0001f000
/-- Modelled from the spec: `r4000.h` is absent; FCR31 cause, unimplemented operation. -/
def FCR31_CE : Nat := 0x00020000
/-- Modelled from the spec: `r4000.h` is absent; FCR31 condition bit. -/
def FCR31_C : Nat := 0x00800000

/-- Modelled from the spec: the device framework is absent; access type mask of an intention. -/
def TRANSLATE_TYPE_MASK : Nat := 0x03
/-- Modelled from the spec: the device framework is absent; read access. -/
def TRANSLATE_READ : Nat := 0
/-- Modelled from the spec: the device framework is absent; write access. -/
def TRANSLATE_WRITE : Nat := 1
/-- Modelled from the spec: the device framework is absent; instruction fetch. -/
def TRANSLATE_FETCH : Nat := 2
/-- Modelled from the spec: the device framework is absent; side-effect-suppressed (debug) access
flag. -/
def TRANSLATE_DEBUG_MASK : Nat := 0x08

/-! ## Processor state -/

/-- The enumeration `branch_state_t`. -/
inductive branch_state_t where
  | NONE
  | DELAY
  | BRANCH
  | EXCEPTION
  | NULLIFY
  deriving DecidableEq, Repr

/-- The result type `translate_t`. -/
inductive translate_t where
  | ERROR
  | MISS
  | UNCACHED
  | CACHED
  deriving DecidableEq, Repr

/-- The structure `tlb_entry_t`; the array `pfn[2]` is the pair `pfn0`, `pfn1`. -/
structure tlb_entry_t where
  mask : Nat
  vpn : Nat
  pfn0 : Nat
  pfn1 : Nat
  low_bit : Nat
  deriving DecidableEq, Repr

/-- Element `pfn[i]` of a TLB entry. -/
def tlb_entry_t.pfn (e : tlb_entry_t) (i : Bool) : Nat := if i then e.pfn1 else e.pfn0

/-- The write tap installed by LL or LLD: its address range and the closure it runs.
`dword = true` is the tap of LL, which captures `hi = BIT(address, 2)`. -/
structure ll_tap where
  addrstart : Nat
  addrend : Nat
  dword : Bool
  hi : Bool
  deriving DecidableEq, Repr

/-- Ways in which the host program stops instead of completing an instruction. -/
inductive host_fault where
  | divide_error
  | fatalerror
  deriving DecidableEq, Repr

/-- The members of `r4000_base_device` together with the parts of the environment the
interpreter reads: the bus contents, the cycle counter of the scheduler, the side-effect
switch of the debugger and the two globals of the floating-point library. -/
structure State where
  m_pc : Nat
  m_r : Nat → Nat
  m_hi : Nat
  m_lo : Nat
  m_branch_state : branch_state_t
  m_branch_target : Nat
  m_cp0 : Nat → Nat
  m_cp0_timer_zero : Nat
  m_cp0_timer : Option Nat
  m_ll_watch : Option ll_tap
  m_tlb : Nat → tlb_entry_t
  m_last : Nat → Nat
  m_64 : Bool
  m_fcr0 : Nat
  m_fcr31 : Nat
  m_f : Nat → Nat
  m_icount : Int
  m_icache_line_size : Nat
  m_icache_shift : Nat
  m_icache_mask_lo : Nat
  mem : Nat → Nat
  total_cycles : Nat
  side_effects_disabled : Bool
  softfloat_exceptionFlags : Nat
  softfloat_roundingMode : Nat

/-- The macro `SR`: the Status register. -/
def State.SR (s : State) : Nat := s.m_cp0 CP0_Status

/-- The macro `CAUSE`: the Cause register. -/
def State.CAUSE (s : State) : Nat := s.m_cp0 CP0_Cause

/-- Assignment `m_r[i] = v`. -/
def State.set_r (s : State) (i v : Nat) : State :=
  { s with m_r := fun j => if j = i then v else s.m_r j }

/-- Assignment `m_cp0[i] = v`. -/
def State.set_cp0 (s : State) (i v : Nat) : State :=
  { s with m_cp0 := fun j => if j = i then v else s.m_cp0 j }

/-- Assignment `m_f[i] = v`. -/
def State.set_f (s : State) (i v : Nat) : State :=
  { s with m_f := fun j => if j = i then v else s.m_f j }

/-- The macro `ADDR(r, o)`: address computation, 64-bit or sign-extended 32-bit. The offset
is cast to `s16` by the macro itself. -/
def ADDR (s : State) (r : Nat) (o : Int) : Nat :=
  if s.m_64 then u64 (r + s16 o) else u64 (s32 (u32 (u32 r + s16 o)))

/-! ## Exception controller -/

/-- Modelled from the spec: `r4000.h` is absent; the default argument of `cpu_exception`, the
offset of the general exception vector. -/
def GENERAL_VECTOR : Nat := 0x180

/-- The function `cpu_exception(exception, vector)`. -/
def cpu_exception (s : State) (exception : Nat) (vector : Nat) : State :=
  let s1 :=
    if s.SR &&& SR_EXL = 0 then
      let a := s.set_cp0 CP0_EPC s.m_pc
      let b := a.set_cp0 CP0_Cause ((a.CAUSE &&& CAUSE_IP) ||| exception)
      -- if in a branch delay slot, restart at the branch instruction
      let c :=
        if b.m_branch_state = branch_state_t.DELAY then
          let c1 := b.set_cp0 CP0_EPC (u64 ((b.m_cp0 CP0_EPC : Int) - 4))
          c1.set_cp0 CP0_Cause (c1.CAUSE ||| CAUSE_BD)
        else b
      let d := c.set_cp0 CP0_Status (c.SR ||| SR_EXL)
      { d with m_64 := decide (d.m_cp0 CP0_Status &&& SR_KX ≠ 0) }
    else
      s.set_cp0 CP0_Cause ((s.CAUSE &&& (CAUSE_BD ||| CAUSE_IP)) ||| exception)
  { s1 with
    m_branch_state := branch_state_t.EXCEPTION
    m_pc := u64 ((if s1.SR &&& SR_BEV ≠ 0 then s64 (s32 0xbfc00200) else s64 (s32 0x80000000))
      + vector) }

/-- The function `cp0_mode_check`: recompute the 64-bit flag from Status. -/
def cp0_mode_check (s : State) : State :=
  if s.m_cp0 CP0_Status &&& (SR_EXL ||| SR_ERL) = 0 then
    if s.m_cp0 CP0_Status &&& SR_KSU = SR_KSU_K then
      { s with m_64 := decide (s.m_cp0 CP0_Status &&& SR_KX ≠ 0) }
    else if s.m_cp0 CP0_Status &&& SR_KSU = SR_KSU_S then
      { s with m_64 := decide (s.m_cp0 CP0_Status &&& SR_SX ≠ 0) }
    else if s.m_cp0 CP0_Status &&& SR_KSU = SR_KSU_U then
      { s with m_64 := decide (s.m_cp0 CP0_Status &&& SR_UX ≠ 0) }
    else s
  else
    { s with m_64 := decide (s.m_cp0 CP0_Status &&& SR_KX ≠ 0) }

/-! ## Translation unit -/

/-- Outcome of the scan of the TLB in `translate`: the loop leaves with a usable entry
(`hit`), with `invalid = true`, with `modify = true`, or runs to its end. -/
inductive scan_t where
  | hit (index : Nat) (pfn : Nat)
  | invalid
  | modify
  | nomatch
  deriving DecidableEq, Repr

/-- The `for` loop of `translate` over the TLB, with `n` iterations left
(`i = TLB_SIZE - n`), starting at the last-used index of the access type. -/
def tlb_scan (s : State) (intention address key : Nat) (extended : Bool) : Nat → scan_t
  | 0 => scan_t.nomatch
  | n + 1 =>
    let i := TLB_SIZE - (n + 1)
    let index := u32 (s.m_last (intention &&& TRANSLATE_TYPE_MASK) + i) % TLB_SIZE
    let entry := s.m_tlb index
    -- test vpn and asid
    let mask := (if extended then EH_R ||| (EH_VPN2_64 &&& not64 entry.mask)
        else EH_VPN2_32 &&& not64 entry.mask)
      ||| (if entry.vpn &&& EH_G ≠ 0 then 0 else EH_ASID)
    if entry.vpn &&& mask ≠ key &&& mask then
      tlb_scan s intention address key extended n
    else
      let pfn := entry.pfn (BIT address entry.low_bit)
      -- test valid
      if pfn &&& EL_V = 0 then scan_t.invalid
      -- test dirty
      else if intention &&& TRANSLATE_WRITE ≠ 0 ∧ pfn &&& EL_D = 0 then scan_t.modify
      else scan_t.hit index pfn

/-- The second half of `translate`: the address needs translation, using a combination of
VPN2 and ASID. -/
def tlb_lookup (s : State) (intention address : Nat) (extended : Bool) :
    translate_t × Nat × State :=
  let key := (address &&& (if extended then EH_R ||| EH_VPN2_64 else EH_VPN2_32))
    ||| (s.m_cp0 CP0_EntryHi &&& EH_ASID)
  match tlb_scan s intention address key extended TLB_SIZE with
  | scan_t.hit index pfn =>
    let entry := s.m_tlb index
    -- translate the address
    let a1 := address &&& ((entry.mask >>> 1) ||| 0xfff)
    let a2 := a1 ||| (((pfn &&& EL_PFN) <<< 6) &&& not64 (entry.mask >>> 1))
    -- remember the last-used tlb entry
    let s1 := { s with m_last := fun j =>
      if j = intention &&& TRANSLATE_TYPE_MASK then index else s.m_last j }
    (if pfn &&& EL_C = C_2 then translate_t.UNCACHED else translate_t.CACHED, a2, s1)
  | r =>
    -- tlb miss, invalid entry, or a store to a non-dirty entry
    let invalid := decide (r = scan_t.invalid)
    let modify := decide (r = scan_t.modify)
    if ¬ s.side_effects_disabled ∧ intention &&& TRANSLATE_DEBUG_MASK = 0 then
      -- load tlb exception registers
      let s1 := s.set_cp0 CP0_BadVAddr address
      let s2 := s1.set_cp0 CP0_EntryHi key
      let s3 := s2.set_cp0 CP0_Context
        ((s2.m_cp0 CP0_Context &&& CONTEXT_PTEBASE) ||| ((address >>> 9) &&& CONTEXT_BADVPN2))
      let s4 := s3.set_cp0 CP0_XContext
        ((s3.m_cp0 CP0_XContext &&& XCONTEXT_PTEBASE) ||| ((address >>> 31) &&& XCONTEXT_R)
          ||| ((address >>> 9) &&& XCONTEXT_BADVPN2))
      if invalid ∨ modify ∨ s4.SR &&& SR_EXL ≠ 0 then
        (translate_t.MISS, address, cpu_exception s4
          (if modify then EXCEPTION_MOD
            else if intention &&& TRANSLATE_WRITE ≠ 0 then EXCEPTION_TLBS else EXCEPTION_TLBL)
          GENERAL_VECTOR)
      else
        (translate_t.MISS, address, cpu_exception s4
          (if intention &&& TRANSLATE_WRITE ≠ 0 then EXCEPTION_TLBS else EXCEPTION_TLBL)
          (if extended then 0x000 else 0x080))
    else
      (translate_t.MISS, address, s)

/-- The function `translate(intention, address)`: the result, the translated address (the
reference parameter) and the state. -/
def translate (s : State) (intention address : Nat) : translate_t × Nat × State :=
  if s.SR &&& SR_KSU = 0 ∨ s.SR &&& SR_EXL ≠ 0 ∨ s.SR &&& SR_ERL ≠ 0 then
    -- kernel mode
    if s.SR &&& SR_KX ≠ 0 then
      -- 64-bit kernel mode
      if address &&& 0xffffff0000000000 ≠ 0 then
        if address &&& 0xffffff0000000000 = 0x4000000000000000 then
          tlb_lookup s intention address true -- xksseg
        else if address &&& 0xc000000000000000 = 0x8000000000000000 then
          (translate_t.CACHED, address &&& 0x0000000fffffffff, s) -- xkphys
        else if address &&& 0xffffff0000000000 = 0xc000000000000000 then
          if address &&& 0x000000ff80000000 = 0x000000ff80000000 then
            (translate_t.ERROR, address, s) -- exception
          else
            tlb_lookup s intention address true -- xkseg
        else if address &&& 0xffffffffe0000000 = 0xffffffff80000000 then
          (translate_t.CACHED, address &&& 0x7fffffff, s) -- ckseg0
        else if address &&& 0xffffffffe0000000 = 0xffffffffa0000000 then
          (translate_t.UNCACHED, address &&& 0x1fffffff, s) -- ckseg1
        else if address &&& 0xffffffffe0000000 = 0xffffffffc0000000 then
          tlb_lookup s intention address true -- cksseg
        else if address &&& 0xffffffffe0000000 = 0xffffffffe0000000 then
          tlb_lookup s intention address true -- ckseg3
        else
          (translate_t.ERROR, address, s) -- exception
      else if s.SR &&& SR_ERL ≠ 0 then
        (translate_t.UNCACHED, address, s) -- xkuseg (unmapped, uncached)
      else
        tlb_lookup s intention address true -- xkuseg
    else
      -- 32-bit kernel mode
      if address &&& 0xffffffff80000000 ≠ 0 then
        if address &&& 0xffffffffe0000000 = 0xffffffff80000000 then
          (translate_t.CACHED, address &&& 0x7fffffff, s) -- kseg0
        else if address &&& 0xffffffffe0000000 = 0xffffffffa0000000 then
          (translate_t.UNCACHED, address &&& 0x1fffffff, s) -- kseg1
        else if address &&& 0xffffffffe0000000 = 0xffffffffc0000000 then
          tlb_lookup s intention address false -- ksseg
        else if address &&& 0xffffffffe0000000 = 0xffffffffe0000000 then
          tlb_lookup s intention address false -- kseg3
        else
          (translate_t.ERROR, address, s) -- exception
      else if s.SR &&& SR_ERL ≠ 0 then
        (translate_t.UNCACHED, address, s) -- kuseg (unmapped, uncached)
      else
        tlb_lookup s intention address false -- kuseg
  else if s.SR &&& SR_KSU = SR_KSU_S then
    -- supervisor mode
    if s.SR &&& SR_SX ≠ 0 then
      -- 64-bit supervisor mode
      if address &&& 0xffffff0000000000 ≠ 0 then
        if address &&& 0xffffff0000000000 = 0x4000000000000000 then
          tlb_lookup s intention address true -- xsseg
        else if address &&& 0xffffffffe0000000 = 0xffffffffc0000000 then
          tlb_lookup s intention address true -- csseg
        else
          (translate_t.ERROR, address, s) -- exception
      else
        tlb_lookup s intention address true -- xsuseg
    else
      -- 32-bit supervisor mode
      if address &&& 0xffffffff80000000 ≠ 0 then
        if address &&& 0xffffffffe0000000 = 0xffffffffc0000000 then
          tlb_lookup s intention address false -- sseg
        else
          (translate_t.ERROR, address, s) -- exception
      else
        tlb_lookup s intention address false -- suseg
  else
    -- user mode
    if s.SR &&& SR_UX ≠ 0 then
      -- 64-bit user mode
      if address &&& 0xffffff0000000000 ≠ 0 then
        (translate_t.ERROR, address, s) -- exception
      else
        tlb_lookup s intention address true -- xuseg
    else
      -- 32-bit user mode
      if address &&& 0xffffffff80000000 ≠ 0 then
        (translate_t.ERROR, address, s) -- exception
      else
        tlb_lookup s intention address false -- useg

/-- The function `address_error(intention, address)`. -/
def address_error (s : State) (intention address : Nat) : State :=
  if ¬ s.side_effects_disabled ∧ intention &&& TRANSLATE_DEBUG_MASK = 0 then
    let s1 := if s.SR &&& SR_EXL = 0 then s.set_cp0 CP0_BadVAddr address else s
    cpu_exception s1
      (if intention &&& TRANSLATE_WRITE ≠ 0 then EXCEPTION_ADES else EXCEPTION_ADEL)
      GENERAL_VECTOR
  else s

/-! ## Bus

The address space `space(0)` belongs to the device framework, which is not among the sources.
It is configured with a 64-bit data bus and 32-bit addresses (`m_program_config_le`,
`m_program_config_be`), in the byte order selected by `CONFIG_BE`. -/

/-- Modelled from the spec: the bus adapter is an external leaf (byte-addressable, aligned
1/2/4/8-byte reads and masked writes). Bit position, within the 64-bit bus word, of the
`size`-byte lane at `address`. -/
def bus_shift (s : State) (size address : Nat) : Nat :=
  if s.m_cp0 CP0_Config &&& CONFIG_BE ≠ 0 then 8 * ((8 - size) - (address &&& (8 - size)))
  else 8 * (address &&& (8 - size))

/-- Modelled from the spec: the bus adapter is an external leaf. The functions `read_byte`,
`read_word`, `read_dword` and `read_qword` (`size` = 1, 2, 4, 8) of the address space: the
lane of the bus word `mem (offs_t(address) / 8)`. -/
def bus_read (s : State) (size address : Nat) : Nat :=
  (s.mem (u32 address / 8) >>> bus_shift s size (u32 address)) % 2 ^ (8 * size)

/-- The closure of the write tap installed by LL (`dword`) or LLD: whether a write with the
bus mask `mem_mask` removes the tap. -/
def ll_tap.fires (t : ll_tap) (mem_mask : Nat) : Bool :=
  if t.dword then
    (if t.hi then decide (mem_mask &&& 0xffffffff00000000 ≠ 0)
      else decide (mem_mask &&& 0x00000000ffffffff ≠ 0))
  else true

/-- Modelled from the spec: the bus adapter is an external leaf. The functions `write_byte`,
`write_word`, `write_dword` and `write_qword` of the address space with a write mask: the
masked lane of the bus word is replaced, and a write observer installed over the written
word runs its closure. -/
def bus_write (s : State) (size address data mem_mask : Nat) : State :=
  let a := u32 address
  let sh := bus_shift s size a
  let m64 := (mem_mask % 2 ^ (8 * size)) <<< sh
  let d64 := (data % 2 ^ (8 * size)) <<< sh
  let s1 := { s with mem := fun q =>
    if q = a / 8 then (s.mem q &&& not64 m64) ||| (d64 &&& m64) else s.mem q }
  match s.m_ll_watch with
  | some t =>
    if t.addrstart ≤ (a / 8) * 8 + 7 ∧ (a / 8) * 8 ≤ t.addrend ∧ t.fires m64 then
      { s1 with m_ll_watch := none }
    else s1
  | none => s1

/-! ## Memory access primitives -/

/-- The watchpoint test shared by `load`, `load_linked` and `store`; `flag` is `WATCHLO_R`
or `WATCHLO_W`. -/
def watch_hit (s : State) (flag address : Nat) : Bool :=
  if s.m_cp0 CP0_WatchLo &&& flag ≠ 0 ∧ s.SR &&& SR_EXL = 0 then
    let watch_address := ((s.m_cp0 CP0_WatchHi &&& WATCHHI_PADDR1) <<< 32)
      ||| (s.m_cp0 CP0_WatchLo &&& WATCHLO_PADDR0)
    decide (address &&& not64 7 = watch_address)
  else false

/-- The template `load<T>(address, apply)` with `sizeof(T) = size`: the value read, handed to
`apply` by the caller, or nothing when the access is abandoned. -/
def load (s : State) (size address : Nat) : Option Nat × State :=
  -- alignment error
  if address &&& (size - 1) ≠ 0 then
    (none, address_error s TRANSLATE_READ address)
  else
    match translate s TRANSLATE_READ address with
    -- address error
    | (translate_t.ERROR, a, s1) => (none, address_error s1 TRANSLATE_READ a)
    -- tlb miss
    | (translate_t.MISS, _, s1) => (none, s1)
    | (_, a, s1) =>
      -- watchpoint
      if watch_hit s1 WATCHLO_R a then (none, cpu_exception s1 EXCEPTION_WATCH GENERAL_VECTOR)
      else (some (bus_read s1 size a), s1)

/-- The template `load_linked<T>(address, apply)`: the translated address and the value
read, handed to `apply` by the caller. -/
def load_linked (s : State) (size address : Nat) : Option (Nat × Nat) × State :=
  -- alignment error
  if address &&& (size - 1) ≠ 0 then
    (none, address_error s TRANSLATE_READ address)
  else
    match translate s TRANSLATE_READ address with
    -- address error
    | (translate_t.ERROR, a, s1) => (none, address_error s1 TRANSLATE_READ a)
    -- tlb miss
    | (translate_t.MISS, _, s1) => (none, s1)
    | (_, a, s1) =>
      -- watchpoint
      if watch_hit s1 WATCHLO_R a then (none, cpu_exception s1 EXCEPTION_WATCH GENERAL_VECTOR)
      else (some (a, bus_read s1 size a), s1)

/-- The template `store<T>(address, data, mem_mask)` with `sizeof(T) = size`: whether the
store was performed, and the state. -/
def store (s : State) (size address data mem_mask : Nat) : Bool × State :=
  -- alignment error
  if address &&& (size - 1) ≠ 0 then
    (false, address_error s TRANSLATE_READ address)
  else
    match translate s TRANSLATE_WRITE address with
    -- address error
    | (translate_t.ERROR, a, s1) => (false, address_error s1 TRANSLATE_WRITE a)
    -- tlb miss
    | (translate_t.MISS, _, s1) => (false, s1)
    | (_, a, s1) =>
      -- watchpoint
      if watch_hit s1 WATCHLO_W a then (false, cpu_exception s1 EXCEPTION_WATCH GENERAL_VECTOR)
      else (true, bus_write s1 size a data (if size = 1 then 0xff else mem_mask))

/-- The function `fetch(address, apply)` with the instruction cache compiled out
(`#define ICACHE 0`): the instruction word handed to `apply`. -/
def fetch (s : State) (address : Nat) : Option Nat × State :=
  -- alignment error
  if address &&& 3 ≠ 0 then
    (none, address_error s TRANSLATE_FETCH address)
  else
    match translate s TRANSLATE_FETCH address with
    -- address error
    | (translate_t.ERROR, a, s1) => (none, address_error s1 TRANSLATE_FETCH a)
    -- tlb miss
    | (translate_t.MISS, _, s1) => (none, s1)
    | (_, a, s1) => (some (bus_read s1 4 a), s1)

/-! ## Coprocessor 0

The masks of Status, Cause and Config are `u32` enumerators, so their complement is taken in
32 bits before it meets the 64-bit register. -/

/-- The function `cp0_get(reg)`. -/
def cp0_get (s : State) (reg : Nat) : Nat :=
  if reg = CP0_Count then
    u32 (u64 ((s.total_cycles : Int) - s.m_cp0_timer_zero) / 2)
  else if reg = CP0_Random then
    let wired := u8 (s.m_cp0 CP0_Wired &&& 0x3f : Nat)
    if wired < TLB_SIZE then
      (u64 ((s.total_cycles : Int) - s.m_cp0_timer_zero) % (TLB_SIZE - wired) + wired) &&& 0x3f
    else
      TLB_SIZE - 1
  else
    s.m_cp0 reg

/-- The function `cp0_update_timer(start)`; the timer of the scheduler is the field
`m_cp0_timer`, holding the delay in cycles while it is enabled. -/
def cp0_update_timer (s : State) (start : Bool) : State :=
  if start ∨ s.m_cp0_timer.isSome then
    let count := u32 (u64 ((s.total_cycles : Int) - s.m_cp0_timer_zero) / 2)
    let delta := u32 ((s.m_cp0 CP0_Compare : Int) - count)
    { s with m_cp0_timer := some (u64 (delta * 2)) }
  else s

/-- The function `cp0_set(reg, data)`. Enabling reverse endian mode is a `fatalerror`. -/
def cp0_set (s : State) (reg data : Nat) : Except host_fault State :=
  if reg = CP0_Count then
    let s1 := s.set_cp0 CP0_Count (u32 data)
    let s2 := { s1 with
      m_cp0_timer_zero := u64 ((s1.total_cycles : Int) - s1.m_cp0 CP0_Count * 2) }
    Except.ok (cp0_update_timer s2 false)
  else if reg = CP0_EntryHi then
    Except.ok (s.set_cp0 CP0_EntryHi (data &&& (EH_R ||| EH_VPN2_64 ||| EH_ASID)))
  else if reg = CP0_Compare then
    let s1 := s.set_cp0 CP0_Compare (u32 data)
    let s2 := s1.set_cp0 CP0_Cause (s1.CAUSE &&& not32 CAUSE_IPEX5)
    Except.ok (cp0_update_timer s2 true)
  else if reg = CP0_Status then
    let s1 := s.set_cp0 CP0_Status (u32 data)
    -- reevaluate operating mode
    let s2 := cp0_mode_check s1
    let s3 := if s2.CAUSE &&& s2.SR &&& SR_IMSW ≠ 0 then { s2 with m_icount := 0 } else s2
    if data &&& SR_RE ≠ 0 then Except.error host_fault.fatalerror
    else Except.ok s3
  else if reg = CP0_Cause then
    let s1 := s.set_cp0 CP0_Cause ((s.CAUSE &&& not32 CAUSE_IPSW) ||| (data &&& CAUSE_IPSW))
    Except.ok (if s1.CAUSE &&& s1.SR &&& SR_IMSW ≠ 0 then { s1 with m_icount := 0 } else s1)
  else if reg = CP0_PRId then
    -- read-only register
    Except.ok s
  else if reg = CP0_Config then
    let s1 := s.set_cp0 CP0_Config
      ((s.m_cp0 CP0_Config &&& not32 CONFIG_WM) ||| (data &&& CONFIG_WM))
    if s1.m_cp0 CP0_Config &&& CONFIG_IB ≠ 0 then
      Except.ok { s1 with
        m_icache_line_size := 32, m_icache_shift := 5, m_icache_mask_lo := not32 0x1f }
    else
      Except.ok { s1 with
        m_icache_line_size := 16, m_icache_shift := 4, m_icache_mask_lo := not32 0xf }
  else
    Except.ok (s.set_cp0 reg data)

/-- The function `cp0_tlbr`. -/
def cp0_tlbr (s : State) : State :=
  let index := u8 (s.m_cp0 CP0_Index &&& 0x3f : Nat)
  if index < TLB_SIZE then
    let entry := s.m_tlb index
    let s1 := s.set_cp0 CP0_PageMask entry.mask
    let s2 := s1.set_cp0 CP0_EntryHi entry.vpn
    let s3 := s2.set_cp0 CP0_EntryLo0 (entry.pfn false)
    s3.set_cp0 CP0_EntryLo1 (entry.pfn true)
  else s

/-- The function `cp0_tlbwi(index)`; the parameter is a `u8`. -/
def cp0_tlbwi (s : State) (index : Nat) : State :=
  if index < TLB_SIZE then
    let mask := s.m_cp0 CP0_PageMask
    let vpn := s.m_cp0 CP0_EntryHi
    let vpn1 :=
      if s.m_cp0 CP0_EntryLo0 &&& EL_G ≠ 0 ∧ s.m_cp0 CP0_EntryLo1 &&& EL_G ≠ 0 then vpn ||| EH_G
      else vpn
    let entry : tlb_entry_t :=
      { mask := mask
        vpn := vpn1
        pfn0 := s.m_cp0 CP0_EntryLo0
        pfn1 := s.m_cp0 CP0_EntryLo1
        low_bit := 32 - count_leading_zeros ((mask >>> 1) ||| 0xfff) }
    { s with m_tlb := fun j => if j = index then entry else s.m_tlb j }
  else s

/-- The function `cp0_tlbwr`. -/
def cp0_tlbwr (s : State) : State :=
  let wired := u8 (s.m_cp0 CP0_Wired &&& 0x3f : Nat)
  let unwired := u8 ((TLB_SIZE : Int) - wired)
  let index : Nat := if unwired > 0
    then (u64 ((s.total_cycles : Int) - s.m_cp0_timer_zero) % unwired + wired) &&& 0x3f
    else TLB_SIZE - 1
  cp0_tlbwi s (u8 index)

/-- The `for` loop of `cp0_tlbp` with `n` entries left to test (`index = TLB_SIZE - n`): the
first matching index, if any. -/
def cp0_tlbp_scan (s : State) : Nat → Option Nat
  | 0 => none
  | n + 1 =>
    let index := TLB_SIZE - (n + 1)
    let entry := s.m_tlb index
    let mask := (if s.m_64 then EH_R ||| (EH_VPN2_64 &&& not64 entry.mask)
        else EH_VPN2_32 &&& not64 entry.mask)
      ||| (if entry.vpn &&& EH_G ≠ 0 then 0 else EH_ASID)
    if entry.vpn &&& mask = s.m_cp0 CP0_EntryHi &&& mask then some index
    else cp0_tlbp_scan s n

/-- The function `cp0_tlbp`. -/
def cp0_tlbp (s : State) : State :=
  match cp0_tlbp_scan s TLB_SIZE with
  | some index => s.set_cp0 CP0_Index index
  | none => s.set_cp0 CP0_Index 0x80000000

/-- The function `cp0_execute(op)`. -/
def cp0_execute (s : State) (op : Nat) : Except host_fault State :=
  if s.SR &&& SR_KSU ≠ 0 ∧ s.SR &&& SR_CU0 = 0 ∧ s.SR &&& (SR_EXL ||| SR_ERL) = 0 then
    Except.ok (cpu_exception s EXCEPTION_CP0 GENERAL_VECTOR)
  else
    match (op >>> 21) &&& 0x1f with
    | 0x00 => -- MFC0
      Except.ok (s.set_r (RTREG op) (u64 (s32 (cp0_get s (RDREG op)))))
    | 0x01 => -- DMFC0
      if s.SR &&& SR_KSU = 0 ∨ s.SR &&& (SR_EXL ||| SR_ERL) ≠ 0 ∨ s.m_64 then
        Except.ok (s.set_r (RTREG op) (cp0_get s (RDREG op)))
      else
        Except.ok (cpu_exception s EXCEPTION_RI GENERAL_VECTOR)
    | 0x02 => -- CFC0
      Except.ok s
    | 0x04 => -- MTC0
      cp0_set s (RDREG op) (u64 (s64 (s32 (s.m_r (RTREG op)))))
    | 0x05 => -- DMTC0
      if s.SR &&& SR_KSU = 0 ∨ s.SR &&& (SR_EXL ||| SR_ERL) ≠ 0 ∨ s.m_64 then
        cp0_set s (RDREG op) (s.m_r (RTREG op))
      else
        Except.ok (cpu_exception s EXCEPTION_RI GENERAL_VECTOR)
    | 0x06 => -- CTC0
      Except.ok s
    | 0x08 => -- BC0
      Except.ok (cpu_exception s EXCEPTION_RI GENERAL_VECTOR)
    | 0x10 | 0x11 | 0x12 | 0x13 | 0x14 | 0x15 | 0x16 | 0x17
    | 0x18 | 0x19 | 0x1a | 0x1b | 0x1c | 0x1d | 0x1e | 0x1f =>
      -- CP0 function
      match op &&& 0x3f with
      | 0x01 => -- TLBR
        Except.ok (cp0_tlbr s)
      | 0x02 => -- TLBWI
        Except.ok (cp0_tlbwi s (u8 (s.m_cp0 CP0_Index &&& 0x3f : Nat)))
      | 0x06 => -- TLBWR
        Except.ok (cp0_tlbwr s)
      | 0x08 => -- TLBP
        Except.ok (cp0_tlbp s)
      | 0x10 => -- RFE
        Except.ok (cpu_exception s EXCEPTION_RI GENERAL_VECTOR)
      | 0x18 => -- ERET
        let s1 :=
          if s.SR &&& SR_ERL ≠ 0 then
            ({ s with m_branch_state := branch_state_t.EXCEPTION
                      m_pc := s.m_cp0 CP0_ErrorEPC }).set_cp0 CP0_Status
              (s.SR &&& not32 SR_ERL)
          else
            ({ s with m_branch_state := branch_state_t.EXCEPTION
                      m_pc := s.m_cp0 CP0_EPC }).set_cp0 CP0_Status
              (s.SR &&& not32 SR_EXL)
        let s2 := cp0_mode_check s1
        Except.ok { s2 with m_ll_watch := none }
      | _ =>
        -- invalid, but no reserved instruction exception
        Except.ok s
    | _ =>
      Except.ok (cpu_exception s EXCEPTION_RI GENERAL_VECTOR)

/-! ## Floating-point unit (coprocessor 1)

The floating-point library is an external leaf. Its functions read the global
`softfloat_roundingMode` and accumulate into the global `softfloat_exceptionFlags`; here each
is a function of its arguments and the rounding mode returning the result together with the
flags it raises. -/

/-- Modelled from the spec: the software floating-point library is an external leaf
(IEEE-754 binary32/binary64 arithmetic with selectable rounding and exception-flag
reporting). Each field is one function of the library; the first argument of the arithmetic
functions is the rounding mode in force. -/
structure softfloat_t where
  f32_add : Nat → Nat → Nat → Nat × Nat
  f32_sub : Nat → Nat → Nat → Nat × Nat
  f32_mul : Nat → Nat → Nat → Nat × Nat
  f32_div : Nat → Nat → Nat → Nat × Nat
  f32_sqrt : Nat → Nat → Nat × Nat
  f32_eq : Nat → Nat → Bool × Nat
  f32_le : Nat → Nat → Bool × Nat
  f32_lt : Nat → Nat → Bool × Nat
  f32_to_f64 : Nat → Nat → Nat × Nat
  f32_to_i32 : Nat → Nat → Bool → Int × Nat
  f32_to_i64 : Nat → Nat → Bool → Int × Nat
  f64_add : Nat → Nat → Nat → Nat × Nat
  f64_sub : Nat → Nat → Nat → Nat × Nat
  f64_mul : Nat → Nat → Nat → Nat × Nat
  f64_div : Nat → Nat → Nat → Nat × Nat
  f64_sqrt : Nat → Nat → Nat × Nat
  f64_eq : Nat → Nat → Bool × Nat
  f64_le : Nat → Nat → Bool × Nat
  f64_lt : Nat → Nat → Bool × Nat
  f64_to_f32 : Nat → Nat → Nat × Nat
  f64_to_i32 : Nat → Nat → Bool → Int × Nat
  f64_to_i64 : Nat → Nat → Bool → Int × Nat
  i32_to_f32 : Nat → Int → Nat × Nat
  i32_to_f64 : Nat → Int → Nat × Nat
  i64_to_f32 : Nat → Int → Nat × Nat
  i64_to_f64 : Nat → Int → Nat × Nat

/-- Modelled from the spec: the floating-point library is absent; rounding mode
`softfloat_round_near_even`. -/
def softfloat_round_near_even : Nat := 0
/-- Modelled from the spec: the floating-point library is absent; rounding mode
`softfloat_round_minMag`. -/
def softfloat_round_minMag : Nat := 1
/-- Modelled from the spec: the floating-point library is absent; rounding mode
`softfloat_round_min`. -/
def softfloat_round_min : Nat := 2
/-- Modelled from the spec: the floating-point library is absent; rounding mode
`softfloat_round_max`. -/
def softfloat_round_max : Nat := 3

/-- Modelled from the spec: the floating-point library is absent; exception flag inexact. -/
def softfloat_flag_inexact : Nat := 1
/-- Modelled from the spec: the floating-point library is absent; exception flag underflow. -/
def softfloat_flag_underflow : Nat := 2
/-- Modelled from the spec: the floating-point library is absent; exception flag overflow. -/
def softfloat_flag_overflow : Nat := 4
/-- Modelled from the spec: the floating-point library is absent; exception flag infinite
(division by zero). -/
def softfloat_flag_infinite : Nat := 8
/-- Modelled from the spec: the floating-point library is absent; exception flag invalid. -/
def softfloat_flag_invalid : Nat := 16

/-- Modelled from the spec: `r4000.h` is absent; FCR31 cause bit, inexact. -/
def FCR31_CI : Nat := 0x00001000
/-- Modelled from the spec: `r4000.h` is absent; FCR31 cause bit, underflow. -/
def FCR31_CU : Nat := 0x00002000
/-- Modelled from the spec: `r4000.h` is absent; FCR31 cause bit, overflow. -/
def FCR31_CO : Nat := 0x00004000
/-- Modelled from the spec: `r4000.h` is absent; FCR31 cause bit, division by zero. -/
def FCR31_CZ : Nat := 0x00008000
/-- Modelled from the spec: `r4000.h` is absent; FCR31 cause bit, invalid operation. -/
def FCR31_CV : Nat := 0x00010000

/-- A call of a library function: its result, and the state with the raised flags
accumulated into `softfloat_exceptionFlags`. -/
def State.sf {α : Type} (s : State) (r : α × Nat) : α × State :=
  (r.1, { s with softfloat_exceptionFlags := s.softfloat_exceptionFlags ||| r.2 })

/-- The test `softfloat_exceptionFlags & softfloat_flag_invalid`. -/
def State.sf_invalid (s : State) : Bool :=
  decide (s.softfloat_exceptionFlags &&& softfloat_flag_invalid ≠ 0)

/-- The guard `(SR & SR_FR) || !(op & ODD_REGS)` of the arithmetic instructions. -/
def fr_ok (s : State) (op : Nat) : Bool :=
  decide (s.SR &&& SR_FR ≠ 0 ∨ op &&& ODD_REGS = 0)

/-- The statement `if (c) m_fcr31 |= FCR31_C; else m_fcr31 &= ~FCR31_C;`. -/
def State.set_C (s : State) (c : Bool) : State :=
  if c then { s with m_fcr31 := s.m_fcr31 ||| FCR31_C }
  else { s with m_fcr31 := s.m_fcr31 &&& not32 FCR31_C }

/-- The statement `if (softfloat_exceptionFlags & softfloat_flag_invalid)
{ m_fcr31 |= FCR31_CV; cpu_exception(EXCEPTION_FPE); }` closing the signalling compares. -/
def State.signal_invalid (s : State) : State :=
  if s.sf_invalid then
    cpu_exception { s with m_fcr31 := s.m_fcr31 ||| FCR31_CV } EXCEPTION_FPE GENERAL_VECTOR
  else s

/-- The function `cp1_set(reg, data)`. -/
def cp1_set (s : State) (reg data : Nat) : State :=
  -- translate softfloat exception flags to cause register
  if s.softfloat_exceptionFlags ≠ 0 then
    let s1 := if s.softfloat_exceptionFlags &&& softfloat_flag_inexact ≠ 0
      then { s with m_fcr31 := s.m_fcr31 ||| FCR31_CI } else s
    let s2 := if s1.softfloat_exceptionFlags &&& softfloat_flag_underflow ≠ 0
      then { s1 with m_fcr31 := s1.m_fcr31 ||| FCR31_CU } else s1
    let s3 := if s2.softfloat_exceptionFlags &&& softfloat_flag_overflow ≠ 0
      then { s2 with m_fcr31 := s2.m_fcr31 ||| FCR31_CO } else s2
    let s4 := if s3.softfloat_exceptionFlags &&& softfloat_flag_infinite ≠ 0
      then { s3 with m_fcr31 := s3.m_fcr31 ||| FCR31_CZ } else s3
    let s5 := if s4.softfloat_exceptionFlags &&& softfloat_flag_invalid ≠ 0
      then { s4 with m_fcr31 := s4.m_fcr31 ||| FCR31_CV } else s4
    -- check if exception is enabled
    if ((s5.m_fcr31 &&& FCR31_CM) >>> 5) &&& (s5.m_fcr31 &&& FCR31_EM) ≠ 0 then
      cpu_exception s5 EXCEPTION_FPE GENERAL_VECTOR
    else
      -- set flags
      let s6 := { s5 with m_fcr31 := s5.m_fcr31 ||| ((s5.m_fcr31 &&& FCR31_CM) >>> 10) }
      s6.set_f reg data
  else
    s.set_f reg data

/-- The statement `m_fcr31 |= FCR31_CE; cpu_exception(EXCEPTION_FPE);` of the unimplemented
operations. -/
def cp1_unimplemented (s : State) : State :=
  cpu_exception { s with m_fcr31 := s.m_fcr31 ||| FCR31_CE } EXCEPTION_FPE GENERAL_VECTOR

/-- Format S of `cp1_execute`: the inner `switch (op & 0x3f)`. -/
def cp1_s (sf : softfloat_t) (s : State) (op : Nat) : State :=
  let rm := s.softfloat_roundingMode
  match op &&& 0x3f with
  | 0x00 => -- ADD.S
    if fr_ok s op then
      let (v, s1) := s.sf (sf.f32_add rm (u32 (s.m_f (FSREG op))) (u32 (s.m_f (FTREG op))))
      cp1_set s1 (FDREG op) v
    else s
  | 0x01 => -- SUB.S
    if fr_ok s op then
      let (v, s1) := s.sf (sf.f32_sub rm (u32 (s.m_f (FSREG op))) (u32 (s.m_f (FTREG op))))
      cp1_set s1 (FDREG op) v
    else s
  | 0x02 => -- MUL.S
    if fr_ok s op then
      let (v, s1) := s.sf (sf.f32_mul rm (u32 (s.m_f (FSREG op))) (u32 (s.m_f (FTREG op))))
      cp1_set s1 (FDREG op) v
    else s
  | 0x03 => -- DIV.S
    if fr_ok s op then
      let (v, s1) := s.sf (sf.f32_div rm (u32 (s.m_f (FSREG op))) (u32 (s.m_f (FTREG op))))
      cp1_set s1 (FDREG op) v
    else s
  | 0x04 => -- SQRT.S
    if fr_ok s op then
      let (v, s1) := s.sf (sf.f32_sqrt rm (u32 (s.m_f (FSREG op))))
      cp1_set s1 (FDREG op) v
    else s
  | 0x05 => -- ABS.S
    if fr_ok s op then
      let (lt, s1) := s.sf (sf.f32_lt (u32 (s.m_f (FSREG op))) 0)
      if lt then
        let (m1, s2) := s1.sf (sf.i32_to_f32 rm (-1))
        let (v, s3) := s2.sf (sf.f32_mul rm (u32 (s.m_f (FSREG op))) m1)
        cp1_set s3 (FDREG op) v
      else s1
    else s
  | 0x06 => -- MOV.S
    if fr_ok s op then s.set_f (FDREG op) (s.m_f (FSREG op)) else s
  | 0x07 => -- NEG.S
    if fr_ok s op then
      let (m1, s1) := s.sf (sf.i32_to_f32 rm (-1))
      let (v, s2) := s1.sf (sf.f32_mul rm (u32 (s.m_f (FSREG op))) m1)
      cp1_set s2 (FDREG op) v
    else s
  | 0x08 => -- ROUND.L.S
    if fr_ok s op then
      let (v, s1) := s.sf (sf.f32_to_i64 (u32 (s.m_f (FSREG op))) softfloat_round_near_even true)
      cp1_set s1 (FDREG op) (u64 v)
    else s
  | 0x09 => -- TRUNC.L.S
    if fr_ok s op then
      let (v, s1) := s.sf (sf.f32_to_i64 (u32 (s.m_f (FSREG op))) softfloat_round_minMag true)
      cp1_set s1 (FDREG op) (u64 v)
    else s
  | 0x0a => -- CEIL.L.S
    if fr_ok s op then
      let (v, s1) := s.sf (sf.f32_to_i64 (u32 (s.m_f (FSREG op))) softfloat_round_max true)
      cp1_set s1 (FDREG op) (u64 v)
    else s
  | 0x0b => -- FLOOR.L.S
    if fr_ok s op then
      let (v, s1) := s.sf (sf.f32_to_i64 (u32 (s.m_f (FSREG op))) softfloat_round_min true)
      cp1_set s1 (FDREG op) (u64 v)
    else s
  | 0x0c => -- ROUND.W.S
    if fr_ok s op then
      let (v, s1) := s.sf (sf.f32_to_i32 (u32 (s.m_f (FSREG op))) softfloat_round_near_even true)
      cp1_set s1 (FDREG op) (u64 v)
    else s
  | 0x0d => -- TRUNC.W.S
    if fr_ok s op then
      let (v, s1) := s.sf (sf.f32_to_i32 (u32 (s.m_f (FSREG op))) softfloat_round_minMag true)
      cp1_set s1 (FDREG op) (u64 v)
    else s
  | 0x0e => -- CEIL.W.S
    if fr_ok s op then
      let (v, s1) := s.sf (sf.f32_to_i32 (u32 (s.m_f (FSREG op))) softfloat_round_max true)
      cp1_set s1 (FDREG op) (u64 v)
    else s
  | 0x0f => -- FLOOR.W.S
    if fr_ok s op then
      let (v, s1) := s.sf (sf.f32_to_i32 (u32 (s.m_f (FSREG op))) softfloat_round_min true)
      cp1_set s1 (FDREG op) (u64 v)
    else s
  | 0x21 => -- CVT.D.S
    if fr_ok s op then
      let (v, s1) := s.sf (sf.f32_to_f64 rm (u32 (s.m_f (FSREG op))))
      cp1_set s1 (FDREG op) v
    else s
  | 0x24 => -- CVT.W.S
    if fr_ok s op then
      let (v, s1) := s.sf (sf.f32_to_i32 (u32 (s.m_f (FSREG op))) rm true)
      cp1_set s1 (FDREG op) (u64 v)
    else s
  | 0x25 => -- CVT.L.S
    if fr_ok s op then
      let (v, s1) := s.sf (sf.f32_to_i64 (u32 (s.m_f (FSREG op))) rm true)
      cp1_set s1 (FDREG op) (u64 v)
    else s
  | 0x30 => -- C.F.S (false)
    if fr_ok s op then s.set_C false else s
  | 0x31 => -- C.UN.S (unordered)
    if fr_ok s op then
      let (_, s1) := s.sf (sf.f32_eq (u32 (s.m_f (FSREG op))) (u32 (s.m_f (FTREG op))))
      s1.set_C s1.sf_invalid
    else s
  | 0x32 => -- C.EQ.S
    if fr_ok s op then
      let (c, s1) := s.sf (sf.f32_eq (u32 (s.m_f (FSREG op))) (u32 (s.m_f (FTREG op))))
      s1.set_C c
    else s
  | 0x33 => -- C.UEQ.S
    if fr_ok s op then
      let (c, s1) := s.sf (sf.f32_eq (u32 (s.m_f (FSREG op))) (u32 (s.m_f (FTREG op))))
      s1.set_C (c || s1.sf_invalid)
    else s
  | 0x34 => -- C.OLT.S
    if fr_ok s op then
      let (c, s1) := s.sf (sf.f32_lt (u32 (s.m_f (FSREG op))) (u32 (s.m_f (FTREG op))))
      s1.set_C c
    else s
  | 0x35 => -- C.ULT.S
    if fr_ok s op then
      let (c, s1) := s.sf (sf.f32_lt (u32 (s.m_f (FSREG op))) (u32 (s.m_f (FTREG op))))
      s1.set_C (c || s1.sf_invalid)
    else s
  | 0x36 => -- C.OLE.S
    if fr_ok s op then
      let (c, s1) := s.sf (sf.f32_le (u32 (s.m_f (FSREG op))) (u32 (s.m_f (FTREG op))))
      s1.set_C c
    else s
  | 0x37 => -- C.ULE.S
    if fr_ok s op then
      let (c, s1) := s.sf (sf.f32_le (u32 (s.m_f (FSREG op))) (u32 (s.m_f (FTREG op))))
      s1.set_C (c || s1.sf_invalid)
    else s
  | 0x38 => -- C.SF.S (signalling false)
    if fr_ok s op then
      let (_, s1) := s.sf (sf.f32_eq (u32 (s.m_f (FSREG op))) (u32 (s.m_f (FTREG op))))
      (s1.set_C false).signal_invalid
    else s
  | 0x39 => -- C.NGLE.S (not greater, less than or equal)
    if fr_ok s op then
      let (_, s1) := s.sf (sf.f32_eq (u32 (s.m_f (FSREG op))) (u32 (s.m_f (FTREG op))))
      if s1.sf_invalid then
        cpu_exception { s1 with m_fcr31 := s1.m_fcr31 ||| (FCR31_C ||| FCR31_CV) }
          EXCEPTION_FPE GENERAL_VECTOR
      else s1.set_C false
    else s
  | 0x3a => -- C.SEQ.S
    if fr_ok s op then
      let (c, s1) := s.sf (sf.f32_eq (u32 (s.m_f (FSREG op))) (u32 (s.m_f (FTREG op))))
      (s1.set_C c).signal_invalid
    else s
  | 0x3b => -- C.NGL.S
    if fr_ok s op then
      let (c, s1) := s.sf (sf.f32_eq (u32 (s.m_f (FSREG op))) (u32 (s.m_f (FTREG op))))
      (s1.set_C (c || s1.sf_invalid)).signal_invalid
    else s
  | 0x3c => -- C.LT.S
    if fr_ok s op then
      let (c, s1) := s.sf (sf.f32_lt (u32 (s.m_f (FSREG op))) (u32 (s.m_f (FTREG op))))
      (s1.set_C c).signal_invalid
    else s
  | 0x3d => -- C.NGE.S
    if fr_ok s op then
      let (c, s1) := s.sf (sf.f32_lt (u32 (s.m_f (FSREG op))) (u32 (s.m_f (FTREG op))))
      (s1.set_C (c || s1.sf_invalid)).signal_invalid
    else s
  | 0x3e => -- C.LE.S
    if fr_ok s op then
      let (c, s1) := s.sf (sf.f32_le (u32 (s.m_f (FSREG op))) (u32 (s.m_f (FTREG op))))
      (s1.set_C c).signal_invalid
    else s
  | 0x3f => -- C.NGT.S
    if fr_ok s op then
      let (c, s1) := s.sf (sf.f32_le (u32 (s.m_f (FSREG op))) (u32 (s.m_f (FTREG op))))
      (s1.set_C (c || s1.sf_invalid)).signal_invalid
    else s
  | _ => -- unimplemented operations
    cp1_unimplemented s

/-- Format D of `cp1_execute`: the inner `switch (op & 0x3f)`. -/
def cp1_d (sf : softfloat_t) (s : State) (op : Nat) : State :=
  let rm := s.softfloat_roundingMode
  match op &&& 0x3f with
  | 0x00 => -- ADD.D
    if fr_ok s op then
      let (v, s1) := s.sf (sf.f64_add rm (s.m_f (FSREG op)) (s.m_f (FTREG op)))
      cp1_set s1 (FDREG op) v
    else s
  | 0x01 => -- SUB.D
    if fr_ok s op then
      let (v, s1) := s.sf (sf.f64_sub rm (s.m_f (FSREG op)) (s.m_f (FTREG op)))
      cp1_set s1 (FDREG op) v
    else s
  | 0x02 => -- MUL.D
    if fr_ok s op then
      let (v, s1) := s.sf (sf.f64_mul rm (s.m_f (FSREG op)) (s.m_f (FTREG op)))
      cp1_set s1 (FDREG op) v
    else s
  | 0x03 => -- DIV.D
    if fr_ok s op then
      let (v, s1) := s.sf (sf.f64_div rm (s.m_f (FSREG op)) (s.m_f (FTREG op)))
      cp1_set s1 (FDREG op) v
    else s
  | 0x04 => -- SQRT.D
    if fr_ok s op then
      let (v, s1) := s.sf (sf.f64_sqrt rm (s.m_f (FSREG op)))
      cp1_set s1 (FDREG op) v
    else s
  | 0x05 => -- ABS.D
    if fr_ok s op then
      let (lt, s1) := s.sf (sf.f64_lt (s.m_f (FSREG op)) 0)
      if lt then
        let (m1, s2) := s1.sf (sf.i32_to_f64 rm (-1))
        let (v, s3) := s2.sf (sf.f64_mul rm (s.m_f (FSREG op)) m1)
        cp1_set s3 (FDREG op) v
      else s1
    else s
  | 0x06 => -- MOV.D
    if fr_ok s op then s.set_f (FDREG op) (s.m_f (FSREG op)) else s
  | 0x07 => -- NEG.D
    if fr_ok s op then
      let (m1, s1) := s.sf (sf.i32_to_f64 rm (-1))
      let (v, s2) := s1.sf (sf.f64_mul rm (s.m_f (FSREG op)) m1)
      cp1_set s2 (FDREG op) v
    else s
  | 0x08 => -- ROUND.L.D
    if fr_ok s op then
      let (v, s1) := s.sf (sf.f64_to_i64 (s.m_f (FSREG op)) softfloat_round_near_even true)
      cp1_set s1 (FDREG op) (u64 v)
    else s
  | 0x09 => -- TRUNC.L.D
    if fr_ok s op then
      let (v, s1) := s.sf (sf.f64_to_i64 (s.m_f (FSREG op)) softfloat_round_minMag true)
      cp1_set s1 (FDREG op) (u64 v)
    else s
  | 0x0a => -- CEIL.L.D
    if fr_ok s op then
      let (v, s1) := s.sf (sf.f64_to_i64 (s.m_f (FSREG op)) softfloat_round_max true)
      cp1_set s1 (FDREG op) (u64 v)
    else s
  | 0x0b => -- FLOOR.L.D
    if fr_ok s op then
      let (v, s1) := s.sf (sf.f64_to_i64 (s.m_f (FSREG op)) softfloat_round_min true)
      cp1_set s1 (FDREG op) (u64 v)
    else s
  | 0x0c => -- ROUND.W.D
    if fr_ok s op then
      let (v, s1) := s.sf (sf.f64_to_i32 (s.m_f (FSREG op)) softfloat_round_near_even true)
      cp1_set s1 (FDREG op) (u64 v)
    else s
  | 0x0d => -- TRUNC.W.D
    if fr_ok s op then
      let (v, s1) := s.sf (sf.f64_to_i32 (s.m_f (FSREG op)) softfloat_round_minMag true)
      cp1_set s1 (FDREG op) (u64 v)
    else s
  | 0x0e => -- CEIL.W.D
    if fr_ok s op then
      let (v, s1) := s.sf (sf.f64_to_i32 (s.m_f (FSREG op)) softfloat_round_max true)
      cp1_set s1 (FDREG op) (u64 v)
    else s
  | 0x0f => -- FLOOR.W.D
    if fr_ok s op then
      let (v, s1) := s.sf (sf.f64_to_i32 (s.m_f (FSREG op)) softfloat_round_min true)
      cp1_set s1 (FDREG op) (u64 v)
    else s
  | 0x20 => -- CVT.S.D
    if fr_ok s op then
      let (v, s1) := s.sf (sf.f64_to_f32 rm (s.m_f (FSREG op)))
      cp1_set s1 (FDREG op) v
    else s
  | 0x24 => -- CVT.W.D
    if fr_ok s op then
      let (v, s1) := s.sf (sf.f64_to_i32 (s.m_f (FSREG op)) rm true)
      cp1_set s1 (FDREG op) (u64 v)
    else s
  | 0x25 => -- CVT.L.D
    if fr_ok s op then
      let (v, s1) := s.sf (sf.f64_to_i64 (s.m_f (FSREG op)) rm true)
      cp1_set s1 (FDREG op) (u64 v)
    else s
  | 0x30 => -- C.F.D (false)
    if fr_ok s op then s.set_C false else s
  | 0x31 => -- C.UN.D (unordered)
    if fr_ok s op then
      let (_, s1) := s.sf (sf.f64_eq (s.m_f (FSREG op)) (s.m_f (FTREG op)))
      s1.set_C s1.sf_invalid
    else s
  | 0x32 => -- C.EQ.D
    if fr_ok s op then
      let (c, s1) := s.sf (sf.f64_eq (s.m_f (FSREG op)) (s.m_f (FTREG op)))
      s1.set_C c
    else s
  | 0x33 => -- C.UEQ.D
    if fr_ok s op then
      let (c, s1) := s.sf (sf.f64_eq (s.m_f (FSREG op)) (s.m_f (FTREG op)))
      s1.set_C (c || s1.sf_invalid)
    else s
  | 0x34 => -- C.OLT.D
    if fr_ok s op then
      let (c, s1) := s.sf (sf.f64_lt (s.m_f (FSREG op)) (s.m_f (FTREG op)))
      s1.set_C c
    else s
  | 0x35 => -- C.ULT.D
    if fr_ok s op then
      let (c, s1) := s.sf (sf.f64_lt (s.m_f (FSREG op)) (s.m_f (FTREG op)))
      s1.set_C (c || s1.sf_invalid)
    else s
  | 0x36 => -- C.OLE.D
    if fr_ok s op then
      let (c, s1) := s.sf (sf.f64_le (s.m_f (FSREG op)) (s.m_f (FTREG op)))
      s1.set_C c
    else s
  | 0x37 => -- C.ULE.D
    if fr_ok s op then
      let (c, s1) := s.sf (sf.f64_le (s.m_f (FSREG op)) (s.m_f (FTREG op)))
      s1.set_C (c || s1.sf_invalid)
    else s
  | 0x38 => -- C.SF.D (signalling false)
    if fr_ok s op then
      let (_, s1) := s.sf (sf.f64_eq (s.m_f (FSREG op)) (s.m_f (FTREG op)))
      (s1.set_C false).signal_invalid
    else s
  | 0x39 => -- C.NGLE.D (not greater, less than or equal)
    if fr_ok s op then
      let (_, s1) := s.sf (sf.f64_eq (s.m_f (FSREG op)) (s.m_f (FTREG op)))
      if s1.sf_invalid then
        cpu_exception { s1 with m_fcr31 := s1.m_fcr31 ||| (FCR31_C ||| FCR31_CV) }
          EXCEPTION_FPE GENERAL_VECTOR
      else s1.set_C false
    else s
  | 0x3a => -- C.SEQ.D
    if fr_ok s op then
      let (c, s1) := s.sf (sf.f64_eq (s.m_f (FSREG op)) (s.m_f (FTREG op)))
      (s1.set_C c).signal_invalid
    else s
  | 0x3b => -- C.NGL.D
    if fr_ok s op then
      let (c, s1) := s.sf (sf.f64_eq (s.m_f (FSREG op)) (s.m_f (FTREG op)))
      (s1.set_C (c || s1.sf_invalid)).signal_invalid
    else s
  | 0x3c => -- C.LT.D
    if fr_ok s op then
      let (c, s1) := s.sf (sf.f64_lt (s.m_f (FSREG op)) (s.m_f (FTREG op)))
      (s1.set_C c).signal_invalid
    else s
  | 0x3d => -- C.NGE.D
    if fr_ok s op then
      let (c, s1) := s.sf (sf.f64_lt (s.m_f (FSREG op)) (s.m_f (FTREG op)))
      (s1.set_C (c || s1.sf_invalid)).signal_invalid
    else s
  | 0x3e => -- C.LE.D
    if fr_ok s op then
      let (c, s1) := s.sf (sf.f64_le (s.m_f (FSREG op)) (s.m_f (FTREG op)))
      (s1.set_C c).signal_invalid
    else s
  | 0x3f => -- C.NGT.D
    if fr_ok s op then
      let (c, s1) := s.sf (sf.f64_le (s.m_f (FSREG op)) (s.m_f (FTREG op)))
      (s1.set_C (c || s1.sf_invalid)).signal_invalid
    else s
  | _ => -- unimplemented operations
    cp1_unimplemented s

/-- Format W of `cp1_execute`. -/
def cp1_w (sf : softfloat_t) (s : State) (op : Nat) : State :=
  let rm := s.softfloat_roundingMode
  match op &&& 0x3f with
  | 0x20 => -- CVT.S.W
    if fr_ok s op then
      let (v, s1) := s.sf (sf.i32_to_f32 rm (s32 (s.m_f (FSREG op))))
      cp1_set s1 (FDREG op) v
    else s
  | 0x21 => -- CVT.D.W
    if fr_ok s op then
      let (v, s1) := s.sf (sf.i32_to_f64 rm (s32 (s.m_f (FSREG op))))
      cp1_set s1 (FDREG op) v
    else s
  | _ => -- unimplemented operations
    cp1_unimplemented s

/-- Format L of `cp1_execute`. The case labels are `0x02a00020` and `0x02a00021`, compared
with `op & 0x3f`. -/
def cp1_l (sf : softfloat_t) (s : State) (op : Nat) : State :=
  let rm := s.softfloat_roundingMode
  match op &&& 0x3f with
  | 0x02a00020 => -- CVT.S.L
    if fr_ok s op then
      let (v, s1) := s.sf (sf.i64_to_f32 rm (s64 (s.m_f (FSREG op))))
      cp1_set s1 (FDREG op) v
    else s
  | 0x02a00021 => -- CVT.D.L
    if fr_ok s op then
      let (v, s1) := s.sf (sf.i64_to_f64 rm (s64 (s.m_f (FSREG op))))
      cp1_set s1 (FDREG op) v
    else s
  | _ => -- unimplemented operations
    cp1_unimplemented s

/-- The statement `m_branch_state = BRANCH; m_branch_target = ADDR(m_pc, (s16(op) << 2) + 4);`
of the taken PC-relative branches. -/
def State.branch (s : State) (op : Nat) : State :=
  { s with m_branch_state := branch_state_t.BRANCH
           m_branch_target := ADDR s s.m_pc (s16 op * 4 + 4) }

/-- The statement `m_branch_state = NULLIFY;` of the untaken branch-likely instructions. -/
def State.nullify (s : State) : State :=
  { s with m_branch_state := branch_state_t.NULLIFY }

/-- The group COP1 of `cp1_execute`: the `switch ((op >> 21) & 0x1f)`. -/
def cp1_cop1 (sf : softfloat_t) (s : State) (op : Nat) : State :=
  match (op >>> 21) &&& 0x1f with
  | 0x00 => -- MFC1
    if s.SR &&& SR_FR ≠ 0 then
      s.set_r (RTREG op) (u64 (s64 (s32 (s.m_f (RDREG op)))))
    else if RDREG op &&& 1 ≠ 0 then
      -- move the high half of the even floating point register
      s.set_r (RTREG op) (u64 (s64 (s32 (s.m_f (RDREG op &&& not32 1) >>> 32 : Nat))))
    else
      -- move the low half of the even floating point register
      s.set_r (RTREG op) (u64 (s64 (s32 (s.m_f (RDREG op &&& not32 1) >>> 0 : Nat))))
  | 0x01 => -- DMFC1
    if s.SR &&& SR_FR ≠ 0 ∨ RDREG op &&& 1 = 0 then s.set_r (RTREG op) (s.m_f (RDREG op))
    else s
  | 0x02 => -- CFC1
    if RDREG op = 0 then s.set_r (RTREG op) s.m_fcr0
    else if RDREG op = 31 then s.set_r (RTREG op) s.m_fcr31
    else s
  | 0x04 => -- MTC1
    if s.SR &&& SR_FR ≠ 0 then
      s.set_f (RDREG op) (u32 (s.m_r (RTREG op)))
    else if RDREG op &&& 1 ≠ 0 then
      -- load the high half of the even floating point register
      s.set_f (RDREG op &&& not32 1)
        (u64 (s.m_r (RTREG op) <<< 32 : Nat) ||| u32 (s.m_f (RDREG op &&& not32 1)))
    else
      -- load the low half of the even floating point register
      s.set_f (RDREG op &&& not32 1)
        ((s.m_f (RDREG op &&& not32 1) &&& not64 0xffffffff) ||| u32 (s.m_r (RTREG op)))
  | 0x05 => -- DMTC1
    if s.SR &&& SR_FR ≠ 0 ∨ RDREG op &&& 1 = 0 then s.set_f (RDREG op) (s.m_r (RTREG op))
    else s
  | 0x06 => -- CTC1
    if RDREG op = 0 then s -- register is read-only
    else if RDREG op = 31 then
      let s1 := { s with m_fcr31 := u32 (s.m_r (RTREG op)) }
      -- update rounding mode
      let s2 := { s1 with softfloat_roundingMode :=
        if s1.m_fcr31 &&& FCR31_RM = 0 then softfloat_round_near_even
        else if s1.m_fcr31 &&& FCR31_RM = 1 then softfloat_round_minMag
        else if s1.m_fcr31 &&& FCR31_RM = 2 then softfloat_round_max
        else softfloat_round_min }
      -- exception check
      if s2.m_fcr31 &&& FCR31_CE ≠ 0
          ∨ ((s2.m_fcr31 &&& FCR31_CM) >>> 5) &&& (s2.m_fcr31 &&& FCR31_EM) ≠ 0 then
        cpu_exception s2 EXCEPTION_FPE GENERAL_VECTOR
      else s2
    else s
  | 0x08 => -- BC
    match (op >>> 16) &&& 0x1f with
    | 0x00 => -- BC1F
      if s.m_fcr31 &&& FCR31_C = 0 then s.branch op else s
    | 0x01 => -- BC1T
      if s.m_fcr31 &&& FCR31_C ≠ 0 then s.branch op else s
    | 0x02 => -- BC1FL
      if s.m_fcr31 &&& FCR31_C = 0 then s.branch op else s.nullify
    | 0x03 => -- BC1TL
      if s.m_fcr31 &&& FCR31_C ≠ 0 then s.branch op else s.nullify
    | _ => -- reserved instructions
      cpu_exception s EXCEPTION_RI GENERAL_VECTOR
  | 0x10 => cp1_s sf s op
  | 0x11 => cp1_d sf s op
  | 0x14 => cp1_w sf s op
  | 0x15 => cp1_l sf s op
  | _ => -- unimplemented operations
    cp1_unimplemented s

/-- The function `cp1_execute(op)`. -/
def cp1_execute (sf : softfloat_t) (s : State) (op : Nat) : State :=
  if s.SR &&& SR_CU1 = 0 then
    cpu_exception s EXCEPTION_CP1 GENERAL_VECTOR
  else
    let s := { s with softfloat_exceptionFlags := 0 }
    match op >>> 26 with
    | 0x11 => cp1_cop1 sf s op
    | 0x31 => -- LWC1
      match load s 4 (ADDR s (s.m_r (RSREG op)) op) with
      | (some data, s1) =>
        if s1.SR &&& SR_FR ≠ 0 then
          s1.set_f (RTREG op) data
        else if RTREG op &&& 1 ≠ 0 then
          -- load the high half of the even floating point register
          s1.set_f (RTREG op &&& not32 1)
            ((data <<< 32) ||| u32 (s1.m_f (RTREG op &&& not32 1)))
        else
          -- load the low half of the even floating point register
          s1.set_f (RTREG op &&& not32 1)
            ((s1.m_f (RTREG op &&& not32 1) &&& not64 0xffffffff) ||| data)
      | (none, s1) => s1
    | 0x35 => -- LDC1
      match load s 8 (ADDR s (s.m_r (RSREG op)) op) with
      | (some data, s1) =>
        if s1.SR &&& SR_FR ≠ 0 ∨ RTREG op &&& 1 = 0 then s1.set_f (RTREG op) data else s1
      | (none, s1) => s1
    | 0x39 => -- SWC1
      if s.SR &&& SR_FR ≠ 0 then
        (store s 4 (ADDR s (s.m_r (RSREG op)) op) (u32 (s.m_f (RTREG op))) 0xffffffff).2
      else if RTREG op &&& 1 ≠ 0 then
        -- store the high half of the even floating point register
        (store s 4 (ADDR s (s.m_r (RSREG op)) op)
          (u32 (s.m_f (RTREG op &&& not32 1) >>> 32 : Nat)) 0xffffffff).2
      else
        -- store the low half of the even floating point register
        (store s 4 (ADDR s (s.m_r (RSREG op)) op)
          (u32 (s.m_f (RTREG op &&& not32 1))) 0xffffffff).2
    | 0x3d => -- SDC1
      if s.SR &&& SR_FR ≠ 0 ∨ RTREG op &&& 1 = 0 then
        (store s 8 (ADDR s (s.m_r (RSREG op)) op) (s.m_f (RTREG op)) 0xffffffffffffffff).2
      else s
    | _ => s

/-! ## Coprocessor 2 -/

/-- The function `cp2_execute(op)`: every implemented path only logs. -/
def cp2_execute (s : State) (op : Nat) : State :=
  if s.SR &&& SR_CU2 = 0 then
    cpu_exception s EXCEPTION_CP2 GENERAL_VECTOR
  else
    match op >>> 26 with
    | 0x12 => -- COP2
      match (op >>> 21) &&& 0x1f with
      | 0x00 => s -- MFC2
      | 0x01 => -- DMFC2
        if s.SR &&& SR_KSU = 0 ∨ s.SR &&& (SR_EXL ||| SR_ERL) ≠ 0 ∨ s.m_64 then s
        else cpu_exception s EXCEPTION_RI GENERAL_VECTOR
      | 0x02 => s -- CFC2
      | 0x04 => s -- MTC2
      | 0x05 => -- DMTC2
        if s.SR &&& SR_KSU = 0 ∨ s.SR &&& (SR_EXL ||| SR_ERL) ≠ 0 ∨ s.m_64 then s
        else cpu_exception s EXCEPTION_RI GENERAL_VECTOR
      | 0x06 => s -- CTC2
      | 0x08 => -- BC2
        match (op >>> 16) &&& 0x1f with
        | 0x00 | 0x01 | 0x02 | 0x03 => s
        | _ => cpu_exception s EXCEPTION_RI GENERAL_VECTOR
      | 0x10 | 0x11 | 0x12 | 0x13 | 0x14 | 0x15 | 0x16 | 0x17
      | 0x18 | 0x19 | 0x1a | 0x1b | 0x1c | 0x1d | 0x1e | 0x1f => s -- CP2 function
      | _ => cpu_exception s EXCEPTION_RI GENERAL_VECTOR
    | _ => s -- LWC2, LDC2, SWC2, SDC2

/-! ## Integer unit -/

/-- The operators `/` and `%` on signed operands of `w` bits: quotient and remainder, or the
undefined cases (zero divisor, quotient not representable). -/
def checked_sdiv (w : Nat) (a b : Int) : Except host_fault (Int × Int) :=
  if b = 0 ∨ (a = -(2 ^ (w - 1)) ∧ b = -1) then Except.error host_fault.divide_error
  else Except.ok (sdiv a b, smod a b)

/-- The operators `/` and `%` on unsigned operands: quotient and remainder, or the undefined
case of a zero divisor. -/
def checked_udiv (a b : Nat) : Except host_fault (Nat × Nat) :=
  if b = 0 then Except.error host_fault.divide_error
  else Except.ok (a / b, a % b)

/-- Modelled from the spec: `eminline.h` is absent; `mul_32x32` is the 64-bit product of two
signed 32-bit values. -/
def mul_32x32 (a b : Int) : Int := a * b

/-- Modelled from the spec: `eminline.h` is absent; `mulu_32x32` is the 64-bit product of two
unsigned 32-bit values. -/
def mulu_32x32 (a b : Nat) : Nat := a * b

/-- The value `reverse` computed by the unaligned load and store helpers. -/
def reverse (s : State) : Nat :=
  if s.SR &&& SR_RE ≠ 0 ∧ s.SR &&& SR_KSU = SR_KSU_U then 7 else 0

/-- The macro `R4000_ENDIAN_LE_BE(le, be)`. -/
def R4000_ENDIAN_LE_BE (s : State) (le be : Nat) : Nat :=
  if s.m_cp0 CP0_Config &&& CONFIG_BE ≠ 0 then be else le

/-- The function `cpu_lwl(op)`. -/
def cpu_lwl (s : State) (op : Nat) : State :=
  let offset := ADDR s (s.m_r (RSREG op)) op ^^^ reverse s
  let shift := ((offset &&& 3) ^^^ R4000_ENDIAN_LE_BE s 3 0) <<< 3
  match load s 4 (offset &&& not64 3) with
  | (some data, s1) =>
    s1.set_r (RTREG op) (u64 (s32 (((s1.m_r (RTREG op) &&& not32 (u32 (not32 0 <<< shift : Nat)))
      ||| u32 (data <<< shift : Nat) : Nat))))
  | (none, s1) => s1

/-- The function `cpu_lwr(op)`. -/
def cpu_lwr (s : State) (op : Nat) : State :=
  let offset := ADDR s (s.m_r (RSREG op)) op ^^^ reverse s
  let shift := ((offset &&& 3) ^^^ R4000_ENDIAN_LE_BE s 0 3) <<< 3
  match load s 4 (offset &&& not64 3) with
  | (some data, s1) =>
    s1.set_r (RTREG op) (u64 (s32 (((s1.m_r (RTREG op) &&& not32 (not32 0 >>> shift))
      ||| (data >>> shift) : Nat))))
  | (none, s1) => s1

/-- The function `cpu_swl(op)`. -/
def cpu_swl (s : State) (op : Nat) : State :=
  let offset := ADDR s (s.m_r (RSREG op)) op ^^^ reverse s
  let shift := ((offset &&& 3) ^^^ R4000_ENDIAN_LE_BE s 3 0) <<< 3
  (store s 4 (offset &&& not64 3) (u32 (s.m_r (RTREG op)) >>> shift) (not32 0 >>> shift)).2

/-- The function `cpu_swr(op)`. -/
def cpu_swr (s : State) (op : Nat) : State :=
  let offset := ADDR s (s.m_r (RSREG op)) op ^^^ reverse s
  let shift := ((offset &&& 3) ^^^ R4000_ENDIAN_LE_BE s 0 3) <<< 3
  (store s 4 (offset &&& not64 3) (u32 (u32 (s.m_r (RTREG op)) <<< shift : Nat))
    (u32 (not32 0 <<< shift : Nat))).2

/-- The function `cpu_ldl(op)`. -/
def cpu_ldl (s : State) (op : Nat) : State :=
  let offset := ADDR s (s.m_r (RSREG op)) op ^^^ reverse s
  let shift := ((offset &&& 7) ^^^ R4000_ENDIAN_LE_BE s 7 0) <<< 3
  match load s 8 (offset &&& not64 7) with
  | (some data, s1) =>
    s1.set_r (RTREG op) ((s1.m_r (RTREG op) &&& not64 (u64 (not64 0 <<< shift : Nat)))
      ||| u64 (data <<< shift : Nat))
  | (none, s1) => s1

/-- The function `cpu_ldr(op)`. -/
def cpu_ldr (s : State) (op : Nat) : State :=
  let offset := ADDR s (s.m_r (RSREG op)) op ^^^ reverse s
  let shift := ((offset &&& 7) ^^^ R4000_ENDIAN_LE_BE s 0 7) <<< 3
  match load s 8 (offset &&& not64 7) with
  | (some data, s1) =>
    s1.set_r (RTREG op) ((s1.m_r (RTREG op) &&& not64 (not64 0 >>> shift))
      ||| (data >>> shift))
  | (none, s1) => s1

/-- The function `cpu_sdl(op)`. -/
def cpu_sdl (s : State) (op : Nat) : State :=
  let offset := ADDR s (s.m_r (RSREG op)) op ^^^ reverse s
  let shift := ((offset &&& 7) ^^^ R4000_ENDIAN_LE_BE s 7 0) <<< 3
  (store s 8 (offset &&& not64 7) (s.m_r (RTREG op) >>> shift) (not64 0 >>> shift)).2

/-- The function `cpu_sdr(op)`. -/
def cpu_sdr (s : State) (op : Nat) : State :=
  let offset := ADDR s (s.m_r (RSREG op)) op ^^^ reverse s
  let shift := ((offset &&& 7) ^^^ R4000_ENDIAN_LE_BE s 0 7) <<< 3
  (store s 8 (offset &&& not64 7) (u64 (s.m_r (RTREG op) <<< shift : Nat))
    (u64 (not64 0 <<< shift : Nat))).2

/-- The value `C ? 1 : 0` a comparison stores into a register. -/
def flag (c : Bool) : Nat := if c then 1 else 0

/-- The group SPECIAL of `cpu_execute`: the `switch (op & 0x3f)`. -/
def cpu_special (s : State) (op : Nat) : Except host_fault State :=
  let rs := s.m_r (RSREG op)
  let rt := s.m_r (RTREG op)
  match op &&& 0x3f with
  | 0x00 => -- SLL
    Except.ok (s.set_r (RDREG op) (u64 (s64 (s32 (rt <<< SHIFT op : Nat)))))
  | 0x02 => -- SRL
    Except.ok (s.set_r (RDREG op) (u32 rt >>> SHIFT op))
  | 0x03 => -- SRA
    Except.ok (s.set_r (RDREG op) (u64 (s64 (sar (s32 rt) (SHIFT op)))))
  | 0x04 => -- SLLV
    Except.ok (s.set_r (RDREG op) (u64 (s64 (s32 (rt <<< (rs &&& 31) : Nat)))))
  | 0x06 => -- SRLV
    Except.ok (s.set_r (RDREG op) (u32 rt >>> (rs &&& 31)))
  | 0x07 => -- SRAV
    Except.ok (s.set_r (RDREG op) (u64 (s64 (sar (s32 rt) (rs &&& 31)))))
  | 0x08 => -- JR
    Except.ok { s with m_branch_state := branch_state_t.BRANCH
                       m_branch_target := ADDR s rs 0 }
  | 0x09 => -- JALR
    Except.ok (({ s with m_branch_state := branch_state_t.BRANCH
                         m_branch_target := ADDR s rs 0 }).set_r (RDREG op) (ADDR s s.m_pc 8))
  | 0x0c => -- SYSCALL
    Except.ok (cpu_exception s EXCEPTION_SYS GENERAL_VECTOR)
  | 0x0d => -- BREAK
    Except.ok (cpu_exception s EXCEPTION_BP GENERAL_VECTOR)
  | 0x0f => -- SYNC
    Except.ok s
  | 0x10 => -- MFHI
    Except.ok (s.set_r (RDREG op) s.m_hi)
  | 0x11 => -- MTHI
    Except.ok { s with m_hi := rs }
  | 0x12 => -- MFLO
    Except.ok (s.set_r (RDREG op) s.m_lo)
  | 0x13 => -- MTLO
    Except.ok { s with m_lo := rs }
  | 0x14 => -- DSLLV
    Except.ok (s.set_r (RDREG op) (u64 (rt <<< (rs &&& 63) : Nat)))
  | 0x16 => -- DSRLV
    Except.ok (s.set_r (RDREG op) (rt >>> (rs &&& 63)))
  | 0x17 => -- DSRAV
    Except.ok (s.set_r (RDREG op) (u64 (sar (s64 rt) (rs &&& 63))))
  | 0x18 => -- MULT
    let product := u64 (mul_32x32 (s32 rs) (s32 rt))
    Except.ok { s with m_lo := u64 (s64 (s32 product))
                       m_hi := u64 (s64 (s32 (product >>> 32 : Nat)))
                       m_icount := s.m_icount - 3 }
  | 0x19 => -- MULTU
    let product := u64 (mulu_32x32 (u32 rs) (u32 rt))
    Except.ok { s with m_lo := u64 (s64 (s32 product))
                       m_hi := u64 (s64 (s32 (product >>> 32 : Nat)))
                       m_icount := s.m_icount - 3 }
  | 0x1a => -- DIV
    if rt ≠ 0 then do
      let (q, r) ← checked_sdiv 32 (s32 rs) (s32 rt)
      Except.ok { s with m_lo := u64 (s64 q), m_hi := u64 (s64 r), m_icount := s.m_icount - 35 }
    else
      Except.ok { s with m_icount := s.m_icount - 35 }
  | 0x1b => -- DIVU
    if rt ≠ 0 then do
      let (q, r) ← checked_udiv (u32 rs) (u32 rt)
      Except.ok { s with m_lo := u64 (s64 q), m_hi := u64 (s64 r), m_icount := s.m_icount - 35 }
    else
      Except.ok { s with m_icount := s.m_icount - 35 }
  | 0x1c => -- DMULT
    let a_hi := u32 (rs >>> 32 : Nat)
    let b_hi := u32 (rt >>> 32 : Nat)
    let a_lo := u32 rs
    let b_lo := u32 rt
    let p1 := u64 (a_lo * b_lo)
    let p2 := u64 (a_hi * b_lo)
    let p3 := u64 (a_lo * b_hi)
    let p4 := u64 (a_hi * b_hi)
    let carry := u32 (u64 ((p1 >>> 32) + u32 p2 + u32 p3) >>> 32 : Nat)
    let lo := u64 (p1 + u64 (p2 <<< 32 : Nat) + u64 (p3 <<< 32 : Nat))
    let hi := u64 (p4 + (p2 >>> 32) + (p3 >>> 32) + carry)
    -- adjust for sign: the registers are unsigned, so neither comparison can hold
    let hi1 := if (rs : Int) < 0 then u64 ((hi : Int) - rt) else hi
    let hi2 := if (rt : Int) < 0 then u64 ((hi1 : Int) - rs) else hi1
    Except.ok { s with m_lo := lo, m_hi := hi2, m_icount := s.m_icount - 7 }
  | 0x1d => -- DMULTU
    let a_hi := u32 (rs >>> 32 : Nat)
    let b_hi := u32 (rt >>> 32 : Nat)
    let a_lo := u32 rs
    let b_lo := u32 rt
    let p1 := u64 (a_lo * b_lo)
    let p2 := u64 (a_hi * b_lo)
    let p3 := u64 (a_lo * b_hi)
    let p4 := u64 (a_hi * b_hi)
    let carry := u32 (u64 ((p1 >>> 32) + u32 p2 + u32 p3) >>> 32 : Nat)
    let lo := u64 (p1 + u64 (p2 <<< 32 : Nat) + u64 (p3 <<< 32 : Nat))
    let hi := u64 (p4 + (p2 >>> 32) + (p3 >>> 32) + carry)
    Except.ok { s with m_lo := lo, m_hi := hi, m_icount := s.m_icount - 7 }
  | 0x1e => -- DDIV
    if rt ≠ 0 then do
      let (q, r) ← checked_sdiv 64 (s64 rs) (s64 rt)
      Except.ok { s with m_lo := u64 q, m_hi := u64 r, m_icount := s.m_icount - 67 }
    else
      Except.ok { s with m_icount := s.m_icount - 67 }
  | 0x1f => -- DDIVU
    if rt ≠ 0 then do
      let (q, r) ← checked_udiv rs rt
      Except.ok { s with m_lo := q, m_hi := r, m_icount := s.m_icount - 67 }
    else
      Except.ok { s with m_icount := s.m_icount - 67 }
  | 0x20 => -- ADD
    let sum := u32 (u32 rs + u32 rt)
    -- overflow: (sign(addend0) == sign(addend1)) && (sign(addend0) != sign(sum))
    if ¬ BIT (u32 rs ^^^ u32 rt) 31 ∧ BIT (u32 rs ^^^ sum) 31 then
      Except.ok (cpu_exception s EXCEPTION_OV GENERAL_VECTOR)
    else
      Except.ok (s.set_r (RDREG op) (u64 (s64 (s32 sum))))
  | 0x21 => -- ADDU
    Except.ok (s.set_r (RDREG op) (u64 (s64 (s32 (u32 (u32 rs + u32 rt))))))
  | 0x22 => -- SUB
    let difference := u32 ((u32 rs : Int) - u32 rt)
    -- overflow: (sign(minuend) != sign(subtrahend)) && (sign(minuend) != sign(difference))
    if BIT (u32 rs ^^^ u32 rt) 31 ∧ BIT (u32 rs ^^^ difference) 31 then
      Except.ok (cpu_exception s EXCEPTION_OV GENERAL_VECTOR)
    else
      Except.ok (s.set_r (RDREG op) (u64 (s64 (s32 difference))))
  | 0x23 => -- SUBU
    Except.ok (s.set_r (RDREG op) (u64 (s64 (s32 (u32 ((u32 rs : Int) - u32 rt))))))
  | 0x24 => -- AND
    Except.ok (s.set_r (RDREG op) (rs &&& rt))
  | 0x25 => -- OR
    Except.ok (s.set_r (RDREG op) (rs ||| rt))
  | 0x26 => -- XOR
    Except.ok (s.set_r (RDREG op) (rs ^^^ rt))
  | 0x27 => -- NOR
    Except.ok (s.set_r (RDREG op) (not64 (rs ||| rt)))
  | 0x2a => -- SLT
    Except.ok (s.set_r (RDREG op) (flag (decide (s64 rs < s64 rt))))
  | 0x2b => -- SLTU
    Except.ok (s.set_r (RDREG op) (flag (decide (rs < rt))))
  | 0x2c => -- DADD
    let sum := u64 (rs + rt)
    -- overflow: (sign(addend0) == sign(addend1)) && (sign(addend0) != sign(sum))
    if ¬ BIT (rs ^^^ rt) 63 ∧ BIT (rs ^^^ sum) 63 then
      Except.ok (cpu_exception s EXCEPTION_OV GENERAL_VECTOR)
    else
      Except.ok (s.set_r (RDREG op) sum)
  | 0x2d => -- DADDU
    Except.ok (s.set_r (RDREG op) (u64 (rs + rt)))
  | 0x2e => -- DSUB
    let difference := u64 ((rs : Int) - rt)
    -- overflow: (sign(minuend) != sign(subtrahend)) && (sign(minuend) != sign(difference))
    if BIT (rs ^^^ rt) 63 ∧ BIT (rs ^^^ difference) 63 then
      Except.ok (cpu_exception s EXCEPTION_OV GENERAL_VECTOR)
    else
      Except.ok (s.set_r (RDREG op) difference)
  | 0x2f => -- DSUBU
    Except.ok (s.set_r (RDREG op) (u64 ((rs : Int) - rt)))
  | 0x30 => -- TGE
    Except.ok (if s64 rs ≥ s64 rt then cpu_exception s EXCEPTION_TR GENERAL_VECTOR else s)
  | 0x31 => -- TGEU
    Except.ok (if rs ≥ rt then cpu_exception s EXCEPTION_TR GENERAL_VECTOR else s)
  | 0x32 => -- TLT
    Except.ok (if s64 rs < s64 rt then cpu_exception s EXCEPTION_TR GENERAL_VECTOR else s)
  | 0x33 => -- TLTU
    Except.ok (if rs < rt then cpu_exception s EXCEPTION_TR GENERAL_VECTOR else s)
  | 0x34 => -- TEQ
    Except.ok (if rs = rt then cpu_exception s EXCEPTION_TR GENERAL_VECTOR else s)
  | 0x36 => -- TNE
    Except.ok (if rs ≠ rt then cpu_exception s EXCEPTION_TR GENERAL_VECTOR else s)
  | 0x38 => -- DSLL
    Except.ok (s.set_r (RDREG op) (u64 (rt <<< SHIFT op : Nat)))
  | 0x3a => -- DSRL
    Except.ok (s.set_r (RDREG op) (rt >>> SHIFT op))
  | 0x3b => -- DSRA
    Except.ok (s.set_r (RDREG op) (u64 (sar (s64 rt) (SHIFT op))))
  | 0x3c => -- DSLL32
    Except.ok (s.set_r (RDREG op) (u64 (rt <<< (SHIFT op + 32) : Nat)))
  | 0x3e => -- DSRL32
    Except.ok (s.set_r (RDREG op) (rt >>> (SHIFT op + 32)))
  | 0x3f => -- DSRA32
    Except.ok (s.set_r (RDREG op) (u64 (sar (s64 rt) (SHIFT op + 32))))
  | _ =>
    -- operation codes marked with an asterisk cause reserved instruction exceptions
    Except.ok (cpu_exception s EXCEPTION_RI GENERAL_VECTOR)

/-- The group REGIMM of `cpu_execute`: the `switch ((op >> 16) & 0x1f)`. -/
def cpu_regimm (s : State) (op : Nat) : State :=
  let rs := s.m_r (RSREG op)
  match (op >>> 16) &&& 0x1f with
  | 0x00 => -- BLTZ
    if s64 rs < 0 then s.branch op else s
  | 0x01 => -- BGEZ
    if s64 rs ≥ 0 then s.branch op else s
  | 0x02 => -- BLTZL
    if s64 rs < 0 then s.branch op else s.nullify
  | 0x03 => -- BGEZL
    if s64 rs ≥ 0 then s.branch op else s.nullify
  | 0x08 => -- TGEI
    if s64 rs ≥ s16 op then cpu_exception s EXCEPTION_TR GENERAL_VECTOR else s
  | 0x09 => -- TGEIU
    if rs ≥ u16 op then cpu_exception s EXCEPTION_TR GENERAL_VECTOR else s
  | 0x0a => -- TLTI
    if s64 rs < s16 op then cpu_exception s EXCEPTION_TR GENERAL_VECTOR else s
  | 0x0b => -- TLTIU
    if rs ≥ u16 op then cpu_exception s EXCEPTION_TR GENERAL_VECTOR else s
  | 0x0c => -- TEQI
    if rs = u16 op then cpu_exception s EXCEPTION_TR GENERAL_VECTOR else s
  | 0x0e => -- TNEI
    if rs ≠ u16 op then cpu_exception s EXCEPTION_TR GENERAL_VECTOR else s
  | 0x10 => -- BLTZAL
    (if s64 rs < 0 then s.branch op else s).set_r 31 (ADDR s s.m_pc 8)
  | 0x11 => -- BGEZAL
    (if s64 rs ≥ 0 then s.branch op else s).set_r 31 (ADDR s s.m_pc 8)
  | 0x12 => -- BLTZALL
    (if s64 rs < 0 then s.branch op else s.nullify).set_r 31 (ADDR s s.m_pc 8)
  | 0x13 => -- BGEZALL
    (if s64 rs ≥ 0 then s.branch op else s.nullify).set_r 31 (ADDR s s.m_pc 8)
  | _ =>
    -- operation codes marked with an asterisk cause reserved instruction exceptions
    cpu_exception s EXCEPTION_RI GENERAL_VECTOR

/-- The guard `m_64 || !(SR & SR_KSU) || (SR & SR_EXL) || (SR & SR_ERL)` of the 64-bit
unaligned loads and stores. -/
def mode64_ok (s : State) : Bool :=
  decide (s.m_64 ∨ s.SR &&& SR_KSU = 0 ∨ s.SR &&& SR_EXL ≠ 0 ∨ s.SR &&& SR_ERL ≠ 0)

/-- The function `cpu_execute(op)`. -/
def cpu_execute (sf : softfloat_t) (s : State) (op : Nat) : Except host_fault State :=
  let rs := s.m_r (RSREG op)
  let rt := s.m_r (RTREG op)
  match op >>> 26 with
  | 0x00 => cpu_special s op -- SPECIAL
  | 0x01 => Except.ok (cpu_regimm s op) -- REGIMM
  | 0x02 => -- J
    Except.ok { s with
      m_branch_state := branch_state_t.BRANCH
      m_branch_target := (ADDR s s.m_pc 4 &&& not64 0x0fffffff) ||| ((op &&& 0x03ffffff) <<< 2) }
  | 0x03 => -- JAL
    Except.ok (({ s with
      m_branch_state := branch_state_t.BRANCH
      m_branch_target := (ADDR s s.m_pc 4 &&& not64 0x0fffffff) ||| ((op &&& 0x03ffffff) <<< 2)
      }).set_r 31 (ADDR s s.m_pc 8))
  | 0x04 => -- BEQ
    Except.ok (if rs = rt then s.branch op else s)
  | 0x05 => -- BNE
    Except.ok (if rs ≠ rt then s.branch op else s)
  | 0x06 => -- BLEZ
    Except.ok (if s64 rs ≤ 0 then s.branch op else s)
  | 0x07 => -- BGTZ
    Except.ok (if s64 rs > 0 then s.branch op else s)
  | 0x08 => -- ADDI
    let sum := u32 (u32 rs + s16 op)
    -- overflow: (sign(addend0) == sign(addend1)) && (sign(addend0) != sign(sum))
    if ¬ BIT (u32 rs ^^^ u32 (s32 (s16 op))) 31 ∧ BIT (u32 rs ^^^ sum) 31 then
      Except.ok (cpu_exception s EXCEPTION_OV GENERAL_VECTOR)
    else
      Except.ok (s.set_r (RTREG op) (u64 (s64 (s32 sum))))
  | 0x09 => -- ADDIU
    Except.ok (s.set_r (RTREG op) (u64 (s64 (s32 (u32 (u32 rs + s16 op))))))
  | 0x0a => -- SLTI
    Except.ok (s.set_r (RTREG op) (flag (decide (s64 rs < s64 (s16 op)))))
  | 0x0b => -- SLTIU
    Except.ok (s.set_r (RTREG op) (flag (decide (u64 rs < u64 (s16 op)))))
  | 0x0c => -- ANDI
    Except.ok (s.set_r (RTREG op) (rs &&& u16 op))
  | 0x0d => -- ORI
    Except.ok (s.set_r (RTREG op) (rs ||| u16 op))
  | 0x0e => -- XORI
    Except.ok (s.set_r (RTREG op) (rs ^^^ u16 op))
  | 0x0f => -- LUI
    Except.ok (s.set_r (RTREG op) (u64 (s64 (s32 (u16 op <<< 16 : Nat)))))
  | 0x10 => cp0_execute s op -- COP0
  | 0x11 => Except.ok (cp1_execute sf s op) -- COP1
  | 0x12 => Except.ok (cp2_execute s op) -- COP2
  | 0x14 => -- BEQL
    Except.ok (if rs = rt then s.branch op else s.nullify)
  | 0x15 => -- BNEL
    Except.ok (if rs ≠ rt then s.branch op else s.nullify)
  | 0x16 => -- BLEZL
    Except.ok (if s64 rs ≤ 0 then s.branch op else s.nullify)
  | 0x17 => -- BGTZL
    Except.ok (if s64 rs > 0 then s.branch op else s.nullify)
  | 0x18 => -- DADDI
    let sum := u64 (rs + u64 (s64 (s16 op)))
    -- overflow: (sign(addend0) == sign(addend1)) && (sign(addend0) != sign(sum))
    if ¬ BIT (rs ^^^ u64 (s64 (s16 op))) 63 ∧ BIT (rs ^^^ sum) 63 then
      Except.ok (cpu_exception s EXCEPTION_OV GENERAL_VECTOR)
    else
      Except.ok (s.set_r (RTREG op) sum)
  | 0x19 => -- DADDIU
    Except.ok (s.set_r (RTREG op) (u64 (rs + s64 (s16 op))))
  | 0x1a => -- LDL
    Except.ok (if mode64_ok s then cpu_ldl s op
      else cpu_exception s EXCEPTION_RI GENERAL_VECTOR)
  | 0x1b => -- LDR
    Except.ok (if mode64_ok s then cpu_ldr s op
      else cpu_exception s EXCEPTION_RI GENERAL_VECTOR)
  | 0x20 => -- LB
    match load s 1 (ADDR s rs op) with
    | (some data, s1) => Except.ok (s1.set_r (RTREG op) (u64 (s8 data)))
    | (none, s1) => Except.ok s1
  | 0x21 => -- LH
    match load s 2 (ADDR s rs op) with
    | (some data, s1) => Except.ok (s1.set_r (RTREG op) (u64 (s16 data)))
    | (none, s1) => Except.ok s1
  | 0x22 => Except.ok (cpu_lwl s op) -- LWL
  | 0x23 => -- LW
    match load s 4 (ADDR s rs op) with
    | (some data, s1) => Except.ok (s1.set_r (RTREG op) (u64 (s32 data)))
    | (none, s1) => Except.ok s1
  | 0x24 => -- LBU
    match load s 1 (ADDR s rs op) with
    | (some data, s1) => Except.ok (s1.set_r (RTREG op) (u8 (s8 data)))
    | (none, s1) => Except.ok s1
  | 0x25 => -- LHU
    match load s 2 (ADDR s rs op) with
    | (some data, s1) => Except.ok (s1.set_r (RTREG op) (u16 data))
    | (none, s1) => Except.ok s1
  | 0x26 => Except.ok (cpu_lwr s op) -- LWR
  | 0x27 => -- LWU
    match load s 4 (ADDR s rs op) with
    | (some data, s1) => Except.ok (s1.set_r (RTREG op) (u32 data))
    | (none, s1) => Except.ok s1
  | 0x28 => -- SB
    Except.ok (store s 1 (ADDR s rs op) (u8 rt) 0xff).2
  | 0x29 => -- SH
    Except.ok (store s 2 (ADDR s rs op) (u16 rt) 0xffff).2
  | 0x2a => Except.ok (cpu_swl s op) -- SWL
  | 0x2b => -- SW
    Except.ok (store s 4 (ADDR s rs op) (u32 rt) 0xffffffff).2
  | 0x2c => -- SDL
    Except.ok (if mode64_ok s then cpu_sdl s op
      else cpu_exception s EXCEPTION_RI GENERAL_VECTOR)
  | 0x2d => -- SDR
    Except.ok (if mode64_ok s then cpu_sdr s op
      else cpu_exception s EXCEPTION_RI GENERAL_VECTOR)
  | 0x2e => Except.ok (cpu_swr s op) -- SWR
  | 0x2f => -- CACHE
    if s.SR &&& SR_KSU ≠ 0 ∧ s.SR &&& SR_CU0 = 0 ∧ s.SR &&& (SR_EXL ||| SR_ERL) = 0 then
      Except.ok (cpu_exception s EXCEPTION_CP0 GENERAL_VECTOR)
    else
      -- with the instruction cache compiled out every operation falls through to `break`
      Except.ok s
  | 0x30 => -- LL
    match load_linked s 4 (ADDR s rs op) with
    | (some (address, data), s1) =>
      -- remove existing tap, load, install write tap
      let s2 := s1.set_r (RTREG op) (u64 (s32 data))
      let s3 := s2.set_cp0 CP0_LLAddr (u32 (address >>> 4 : Nat))
      let tap : ll_tap :=
        { addrstart := u32 (address &&& not64 7 : Nat), addrend := u32 (address ||| 7 : Nat)
          dword := true, hi := BIT address 2 }
      Except.ok { s3 with m_ll_watch := some tap }
    | (none, s1) => Except.ok s1
  | 0x31 => Except.ok (cp1_execute sf s op) -- LWC1
  | 0x32 => Except.ok (cp2_execute s op) -- LWC2
  | 0x34 => -- LLD
    match load_linked s 8 (ADDR s rs op) with
    | (some (address, data), s1) =>
      -- remove existing tap, load, install write tap
      let s2 := s1.set_r (RTREG op) data
      let s3 := s2.set_cp0 CP0_LLAddr (u32 (address >>> 4 : Nat))
      let tap : ll_tap :=
        { addrstart := u32 (address &&& not64 7 : Nat), addrend := u32 (address ||| 7 : Nat)
          dword := false, hi := false }
      Except.ok { s3 with m_ll_watch := some tap }
    | (none, s1) => Except.ok s1
  | 0x35 => Except.ok (cp1_execute sf s op) -- LDC1
  | 0x36 => Except.ok (cp2_execute s op) -- LDC2
  | 0x37 => -- LD
    match load s 8 (ADDR s rs op) with
    | (some data, s1) => Except.ok (s1.set_r (RTREG op) data)
    | (none, s1) => Except.ok s1
  | 0x38 => -- SC
    if s.m_ll_watch.isSome then
      let s1 := { s with m_ll_watch := none }
      let s2 := (store s1 4 (ADDR s1 (s1.m_r (RSREG op)) op) (u32 (s1.m_r (RTREG op)))
        0xffffffff).2
      Except.ok (s2.set_r (RTREG op) 1)
    else
      Except.ok (s.set_r (RTREG op) 0)
  | 0x39 => Except.ok (cp1_execute sf s op) -- SWC1
  | 0x3a => Except.ok (cp2_execute s op) -- SWC2
  | 0x3c => -- SCD
    if s.m_ll_watch.isSome then
      let s1 := { s with m_ll_watch := none }
      let s2 := (store s1 8 (ADDR s1 (s1.m_r (RSREG op)) op) (s1.m_r (RTREG op))
        0xffffffffffffffff).2
      Except.ok (s2.set_r (RTREG op) 1)
    else
      Except.ok (s.set_r (RTREG op) 0)
  | 0x3d => Except.ok (cp1_execute sf s op) -- SDC1
  | 0x3e => Except.ok (cp2_execute s op) -- SDC2
  | 0x3f => -- SD
    Except.ok (store s 8 (ADDR s rs op) rt 0xffffffffffffffff).2
  | _ =>
    -- operation codes marked with an asterisk cause reserved instruction exceptions
    Except.ok (cpu_exception s EXCEPTION_RI GENERAL_VECTOR)

/-! ## Dispatch loop -/

/-- The `switch (m_branch_state)` of `execute_run` followed by `m_icount--`: update pc and
branch state. -/
def update_pc (s : State) : State :=
  let s1 :=
    match s.m_branch_state with
    | branch_state_t.NONE => { s with m_pc := u64 (s.m_pc + 4) }
    | branch_state_t.DELAY =>
      { s with m_branch_state := branch_state_t.NONE, m_pc := s.m_branch_target }
    | branch_state_t.BRANCH =>
      { s with m_branch_state := branch_state_t.DELAY, m_pc := u64 (s.m_pc + 4) }
    | branch_state_t.EXCEPTION => { s with m_branch_state := branch_state_t.NONE }
    | branch_state_t.NULLIFY =>
      { s with m_branch_state := branch_state_t.NONE, m_pc := u64 (s.m_pc + 8) }
  { s1 with m_icount := s1.m_icount - 1 }

/-- The call `fetch(m_pc, [this](u32 const op) { cpu_execute(op); m_r[0] = 0; })`: the
closure runs when the fetch hands over an instruction word. -/
def fetch_execute (sf : softfloat_t) (s : State) : Except host_fault State :=
  match fetch s s.m_pc with
  | (some op, s1) => do
    let s2 ← cpu_execute sf s1 op
    -- zero register zero
    Except.ok (s2.set_r 0 0)
  | (none, s1) => Except.ok s1

/-- The body of the `while` loop of `execute_run`: one iteration of the dispatch loop. -/
def execute_step (sf : softfloat_t) (s : State) : Except host_fault State := do
  let s1 ← fetch_execute sf s
  Except.ok (update_pc s1)

/-- The closure `cpu_execute(op); m_r[0] = 0` that `execute_run` hands to `fetch`, applied to
the instruction words `ops` in turn. -/
def execute_words (sf : softfloat_t) : List Nat → State → Except host_fault State
  | [], s => Except.ok s
  | op :: ops, s => do
    let s1 ← cpu_execute sf s op
    execute_words sf ops (s1.set_r 0 0)

/-- The loop `while (m_icount > 0)` of `execute_run`, bounded by `fuel` iterations. -/
def execute_loop (sf : softfloat_t) : Nat → State → Except host_fault State
  | 0, s => Except.ok s
  | fuel + 1, s =>
    if s.m_icount > 0 then do
      let s1 ← execute_step sf s
      execute_loop sf fuel s1
    else Except.ok s

/-- The function `execute_run`: the interrupt check at entry, then the loop. -/
def execute_run (sf : softfloat_t) (fuel : Nat) (s : State) : Except host_fault State :=
  -- check interrupts
  let s1 :=
    if s.CAUSE &&& s.SR &&& CAUSE_IP ≠ 0 ∧ s.SR &&& SR_IE ≠ 0
        ∧ s.SR &&& (SR_EXL ||| SR_ERL) = 0 then
      cpu_exception s EXCEPTION_INT GENERAL_VECTOR
    else s
  execute_loop sf fuel s1

/-! ## Host faults

The places where the C++ program leaves defined behaviour, described on the instruction word
and the operands alone. -/

/-- The conditions under which executing `op` stops the host program: a 32-bit divide whose
guard let a zero 32-bit divisor through or whose quotient overflows, a 64-bit signed divide
whose divisor reads as zero or whose quotient overflows, and a write of the reverse-endian bit
to Status. -/
def host_faults (s : State) (op : Nat) : Prop :=
  let rs := s.m_r (RSREG op)
  let rt := s.m_r (RTREG op)
  (op >>> 26 = 0x00 ∧ op &&& 0x3f = 0x1a ∧ rt ≠ 0
      ∧ (s32 rt = 0 ∨ (s32 rs = -(2 ^ 31) ∧ s32 rt = -1)))
  ∨ (op >>> 26 = 0x00 ∧ op &&& 0x3f = 0x1b ∧ rt ≠ 0 ∧ u32 rt = 0)
  ∨ (op >>> 26 = 0x00 ∧ op &&& 0x3f = 0x1e ∧ rt ≠ 0
      ∧ (s64 rt = 0 ∨ (s64 rs = -(2 ^ 63) ∧ s64 rt = -1)))
  ∨ (op >>> 26 = 0x10
      ∧ ¬ (s.SR &&& SR_KSU ≠ 0 ∧ s.SR &&& SR_CU0 = 0 ∧ s.SR &&& (SR_EXL ||| SR_ERL) = 0)
      ∧ RDREG op = CP0_Status
      ∧ (((op >>> 21) &&& 0x1f = 0x04 ∧ u64 (s64 (s32 rt)) &&& SR_RE ≠ 0)
        ∨ ((op >>> 21) &&& 0x1f = 0x05
          ∧ (s.SR &&& SR_KSU = 0 ∨ s.SR &&& (SR_EXL ||| SR_ERL) ≠ 0 ∨ s.m_64)
          ∧ rt &&& SR_RE ≠ 0)))

instance (s : State) (op : Nat) : Decidable (host_faults s op) := by
  unfold host_faults; infer_instance

/-! ## Reference behaviour named by the specification -/

/-- What the specification asks of a trapping arithmetic instruction whose exact signed
result is `exact`, for the width with signed range `-half ≤ x < half`: write the result to
the destination `dest` when it is representable, raise the integer-overflow exception
otherwise. -/
def trapping_result (s : State) (half : Int) (dest : Nat) (exact : Int) : State :=
  if -half ≤ exact ∧ exact < half then s.set_r dest (u64 exact)
  else cpu_exception s EXCEPTION_OV GENERAL_VECTOR

/-- The sign extension to 64 bits of a 32-bit value `v < 2 ^ 32`: the upper 32 bits repeat
bit 31. -/
def sign_extend_32 (v : Nat) : Nat :=
  if v < 2 ^ 31 then v else v + 0xffffffff00000000

/-- The instruction words the specification calls reserved: an unassigned primary opcode,
SPECIAL with an unassigned function code, or REGIMM with an unassigned rt code. -/
def reserved_opcode (op : Nat) : Prop :=
  op >>> 26 ∈ [0x13, 0x1c, 0x1d, 0x1e, 0x1f, 0x33, 0x3b]
  ∨ (op >>> 26 = 0x00
    ∧ op &&& 0x3f ∈ [0x01, 0x05, 0x0a, 0x0b, 0x0e, 0x15, 0x28, 0x29, 0x35, 0x37, 0x39, 0x3d])
  ∨ (op >>> 26 = 0x01
    ∧ (op >>> 16) &&& 0x1f ∈ [0x04, 0x05, 0x06, 0x07, 0x0d, 0x0f, 0x14, 0x15, 0x16, 0x17,
      0x18, 0x19, 0x1a, 0x1b, 0x1c, 0x1d, 0x1e, 0x1f])

instance (op : Nat) : Decidable (reserved_opcode op) := by
  unfold reserved_opcode; infer_instance

/-- The shapes a result of `translate` can take: the outcome of the TLB lookup for a mapped
segment, an address error, or one of the unmapped segments, which leave the state alone. -/
def translate_shape (s : State) (intention address : Nat) (x : translate_t × Nat × State) :
    Prop :=
  (∃ extended, x = tlb_lookup s intention address extended)
  ∨ x = (translate_t.ERROR, address, s)
  ∨ x = (translate_t.UNCACHED, address, s)
  ∨ x = (translate_t.CACHED, address &&& 0x0000000fffffffff, s)
  ∨ x = (translate_t.CACHED, address &&& 0x7fffffff, s)
  ∨ x = (translate_t.UNCACHED, address &&& 0x1fffffff, s)

/-- The instruction leading from `s` to `s'` left the control state alone or entered an
exception: the stored branch target is untouched, and either the branch state is EXCEPTION
or the program counter and the branch state are untouched. -/
def ctl_ok (s s' : State) : Prop :=
  s'.m_branch_target = s.m_branch_target
  ∧ (s'.m_branch_state = branch_state_t.EXCEPTION
    ∨ (s'.m_pc = s.m_pc ∧ s'.m_branch_state = s.m_branch_state))

/-- What every instruction guarantees about the control state: the stored branch target
changes only together with entering the state BRANCH, and the program counter changes only
together with entering the state EXCEPTION. -/
def ctl_step (s s' : State) : Prop :=
  (s'.m_branch_state = branch_state_t.BRANCH ∨ s'.m_branch_target = s.m_branch_target)
  ∧ (s'.m_branch_state = branch_state_t.EXCEPTION ∨ s'.m_pc = s.m_pc)

/-- The branch-likely instructions of the specification whose condition is false in `s`:
BEQL, BNEL, BLEZL, BGTZL by primary opcode, BLTZL, BGEZL, BLTZALL, BGEZALL by the rt code of
REGIMM, and BC1FL, BC1TL of coprocessor 1 with the coprocessor usable, so that the
instruction is executed rather than refused. -/
def untaken_likely (s : State) (op : Nat) : Prop :=
  (op >>> 26 = 0x14 ∧ s.m_r (RSREG op) ≠ s.m_r (RTREG op))
  ∨ (op >>> 26 = 0x15 ∧ s.m_r (RSREG op) = s.m_r (RTREG op))
  ∨ (op >>> 26 = 0x16 ∧ ¬ s64 (s.m_r (RSREG op)) ≤ 0)
  ∨ (op >>> 26 = 0x17 ∧ ¬ s64 (s.m_r (RSREG op)) > 0)
  ∨ (op >>> 26 = 0x01 ∧ (op >>> 16) &&& 0x1f = 0x02 ∧ ¬ s64 (s.m_r (RSREG op)) < 0)
  ∨ (op >>> 26 = 0x01 ∧ (op >>> 16) &&& 0x1f = 0x03 ∧ ¬ s64 (s.m_r (RSREG op)) ≥ 0)
  ∨ (op >>> 26 = 0x01 ∧ (op >>> 16) &&& 0x1f = 0x12 ∧ ¬ s64 (s.m_r (RSREG op)) < 0)
  ∨ (op >>> 26 = 0x01 ∧ (op >>> 16) &&& 0x1f = 0x13 ∧ ¬ s64 (s.m_r (RSREG op)) ≥ 0)
  ∨ (op >>> 26 = 0x11 ∧ (op >>> 21) &&& 0x1f = 0x08 ∧ (op >>> 16) &&& 0x1f = 0x02
      ∧ s.SR &&& SR_CU1 ≠ 0 ∧ ¬ s.m_fcr31 &&& FCR31_C = 0)
  ∨ (op >>> 26 = 0x11 ∧ (op >>> 21) &&& 0x1f = 0x08 ∧ (op >>> 16) &&& 0x1f = 0x03
      ∧ s.SR &&& SR_CU1 ≠ 0 ∧ ¬ s.m_fcr31 &&& FCR31_C ≠ 0)

/-- The branch-likely instructions that also link: BLTZALL and BGEZALL write the return
address to register 31 whether or not the branch is taken. -/
def links (op : Nat) : Prop :=
  op >>> 26 = 0x01 ∧ ((op >>> 16) &&& 0x1f = 0x12 ∨ (op >>> 16) &&& 0x1f = 0x13)

/-! ## Reset -/

/-- The function `device_reset`. The instruction cache statistics `m_icache_hit` and
`m_icache_miss` are not part of the state. The TLB and the registers EntryHi, EntryLo0,
EntryLo1, PageMask and Index are not touched. -/
def device_reset (s : State) : State :=
  let s1 := { s with
    m_branch_state := branch_state_t.NONE
    m_pc := u64 (s64 (s32 0xbfc00000)) }
  let s2 := s1.set_cp0 CP0_Status (SR_BEV ||| SR_ERL)
  let s3 := s2.set_cp0 CP0_Wired 0
  let s4 := s3.set_cp0 CP0_Compare 0
  let s5 := s4.set_cp0 CP0_Count 0
  let s6 := { s5 with m_cp0_timer_zero := s5.total_cycles, m_64 := false, m_ll_watch := none }
  let s7 := s6.set_cp0 CP0_WatchLo 0
  s7.set_cp0 CP0_WatchHi 0

/-! ## Properties named by the specification -/

/-- Following the words of the specification of Probe, not the code: the TLB entry `entry`
matches EntryHi when the virtual page number pair VPN2 (bits 39..13 in 64-bit mode, bits
31..13 otherwise) agrees on the bits the page mask of the entry leaves significant and,
unless the entry is global, the address space identifier agrees. -/
def vpn2_asid_match (s : State) (entry : tlb_entry_t) : Prop :=
  entry.vpn &&& ((if s.m_64 then EH_VPN2_64 else EH_VPN2_32) &&& not64 entry.mask)
      = s.m_cp0 CP0_EntryHi &&& ((if s.m_64 then EH_VPN2_64 else EH_VPN2_32) &&& not64 entry.mask)
  ∧ (entry.vpn &&& EH_G = 0 → entry.vpn &&& EH_ASID = s.m_cp0 CP0_EntryHi &&& EH_ASID)

instance (s : State) (entry : tlb_entry_t) : Decidable (vpn2_asid_match s entry) := by
  unfold vpn2_asid_match; infer_instance

/-- The match of Probe with the region taken into account: `vpn2_asid_match` and, in 64-bit
mode, agreement of the region bits 63..62. -/
def probe_match (s : State) (entry : tlb_entry_t) : Prop :=
  (s.m_64 = true → entry.vpn &&& EH_R = s.m_cp0 CP0_EntryHi &&& EH_R)
  ∧ vpn2_asid_match s entry

instance (s : State) (entry : tlb_entry_t) : Decidable (probe_match s entry) := by
  unfold probe_match; infer_instance

/-- The exception vector base of the specification: the sign-extended boot base when
Status.BEV is set, the sign-extended normal base otherwise. -/
def vector_base (s : State) : Nat :=
  if s.SR &&& SR_BEV ≠ 0 then 0xffffffffbfc00200 else 0xffffffff80000000

/-! ## Mode flag, floating-point causes, interrupt condition and the scan of the TLB -/

/-- Following the words of the specification of the operating-mode flags, not the code: the
64-bit-mode flag that the Status value `sr` determines, the KX bit when EXL or ERL is set or
the KSU field selects kernel, the SX bit when KSU selects supervisor, and the UX bit when
KSU selects user. -/
def status_mode_flag (sr : Nat) : Bool :=
  if sr &&& (SR_EXL ||| SR_ERL) ≠ 0 ∨ sr &&& SR_KSU = SR_KSU_K then decide (sr &&& SR_KX ≠ 0)
  else if sr &&& SR_KSU = SR_KSU_S then decide (sr &&& SR_SX ≠ 0)
  else decide (sr &&& SR_UX ≠ 0)

/-- The state in which the load of the instruction word `op` runs: `cp1_execute` clears the
exception flags of the floating-point library before LWC1 and LDC1. -/
def load_state (s : State) (op : Nat) : State :=
  if op >>> 26 = 0x31 ∨ op >>> 26 = 0x35 then { s with softfloat_exceptionFlags := 0 } else s

/-- Modelled from the spec: `r4000.h` is absent; the flag field of FCR31 (bits 6..2). -/
def FCR31_FM : Nat := 0x0000007c

/-- Following the words of the specification, not the code: the image of the exception flags
`f` of the floating-point library in the cause field of FCR31, inexact to I, underflow to U,
overflow to O, divide-by-zero to Z and invalid to V. -/
def cause_image (f : Nat) : Nat :=
  (if f &&& softfloat_flag_inexact ≠ 0 then FCR31_CI else 0)
  ||| (if f &&& softfloat_flag_underflow ≠ 0 then FCR31_CU else 0)
  ||| (if f &&& softfloat_flag_overflow ≠ 0 then FCR31_CO else 0)
  ||| (if f &&& softfloat_flag_infinite ≠ 0 then FCR31_CZ else 0)
  ||| (if f &&& softfloat_flag_invalid ≠ 0 then FCR31_CV else 0)

/-- Following the words of the specification, not the code: some cause bit of the FCR31 value
(bits 16..12: V, Z, O, U, I) has its matching enable bit (bits 11..7) set. -/
def enabled_cause (fcr31 : Nat) : Prop :=
  ∃ i, i < 5 ∧ fcr31.testBit (12 + i) = true ∧ fcr31.testBit (7 + i) = true

instance (fcr31 : Nat) : Decidable (enabled_cause fcr31) := by
  unfold enabled_cause; infer_instance

/-- Following the words of the specification: the interrupt condition, some
interrupt-pending bit of Cause enabled by the corresponding mask bit of Status, Status.IE
set, and EXL and ERL both clear. -/
def interrupt_condition (s : State) : Prop :=
  s.CAUSE &&& s.SR &&& CAUSE_IP ≠ 0 ∧ s.SR &&& SR_IE ≠ 0 ∧ s.SR &&& (SR_EXL ||| SR_ERL) = 0

instance (s : State) : Decidable (interrupt_condition s) := by
  unfold interrupt_condition; infer_instance

/-- The lookup key of `translate`: `(address & (extended ? (EH_R | EH_VPN2_64) : EH_VPN2_32))
| (m_cp0[CP0_EntryHi] & EH_ASID)`. -/
def lookup_key (s : State) (address : Nat) (extended : Bool) : Nat :=
  (address &&& (if extended then EH_R ||| EH_VPN2_64 else EH_VPN2_32))
    ||| (s.m_cp0 CP0_EntryHi &&& EH_ASID)

/-- The index the scan of `translate` visits in iteration `i`:
`(m_last[intention & TRANSLATE_TYPE_MASK] + i) % ARRAY_LENGTH(m_tlb)`, in `unsigned`
arithmetic. -/
def scan_index (s : State) (intention i : Nat) : Nat :=
  u32 (s.m_last (intention &&& TRANSLATE_TYPE_MASK) + i) % TLB_SIZE

/-- The test of VPN and ASID in the scan of `translate`: the TLB entry `index` matches `key`
under its own page mask and global flag. -/
def tlb_entry_matches (s : State) (key : Nat) (extended : Bool) (index : Nat) : Prop :=
  (s.m_tlb index).vpn
      &&& ((if extended then EH_R ||| (EH_VPN2_64 &&& not64 (s.m_tlb index).mask)
          else EH_VPN2_32 &&& not64 (s.m_tlb index).mask)
        ||| (if (s.m_tlb index).vpn &&& EH_G ≠ 0 then 0 else EH_ASID))
    = key &&& ((if extended then EH_R ||| (EH_VPN2_64 &&& not64 (s.m_tlb index).mask)
          else EH_VPN2_32 &&& not64 (s.m_tlb index).mask)
        ||| (if (s.m_tlb index).vpn &&& EH_G ≠ 0 then 0 else EH_ASID))

instance (s : State) (key : Nat) (extended : Bool) (index : Nat) :
    Decidable (tlb_entry_matches s key extended index) := by
  unfold tlb_entry_matches; infer_instance

/-- The descriptor `entry.pfn[BIT(address, entry.low_bit)]` the scan of `translate` selects
in the TLB entry `index`. -/
def selected_pfn (s : State) (address index : Nat) : Nat :=
  (s.m_tlb index).pfn (BIT address (s.m_tlb index).low_bit)

/-- What the scan of `translate` does with a matching entry: test valid, test dirty, or use
the entry. -/
def scan_outcome (s : State) (intention address index : Nat) : scan_t :=
  if selected_pfn s address index &&& EL_V = 0 then scan_t.invalid
  else if intention &&& TRANSLATE_WRITE ≠ 0 ∧ selected_pfn s address index &&& EL_D = 0 then
    scan_t.modify
  else scan_t.hit index (selected_pfn s address index)

/-- The block `load tlb exception registers` of the miss path of `translate`. -/
def tlb_exception_registers (s : State) (address key : Nat) : State :=
  let s1 := s.set_cp0 CP0_BadVAddr address
  let s2 := s1.set_cp0 CP0_EntryHi key
  let s3 := s2.set_cp0 CP0_Context
    ((s2.m_cp0 CP0_Context &&& CONTEXT_PTEBASE) ||| ((address >>> 9) &&& CONTEXT_BADVPN2))
  s3.set_cp0 CP0_XContext
    ((s3.m_cp0 CP0_XContext &&& XCONTEXT_PTEBASE) ||| ((address >>> 31) &&& XCONTEXT_R)
      ||| ((address >>> 9) &&& XCONTEXT_BADVPN2))

/-- The position `k` of the scan of `translate` for `intention` is the first one at which a
TLB entry matches `key`, and that entry is `index`. -/
def first_match (s : State) (intention key : Nat) (extended : Bool) (k index : Nat) : Prop :=
  k < TLB_SIZE ∧ scan_index s intention k = index ∧ tlb_entry_matches s key extended index
  ∧ ∀ k', k' < k → ¬ tlb_entry_matches s key extended (scan_index s intention k')

instance (s : State) (intention key : Nat) (extended : Bool) (k index : Nat) :
    Decidable (first_match s intention key extended k index) := by
  unfold first_match; infer_instance

/-! ## Unaligned loads, branch targets, products, traps and canonical words -/

/-- Following the words of the specification: the 32-bit big-endian word formed by the four
bytes `b0`, `b1`, `b2`, `b3`, the first one the most significant. -/
def be_word (b0 b1 b2 b3 : Nat) : Nat := b0 * 2 ^ 24 + b1 * 2 ^ 16 + b2 * 2 ^ 8 + b3

/-- The physical address of the byte at the virtual address `a + i` (`i < 4`) for the pair
LWL at `a`, LWR at `a + 3`: the byte lies in the word that LWR reads, translated to `p2`, or
in the word before it, which LWL reads, translated to `p1`; a translation keeps the offset
within the word. -/
def unaligned_byte_address (a p1 p2 i : Nat) : Nat :=
  if (a + i) / 4 = (a + 3) / 4 then p2 + (a + i) % 4 else p1 + (a + i) % 4

/-- Following the words of the specification, not the code: the target of a taken
PC-relative branch at `m_pc` with the instruction word `op`, the sum
`P + 4 + 4 * sign_extend16(off)` modulo `2 ^ 64` in 64-bit mode and its sign-extended 32-bit
wrap in 32-bit mode. -/
def branch_target_spec (s : State) (op : Nat) : Nat :=
  if s.m_64 then u64 (s.m_pc + 4 + 4 * s16 op) else u64 (s32 (s.m_pc + 4 + 4 * s16 op))

/-- Following the words of the specification, not the code: the high and the low 64 bits of
the 128-bit two's-complement product of `rs` and `rt` read as signed 64-bit integers. -/
def signed_product_128 (rs rt : Nat) : Nat × Nat :=
  (u64 ((s64 rs * s64 rt) / 2 ^ 64), u64 (s64 rs * s64 rt))

/-- Following the words of the specification, not the code: the relation named by the
trap-immediate instruction with the rt code `code` between the register value `rs` and the
16-bit immediate of `op` sign-extended to 64 bits. -/
def trap_immediate_relation (code rs op : Nat) : Prop :=
  (code = 0x08 ∧ s64 rs ≥ s16 op)
  ∨ (code = 0x09 ∧ rs ≥ u64 (s16 op))
  ∨ (code = 0x0a ∧ s64 rs < s16 op)
  ∨ (code = 0x0b ∧ rs < u64 (s16 op))
  ∨ (code = 0x0c ∧ rs = u64 (s16 op))
  ∨ (code = 0x0e ∧ rs ≠ u64 (s16 op))

instance (code rs op : Nat) : Decidable (trap_immediate_relation code rs op) := by
  unfold trap_immediate_relation; infer_instance

/-- Following the words of the specification: the 64-bit value `v` is in canonical
sign-extended form, the sign extension of its own low 32 bits. -/
def canonical_32 (v : Nat) : Prop := v = sign_extend_32 (v % 2 ^ 32)

instance (v : Nat) : Decidable (canonical_32 v) := by
  unfold canonical_32; infer_instance

/-! ## Segment decode, taken branches and the rule of the exception vectors -/

/-- The segment decode of `translate(intention, address)`, the chain of tests on Status and
the address that precedes the scan of the TLB: `Sum.inl extended` where `translate` goes on
to the TLB with the key of that width, `Sum.inr (result, address)` where it returns at once
(an unmapped segment or an address outside every segment). -/
def translate_segment (sr address : Nat) : Bool ⊕ (translate_t × Nat) :=
  if sr &&& SR_KSU = 0 ∨ sr &&& SR_EXL ≠ 0 ∨ sr &&& SR_ERL ≠ 0 then
    -- kernel mode
    if sr &&& SR_KX ≠ 0 then
      -- 64-bit kernel mode
      if address &&& 0xffffff0000000000 ≠ 0 then
        if address &&& 0xffffff0000000000 = 0x4000000000000000 then
          Sum.inl true -- xksseg
        else if address &&& 0xc000000000000000 = 0x8000000000000000 then
          Sum.inr (translate_t.CACHED, address &&& 0x0000000fffffffff) -- xkphys
        else if address &&& 0xffffff0000000000 = 0xc000000000000000 then
          if address &&& 0x000000ff80000000 = 0x000000ff80000000 then
            Sum.inr (translate_t.ERROR, address) -- exception
          else
            Sum.inl true -- xkseg
        else if address &&& 0xffffffffe0000000 = 0xffffffff80000000 then
          Sum.inr (translate_t.CACHED, address &&& 0x7fffffff) -- ckseg0
        else if address &&& 0xffffffffe0000000 = 0xffffffffa0000000 then
          Sum.inr (translate_t.UNCACHED, address &&& 0x1fffffff) -- ckseg1
        else if address &&& 0xffffffffe0000000 = 0xffffffffc0000000 then
          Sum.inl true -- cksseg
        else if address &&& 0xffffffffe0000000 = 0xffffffffe0000000 then
          Sum.inl true -- ckseg3
        else
          Sum.inr (translate_t.ERROR, address) -- exception
      else if sr &&& SR_ERL ≠ 0 then
        Sum.inr (translate_t.UNCACHED, address) -- xkuseg (unmapped, uncached)
      else
        Sum.inl true -- xkuseg
    else
      -- 32-bit kernel mode
      if address &&& 0xffffffff80000000 ≠ 0 then
        if address &&& 0xffffffffe0000000 = 0xffffffff80000000 then
          Sum.inr (translate_t.CACHED, address &&& 0x7fffffff) -- kseg0
        else if address &&& 0xffffffffe0000000 = 0xffffffffa0000000 then
          Sum.inr (translate_t.UNCACHED, address &&& 0x1fffffff) -- kseg1
        else if address &&& 0xffffffffe0000000 = 0xffffffffc0000000 then
          Sum.inl false -- ksseg
        else if address &&& 0xffffffffe0000000 = 0xffffffffe0000000 then
          Sum.inl false -- kseg3
        else
          Sum.inr (translate_t.ERROR, address) -- exception
      else if sr &&& SR_ERL ≠ 0 then
        Sum.inr (translate_t.UNCACHED, address) -- kuseg (unmapped, uncached)
      else
        Sum.inl false -- kuseg
  else if sr &&& SR_KSU = SR_KSU_S then
    -- supervisor mode
    if sr &&& SR_SX ≠ 0 then
      -- 64-bit supervisor mode
      if address &&& 0xffffff0000000000 ≠ 0 then
        if address &&& 0xffffff0000000000 = 0x4000000000000000 then
          Sum.inl true -- xsseg
        else if address &&& 0xffffffffe0000000 = 0xffffffffc0000000 then
          Sum.inl true -- csseg
        else
          Sum.inr (translate_t.ERROR, address) -- exception
      else
        Sum.inl true -- xsuseg
    else
      -- 32-bit supervisor mode
      if address &&& 0xffffffff80000000 ≠ 0 then
        if address &&& 0xffffffffe0000000 = 0xffffffffc0000000 then
          Sum.inl false -- sseg
        else
          Sum.inr (translate_t.ERROR, address) -- exception
      else
        Sum.inl false -- suseg
  else
    -- user mode
    if sr &&& SR_UX ≠ 0 then
      -- 64-bit user mode
      if address &&& 0xffffff0000000000 ≠ 0 then
        Sum.inr (translate_t.ERROR, address) -- exception
      else
        Sum.inl true -- xuseg
    else
      -- 32-bit user mode
      if address &&& 0xffffffff80000000 ≠ 0 then
        Sum.inr (translate_t.ERROR, address) -- exception
      else
        Sum.inl false -- useg

/-- The branch and jump instructions of `cpu_execute` whose branch is taken in `s`: J, JAL by
primary opcode, JR, JALR by the function code of SPECIAL, BEQ, BNE, BLEZ, BGTZ, BEQL, BNEL,
BLEZL, BGTZL by primary opcode, BLTZ, BGEZ, BLTZL, BGEZL, BLTZAL, BGEZAL, BLTZALL, BGEZALL by
the rt code of REGIMM, and BC1F, BC1T, BC1FL, BC1TL of coprocessor 1 with the coprocessor
usable, each with the condition under which the code assigns `m_branch_state = BRANCH`.
The branch codes of coprocessor 0 raise a reserved instruction exception and those of
coprocessor 2 only log, so that none of them is ever taken. -/
def taken_branch (s : State) (op : Nat) : Prop :=
  op >>> 26 = 0x02
  ∨ op >>> 26 = 0x03
  ∨ (op >>> 26 = 0x00 ∧ op &&& 0x3f = 0x08)
  ∨ (op >>> 26 = 0x00 ∧ op &&& 0x3f = 0x09)
  ∨ (op >>> 26 = 0x04 ∧ s.m_r (RSREG op) = s.m_r (RTREG op))
  ∨ (op >>> 26 = 0x05 ∧ s.m_r (RSREG op) ≠ s.m_r (RTREG op))
  ∨ (op >>> 26 = 0x06 ∧ s64 (s.m_r (RSREG op)) ≤ 0)
  ∨ (op >>> 26 = 0x07 ∧ s64 (s.m_r (RSREG op)) > 0)
  ∨ (op >>> 26 = 0x14 ∧ s.m_r (RSREG op) = s.m_r (RTREG op))
  ∨ (op >>> 26 = 0x15 ∧ s.m_r (RSREG op) ≠ s.m_r (RTREG op))
  ∨ (op >>> 26 = 0x16 ∧ s64 (s.m_r (RSREG op)) ≤ 0)
  ∨ (op >>> 26 = 0x17 ∧ s64 (s.m_r (RSREG op)) > 0)
  ∨ (op >>> 26 = 0x01 ∧ (op >>> 16) &&& 0x1f = 0x00 ∧ s64 (s.m_r (RSREG op)) < 0)
  ∨ (op >>> 26 = 0x01 ∧ (op >>> 16) &&& 0x1f = 0x01 ∧ s64 (s.m_r (RSREG op)) ≥ 0)
  ∨ (op >>> 26 = 0x01 ∧ (op >>> 16) &&& 0x1f = 0x02 ∧ s64 (s.m_r (RSREG op)) < 0)
  ∨ (op >>> 26 = 0x01 ∧ (op >>> 16) &&& 0x1f = 0x03 ∧ s64 (s.m_r (RSREG op)) ≥ 0)
  ∨ (op >>> 26 = 0x01 ∧ (op >>> 16) &&& 0x1f = 0x10 ∧ s64 (s.m_r (RSREG op)) < 0)
  ∨ (op >>> 26 = 0x01 ∧ (op >>> 16) &&& 0x1f = 0x11 ∧ s64 (s.m_r (RSREG op)) ≥ 0)
  ∨ (op >>> 26 = 0x01 ∧ (op >>> 16) &&& 0x1f = 0x12 ∧ s64 (s.m_r (RSREG op)) < 0)
  ∨ (op >>> 26 = 0x01 ∧ (op >>> 16) &&& 0x1f = 0x13 ∧ s64 (s.m_r (RSREG op)) ≥ 0)
  ∨ (op >>> 26 = 0x11 ∧ (op >>> 21) &&& 0x1f = 0x08 ∧ (op >>> 16) &&& 0x1f = 0x00
      ∧ s.SR &&& SR_CU1 ≠ 0 ∧ s.m_fcr31 &&& FCR31_C = 0)
  ∨ (op >>> 26 = 0x11 ∧ (op >>> 21) &&& 0x1f = 0x08 ∧ (op >>> 16) &&& 0x1f = 0x01
      ∧ s.SR &&& SR_CU1 ≠ 0 ∧ s.m_fcr31 &&& FCR31_C ≠ 0)
  ∨ (op >>> 26 = 0x11 ∧ (op >>> 21) &&& 0x1f = 0x08 ∧ (op >>> 16) &&& 0x1f = 0x02
      ∧ s.SR &&& SR_CU1 ≠ 0 ∧ s.m_fcr31 &&& FCR31_C = 0)
  ∨ (op >>> 26 = 0x11 ∧ (op >>> 21) &&& 0x1f = 0x08 ∧ (op >>> 16) &&& 0x1f = 0x03
      ∧ s.SR &&& SR_CU1 ≠ 0 ∧ s.m_fcr31 &&& FCR31_C ≠ 0)

instance (s : State) (op : Nat) : Decidable (taken_branch s op) := by
  unfold taken_branch
  repeat' refine @instDecidableOr _ _ ?_ ?_
  all_goals infer_instance

/-- The value a taken branch or jump assigns to `m_branch_target`:
`(ADDR(m_pc, 4) & ~0x0fffffffULL) | ((op & 0x03ffffffU) << 2)` for J and JAL,
`ADDR(m_r[RSREG], 0)` for JR and JALR, and `ADDR(m_pc, (s16(op) << 2) + 4)` for the
PC-relative branches. -/
def stored_target (s : State) (op : Nat) : Nat :=
  match op >>> 26 with
  | 0x02 | 0x03 => (ADDR s s.m_pc 4 &&& not64 0x0fffffff) ||| ((op &&& 0x03ffffff) <<< 2)
  | 0x00 => ADDR s (s.m_r (RSREG op)) 0
  | _ => ADDR s s.m_pc (s16 op * 4 + 4)

/-- What the operations inside an instruction, the writes to Status and Cause and ERET apart,
guarantee about the entry of exceptions: either the program counter, the branch state, Status
and Cause are as before, or the operation ends in the branch state EXCEPTION with Status.EXL
set and Status.BEV as before, at the general exception vector or, for a TLB load or store
exception raised with EXL clear, at one of the two refill vectors. -/
def vec_ok (s s' : State) : Prop :=
  (s'.m_pc = s.m_pc ∧ s'.m_branch_state = s.m_branch_state ∧ s'.SR = s.SR
    ∧ s'.CAUSE = s.CAUSE)
  ∨ (s'.m_branch_state = branch_state_t.EXCEPTION ∧ s'.SR &&& SR_EXL ≠ 0
    ∧ s'.SR &&& SR_BEV = s.SR &&& SR_BEV
    ∧ (s'.m_pc = vector_base s + GENERAL_VECTOR
      ∨ (s.SR &&& SR_EXL = 0
        ∧ (s'.CAUSE &&& CAUSE_EXCCODE = EXCEPTION_TLBL
          ∨ s'.CAUSE &&& CAUSE_EXCCODE = EXCEPTION_TLBS)
        ∧ (s'.m_pc = vector_base s + 0x000 ∨ s'.m_pc = vector_base s + 0x080))))

/-- The rule of the exception vectors across one instruction: either the program counter is
as before (no exception was raised), or the instruction ends in the branch state EXCEPTION
with Status.EXL set and Status.BEV as before, and the program counter is the vector base
plus the general offset, unless Status.EXL was clear before and the exception code in Cause
is TLBL or TLBS (a TLB refill), in which case it is the vector base plus `0x000` or
`0x080`. -/
def vector_rule (s s' : State) : Prop :=
  s'.m_pc = s.m_pc
  ∨ (s'.m_branch_state = branch_state_t.EXCEPTION ∧ s'.SR &&& SR_EXL ≠ 0
    ∧ s'.SR &&& SR_BEV = s.SR &&& SR_BEV
    ∧ (s'.m_pc = vector_base s + GENERAL_VECTOR
      ∨ (s.SR &&& SR_EXL = 0
        ∧ (s'.CAUSE &&& CAUSE_EXCCODE = EXCEPTION_TLBL
          ∨ s'.CAUSE &&& CAUSE_EXCCODE = EXCEPTION_TLBS)
        ∧ (s'.m_pc = vector_base s + 0x000 ∨ s'.m_pc = vector_base s + 0x080))))

/-- The instruction word `op` is an ERET that coprocessor 0 executes in `s`: the group COP0
with the coprocessor usable, a CP0 function, function code `0x18`. -/
def executes_eret (s : State) (op : Nat) : Prop :=
  op >>> 26 = 0x10
  ∧ ¬ (s.SR &&& SR_KSU ≠ 0 ∧ s.SR &&& SR_CU0 = 0 ∧ s.SR &&& (SR_EXL ||| SR_ERL) = 0)
  ∧ 0x10 ≤ (op >>> 21) &&& 0x1f ∧ op &&& 0x3f = 0x18

instance (s : State) (op : Nat) : Decidable (executes_eret s op) := by
  unfold executes_eret; infer_instance

/-! ## Example inputs -/

/-- A floating-point library for the examples, which execute no floating-point arithmetic:
every function returns zero and raises no flag. -/
def example_softfloat : softfloat_t :=
  { f32_add := fun _ _ _ => (0, 0), f32_sub := fun _ _ _ => (0, 0)
    f32_mul := fun _ _ _ => (0, 0), f32_div := fun _ _ _ => (0, 0)
    f32_sqrt := fun _ _ => (0, 0), f32_eq := fun _ _ => (false, 0)
    f32_le := fun _ _ => (false, 0), f32_lt := fun _ _ => (false, 0)
    f32_to_f64 := fun _ _ => (0, 0), f32_to_i32 := fun _ _ _ => (0, 0)
    f32_to_i64 := fun _ _ _ => (0, 0)
    f64_add := fun _ _ _ => (0, 0), f64_sub := fun _ _ _ => (0, 0)
    f64_mul := fun _ _ _ => (0, 0), f64_div := fun _ _ _ => (0, 0)
    f64_sqrt := fun _ _ => (0, 0), f64_eq := fun _ _ => (false, 0)
    f64_le := fun _ _ => (false, 0), f64_lt := fun _ _ => (false, 0)
    f64_to_f32 := fun _ _ => (0, 0), f64_to_i32 := fun _ _ _ => (0, 0)
    f64_to_i64 := fun _ _ _ => (0, 0)
    i32_to_f32 := fun _ _ => (0, 0), i32_to_f64 := fun _ _ => (0, 0)
    i64_to_f32 := fun _ _ => (0, 0), i64_to_f64 := fun _ _ => (0, 0) }

/-- A state for the examples: kernel mode with 32-bit addressing on a big-endian bus, the
program counter at `0xffffffff80001000` in kseg0, `r1 = 0x7fffffff`, `r2 = 1`,
`r5 = 0x100000000`, and the bus word at physical address `0x1000` given by `word`. -/
def example_state (word : Nat) : State :=
  { m_pc := 0xffffffff80001000
    m_r := fun i => if i = 1 then 0x7fffffff else if i = 2 then 1
      else if i = 5 then 0x100000000 else 0
    m_hi := 0x11
    m_lo := 0x22
    m_branch_state := branch_state_t.NONE
    m_branch_target := 0
    m_cp0 := fun i => if i = CP0_Config then CONFIG_BE else 0
    m_cp0_timer_zero := 0
    m_cp0_timer := none
    m_ll_watch := none
    m_tlb := fun _ => { mask := 0, vpn := 0, pfn0 := 0, pfn1 := 0, low_bit := 12 }
    m_last := fun _ => 0
    m_64 := false
    m_fcr0 := 0x500
    m_fcr31 := 0
    m_f := fun _ => 0
    m_icount := 100
    m_icache_line_size := 16
    m_icache_shift := 4
    m_icache_mask_lo := 0xfffffff0
    mem := fun q => if q = 0x200 then word else 0
    total_cycles := 0
    side_effects_disabled := false
    softfloat_exceptionFlags := 0
    softfloat_roundingMode := 0 }

/-- The example state with every TLB entry mapping the even page to frame `0x12345` and the
odd page to frame `0x12346` (valid, dirty, cacheable, page mask 0). -/
def example_tlb_state : State :=
  { example_state 0 with
    m_tlb := fun _ =>
      { mask := 0, vpn := 0, pfn0 := 0x48d15e, pfn1 := 0x48d19e, low_bit := 12 } }

/-- The example state with Index = 5 and the TLB registers holding a 16 KiB page entry with
both global bits set. -/
def example_tlbw_state : State :=
  { example_state 0 with
    m_cp0 := fun i =>
      if i = CP0_Index then 5
      else if i = CP0_PageMask then 0x6000
      else if i = CP0_EntryHi then 0x12348045
      else if i = CP0_EntryLo0 then 0x48d15f
      else if i = CP0_EntryLo1 then 0x48d19f
      else if i = CP0_Config then CONFIG_BE
      else 0 }

/-- The example state inside the handler of a coprocessor-unusable exception: the state
`cpu_exception(EXCEPTION_CP1)` leaves behind, with Status.EXL set and the coprocessor number
in Cause. -/
def example_nested_state : State :=
  cpu_exception (example_state 0) EXCEPTION_CP1 GENERAL_VECTOR

/-- The example state of the TLB write with Wired set to `wired`, `cycles` cycles after the
timer origin. -/
def example_wired_state (wired cycles : Nat) : State :=
  { example_tlbw_state.set_cp0 CP0_Wired wired with total_cycles := cycles }

/-- The example state with register 3 pointing at the unmapped cached segment and, when
`linked`, the write observer of a preceding LL of the word at physical address `0x200`. -/
def example_ll_state (linked : Bool) : State :=
  { (example_state 0).set_r 3 0xffffffff80000000 with
    m_ll_watch :=
      if linked then some { addrstart := 0x200, addrend := 0x207, dword := true, hi := false }
      else none }

/-- The example state inside an exception handler about to return: Status.EXL set, EPC
holding the address of the interrupted instruction, and a pending load-linked observer; with
`erl` Status.ERL is set as well and ErrorEPC holds another address. -/
def example_eret_state (erl : Bool) : State :=
  (((example_ll_state true).set_cp0 CP0_EPC 0xffffffff80002000).set_cp0 CP0_ErrorEPC
    0xffffffff80003000).set_cp0 CP0_Status (if erl then SR_EXL ||| SR_ERL else SR_EXL)

/-- The example state in 64-bit mode with the region bits of EntryHi set: every TLB entry is
zero, so that the virtual page number pair and the address space identifier of entry 0 agree
with EntryHi while the region does not. -/
def example_probe_state : State :=
  { (example_state 0).set_cp0 CP0_EntryHi 0xc000000000000000 with m_64 := true }

/-- Instruction words run from reset: ORI r1, r0, 1; ORI r2, r0, 5; MTC0 r1, EntryLo0;
MTC0 r1, EntryLo1; MTC0 r2, Index; TLBWI; TLBR; MTC0 r0, EntryLo0; TLBWI. -/
def example_global_program : List Nat :=
  [0x34010001, 0x34020005, 0x40811000, 0x40811800, 0x40820000, 0x42000002, 0x42000001,
    0x40801000, 0x42000002]

/-- The example state in 32-bit user mode: Status holds KSU = user and nothing else. -/
def example_user_state : State :=
  (example_state 0).set_cp0 CP0_Status SR_KSU_U

/-- A floating-point library for the examples in which every single-precision addition is
inexact and every single-precision division divides by zero. -/
def example_softfloat_flags : softfloat_t :=
  { example_softfloat with
    f32_add := fun _ _ _ => (0, softfloat_flag_inexact)
    f32_div := fun _ _ _ => (0, softfloat_flag_infinite) }

/-- The example state with coprocessor 1 usable (Status.CU1 set) and no floating-point trap
enabled. -/
def example_fpu_state : State :=
  (example_state 0).set_cp0 CP0_Status SR_CU1

/-- The example state with the timer interrupt (IP7) pending in Cause, Status zero,
`r3 = 0x8001` (IM7 and IE), and the program MTC0 r3, Status; ORI r1, r0, 1 at the program
counter. -/
def example_interrupt_state : State :=
  ((example_state 0x4083600034010001).set_r 3 0x8001).set_cp0 CP0_Cause 0x8000

/-- The example state whose TLB holds a single entry that is not zero: entry 5, a global
16 KiB page pair at `0x12348000` with valid, dirty descriptors (the entry TLBWI writes in
the example state of the TLB write). -/
def example_unique_state : State :=
  { example_state 0 with
    m_tlb := fun j =>
      if j = 5 then
        { mask := 0x6000, vpn := 0x12349045, pfn0 := 0x48d15f, pfn1 := 0x48d19f,
          low_bit := 14 }
      else { mask := 0, vpn := 0, pfn0 := 0, pfn1 := 0, low_bit := 12 } }

/-- The example state of the clean page: entry 5 of the TLB is a global 16 KiB page pair at
`0x12348000` whose even page is valid but not dirty and whose odd page is not valid. -/
def example_clean_state : State :=
  { example_state 0 with
    m_tlb := fun j =>
      if j = 5 then
        { mask := 0x6000, vpn := 0x12349045, pfn0 := 0x48d15b, pfn1 := 0x48d19d,
          low_bit := 14 }
      else { mask := 0, vpn := 0, pfn0 := 0, pfn1 := 0, low_bit := 12 } }

/-- The example state with the word `0x11823344` at physical address `0x1000`, the word
`0x55667788` at `0x1004`, and register 3 pointing at `0x1000` through the unmapped cached
segment. -/
def example_unaligned_state : State :=
  (example_state 0x1182334455667788).set_r 3 0xffffffff80001000

/-- The example state with the timer interrupt (IP7) pending and enabled (Status holds IM7
and IE), registers 3 and 4 zero, and the handler ADDIU r3, r3, 1; ADDIU r4, r4, 1 at the
general exception vector `0xffffffff80000180`; `word` is the bus word at the program
counter. -/
def example_vector_state (word : Nat) : State :=
  { ((example_state 0).set_cp0 CP0_Cause 0x8000).set_cp0 CP0_Status 0x8001 with
    mem := fun q => if q = 0x30 then 0x2463000124840001 else if q = 0x200 then word else 0 }

/-- A floating-point library for the examples in which the conversion of a 64-bit integer
gives the bit pattern of `1.0`. -/
def example_softfloat_long : softfloat_t :=
  { example_softfloat with
    i64_to_f32 := fun _ _ => (0x3f800000, 0)
    i64_to_f64 := fun _ _ => (0x3ff0000000000000, 0) }

/-- The example state with coprocessor 1 usable and 64-bit floating-point registers (Status
holds CU1 and FR), and the integer 1 in the floating-point register 4. -/
def example_long_state : State :=
  ((example_state 0).set_cp0 CP0_Status (SR_CU1 ||| SR_FR)).set_f 4 1

/-- The example state of the two keys: kernel mode with Status.KX set; entries 3 and 9 of the
TLB are global 4 KiB page pairs at `0x100002000` and `0x200002000` with valid, dirty
descriptors, so that both agree with the address `0x100002000` in the bits of the 32-bit key
and only entry 3 agrees with it in the bits of the 64-bit key. -/
def example_two_key_state : State :=
  { (example_state 0).set_cp0 CP0_Status SR_KX with
    m_tlb := fun j =>
      if j = 3 then
        { mask := 0, vpn := 0x100003000, pfn0 := 0x48d15f, pfn1 := 0x48d19f, low_bit := 12 }
      else if j = 9 then
        { mask := 0, vpn := 0x200003000, pfn0 := 0x58d15f, pfn1 := 0x58d19f, low_bit := 12 }
      else { mask := 0, vpn := 0, pfn0 := 0, pfn1 := 0, low_bit := 12 } }
set_option maxRecDepth 2000

/-! ## Arithmetic of the casts -/

theorem and_or_right (a b c : Nat) : (a ||| b) &&& c = (a &&& c) ||| (b &&& c) := by
  rw [Nat.and_comm, Nat.and_or_distrib_left, Nat.and_comm c a, Nat.and_comm c b]

theorem BIT_xor_31 (x y : Nat) :
    BIT (x ^^^ y) 31 = true ↔ ¬ (x / 2 ^ 31 % 2 = y / 2 ^ 31 % 2) := by
  unfold BIT
  rw [Nat.testBit_xor, Nat.testBit_to_div_mod, Nat.testBit_to_div_mod]
  by_cases hx : x / 2 ^ 31 % 2 = 1 <;> by_cases hy : y / 2 ^ 31 % 2 = 1 <;>
    simp [hx, hy] <;> omega

theorem BIT_xor_63 (x y : Nat) :
    BIT (x ^^^ y) 63 = true ↔ ¬ (x / 2 ^ 63 % 2 = y / 2 ^ 63 % 2) := by
  unfold BIT
  rw [Nat.testBit_xor, Nat.testBit_to_div_mod, Nat.testBit_to_div_mod]
  by_cases hx : x / 2 ^ 63 % 2 = 1 <;> by_cases hy : y / 2 ^ 63 % 2 = 1 <;>
    simp [hx, hy] <;> omega

theorem u32_cast (x : Int) : ((u32 x : Nat) : Int) = x % 2 ^ 32 := by
  unfold u32; omega

theorem u64_cast (x : Int) : ((u64 x : Nat) : Int) = x % 2 ^ 64 := by
  unfold u64; omega

theorem s32_emod (x : Int) : s32 (x % 2 ^ 32) = s32 x := by
  unfold s32; omega

theorem s64_s32 (x : Int) : s64 (s32 x) = s32 x := by
  unfold s64 s32; omega

theorem s16_range (x : Int) : -(2 ^ 15) ≤ s16 x ∧ s16 x < 2 ^ 15 := by
  unfold s16; omega

theorem s32_add (a b : Int) (h : -(2 ^ 31) ≤ s32 a + s32 b ∧ s32 a + s32 b < 2 ^ 31) :
    s32 (a % 2 ^ 32 + b % 2 ^ 32) = s32 a + s32 b := by
  unfold s32 at *; omega

theorem s32_sub (a b : Int) (h : -(2 ^ 31) ≤ s32 a - s32 b ∧ s32 a - s32 b < 2 ^ 31) :
    s32 (a % 2 ^ 32 - b % 2 ^ 32) = s32 a - s32 b := by
  unfold s32 at *; omega

theorem s32_add_imm (a i : Int) (h : -(2 ^ 31) ≤ s32 a + i ∧ s32 a + i < 2 ^ 31) :
    s32 (a % 2 ^ 32 + i) = s32 a + i := by
  unfold s32 at *; omega

/-- The sign test of ADD is the overflow of the exact 32-bit sum. -/
theorem add32_overflow_iff (a b : Nat) :
    (¬ BIT (u32 a ^^^ u32 b) 31 = true ∧ BIT (u32 a ^^^ u32 (u32 a + u32 b)) 31 = true)
      ↔ ¬ (-(2 ^ 31) ≤ s32 a + s32 b ∧ s32 a + s32 b < 2 ^ 31) := by
  rw [BIT_xor_31, BIT_xor_31]
  unfold u32 s32
  omega

/-- The sign test of SUB is the overflow of the exact 32-bit difference. -/
theorem sub32_overflow_iff (a b : Nat) :
    (BIT (u32 a ^^^ u32 b) 31 = true ∧ BIT (u32 a ^^^ u32 ((u32 a : Int) - u32 b)) 31 = true)
      ↔ ¬ (-(2 ^ 31) ≤ s32 a - s32 b ∧ s32 a - s32 b < 2 ^ 31) := by
  rw [BIT_xor_31, BIT_xor_31]
  unfold u32 s32
  omega

/-- The sign test of ADDI is the overflow of the exact 32-bit sum with the immediate. -/
theorem addi32_overflow_iff (a : Nat) (i : Int) (hi : -(2 ^ 15) ≤ i ∧ i < 2 ^ 15) :
    (¬ BIT (u32 a ^^^ u32 (s32 i)) 31 = true ∧ BIT (u32 a ^^^ u32 (u32 a + i)) 31 = true)
      ↔ ¬ (-(2 ^ 31) ≤ s32 a + i ∧ s32 a + i < 2 ^ 31) := by
  rw [BIT_xor_31, BIT_xor_31]
  unfold u32 s32
  omega

/-- The sign test of DADD is the overflow of the exact 64-bit sum. -/
theorem add64_overflow_iff (a b : Nat) :
    (¬ BIT (a ^^^ b) 63 = true ∧ BIT (a ^^^ u64 (a + b)) 63 = true)
      ↔ ¬ (-(2 ^ 63) ≤ s64 a + s64 b ∧ s64 a + s64 b < 2 ^ 63) := by
  rw [BIT_xor_63, BIT_xor_63]
  unfold u64 s64
  omega

/-- The sign test of DSUB is the overflow of the exact 64-bit difference. -/
theorem sub64_overflow_iff (a b : Nat) :
    (BIT (a ^^^ b) 63 = true ∧ BIT (a ^^^ u64 ((a : Int) - b)) 63 = true)
      ↔ ¬ (-(2 ^ 63) ≤ s64 a - s64 b ∧ s64 a - s64 b < 2 ^ 63) := by
  rw [BIT_xor_63, BIT_xor_63]
  unfold u64 s64
  omega

/-- The sign test of DADDI is the overflow of the exact 64-bit sum with the immediate. -/
theorem addi64_overflow_iff (a : Nat) (i : Int) (hi : -(2 ^ 15) ≤ i ∧ i < 2 ^ 15) :
    (¬ BIT (a ^^^ u64 (s64 i)) 63 = true ∧ BIT (a ^^^ u64 (a + u64 (s64 i))) 63 = true)
      ↔ ¬ (-(2 ^ 63) ≤ s64 a + i ∧ s64 a + i < 2 ^ 63) := by
  rw [BIT_xor_63, BIT_xor_63]
  unfold u64 s64
  omega

theorem add32_result (a b : Nat) (h : -(2 ^ 31) ≤ s32 a + s32 b ∧ s32 a + s32 b < 2 ^ 31) :
    u64 (s64 (s32 (u32 (u32 a + u32 b)))) = u64 (s32 a + s32 b) := by
  rw [s64_s32, u32_cast, s32_emod, u32_cast, u32_cast, s32_add _ _ h]

theorem sub32_result (a b : Nat) (h : -(2 ^ 31) ≤ s32 a - s32 b ∧ s32 a - s32 b < 2 ^ 31) :
    u64 (s64 (s32 (u32 ((u32 a : Int) - u32 b)))) = u64 (s32 a - s32 b) := by
  rw [s64_s32, u32_cast, s32_emod, u32_cast, u32_cast, s32_sub _ _ h]

theorem addi32_result (a : Nat) (i : Int) (h : -(2 ^ 31) ≤ s32 a + i ∧ s32 a + i < 2 ^ 31) :
    u64 (s64 (s32 (u32 (u32 a + i)))) = u64 (s32 a + i) := by
  rw [s64_s32, u32_cast, s32_emod, u32_cast, s32_add_imm _ _ h]

theorem add64_result (a b : Nat) : u64 (a + b) = u64 (s64 a + s64 b) := by
  unfold u64 s64; omega

theorem sub64_result (a b : Nat) : u64 ((a : Int) - b) = u64 (s64 a - s64 b) := by
  unfold u64 s64; omega

theorem addi64_result (a : Nat) (i : Int) : u64 (a + u64 (s64 i)) = u64 (s64 a + i) := by
  unfold u64 s64; omega

/-- The value ADDU writes is the sign extension of the 32-bit wrapped sum. -/
theorem addu_value (a b : Nat) :
    u64 (s64 (s32 (u32 (u32 a + u32 b))))
      = sign_extend_32 ((a % 2 ^ 32 + b % 2 ^ 32) % 2 ^ 32) := by
  rw [s64_s32, u32_cast, s32_emod, u32_cast, u32_cast]
  unfold u64 s32 sign_extend_32
  split <;> omega

/-! ## Basic facts about the state updates -/

theorem update_pc_m_r (s : State) : (update_pc s).m_r = s.m_r := by
  unfold update_pc
  cases s.m_branch_state <;> rfl

theorem cpu_exception_branch_state (s : State) (e v : Nat) :
    (cpu_exception s e v).m_branch_state = branch_state_t.EXCEPTION := rfl

/-- Entering an exception touches only Status, Cause, EPC, the 64-bit flag, the branch
state and the program counter. -/
theorem cpu_exception_frame (s : State) (e v : Nat) :
    (cpu_exception s e v).m_r = s.m_r ∧ (cpu_exception s e v).m_hi = s.m_hi
    ∧ (cpu_exception s e v).m_lo = s.m_lo ∧ (cpu_exception s e v).m_f = s.m_f
    ∧ (cpu_exception s e v).m_tlb = s.m_tlb ∧ (cpu_exception s e v).mem = s.mem
    ∧ (cpu_exception s e v).m_fcr31 = s.m_fcr31
    ∧ (cpu_exception s e v).m_ll_watch = s.m_ll_watch
    ∧ (cpu_exception s e v).m_branch_target = s.m_branch_target
    ∧ (cpu_exception s e v).m_icount = s.m_icount
    ∧ (cpu_exception s e v).m_last = s.m_last := by
  unfold cpu_exception
  by_cases hE : s.SR &&& SR_EXL = 0 <;>
    by_cases hD : s.m_branch_state = branch_state_t.DELAY <;>
    simp only [hE, hD, State.set_cp0, if_true, if_false, ↓reduceIte, and_self]

theorem cpu_exception_m_r (s : State) (e v : Nat) : (cpu_exception s e v).m_r = s.m_r :=
  (cpu_exception_frame s e v).1

theorem cpu_exception_Status (s : State) (e v : Nat) :
    (cpu_exception s e v).m_cp0 CP0_Status
      = if s.SR &&& SR_EXL = 0 then s.SR ||| SR_EXL else s.SR := by
  have h1 : CP0_Status ≠ CP0_Cause := by decide
  have h2 : CP0_Status ≠ CP0_EPC := by decide
  unfold cpu_exception
  by_cases hE : s.SR &&& SR_EXL = 0 <;>
    by_cases hD : s.m_branch_state = branch_state_t.DELAY <;>
    simp only [hE, hD, State.set_cp0, if_neg h1, if_neg h2, if_true, if_false, ↓reduceIte]
      <;> simp only [State.SR, State.CAUSE, State.set_cp0, if_neg h1, if_neg h2, if_true,
        if_false, ↓reduceIte]

theorem cpu_exception_Cause (s : State) (e v : Nat) :
    (cpu_exception s e v).m_cp0 CP0_Cause
      = if s.SR &&& SR_EXL = 0 then
          (if s.m_branch_state = branch_state_t.DELAY
            then ((s.CAUSE &&& CAUSE_IP) ||| e) ||| CAUSE_BD else (s.CAUSE &&& CAUSE_IP) ||| e)
        else (s.CAUSE &&& (CAUSE_BD ||| CAUSE_IP)) ||| e := by
  have h1 : CP0_Cause ≠ CP0_Status := by decide
  have h2 : CP0_Cause ≠ CP0_EPC := by decide
  unfold cpu_exception
  by_cases hE : s.SR &&& SR_EXL = 0 <;>
    by_cases hD : s.m_branch_state = branch_state_t.DELAY <;>
    simp only [hE, hD, State.set_cp0, if_neg h1, if_neg h2, if_true, if_false, ↓reduceIte]
      <;> simp only [State.SR, State.CAUSE, State.set_cp0, if_neg h1, if_neg h2, if_true,
        if_false, ↓reduceIte]

theorem cpu_exception_EPC (s : State) (e v : Nat) :
    (cpu_exception s e v).m_cp0 CP0_EPC
      = if s.SR &&& SR_EXL = 0 then
          (if s.m_branch_state = branch_state_t.DELAY
            then u64 ((s.m_pc : Int) - 4) else s.m_pc)
        else s.m_cp0 CP0_EPC := by
  have h1 : CP0_EPC ≠ CP0_Status := by decide
  have h2 : CP0_EPC ≠ CP0_Cause := by decide
  unfold cpu_exception
  by_cases hE : s.SR &&& SR_EXL = 0 <;>
    by_cases hD : s.m_branch_state = branch_state_t.DELAY <;>
    simp only [hE, hD, State.set_cp0, if_neg h1, if_neg h2, if_true, if_false, ↓reduceIte]

theorem cpu_exception_cp0_other (s : State) (e v j : Nat)
    (h1 : j ≠ CP0_Status) (h2 : j ≠ CP0_Cause) (h3 : j ≠ CP0_EPC) :
    (cpu_exception s e v).m_cp0 j = s.m_cp0 j := by
  unfold cpu_exception
  by_cases hE : s.SR &&& SR_EXL = 0 <;>
    by_cases hD : s.m_branch_state = branch_state_t.DELAY <;>
    simp only [hE, hD, State.set_cp0, if_neg h1, if_neg h2, if_neg h3, if_true, if_false,
      ↓reduceIte]

/-- The exception vector: the boot base or the normal base, by Status.BEV as it was before
the exception, plus the offset. -/
theorem cpu_exception_m_pc (s : State) (e v : Nat) :
    (cpu_exception s e v).m_pc
      = u64 ((if s.SR &&& SR_BEV ≠ 0 then s64 (s32 0xbfc00200) else s64 (s32 0x80000000))
        + v) := by
  have hS := cpu_exception_Status s e v
  have hEB : SR_EXL &&& SR_BEV = 0 := by decide
  have hBEV : (cpu_exception s e v).m_cp0 CP0_Status &&& SR_BEV = s.SR &&& SR_BEV := by
    rw [hS]; split
    · rw [and_or_right, hEB, Nat.or_zero]
    · rfl
  have : (cpu_exception s e v).m_pc
      = u64 ((if (cpu_exception s e v).m_cp0 CP0_Status &&& SR_BEV ≠ 0
        then s64 (s32 0xbfc00200) else s64 (s32 0x80000000)) + v) := rfl
  rw [this, hBEV]

/-- The exception code field of Cause after an exception is the code raised. -/
theorem cpu_exception_exccode (s : State) (e v : Nat) :
    (cpu_exception s e v).CAUSE &&& CAUSE_EXCCODE = e &&& CAUSE_EXCCODE := by
  have h1 : CAUSE_IP &&& CAUSE_EXCCODE = 0 := by decide
  have h2 : CAUSE_BD &&& CAUSE_EXCCODE = 0 := by decide
  have h3 : (CAUSE_BD ||| CAUSE_IP) &&& CAUSE_EXCCODE = 0 := by decide
  unfold State.CAUSE
  rw [cpu_exception_Cause]
  split
  · split
    · rw [and_or_right, and_or_right, Nat.and_assoc, h1, h2]; simp
    · rw [and_or_right, Nat.and_assoc, h1]; simp
  · rw [and_or_right, Nat.and_assoc, h3]; simp

/-! ## Decoding -/

theorem cpu_execute_special (sf : softfloat_t) (s : State) (op : Nat) (h0 : op >>> 26 = 0x00) :
    cpu_execute sf s op = cpu_special s op := by
  simp only [cpu_execute, h0]

theorem cpu_execute_regimm (sf : softfloat_t) (s : State) (op : Nat) (h0 : op >>> 26 = 0x01) :
    cpu_execute sf s op = Except.ok (cpu_regimm s op) := by
  simp only [cpu_execute, h0]

/-! ## The host program completes every instruction but the faulting ones -/

theorem checked_udiv_returns (a b : Nat) (h : b ≠ 0) :
    checked_udiv a b = Except.ok (a / b, a % b) := by
  simp [checked_udiv, h]

theorem checked_sdiv_returns (w : Nat) (a b : Int)
    (h : ¬ (b = 0 ∨ (a = -(2 ^ (w - 1)) ∧ b = -1))) :
    checked_sdiv w a b = Except.ok (sdiv a b, smod a b) := by
  simp only [checked_sdiv, if_neg h]

theorem cpu_special_returns (s : State) (op : Nat)
    (h : ¬ host_faults s op) (h0 : op >>> 26 = 0x00) :
    ∃ s', cpu_special s op = Except.ok s' := by
  unfold host_faults at h
  simp only [h0, true_and, not_or] at h
  obtain ⟨h1, h2, h3, -⟩ := h
  unfold cpu_special
  split
  case h_21 hop =>
    simp only [hop, true_and] at h1
    dsimp only
    split
    · rename_i hrt
      rw [checked_sdiv_returns 32 _ _ (by simpa [hrt] using h1)]
      exact ⟨_, rfl⟩
    · exact ⟨_, rfl⟩
  case h_22 hop =>
    simp only [hop, true_and] at h2
    dsimp only
    split
    · rename_i hrt
      rw [checked_udiv_returns _ _ (by simpa [hrt] using h2)]
      exact ⟨_, rfl⟩
    · exact ⟨_, rfl⟩
  case h_25 hop =>
    simp only [hop, true_and] at h3
    dsimp only
    split
    · rename_i hrt
      rw [checked_sdiv_returns 64 _ _ (by simpa [hrt] using h3)]
      exact ⟨_, rfl⟩
    · exact ⟨_, rfl⟩
  case h_26 hop =>
    dsimp only
    split
    · rename_i hrt
      rw [checked_udiv_returns _ _ hrt]
      exact ⟨_, rfl⟩
    · exact ⟨_, rfl⟩
  all_goals first
    | exact ⟨_, rfl⟩
    | (dsimp only; split <;> exact ⟨_, rfl⟩)

theorem cp0_set_returns (s : State) (reg data : Nat)
    (h : ¬ (reg = CP0_Status ∧ data &&& SR_RE ≠ 0)) :
    ∃ s', cp0_set s reg data = Except.ok s' := by
  unfold cp0_set
  by_cases h1 : reg = CP0_Count
  · rw [if_pos h1]; exact ⟨_, rfl⟩
  rw [if_neg h1]
  by_cases h2 : reg = CP0_EntryHi
  · rw [if_pos h2]; exact ⟨_, rfl⟩
  rw [if_neg h2]
  by_cases h3 : reg = CP0_Compare
  · rw [if_pos h3]; exact ⟨_, rfl⟩
  rw [if_neg h3]
  by_cases h4 : reg = CP0_Status
  · rw [if_pos h4]
    have hd : ¬ (data &&& SR_RE ≠ 0) := fun hd => h ⟨h4, hd⟩
    dsimp only
    rw [if_neg hd]; exact ⟨_, rfl⟩
  rw [if_neg h4]
  by_cases h5 : reg = CP0_Cause
  · rw [if_pos h5]; exact ⟨_, rfl⟩
  rw [if_neg h5]
  by_cases h6 : reg = CP0_PRId
  · rw [if_pos h6]; exact ⟨_, rfl⟩
  rw [if_neg h6]
  by_cases h7 : reg = CP0_Config
  · rw [if_pos h7]; dsimp only; split <;> exact ⟨_, rfl⟩
  rw [if_neg h7]; exact ⟨_, rfl⟩

theorem cp0_execute_returns (s : State) (op : Nat)
    (h : ¬ host_faults s op) (h0 : op >>> 26 = 0x10) :
    ∃ s', cp0_execute s op = Except.ok s' := by
  unfold host_faults at h
  simp only [h0, true_and, not_or] at h
  obtain ⟨-, -, -, h4⟩ := h
  unfold cp0_execute
  split
  · exact ⟨_, rfl⟩
  · rename_i hcu
    simp only [hcu, not_false_eq_true, true_and] at h4
    split
    case h_4 hop =>
      apply cp0_set_returns
      rintro ⟨hr, hd⟩
      exact h4 ⟨hr, Or.inl ⟨hop, hd⟩⟩
    case h_5 hop =>
      split
      · rename_i hm
        apply cp0_set_returns
        rintro ⟨hr, hd⟩
        exact h4 ⟨hr, Or.inr ⟨hop, hm, hd⟩⟩
      · exact ⟨_, rfl⟩
    all_goals first
      | exact ⟨_, rfl⟩
      | (split <;> exact ⟨_, rfl⟩)

/-- Executing an instruction returns whenever none of the host faults applies. -/
theorem cpu_execute_returns (sf : softfloat_t) (s : State) (op : Nat)
    (h : ¬ host_faults s op) : ∃ s', cpu_execute sf s op = Except.ok s' := by
  unfold cpu_execute
  split
  case h_1 hop => exact cpu_special_returns s op h hop
  case h_17 hop => exact cp0_execute_returns s op h hop
  all_goals first
    | exact ⟨_, rfl⟩
    | (dsimp only; split <;> exact ⟨_, rfl⟩)

/-! ## Register 0 -/

/-- C1: one iteration of the dispatch loop whose fetch hands the instruction word `op` to
`cpu_execute` ends, whenever it ends, with general register 0 equal to 0; and it does end,
with register 0 equal to 0 and every other register as `cpu_execute` left it (also when `op`
names register 0 as its destination), for every state and instruction word on which the host
program does not fault. -/
theorem execute_step_zeroes_r0 (sf : softfloat_t) (s s1 : State) (op : Nat)
    (hfetch : fetch s s.m_pc = (some op, s1)) :
    (∀ s', execute_step sf s = Except.ok s' → s'.m_r 0 = 0)
    ∧ (¬ host_faults s1 op → ∃ s2 s', cpu_execute sf s1 op = Except.ok s2
        ∧ execute_step sf s = Except.ok s' ∧ s'.m_r 0 = 0
        ∧ ∀ i, i ≠ 0 → s'.m_r i = s2.m_r i) := by
  have hstep : ∀ s2, cpu_execute sf s1 op = Except.ok s2 →
      execute_step sf s = Except.ok (update_pc (s2.set_r 0 0)) := by
    intro s2 h2
    simp only [execute_step, fetch_execute, hfetch, h2, bind, Except.bind]
  constructor
  · intro s' hs'
    cases h2 : cpu_execute sf s1 op with
    | error e =>
      simp [execute_step, fetch_execute, hfetch, h2, bind, Except.bind] at hs'
    | ok s2 =>
      rw [hstep s2 h2] at hs'
      cases hs'
      rw [update_pc_m_r]
      simp [State.set_r]
  · intro hnf
    obtain ⟨s2, h2⟩ := cpu_execute_returns sf s1 op hnf
    refine ⟨s2, _, h2, hstep s2 h2, ?_, ?_⟩
    · rw [update_pc_m_r]; simp [State.set_r]
    · intro i hi
      rw [update_pc_m_r]; simp [State.set_r, hi]

/-- Witness of C1: ADDU with destination register 0 (`0x00220021`, `r0 = r1 + r2`), fetched
from kseg0. -/
theorem execute_step_zeroes_r0_witness :
    fetch (example_state 0x0022002100000000) (example_state 0x0022002100000000).m_pc
        = (some 0x00220021, example_state 0x0022002100000000)
    ∧ ¬ host_faults (example_state 0x0022002100000000) 0x00220021
    ∧ ∃ s2 s', cpu_execute example_softfloat (example_state 0x0022002100000000) 0x00220021
          = Except.ok s2
        ∧ execute_step example_softfloat (example_state 0x0022002100000000) = Except.ok s'
        ∧ s'.m_r 0 = 0 ∧ ∀ i, i ≠ 0 → s'.m_r i = s2.m_r i :=
  ⟨rfl, by decide,
    (execute_step_zeroes_r0 example_softfloat (example_state 0x0022002100000000) _ 0x00220021
      rfl).2 (by decide)⟩

/-! ## Trapping and wrapping arithmetic -/

/-- C2: each trapping arithmetic instruction behaves as the specification asks. ADD, SUB
(SPECIAL `0x20`, `0x22`) and ADDI (`0x08`) work on the signed reading of the low 32 bits,
DADD, DSUB (SPECIAL `0x2c`, `0x2e`) and DADDI (`0x18`) on the signed reading of all 64 bits,
the immediate being the signed reading of the low 16 bits of the instruction word: the
integer-overflow exception is raised exactly when the exact result is not representable, and
otherwise the result is written, sign-extended, to the destination and nothing else changes.
Raising the exception leaves every general register as it was. -/
theorem trapping_arithmetic (sf : softfloat_t) (s : State) (op : Nat) :
    (op >>> 26 = 0x00 → op &&& 0x3f = 0x20 → cpu_execute sf s op = Except.ok
      (trapping_result s (2 ^ 31) (RDREG op) (s32 (s.m_r (RSREG op)) + s32 (s.m_r (RTREG op)))))
    ∧ (op >>> 26 = 0x00 → op &&& 0x3f = 0x22 → cpu_execute sf s op = Except.ok
      (trapping_result s (2 ^ 31) (RDREG op) (s32 (s.m_r (RSREG op)) - s32 (s.m_r (RTREG op)))))
    ∧ (op >>> 26 = 0x08 → cpu_execute sf s op = Except.ok
      (trapping_result s (2 ^ 31) (RTREG op) (s32 (s.m_r (RSREG op)) + s16 op)))
    ∧ (op >>> 26 = 0x00 → op &&& 0x3f = 0x2c → cpu_execute sf s op = Except.ok
      (trapping_result s (2 ^ 63) (RDREG op) (s64 (s.m_r (RSREG op)) + s64 (s.m_r (RTREG op)))))
    ∧ (op >>> 26 = 0x00 → op &&& 0x3f = 0x2e → cpu_execute sf s op = Except.ok
      (trapping_result s (2 ^ 63) (RDREG op) (s64 (s.m_r (RSREG op)) - s64 (s.m_r (RTREG op)))))
    ∧ (op >>> 26 = 0x18 → cpu_execute sf s op = Except.ok
      (trapping_result s (2 ^ 63) (RTREG op) (s64 (s.m_r (RSREG op)) + s16 op)))
    ∧ (∀ i, (cpu_exception s EXCEPTION_OV GENERAL_VECTOR).m_r i = s.m_r i) := by
  refine ⟨?_, ?_, ?_, ?_, ?_, ?_, ?_⟩
  · intro h0 h1
    rw [cpu_execute_special sf s op h0]
    simp only [cpu_special, h1, trapping_result]
    by_cases hov : -(2 ^ 31) ≤ s32 (s.m_r (RSREG op)) + s32 (s.m_r (RTREG op))
        ∧ s32 (s.m_r (RSREG op)) + s32 (s.m_r (RTREG op)) < 2 ^ 31
    · rw [if_pos hov, if_neg (fun h => ((add32_overflow_iff _ _).mp h) hov),
        add32_result _ _ hov]
    · rw [if_neg hov, if_pos ((add32_overflow_iff _ _).mpr hov)]
  · intro h0 h1
    rw [cpu_execute_special sf s op h0]
    simp only [cpu_special, h1, trapping_result]
    by_cases hov : -(2 ^ 31) ≤ s32 (s.m_r (RSREG op)) - s32 (s.m_r (RTREG op))
        ∧ s32 (s.m_r (RSREG op)) - s32 (s.m_r (RTREG op)) < 2 ^ 31
    · rw [if_pos hov, if_neg (fun h => ((sub32_overflow_iff _ _).mp h) hov),
        sub32_result _ _ hov]
    · rw [if_neg hov, if_pos ((sub32_overflow_iff _ _).mpr hov)]
  · intro h0
    simp only [cpu_execute, h0, trapping_result]
    by_cases hov : -(2 ^ 31) ≤ s32 (s.m_r (RSREG op)) + s16 op
        ∧ s32 (s.m_r (RSREG op)) + s16 op < 2 ^ 31
    · rw [if_pos hov, if_neg (fun h => ((addi32_overflow_iff _ _ (s16_range _)).mp h) hov), addi32_result _ _ hov]
    · rw [if_neg hov, if_pos ((addi32_overflow_iff _ _ (s16_range _)).mpr hov)]
  · intro h0 h1
    rw [cpu_execute_special sf s op h0]
    simp only [cpu_special, h1, trapping_result]
    by_cases hov : -(2 ^ 63) ≤ s64 (s.m_r (RSREG op)) + s64 (s.m_r (RTREG op))
        ∧ s64 (s.m_r (RSREG op)) + s64 (s.m_r (RTREG op)) < 2 ^ 63
    · rw [if_pos hov, if_neg (fun h => ((add64_overflow_iff _ _).mp h) hov),
        add64_result]
    · rw [if_neg hov, if_pos ((add64_overflow_iff _ _).mpr hov)]
  · intro h0 h1
    rw [cpu_execute_special sf s op h0]
    simp only [cpu_special, h1, trapping_result]
    by_cases hov : -(2 ^ 63) ≤ s64 (s.m_r (RSREG op)) - s64 (s.m_r (RTREG op))
        ∧ s64 (s.m_r (RSREG op)) - s64 (s.m_r (RTREG op)) < 2 ^ 63
    · rw [if_pos hov, if_neg (fun h => ((sub64_overflow_iff _ _).mp h) hov),
        sub64_result]
    · rw [if_neg hov, if_pos ((sub64_overflow_iff _ _).mpr hov)]
  · intro h0
    simp only [cpu_execute, h0, trapping_result]
    by_cases hov : -(2 ^ 63) ≤ s64 (s.m_r (RSREG op)) + s16 op
        ∧ s64 (s.m_r (RSREG op)) + s16 op < 2 ^ 63
    · rw [if_pos hov, if_neg (fun h => ((addi64_overflow_iff _ _ (s16_range _)).mp h) hov), addi64_result]
    · rw [if_neg hov, if_pos ((addi64_overflow_iff _ _ (s16_range _)).mpr hov)]
  · intro i
    rw [cpu_exception_m_r]

/-- Witness of C2: ADD of `0x7fffffff` and `1` (`0x00221820`, `r3 = r1 + r2`) raises the
integer-overflow exception and leaves `r3` as it was. -/
theorem trapping_arithmetic_witness :
    (0x00221820 >>> 26 = 0x00 ∧ 0x00221820 &&& 0x3f = 0x20)
    ∧ cpu_execute example_softfloat (example_state 0) 0x00221820 = Except.ok
      (trapping_result (example_state 0) (2 ^ 31) (RDREG 0x00221820)
        (s32 ((example_state 0).m_r (RSREG 0x00221820))
          + s32 ((example_state 0).m_r (RTREG 0x00221820))))
    ∧ trapping_result (example_state 0) (2 ^ 31) (RDREG 0x00221820)
        (s32 ((example_state 0).m_r (RSREG 0x00221820))
          + s32 ((example_state 0).m_r (RTREG 0x00221820)))
      = cpu_exception (example_state 0) EXCEPTION_OV GENERAL_VECTOR
    ∧ (cpu_exception (example_state 0) EXCEPTION_OV GENERAL_VECTOR).m_r 3
      = (example_state 0).m_r 3 :=
  ⟨⟨by decide, by decide⟩,
    (trapping_arithmetic example_softfloat (example_state 0) 0x00221820).1
      (by decide) (by decide),
    rfl, rfl⟩

/-- C3: ADDU (SPECIAL `0x21`) raises no exception and writes to `rd` the sign extension to
64 bits of `(low32(rs) + low32(rt)) mod 2 ^ 32`; nothing but `rd` changes. -/
theorem addu_wraps (sf : softfloat_t) (s : State) (op : Nat)
    (h0 : op >>> 26 = 0x00) (h1 : op &&& 0x3f = 0x21) :
    cpu_execute sf s op = Except.ok (s.set_r (RDREG op)
      (sign_extend_32 ((s.m_r (RSREG op) % 2 ^ 32 + s.m_r (RTREG op) % 2 ^ 32) % 2 ^ 32))) := by
  rw [cpu_execute_special sf s op h0]
  simp only [cpu_special, h1]
  rw [addu_value]

/-- Witness of C3: ADDU of `0x7fffffff` and `1` (`0x00221821`, `r3 = r1 + r2`) writes
`0xffffffff80000000` and leaves the branch state and Cause alone. -/
theorem addu_wraps_witness :
    (0x00221821 >>> 26 = 0x00 ∧ 0x00221821 &&& 0x3f = 0x21)
    ∧ cpu_execute example_softfloat (example_state 0) 0x00221821 = Except.ok
      ((example_state 0).set_r (RDREG 0x00221821)
        (sign_extend_32 (((example_state 0).m_r (RSREG 0x00221821) % 2 ^ 32
          + (example_state 0).m_r (RTREG 0x00221821) % 2 ^ 32) % 2 ^ 32)))
    ∧ ((example_state 0).set_r (RDREG 0x00221821)
        (sign_extend_32 (((example_state 0).m_r (RSREG 0x00221821) % 2 ^ 32
          + (example_state 0).m_r (RTREG 0x00221821) % 2 ^ 32) % 2 ^ 32))).m_r 3
      = 0xffffffff80000000 :=
  ⟨⟨by decide, by decide⟩,
    addu_wraps example_softfloat (example_state 0) 0x00221821 (by decide) (by decide),
    by decide⟩

/-! ## Division by zero -/

/-- A divide whose whole divisor register is zero performs no division: HI and LO keep
their values, no exception is raised, only the cycle budget is charged. -/
theorem divide_zero_register (sf : softfloat_t) (s : State) (op : Nat)
    (h0 : op >>> 26 = 0x00) (hrt : s.m_r (RTREG op) = 0) :
    (op &&& 0x3f = 0x1a ∨ op &&& 0x3f = 0x1b →
      cpu_execute sf s op = Except.ok { s with m_icount := s.m_icount - 35 })
    ∧ (op &&& 0x3f = 0x1e ∨ op &&& 0x3f = 0x1f →
      cpu_execute sf s op = Except.ok { s with m_icount := s.m_icount - 67 }) := by
  rw [cpu_execute_special sf s op h0]
  constructor
  · rintro (h | h) <;> simp only [cpu_special, h] <;>
      simp only [hrt, ne_eq, not_true_eq_false, if_false]
  · rintro (h | h) <;> simp only [cpu_special, h] <;>
      simp only [hrt, ne_eq, not_true_eq_false, if_false]

/-- The 32-bit divides reach the division with a zero divisor whenever the low 32 bits of
`rt` are zero and some upper bit is set. -/
theorem divide_32_zero_low_half (sf : softfloat_t) (s : State) (op : Nat)
    (h0 : op >>> 26 = 0x00) (h1 : op &&& 0x3f = 0x1a ∨ op &&& 0x3f = 0x1b)
    (hrt : s.m_r (RTREG op) ≠ 0) (hlow : s.m_r (RTREG op) % 2 ^ 32 = 0) :
    cpu_execute sf s op = Except.error host_fault.divide_error := by
  rw [cpu_execute_special sf s op h0]
  have hs : s32 (s.m_r (RTREG op)) = 0 := by unfold s32; omega
  have hu : u32 (s.m_r (RTREG op)) = 0 := by unfold u32; omega
  rcases h1 with h | h
  · have hc : checked_sdiv 32 (s32 (s.m_r (RSREG op))) (s32 (s.m_r (RTREG op)))
        = Except.error host_fault.divide_error := by
      simp only [checked_sdiv, hs, true_or, if_true]
    simp only [cpu_special, h]
    rw [if_pos hrt, hc]
    rfl
  · have hc : checked_udiv (u32 (s.m_r (RSREG op))) (u32 (s.m_r (RTREG op)))
        = Except.error host_fault.divide_error := by
      simp only [checked_udiv, hu, if_true]
    simp only [cpu_special, h]
    rw [if_pos hrt, hc]
    rfl

/-- C4 (the code at the failing input): with `rt = r5 = 0x100000000`, whose low 32 bits are
zero, DIV (`0x0025001a`) and DIVU (`0x0025001b`) pass the guard, which tests all 64 bits,
and divide by the zero 32-bit divisor. -/
theorem div_guard_tests_all_64_bits :
    u32 ((example_state 0).m_r (RTREG 0x0025001a)) = 0
    ∧ cpu_execute example_softfloat (example_state 0) 0x0025001a
      = Except.error host_fault.divide_error
    ∧ cpu_execute example_softfloat (example_state 0) 0x0025001b
      = Except.error host_fault.divide_error :=
  ⟨by decide, rfl, rfl⟩

/-! ## Reserved instructions -/

theorem cpu_execute_reserved_primary (sf : softfloat_t) (s : State) (op : Nat)
    (h : op >>> 26 ∈ [0x13, 0x1c, 0x1d, 0x1e, 0x1f, 0x33, 0x3b]) :
    cpu_execute sf s op = Except.ok (cpu_exception s EXCEPTION_RI GENERAL_VECTOR) := by
  simp only [List.mem_cons, List.mem_singleton, List.not_mem_nil, or_false] at h
  rcases h with h | h | h | h | h | h | h <;> simp only [cpu_execute, h]

theorem cpu_special_reserved (s : State) (op : Nat)
    (h : op &&& 0x3f ∈ [0x01, 0x05, 0x0a, 0x0b, 0x0e, 0x15, 0x28, 0x29, 0x35, 0x37, 0x39, 0x3d]) :
    cpu_special s op = Except.ok (cpu_exception s EXCEPTION_RI GENERAL_VECTOR) := by
  simp only [List.mem_cons, List.mem_singleton, List.not_mem_nil, or_false] at h
  rcases h with h | h | h | h | h | h | h | h | h | h | h | h <;> simp only [cpu_special, h]

theorem cpu_regimm_reserved (s : State) (op : Nat)
    (h : (op >>> 16) &&& 0x1f ∈ [0x04, 0x05, 0x06, 0x07, 0x0d, 0x0f, 0x14, 0x15, 0x16, 0x17,
      0x18, 0x19, 0x1a, 0x1b, 0x1c, 0x1d, 0x1e, 0x1f]) :
    cpu_regimm s op = cpu_exception s EXCEPTION_RI GENERAL_VECTOR := by
  simp only [List.mem_cons, List.mem_singleton, List.not_mem_nil, or_false] at h
  rcases h with h | h | h | h | h | h | h | h | h | h | h | h | h | h | h | h | h | h <;>
    simp only [cpu_regimm, h]

/-- C5: an instruction word with an unassigned primary opcode, an unassigned SPECIAL
function code or an unassigned REGIMM rt code raises the reserved-instruction exception: the
exception code of Cause is RI, the branch state is EXCEPTION, the program counter is the
general exception vector (boot or normal base by Status.BEV), and the general registers, HI,
LO, the floating-point registers and the TLB are unchanged. -/
theorem reserved_instruction (sf : softfloat_t) (s : State) (op : Nat)
    (h : reserved_opcode op) :
    cpu_execute sf s op = Except.ok (cpu_exception s EXCEPTION_RI GENERAL_VECTOR)
    ∧ (cpu_exception s EXCEPTION_RI GENERAL_VECTOR).CAUSE &&& CAUSE_EXCCODE = EXCEPTION_RI
    ∧ (cpu_exception s EXCEPTION_RI GENERAL_VECTOR).m_branch_state = branch_state_t.EXCEPTION
    ∧ (cpu_exception s EXCEPTION_RI GENERAL_VECTOR).m_pc
      = (if s.SR &&& SR_BEV ≠ 0 then 0xffffffffbfc00380 else 0xffffffff80000180)
    ∧ (cpu_exception s EXCEPTION_RI GENERAL_VECTOR).m_r = s.m_r
    ∧ (cpu_exception s EXCEPTION_RI GENERAL_VECTOR).m_hi = s.m_hi
    ∧ (cpu_exception s EXCEPTION_RI GENERAL_VECTOR).m_lo = s.m_lo
    ∧ (cpu_exception s EXCEPTION_RI GENERAL_VECTOR).m_f = s.m_f
    ∧ (cpu_exception s EXCEPTION_RI GENERAL_VECTOR).m_tlb = s.m_tlb := by
  have hf := cpu_exception_frame s EXCEPTION_RI GENERAL_VECTOR
  refine ⟨?_, ?_, rfl, ?_, hf.1, hf.2.1, hf.2.2.1, hf.2.2.2.1, hf.2.2.2.2.1⟩
  · rcases h with h | ⟨h0, h⟩ | ⟨h0, h⟩
    · exact cpu_execute_reserved_primary sf s op h
    · rw [cpu_execute_special sf s op h0]; exact cpu_special_reserved s op h
    · rw [cpu_execute_regimm sf s op h0, cpu_regimm_reserved s op h]
  · rw [cpu_exception_exccode]; decide
  · rw [cpu_exception_m_pc]
    split <;> decide

/-- Witness of C5: the word `0x4c000000`, primary opcode `0x13`. -/
theorem reserved_instruction_witness :
    reserved_opcode 0x4c000000
    ∧ cpu_execute example_softfloat (example_state 0) 0x4c000000
      = Except.ok (cpu_exception (example_state 0) EXCEPTION_RI GENERAL_VECTOR)
    ∧ (cpu_exception (example_state 0) EXCEPTION_RI GENERAL_VECTOR).CAUSE &&& CAUSE_EXCCODE
      = EXCEPTION_RI
    ∧ (cpu_exception (example_state 0) EXCEPTION_RI GENERAL_VECTOR).m_pc = 0xffffffff80000180 :=
  ⟨by decide,
    (reserved_instruction example_softfloat (example_state 0) 0x4c000000 (by decide)).1,
    by decide, by decide⟩

/-! ## Translation -/

theorem testBit_not64 (x i : Nat) :
    Nat.testBit (not64 x) i = (decide (i < 64) && !Nat.testBit x i) := by
  unfold not64
  have h : x % 2 ^ 64 < 2 ^ 64 := Nat.mod_lt _ (by decide)
  have := Nat.testBit_two_pow_sub_succ h i
  rw [show 2 ^ 64 - (x % 2 ^ 64 + 1) = 0xffffffffffffffff - x % 2 ^ 64 by omega] at this
  rw [this, Nat.testBit_mod_two_pow]
  by_cases hi : i < 64 <;> simp [hi]

theorem or_and_self_right (a b : Nat) : (a ||| b) &&& b = b := by
  apply Nat.eq_of_testBit_eq
  intro i
  simp only [Nat.testBit_and, Nat.testBit_or]
  cases Nat.testBit a i <;> cases Nat.testBit b i <;> rfl

theorem and_low12_of_and_mask (x y m : Nat) (h : x &&& (m ||| 0xfff) = y &&& (m ||| 0xfff)) :
    x &&& 0xfff = y &&& 0xfff := by
  have hx : x &&& 0xfff = (x &&& (m ||| 0xfff)) &&& 0xfff := by
    rw [Nat.and_assoc, or_and_self_right]
  have hy : y &&& 0xfff = (y &&& (m ||| 0xfff)) &&& 0xfff := by
    rw [Nat.and_assoc, or_and_self_right]
  rw [hx, hy, h]

theorem testBit_EL_PFN_low (j : Nat) (hj : j < 6) : Nat.testBit EL_PFN j = false := by
  interval_cases j <;> decide

/-- Substituting the frame bits leaves the bits of the page offset alone. -/
theorem frame_substitution (a mask pfn : Nat) :
    ((a &&& ((mask >>> 1) ||| 0xfff)) ||| (((pfn &&& EL_PFN) <<< 6) &&& not64 (mask >>> 1)))
        &&& ((mask >>> 1) ||| 0xfff)
      = a &&& ((mask >>> 1) ||| 0xfff) := by
  apply Nat.eq_of_testBit_eq
  intro i
  simp only [Nat.testBit_and, Nat.testBit_or, testBit_not64, Nat.testBit_shiftLeft,
    show (0xfff : Nat) = 2 ^ 12 - 1 from rfl, Nat.testBit_two_pow_sub_one]
  by_cases hm : Nat.testBit (mask >>> 1) i
  · simp [hm]
  · by_cases h12 : i < 12
    · by_cases h6 : 6 ≤ i
      · have : Nat.testBit EL_PFN (i - 6) = false := testBit_EL_PFN_low _ (by omega)
        simp [hm, h12, h6, this]
      · simp [hm, h12, h6]
    · simp [hm, h12]

theorem tlb_lookup_hit (s : State) (intention address : Nat) (extended : Bool)
    (index pfn : Nat)
    (h : tlb_scan s intention address
          ((address &&& (if extended then EH_R ||| EH_VPN2_64 else EH_VPN2_32))
            ||| (s.m_cp0 CP0_EntryHi &&& EH_ASID)) extended TLB_SIZE = scan_t.hit index pfn) :
    tlb_lookup s intention address extended
      = (if pfn &&& EL_C = C_2 then translate_t.UNCACHED else translate_t.CACHED,
        (address &&& (((s.m_tlb index).mask >>> 1) ||| 0xfff))
          ||| (((pfn &&& EL_PFN) <<< 6) &&& not64 ((s.m_tlb index).mask >>> 1)),
        { s with m_last := fun j =>
          if j = intention &&& TRANSLATE_TYPE_MASK then index else s.m_last j }) := by
  unfold tlb_lookup
  simp only [h]

theorem tlb_lookup_not_hit (s : State) (intention address : Nat) (extended : Bool)
    (h : ∀ index pfn, tlb_scan s intention address
          ((address &&& (if extended then EH_R ||| EH_VPN2_64 else EH_VPN2_32))
            ||| (s.m_cp0 CP0_EntryHi &&& EH_ASID)) extended TLB_SIZE ≠ scan_t.hit index pfn) :
    (tlb_lookup s intention address extended).1 = translate_t.MISS := by
  unfold tlb_lookup
  dsimp only
  split
  · rename_i index pfn hs
    exact absurd hs (h index pfn)
  · split_ifs <;> rfl

theorem tlb_lookup_success (s : State) (intention address : Nat) (extended : Bool)
    (r : translate_t) (a' : Nat) (s1 : State)
    (h : tlb_lookup s intention address extended = (r, a', s1))
    (hr : r = translate_t.CACHED ∨ r = translate_t.UNCACHED) :
    ∃ index pfn,
      tlb_scan s intention address
          ((address &&& (if extended then EH_R ||| EH_VPN2_64 else EH_VPN2_32))
            ||| (s.m_cp0 CP0_EntryHi &&& EH_ASID)) extended TLB_SIZE = scan_t.hit index pfn
      ∧ a' = (address &&& (((s.m_tlb index).mask >>> 1) ||| 0xfff))
          ||| (((pfn &&& EL_PFN) <<< 6) &&& not64 ((s.m_tlb index).mask >>> 1))
      ∧ s1 = { s with m_last := fun j =>
          if j = intention &&& TRANSLATE_TYPE_MASK then index else s.m_last j } := by
  by_cases hh : ∃ index pfn, tlb_scan s intention address
          ((address &&& (if extended then EH_R ||| EH_VPN2_64 else EH_VPN2_32))
            ||| (s.m_cp0 CP0_EntryHi &&& EH_ASID)) extended TLB_SIZE = scan_t.hit index pfn
  · obtain ⟨index, pfn, hs⟩ := hh
    rw [tlb_lookup_hit s intention address extended index pfn hs] at h
    refine ⟨index, pfn, hs, ?_, ?_⟩
    · exact (congrArg (fun x => x.2.1) h).symm
    · exact (congrArg (fun x => x.2.2) h).symm
  · exfalso
    have := tlb_lookup_not_hit s intention address extended
      (fun index pfn hs => hh ⟨index, pfn, hs⟩)
    rw [h] at this
    dsimp only at this
    rcases hr with hr | hr <;> rw [hr] at this <;> cases this

theorem translate_cases (s : State) (intention address : Nat) :
    translate_shape s intention address (translate s intention address) := by
  unfold translate
  repeat' split
  all_goals first
    | exact Or.inl ⟨_, rfl⟩
    | exact Or.inr (Or.inl rfl)
    | exact Or.inr (Or.inr (Or.inl rfl))
    | exact Or.inr (Or.inr (Or.inr (Or.inl rfl)))
    | exact Or.inr (Or.inr (Or.inr (Or.inr (Or.inl rfl))))
    | exact Or.inr (Or.inr (Or.inr (Or.inr (Or.inr rfl))))

/-- C10: whenever `translate` returns CACHED or UNCACHED the physical address agrees with
the input address on the low 12 bits; the result either comes from an unmapped segment
(state unchanged, address masked to the segment size or untouched) or from a TLB hit on an
entry `e = m_tlb[index]`, and then it agrees with the input on every bit of
`(e.mask >> 1) | 0xfff`. -/
theorem translate_page_offset (s : State) (intention address : Nat)
    (r : translate_t) (a' : Nat) (s1 : State)
    (h : translate s intention address = (r, a', s1))
    (hr : r = translate_t.CACHED ∨ r = translate_t.UNCACHED) :
    a' &&& 0xfff = address &&& 0xfff
    ∧ ((s1 = s ∧ (a' = address ∨ a' = address &&& 0x0000000fffffffff
          ∨ a' = address &&& 0x7fffffff ∨ a' = address &&& 0x1fffffff))
      ∨ ∃ extended index pfn,
          tlb_scan s intention address
            ((address &&& (if extended then EH_R ||| EH_VPN2_64 else EH_VPN2_32))
              ||| (s.m_cp0 CP0_EntryHi &&& EH_ASID)) extended TLB_SIZE = scan_t.hit index pfn
          ∧ a' &&& (((s.m_tlb index).mask >>> 1) ||| 0xfff)
            = address &&& (((s.m_tlb index).mask >>> 1) ||| 0xfff)) := by
  have hc := translate_cases s intention address
  rw [h] at hc
  rcases hc with ⟨extended, hl⟩ | hc | hc | hc | hc | hc
  · obtain ⟨index, pfn, hs, ha, -⟩ :=
      tlb_lookup_success s intention address extended r a' s1 hl.symm hr
    have hm := frame_substitution address (s.m_tlb index).mask pfn
    rw [← ha] at hm
    exact ⟨and_low12_of_and_mask _ _ _ hm, Or.inr ⟨extended, index, pfn, hs, hm⟩⟩
  · exfalso
    have := congrArg (fun x => x.1) hc
    dsimp only at this
    rcases hr with hr | hr <;> rw [hr] at this <;> cases this
  · have ha : a' = address := congrArg (fun x => x.2.1) hc
    have hs : s1 = s := congrArg (fun x => x.2.2) hc
    exact ⟨by rw [ha], Or.inl ⟨hs, Or.inl ha⟩⟩
  · have ha : a' = address &&& 0x0000000fffffffff := congrArg (fun x => x.2.1) hc
    have hs : s1 = s := congrArg (fun x => x.2.2) hc
    refine ⟨?_, Or.inl ⟨hs, Or.inr (Or.inl ha)⟩⟩
    rw [ha, Nat.and_assoc, show (0x0000000fffffffff &&& 0xfff : Nat) = 0xfff by decide]
  · have ha : a' = address &&& 0x7fffffff := congrArg (fun x => x.2.1) hc
    have hs : s1 = s := congrArg (fun x => x.2.2) hc
    refine ⟨?_, Or.inl ⟨hs, Or.inr (Or.inr (Or.inl ha))⟩⟩
    rw [ha, Nat.and_assoc, show (0x7fffffff &&& 0xfff : Nat) = 0xfff by decide]
  · have ha : a' = address &&& 0x1fffffff := congrArg (fun x => x.2.1) hc
    have hs : s1 = s := congrArg (fun x => x.2.2) hc
    refine ⟨?_, Or.inl ⟨hs, Or.inr (Or.inr (Or.inr ha))⟩⟩
    rw [ha, Nat.and_assoc, show (0x1fffffff &&& 0xfff : Nat) = 0xfff by decide]

/-- Witness of C10: a read of the mapped address `0x1234`, in the odd page of TLB entry 0, yields the
physical address `0x12346234`. -/
theorem translate_page_offset_witness :
    translate example_tlb_state TRANSLATE_READ 0x1234
      = (translate_t.CACHED, 0x12346234,
        { example_tlb_state with m_last := fun j =>
          if j = TRANSLATE_READ &&& TRANSLATE_TYPE_MASK then 0 else example_tlb_state.m_last j })
    ∧ (0x12346234 : Nat) &&& 0xfff = 0x1234 &&& 0xfff :=
  ⟨rfl, (translate_page_offset example_tlb_state TRANSLATE_READ 0x1234 translate_t.CACHED
    0x12346234 _ rfl (Or.inl rfl)).1⟩

/-! ## TLB instructions -/

theorem u8_of_lt (x : Nat) (h : x < 256) : u8 x = x := by
  unfold u8; omega

/-- C9: for an index `i` below the TLB size, Write-Indexed at `i` followed by Read with
Index selecting `i` leaves PageMask, EntryLo0 and EntryLo1 (with their G bits) equal to the
values written, and EntryHi equal to the value written with the global flag of the entry
added when both G bits were set: its VPN2, region and ASID fields are the ones written. -/
theorem tlb_write_read_roundtrip (s : State) (i : Nat) (hi : i < TLB_SIZE)
    (hidx : s.m_cp0 CP0_Index &&& 0x3f = i) :
    (cp0_tlbr (cp0_tlbwi s i)).m_cp0 CP0_PageMask = s.m_cp0 CP0_PageMask
    ∧ (cp0_tlbr (cp0_tlbwi s i)).m_cp0 CP0_EntryLo0 = s.m_cp0 CP0_EntryLo0
    ∧ (cp0_tlbr (cp0_tlbwi s i)).m_cp0 CP0_EntryLo1 = s.m_cp0 CP0_EntryLo1
    ∧ (cp0_tlbr (cp0_tlbwi s i)).m_cp0 CP0_EntryHi
      = (if s.m_cp0 CP0_EntryLo0 &&& EL_G ≠ 0 ∧ s.m_cp0 CP0_EntryLo1 &&& EL_G ≠ 0
          then s.m_cp0 CP0_EntryHi ||| EH_G else s.m_cp0 CP0_EntryHi)
    ∧ (cp0_tlbr (cp0_tlbwi s i)).m_cp0 CP0_EntryHi &&& (EH_R ||| EH_VPN2_64 ||| EH_ASID)
      = s.m_cp0 CP0_EntryHi &&& (EH_R ||| EH_VPN2_64 ||| EH_ASID)
    ∧ (cp0_tlbr (cp0_tlbwi s i)).m_cp0 CP0_EntryHi &&& (EH_VPN2_32 ||| EH_ASID)
      = s.m_cp0 CP0_EntryHi &&& (EH_VPN2_32 ||| EH_ASID) := by
  have hcp0 : (cp0_tlbwi s i).m_cp0 = s.m_cp0 := by
    unfold cp0_tlbwi
    split <;> rfl
  have he : (cp0_tlbwi s i).m_tlb i =
      ⟨s.m_cp0 CP0_PageMask,
        if s.m_cp0 CP0_EntryLo0 &&& EL_G ≠ 0 ∧ s.m_cp0 CP0_EntryLo1 &&& EL_G ≠ 0
          then s.m_cp0 CP0_EntryHi ||| EH_G else s.m_cp0 CP0_EntryHi,
        s.m_cp0 CP0_EntryLo0, s.m_cp0 CP0_EntryLo1,
        32 - count_leading_zeros ((s.m_cp0 CP0_PageMask >>> 1) ||| 0xfff)⟩ := by
    unfold cp0_tlbwi
    rw [if_pos hi]
    simp only [if_true]
  have hu : u8 (s.m_cp0 CP0_Index &&& 0x3f : Nat) = i := by
    rw [hidx]
    exact u8_of_lt i (by unfold TLB_SIZE at hi; omega)
  have hr : ∀ j, (cp0_tlbr (cp0_tlbwi s i)).m_cp0 j
      = if j = CP0_EntryLo1 then ((cp0_tlbwi s i).m_tlb i).pfn true
        else if j = CP0_EntryLo0 then ((cp0_tlbwi s i).m_tlb i).pfn false
        else if j = CP0_EntryHi then ((cp0_tlbwi s i).m_tlb i).vpn
        else if j = CP0_PageMask then ((cp0_tlbwi s i).m_tlb i).mask
        else s.m_cp0 j := by
    intro j
    unfold cp0_tlbr
    simp only [hcp0, hu, if_pos hi, State.set_cp0]
  have h1 : (cp0_tlbr (cp0_tlbwi s i)).m_cp0 CP0_PageMask = s.m_cp0 CP0_PageMask := by
    rw [hr, he]
    rw [if_neg (by decide), if_neg (by decide), if_neg (by decide), if_pos rfl]
  have h2 : (cp0_tlbr (cp0_tlbwi s i)).m_cp0 CP0_EntryLo0 = s.m_cp0 CP0_EntryLo0 := by
    rw [hr, he]
    rw [if_neg (by decide), if_pos rfl]
    rfl
  have h3 : (cp0_tlbr (cp0_tlbwi s i)).m_cp0 CP0_EntryLo1 = s.m_cp0 CP0_EntryLo1 := by
    rw [hr, he]
    rw [if_pos rfl]
    rfl
  have h4 : (cp0_tlbr (cp0_tlbwi s i)).m_cp0 CP0_EntryHi
      = (if s.m_cp0 CP0_EntryLo0 &&& EL_G ≠ 0 ∧ s.m_cp0 CP0_EntryLo1 &&& EL_G ≠ 0
          then s.m_cp0 CP0_EntryHi ||| EH_G else s.m_cp0 CP0_EntryHi) := by
    rw [hr, he]
    rw [if_neg (by decide), if_neg (by decide), if_pos rfl]
  refine ⟨h1, h2, h3, h4, ?_, ?_⟩
  · rw [h4]
    split
    · rw [and_or_right, show EH_G &&& (EH_R ||| EH_VPN2_64 ||| EH_ASID) = 0 by decide,
        Nat.or_zero]
    · rfl
  · rw [h4]
    split
    · rw [and_or_right, show EH_G &&& (EH_VPN2_32 ||| EH_ASID) = 0 by decide, Nat.or_zero]
    · rfl

/-- Witness of C9: writing entry 5 from the registers of `example_tlbw_state` and reading it
back returns EntryHi with the global flag added, `0x12349045`, and the other registers
as written. -/
theorem tlb_write_read_roundtrip_witness :
    (5 < TLB_SIZE ∧ example_tlbw_state.m_cp0 CP0_Index &&& 0x3f = 5)
    ∧ (cp0_tlbr (cp0_tlbwi example_tlbw_state 5)).m_cp0 CP0_PageMask = 0x6000
    ∧ (cp0_tlbr (cp0_tlbwi example_tlbw_state 5)).m_cp0 CP0_EntryHi = 0x12349045
    ∧ (cp0_tlbr (cp0_tlbwi example_tlbw_state 5)).m_cp0 CP0_EntryHi
        &&& (EH_R ||| EH_VPN2_64 ||| EH_ASID)
      = example_tlbw_state.m_cp0 CP0_EntryHi &&& (EH_R ||| EH_VPN2_64 ||| EH_ASID) :=
  ⟨⟨by decide, by decide⟩, by decide, by decide,
    (tlb_write_read_roundtrip example_tlbw_state 5 (by decide) (by decide)).2.2.2.2.1⟩

/-! ## The control state across an instruction -/

theorem ctl_ok.refl (s : State) : ctl_ok s s := ⟨rfl, Or.inr ⟨rfl, rfl⟩⟩

theorem ctl_ok.trans {a b c : State} (h1 : ctl_ok a b) (h2 : ctl_ok b c) : ctl_ok a c := by
  obtain ⟨t1, c1⟩ := h1
  obtain ⟨t2, c2⟩ := h2
  refine ⟨t2.trans t1, ?_⟩
  rcases c2 with e2 | ⟨p2, b2⟩
  · exact Or.inl e2
  · rcases c1 with e1 | ⟨p1, b1⟩
    · exact Or.inl (b2.trans e1)
    · exact Or.inr ⟨p2.trans p1, b2.trans b1⟩

theorem ctl_ok_exception (s : State) (e v : Nat) : ctl_ok s (cpu_exception s e v) :=
  ⟨(cpu_exception_frame s e v).2.2.2.2.2.2.2.2.1, Or.inl rfl⟩

theorem ctl_ok_exception_of {s s' : State} (h : ctl_ok s s') (e v : Nat) :
    ctl_ok s (cpu_exception s' e v) :=
  h.trans (ctl_ok_exception s' e v)

theorem ctl_ok_set_cp0 {s s' : State} (h : ctl_ok s s') (i v : Nat) :
    ctl_ok s (s'.set_cp0 i v) := h

theorem ctl_ok_set_r {s s' : State} (h : ctl_ok s s') (i v : Nat) :
    ctl_ok s (s'.set_r i v) := h

theorem ctl_ok_set_f {s s' : State} (h : ctl_ok s s') (i v : Nat) :
    ctl_ok s (s'.set_f i v) := h

theorem ctl_ok_address_error (s : State) (i a : Nat) : ctl_ok s (address_error s i a) := by
  unfold address_error
  split
  · apply ctl_ok_exception_of
    split
    · exact ctl_ok_set_cp0 (ctl_ok.refl s) _ _
    · exact ctl_ok.refl s
  · exact ctl_ok.refl s

theorem ctl_ok_address_error_of {s s' : State} (h : ctl_ok s s') (i a : Nat) :
    ctl_ok s (address_error s' i a) :=
  h.trans (ctl_ok_address_error s' i a)

theorem ctl_ok_tlb_lookup (s : State) (i a : Nat) (ext : Bool) :
    ctl_ok s (tlb_lookup s i a ext).2.2 := by
  unfold tlb_lookup
  dsimp only
  split
  · exact ⟨rfl, Or.inr ⟨rfl, rfl⟩⟩
  · split_ifs
    all_goals first
      | exact ctl_ok.refl s
      | (apply ctl_ok_exception_of
         iterate 4 apply ctl_ok_set_cp0
         exact ctl_ok.refl s)

theorem ctl_ok_translate (s : State) (i a : Nat) : ctl_ok s (translate s i a).2.2 := by
  rcases translate_cases s i a with ⟨ext, h⟩ | h | h | h | h | h
  · rw [h]; exact ctl_ok_tlb_lookup s i a ext
  all_goals rw [h]; exact ctl_ok.refl s

theorem ctl_ok_load (s : State) (n a : Nat) : ctl_ok s (load s n a).2 := by
  unfold load
  split
  · exact ctl_ok_address_error _ _ _
  · have ht := ctl_ok_translate s TRANSLATE_READ a
    split
    · rename_i heq
      rw [heq] at ht
      exact ctl_ok_address_error_of ht _ _
    · rename_i heq
      rw [heq] at ht
      exact ht
    · rename_i heq
      rw [heq] at ht
      split
      · exact ctl_ok_exception_of ht _ _
      · exact ht

theorem ctl_ok_load_linked (s : State) (n a : Nat) : ctl_ok s (load_linked s n a).2 := by
  unfold load_linked
  split
  · exact ctl_ok_address_error _ _ _
  · have ht := ctl_ok_translate s TRANSLATE_READ a
    split
    · rename_i heq
      rw [heq] at ht
      exact ctl_ok_address_error_of ht _ _
    · rename_i heq
      rw [heq] at ht
      exact ht
    · rename_i heq
      rw [heq] at ht
      split
      · exact ctl_ok_exception_of ht _ _
      · exact ht

theorem ctl_ok_bus_write (s : State) (n a d m : Nat) : ctl_ok s (bus_write s n a d m) := by
  unfold bus_write
  dsimp only
  split
  · split <;> exact ⟨rfl, Or.inr ⟨rfl, rfl⟩⟩
  · exact ⟨rfl, Or.inr ⟨rfl, rfl⟩⟩

theorem ctl_ok_store (s : State) (n a d m : Nat) : ctl_ok s (store s n a d m).2 := by
  unfold store
  split
  · exact ctl_ok_address_error _ _ _
  · have ht := ctl_ok_translate s TRANSLATE_WRITE a
    split
    · rename_i heq
      rw [heq] at ht
      exact ctl_ok_address_error_of ht _ _
    · rename_i heq
      rw [heq] at ht
      exact ht
    · rename_i heq
      rw [heq] at ht
      split
      · exact ctl_ok_exception_of ht _ _
      · exact ctl_ok.trans ht (ctl_ok_bus_write _ _ _ _ _)

theorem ctl_ok_fetch (s : State) (a : Nat) : ctl_ok s (fetch s a).2 := by
  unfold fetch
  split
  · exact ctl_ok_address_error _ _ _
  · have ht := ctl_ok_translate s TRANSLATE_FETCH a
    split
    · rename_i heq
      rw [heq] at ht
      exact ctl_ok_address_error_of ht _ _
    · rename_i heq
      rw [heq] at ht
      exact ht
    · rename_i heq
      rw [heq] at ht
      exact ht

theorem ctl_ok_eq {s a b : State} (h : ctl_ok s a)
    (hbt : b.m_branch_target = a.m_branch_target)
    (hbs : b.m_branch_state = a.m_branch_state) (hpc : b.m_pc = a.m_pc) : ctl_ok s b := by
  unfold ctl_ok at *
  rw [hbt, hbs, hpc]
  exact h

theorem ctl_ok_mode_check {s s' : State} (h : ctl_ok s s') : ctl_ok s (cp0_mode_check s') := by
  unfold cp0_mode_check
  split_ifs <;> exact h

theorem ctl_ok_update_timer {s s' : State} (h : ctl_ok s s') (b : Bool) :
    ctl_ok s (cp0_update_timer s' b) := by
  unfold cp0_update_timer
  split_ifs <;> exact h

theorem ctl_ok_cp0_set (s : State) (reg data : Nat) (s' : State)
    (h : cp0_set s reg data = Except.ok s') : ctl_ok s s' := by
  unfold cp0_set at h
  dsimp only at h
  split_ifs at h
  all_goals cases h
  all_goals first
    | exact ctl_ok.refl s
    | exact ctl_ok_set_cp0 (ctl_ok.refl s) _ _
    | exact ctl_ok_eq (ctl_ok.refl s) rfl rfl rfl
    | (apply ctl_ok_update_timer; exact ctl_ok_eq (ctl_ok.refl s) rfl rfl rfl)
    | (apply ctl_ok_mode_check; exact ctl_ok_eq (ctl_ok.refl s) rfl rfl rfl)

theorem ctl_ok_cp0_tlbr (s : State) : ctl_ok s (cp0_tlbr s) := by
  unfold cp0_tlbr
  dsimp only
  split
  · iterate 4 apply ctl_ok_set_cp0
    exact ctl_ok.refl s
  · exact ctl_ok.refl s

theorem ctl_ok_cp0_tlbwi (s : State) (i : Nat) : ctl_ok s (cp0_tlbwi s i) := by
  unfold cp0_tlbwi
  split
  · exact ⟨rfl, Or.inr ⟨rfl, rfl⟩⟩
  · exact ctl_ok.refl s

theorem ctl_ok_cp0_tlbwr (s : State) : ctl_ok s (cp0_tlbwr s) :=
  ctl_ok_cp0_tlbwi s _

theorem ctl_ok_cp0_tlbp (s : State) : ctl_ok s (cp0_tlbp s) := by
  unfold cp0_tlbp
  split <;> exact ctl_ok_set_cp0 (ctl_ok.refl s) _ _

theorem ctl_ok_eret (s : State) (pc i v : Nat) :
    ctl_ok s (({ s with m_branch_state := branch_state_t.EXCEPTION
                        m_pc := pc }).set_cp0 i v) :=
  ⟨rfl, Or.inl rfl⟩

section control_frame

attribute [local irreducible] cpu_exception cp0_mode_check cp0_set cp0_tlbr cp0_tlbwi cp0_tlbwr
  cp0_tlbp load store load_linked fetch address_error translate

theorem ctl_ok_cp0_execute (s : State) (op : Nat) (s' : State)
    (h : cp0_execute s op = Except.ok s') : ctl_ok s s' := by
  unfold cp0_execute at h
  split at h
  · cases h
    exact ctl_ok_exception s _ _
  · split at h
    all_goals first
      | exact ctl_ok_cp0_set _ _ _ _ h
      | (cases h; first
          | exact ctl_ok.refl s
          | exact ctl_ok_exception s _ _)
      | (split at h <;> first
          | exact ctl_ok_cp0_set _ _ _ _ h
          | (cases h; first
              | exact ctl_ok.refl s
              | exact ctl_ok_exception s _ _
              | exact ctl_ok_set_r (ctl_ok.refl s) _ _
              | exact ctl_ok_cp0_tlbr s
              | exact ctl_ok_cp0_tlbwi s _
              | exact ctl_ok_cp0_tlbwr s
              | exact ctl_ok_cp0_tlbp s
              | (unfold ctl_ok
                 dsimp only
                 refine ctl_ok_mode_check ?_
                 split <;> exact ctl_ok_eret s _ _ _)))

theorem ctl_ok_set_C {s s' : State} (h : ctl_ok s s') (c : Bool) : ctl_ok s (s'.set_C c) := by
  unfold State.set_C
  split <;> exact h

theorem ctl_ok_signal_invalid {s s' : State} (h : ctl_ok s s') :
    ctl_ok s s'.signal_invalid := by
  unfold State.signal_invalid
  split
  · apply ctl_ok_exception_of
    exact h
  · exact h

theorem ctl_ok_ite_fcr31 {s a : State} (h : ctl_ok s a) (c : Prop) [Decidable c] (v : Nat) :
    ctl_ok s (if c then { a with m_fcr31 := v } else a) := by
  split <;> exact h

theorem ctl_ok_cp1_set {s s' : State} (h : ctl_ok s s') (reg data : Nat) :
    ctl_ok s (cp1_set s' reg data) := by
  unfold cp1_set
  split
  · lift_lets
    intro s1 s2 s3 s4 s5
    have h1 : ctl_ok s s1 := ctl_ok_ite_fcr31 h _ _
    have h2 : ctl_ok s s2 := ctl_ok_ite_fcr31 h1 _ _
    have h3 : ctl_ok s s3 := ctl_ok_ite_fcr31 h2 _ _
    have h4 : ctl_ok s s4 := ctl_ok_ite_fcr31 h3 _ _
    have h5 : ctl_ok s s5 := ctl_ok_ite_fcr31 h4 _ _
    split
    · exact ctl_ok_exception_of h5 _ _
    · apply ctl_ok_set_f
      exact h5
  · exact h

theorem ctl_ok_cp1_unimplemented {s s' : State} (h : ctl_ok s s') :
    ctl_ok s (cp1_unimplemented s') := by
  unfold cp1_unimplemented
  apply ctl_ok_exception_of
  exact h

attribute [local irreducible] cp1_set State.signal_invalid State.set_C cp1_unimplemented
  State.set_f

theorem ctl_ok_cp1_s (sf : softfloat_t) (s : State) (op : Nat) : ctl_ok s (cp1_s sf s op) := by
  unfold cp1_s
  dsimp only [State.sf]
  repeat' split
  all_goals
    repeat (first
      | exact ctl_ok.refl s
      | apply ctl_ok_cp1_set
      | apply ctl_ok_signal_invalid
      | apply ctl_ok_set_C
      | apply ctl_ok_set_f
      | apply ctl_ok_exception_of
      | apply ctl_ok_cp1_unimplemented)
theorem ctl_ok_cp1_d (sf : softfloat_t) (s : State) (op : Nat) : ctl_ok s (cp1_d sf s op) := by
  unfold cp1_d
  dsimp only [State.sf]
  repeat' split
  all_goals
    repeat (first
      | exact ctl_ok.refl s
      | apply ctl_ok_cp1_set
      | apply ctl_ok_signal_invalid
      | apply ctl_ok_set_C
      | apply ctl_ok_set_f
      | apply ctl_ok_exception_of
      | apply ctl_ok_cp1_unimplemented)
theorem ctl_ok_cp1_w (sf : softfloat_t) (s : State) (op : Nat) : ctl_ok s (cp1_w sf s op) := by
  unfold cp1_w
  dsimp only [State.sf]
  repeat' split
  all_goals
    repeat (first
      | exact ctl_ok.refl s
      | apply ctl_ok_cp1_set
      | apply ctl_ok_signal_invalid
      | apply ctl_ok_set_C
      | apply ctl_ok_set_f
      | apply ctl_ok_exception_of
      | apply ctl_ok_cp1_unimplemented)
theorem ctl_ok_cp1_l (sf : softfloat_t) (s : State) (op : Nat) : ctl_ok s (cp1_l sf s op) := by
  unfold cp1_l
  dsimp only [State.sf]
  repeat' split
  all_goals
    repeat (first
      | exact ctl_ok.refl s
      | apply ctl_ok_cp1_set
      | apply ctl_ok_signal_invalid
      | apply ctl_ok_set_C
      | apply ctl_ok_set_f
      | apply ctl_ok_exception_of
      | apply ctl_ok_cp1_unimplemented)

theorem ctl_step_of_ok {s s' : State} (h : ctl_ok s s') : ctl_step s s' := by
  obtain ⟨ht, hc⟩ := h
  refine ⟨Or.inr ht, ?_⟩
  rcases hc with he | ⟨hp, -⟩
  · exact Or.inl he
  · exact Or.inr hp

theorem ctl_step_branch (s : State) (op : Nat) : ctl_step s (s.branch op) :=
  ⟨Or.inl rfl, Or.inr rfl⟩

theorem ctl_step_nullify (s : State) : ctl_step s s.nullify :=
  ⟨Or.inr rfl, Or.inr rfl⟩

theorem ctl_step_jump (s : State) (t : Nat) :
    ctl_step s { s with m_branch_state := branch_state_t.BRANCH, m_branch_target := t } :=
  ⟨Or.inl rfl, Or.inr rfl⟩

theorem ctl_step_set_r {s s' : State} (h : ctl_step s s') (i v : Nat) :
    ctl_step s (s'.set_r i v) := h

theorem ctl_step_congr {s a x : State} (h : ctl_step a x)
    (ht : a.m_branch_target = s.m_branch_target) (hp : a.m_pc = s.m_pc) : ctl_step s x := by
  unfold ctl_step at *
  rw [← ht, ← hp]
  exact h

theorem ctl_ok_load_eq {s s1 : State} {n a : Nat} {r : Option Nat}
    (h : load s n a = (r, s1)) : ctl_ok s s1 := by
  have := ctl_ok_load s n a
  rw [h] at this
  exact this

theorem ctl_ok_load_linked_eq {s s1 : State} {n a : Nat} {r : Option (Nat × Nat)}
    (h : load_linked s n a = (r, s1)) : ctl_ok s s1 := by
  have := ctl_ok_load_linked s n a
  rw [h] at this
  exact this

theorem ctl_ok_store_eq {s s1 : State} {n a d m : Nat} {r : Bool}
    (h : store s n a d m = (r, s1)) : ctl_ok s s1 := by
  have := ctl_ok_store s n a d m
  rw [h] at this
  exact this

theorem ctl_ok_cp2_execute (s : State) (op : Nat) : ctl_ok s (cp2_execute s op) := by
  unfold cp2_execute
  repeat' split
  all_goals first
    | exact ctl_ok.refl s
    | exact ctl_ok_exception s _ _

theorem ctl_ok_cpu_lwl (s : State) (op : Nat) : ctl_ok s (cpu_lwl s op) := by
  unfold cpu_lwl
  dsimp only
  split
  · rename_i h
    exact ctl_ok_set_r (ctl_ok_load_eq h) _ _
  · rename_i h
    exact ctl_ok_load_eq h

theorem ctl_ok_cpu_lwr (s : State) (op : Nat) : ctl_ok s (cpu_lwr s op) := by
  unfold cpu_lwr
  dsimp only
  split
  · rename_i h
    exact ctl_ok_set_r (ctl_ok_load_eq h) _ _
  · rename_i h
    exact ctl_ok_load_eq h

theorem ctl_ok_cpu_ldl (s : State) (op : Nat) : ctl_ok s (cpu_ldl s op) := by
  unfold cpu_ldl
  dsimp only
  split
  · rename_i h
    exact ctl_ok_set_r (ctl_ok_load_eq h) _ _
  · rename_i h
    exact ctl_ok_load_eq h

theorem ctl_ok_cpu_ldr (s : State) (op : Nat) : ctl_ok s (cpu_ldr s op) := by
  unfold cpu_ldr
  dsimp only
  split
  · rename_i h
    exact ctl_ok_set_r (ctl_ok_load_eq h) _ _
  · rename_i h
    exact ctl_ok_load_eq h

theorem ctl_ok_cpu_swl (s : State) (op : Nat) : ctl_ok s (cpu_swl s op) :=
  ctl_ok_store s _ _ _ _

theorem ctl_ok_cpu_swr (s : State) (op : Nat) : ctl_ok s (cpu_swr s op) :=
  ctl_ok_store s _ _ _ _

theorem ctl_ok_cpu_sdl (s : State) (op : Nat) : ctl_ok s (cpu_sdl s op) :=
  ctl_ok_store s _ _ _ _

theorem ctl_ok_cpu_sdr (s : State) (op : Nat) : ctl_ok s (cpu_sdr s op) :=
  ctl_ok_store s _ _ _ _

attribute [local irreducible] State.set_r

theorem ctl_step_cp1_cop1 (sf : softfloat_t) (s : State) (op : Nat) :
    ctl_step s (cp1_cop1 sf s op) := by
  unfold cp1_cop1
  dsimp only
  repeat' split
  all_goals first
    | exact ctl_step_branch s op
    | exact ctl_step_nullify s
    | (apply ctl_step_of_ok
       first
        | exact ctl_ok.refl s
        | exact ctl_ok_cp1_s sf s op
        | exact ctl_ok_cp1_d sf s op
        | exact ctl_ok_cp1_w sf s op
        | exact ctl_ok_cp1_l sf s op
        | exact ctl_ok_set_r (ctl_ok.refl s) _ _
        | exact ctl_ok_set_f (ctl_ok.refl s) _ _
        | exact ctl_ok_exception s _ _
        | exact ctl_ok_cp1_unimplemented (ctl_ok.refl s)
        | (apply ctl_ok_exception_of; exact ctl_ok.refl s))

theorem ctl_ok_flags_clear (s : State) : ctl_ok s { s with softfloat_exceptionFlags := 0 } :=
  ⟨rfl, Or.inr ⟨rfl, rfl⟩⟩

theorem ctl_ok_ll_clear (s : State) : ctl_ok s { s with m_ll_watch := none } :=
  ⟨rfl, Or.inr ⟨rfl, rfl⟩⟩

theorem ctl_step_cp1_execute (sf : softfloat_t) (s : State) (op : Nat) :
    ctl_step s (cp1_execute sf s op) := by
  unfold cp1_execute
  split
  · exact ctl_step_of_ok (ctl_ok_exception s _ _)
  · dsimp only
    have h0 := ctl_ok_flags_clear s
    split
    · exact ctl_step_congr (ctl_step_cp1_cop1 sf _ op) rfl rfl
    · split
      · rename_i hl
        have h1 := h0.trans (ctl_ok_load_eq hl)
        split_ifs <;> exact ctl_step_of_ok (ctl_ok_set_f h1 _ _)
      · rename_i hl
        exact ctl_step_of_ok (h0.trans (ctl_ok_load_eq hl))
    · split
      · rename_i hl
        have h1 := h0.trans (ctl_ok_load_eq hl)
        split_ifs
        · exact ctl_step_of_ok (ctl_ok_set_f h1 _ _)
        · exact ctl_step_of_ok h1
      · rename_i hl
        exact ctl_step_of_ok (h0.trans (ctl_ok_load_eq hl))
    · split_ifs <;> exact ctl_step_of_ok (h0.trans (ctl_ok_store _ _ _ _ _))
    · split_ifs
      · exact ctl_step_of_ok (h0.trans (ctl_ok_store _ _ _ _ _))
      · exact ctl_step_of_ok h0
    · exact ctl_step_of_ok h0

theorem ctl_step_cpu_regimm (s : State) (op : Nat) : ctl_step s (cpu_regimm s op) := by
  unfold cpu_regimm
  dsimp only
  by_cases c1 : s64 (s.m_r (RSREG op)) < 0 <;>
  by_cases c2 : s64 (s.m_r (RSREG op)) ≥ 0 <;>
  by_cases c3 : s64 (s.m_r (RSREG op)) ≥ s16 op <;>
  by_cases c4 : s64 (s.m_r (RSREG op)) < s16 op <;>
  simp only [c1, c2, c3, c4, ↓reduceIte] <;>
  repeat' split
  all_goals with_reducible first
    | exact ctl_step_branch s op
    | exact ctl_step_nullify s
    | exact ctl_step_set_r (ctl_step_branch s op) _ _
    | exact ctl_step_set_r (ctl_step_nullify s) _ _
    | exact ctl_step_of_ok (ctl_ok.refl s)
    | exact ctl_step_of_ok (ctl_ok_set_r (ctl_ok.refl s) _ _)
    | exact ctl_step_of_ok (ctl_ok_exception s _ _)

theorem ctl_step_mk (s x : State) (h1 : x.m_branch_target = s.m_branch_target)
    (h2 : x.m_pc = s.m_pc) : ctl_step s x :=
  ⟨Or.inr h1, Or.inr h2⟩

theorem ctl_step_cpu_special (s : State) (op : Nat) (s' : State)
    (h : cpu_special s op = Except.ok s') : ctl_step s s' := by
  unfold cpu_special at h
  dsimp only at h
  split at h
  all_goals try unfold checked_sdiv at h
  all_goals try unfold checked_udiv at h
  all_goals repeat' (split at h)
  all_goals cases h
  all_goals with_reducible first
    | exact ctl_step_of_ok (ctl_ok_set_r (ctl_ok.refl s) _ _)
    | exact ctl_step_of_ok (ctl_ok_exception s _ _)
    | exact ctl_step_jump s _
    | exact ctl_step_set_r (ctl_step_jump s _) _ _
    | exact ctl_step_mk s _ rfl rfl

theorem ctl_ok_ll {s s1 : State} (h : ctl_ok s s1) (i v j w : Nat) (t : Option ll_tap) :
    ctl_ok s { (s1.set_r i v).set_cp0 j w with m_ll_watch := t } :=
  ctl_ok_eq (ctl_ok_set_r h i v) rfl rfl rfl

theorem ctl_ok_sc (s : State) (n a d m i v : Nat) :
    ctl_ok s ((store { s with m_ll_watch := none } n a d m).2.set_r i v) :=
  ctl_ok_set_r ((ctl_ok_ll_clear s).trans (ctl_ok_store _ _ _ _ _)) _ _

theorem ctl_step_cpu_execute (sf : softfloat_t) (s : State) (op : Nat) (s' : State)
    (h : cpu_execute sf s op = Except.ok s') : ctl_step s s' := by
  unfold cpu_execute at h
  dsimp only at h
  split at h
  all_goals first
    | exact ctl_step_cpu_special s op s' h
    | exact ctl_step_of_ok (ctl_ok_cp0_execute s op s' h)
    | skip
  all_goals repeat' (split at h)
  all_goals cases h
  all_goals with_reducible first
    | exact ctl_step_cpu_regimm s op
    | exact ctl_step_cp1_execute sf s op
    | exact ctl_step_of_ok (ctl_ok_cp2_execute s op)
    | exact ctl_step_branch s op
    | exact ctl_step_nullify s
    | exact ctl_step_jump s _
    | exact ctl_step_set_r (ctl_step_jump s _) _ _
    | exact ctl_step_of_ok (ctl_ok.refl s)
    | exact ctl_step_of_ok (ctl_ok_set_r (ctl_ok.refl s) _ _)
    | exact ctl_step_of_ok (ctl_ok_exception s _ _)
    | exact ctl_step_of_ok (ctl_ok_cpu_lwl s op)
    | exact ctl_step_of_ok (ctl_ok_cpu_lwr s op)
    | exact ctl_step_of_ok (ctl_ok_cpu_swl s op)
    | exact ctl_step_of_ok (ctl_ok_cpu_swr s op)
    | exact ctl_step_of_ok (ctl_ok_cpu_ldl s op)
    | exact ctl_step_of_ok (ctl_ok_cpu_ldr s op)
    | exact ctl_step_of_ok (ctl_ok_cpu_sdl s op)
    | exact ctl_step_of_ok (ctl_ok_cpu_sdr s op)
    | exact ctl_step_of_ok (ctl_ok_store s _ _ _ _)
    | exact ctl_step_of_ok (ctl_ok_sc s _ _ _ _ _ _)
    | exact ctl_step_of_ok (ctl_ok_load_eq (by assumption))
    | exact ctl_step_of_ok (ctl_ok_set_r (ctl_ok_load_eq (by assumption)) _ _)
    | exact ctl_step_of_ok (ctl_ok_load_linked_eq (by assumption))
    | exact ctl_step_of_ok (ctl_ok_ll (ctl_ok_load_linked_eq (by assumption)) _ _ _ _ _)

end control_frame

/-! ## Dispatch step -/

theorem fetch_some (s : State) (a op : Nat) (s1 : State)
    (h : fetch s a = (some op, s1)) : ∃ l, s1 = { s with m_last := l } := by
  unfold fetch at h
  split at h
  · cases h
  · have hc := translate_cases s TRANSLATE_FETCH a
    split at h
    · cases h
    · cases h
    · rename_i r a' s1' hE hM heq
      cases h
      rw [heq] at hc
      rcases hc with ⟨ext, hx⟩ | hx | hx | hx | hx | hx
      · have hr : r = translate_t.CACHED ∨ r = translate_t.UNCACHED := by
          cases r
          · exact (hE rfl).elim
          · exact (hM rfl).elim
          · exact Or.inr rfl
          · exact Or.inl rfl
        obtain ⟨index, pfn, -, -, hs1⟩ := tlb_lookup_success s _ _ ext r a' s1 hx.symm hr
        exact ⟨_, hs1⟩
      all_goals
        have h3 := congrArg (fun x => x.2.2) hx
        exact ⟨s.m_last, h3⟩

theorem execute_step_of_fetch (sf : softfloat_t) (s s1 s2 : State) (op : Nat)
    (hf : fetch s s.m_pc = (some op, s1)) (hx : cpu_execute sf s1 op = Except.ok s2) :
    execute_step sf s = Except.ok (update_pc (s2.set_r 0 0)) := by
  simp only [execute_step, fetch_execute, hf, hx, bind, Except.bind]

theorem update_pc_NONE (s : State) (h : s.m_branch_state = branch_state_t.NONE) :
    (update_pc s).m_pc = u64 (s.m_pc + 4)
    ∧ (update_pc s).m_branch_state = branch_state_t.NONE := by
  unfold update_pc
  rw [h]
  exact ⟨rfl, rfl⟩

theorem update_pc_DELAY (s : State) (h : s.m_branch_state = branch_state_t.DELAY) :
    (update_pc s).m_pc = s.m_branch_target
    ∧ (update_pc s).m_branch_state = branch_state_t.NONE := by
  unfold update_pc
  rw [h]
  exact ⟨rfl, rfl⟩

theorem update_pc_BRANCH (s : State) (h : s.m_branch_state = branch_state_t.BRANCH) :
    (update_pc s).m_pc = u64 (s.m_pc + 4)
    ∧ (update_pc s).m_branch_state = branch_state_t.DELAY := by
  unfold update_pc
  rw [h]
  exact ⟨rfl, rfl⟩

theorem update_pc_EXCEPTION (s : State) (h : s.m_branch_state = branch_state_t.EXCEPTION) :
    (update_pc s).m_pc = s.m_pc
    ∧ (update_pc s).m_branch_state = branch_state_t.NONE := by
  unfold update_pc
  rw [h]
  exact ⟨rfl, rfl⟩

theorem update_pc_NULLIFY (s : State) (h : s.m_branch_state = branch_state_t.NULLIFY) :
    (update_pc s).m_pc = u64 (s.m_pc + 8)
    ∧ (update_pc s).m_branch_state = branch_state_t.NONE := by
  unfold update_pc
  rw [h]
  exact ⟨rfl, rfl⟩

/-- The update of the program counter and the branch state touches nothing else but the
cycle budget, which loses one cycle. -/
theorem update_pc_frame (s : State) :
    (update_pc s).m_icount = s.m_icount - 1
    ∧ (update_pc s).m_branch_target = s.m_branch_target
    ∧ (update_pc s).m_r = s.m_r
    ∧ (update_pc s).m_hi = s.m_hi
    ∧ (update_pc s).m_lo = s.m_lo
    ∧ (update_pc s).m_cp0 = s.m_cp0
    ∧ (update_pc s).mem = s.mem
    ∧ (update_pc s).m_f = s.m_f
    ∧ (update_pc s).m_fcr31 = s.m_fcr31
    ∧ (update_pc s).m_tlb = s.m_tlb := by
  unfold update_pc
  cases s.m_branch_state <;> exact ⟨rfl, rfl, rfl, rfl, rfl, rfl, rfl, rfl, rfl, rfl⟩

/-- C8: the dispatch loop ends every iteration with the update of the delay-state table,
applied to the state `s1` the instruction (or the failed fetch) left behind. From NONE the
program counter advances by 4 and the state stays NONE; from DELAY the program counter
becomes the stored branch target and the state NONE; from BRANCH the program counter
advances by 4 and the state becomes DELAY; from EXCEPTION the program counter stays where
the exception entry put it and the state becomes NONE; from NULLIFY the program counter
advances by 8 and the state becomes NONE (additions in 64 bits). In every case the update
takes one cycle off the remaining budget, so the budget decreases by at least 1, and it
leaves the stored branch target and the registers alone. -/
theorem dispatch_update_table (sf : softfloat_t) (s s1 : State)
    (h : fetch_execute sf s = Except.ok s1) :
    execute_step sf s = Except.ok (update_pc s1)
    ∧ (s1.m_branch_state = branch_state_t.NONE →
        (update_pc s1).m_pc = (s1.m_pc + 4) % 2 ^ 64
        ∧ (update_pc s1).m_branch_state = branch_state_t.NONE)
    ∧ (s1.m_branch_state = branch_state_t.DELAY →
        (update_pc s1).m_pc = s1.m_branch_target
        ∧ (update_pc s1).m_branch_state = branch_state_t.NONE)
    ∧ (s1.m_branch_state = branch_state_t.BRANCH →
        (update_pc s1).m_pc = (s1.m_pc + 4) % 2 ^ 64
        ∧ (update_pc s1).m_branch_state = branch_state_t.DELAY)
    ∧ (s1.m_branch_state = branch_state_t.EXCEPTION →
        (update_pc s1).m_pc = s1.m_pc
        ∧ (update_pc s1).m_branch_state = branch_state_t.NONE)
    ∧ (s1.m_branch_state = branch_state_t.NULLIFY →
        (update_pc s1).m_pc = (s1.m_pc + 8) % 2 ^ 64
        ∧ (update_pc s1).m_branch_state = branch_state_t.NONE)
    ∧ (update_pc s1).m_icount = s1.m_icount - 1
    ∧ (update_pc s1).m_icount + 1 ≤ s1.m_icount
    ∧ (update_pc s1).m_branch_target = s1.m_branch_target
    ∧ (update_pc s1).m_r = s1.m_r := by
  have hu : ∀ n : Nat, u64 (s1.m_pc + n) = (s1.m_pc + n) % 2 ^ 64 := by
    intro n
    unfold u64
    omega
  have hf := update_pc_frame s1
  refine ⟨?_, ?_, ?_, ?_, ?_, ?_, hf.1, ?_, hf.2.1, hf.2.2.1⟩
  · simp only [execute_step, h, bind, Except.bind]
  · intro hb
    rw [← hu 4]
    exact update_pc_NONE s1 hb
  · exact update_pc_DELAY s1
  · intro hb
    rw [← hu 4]
    exact update_pc_BRANCH s1 hb
  · exact update_pc_EXCEPTION s1
  · intro hb
    rw [← hu 8]
    exact update_pc_NULLIFY s1 hb
  · rw [hf.1]
    omega

/-- Witness of C8: ADDU (`0x00221821`, `r3 = r1 + r2`) fetched from kseg0 in branch state
NONE; the update moves the program counter from `0xffffffff80001000` to
`0xffffffff80001004`. -/
theorem dispatch_update_table_witness :
    fetch_execute example_softfloat (example_state 0x0022182100000000)
        = Except.ok (((example_state 0x0022182100000000).set_r 3 0xffffffff80000000).set_r 0 0)
    ∧ execute_step example_softfloat (example_state 0x0022182100000000)
        = Except.ok (update_pc
            (((example_state 0x0022182100000000).set_r 3 0xffffffff80000000).set_r 0 0))
    ∧ (update_pc (((example_state 0x0022182100000000).set_r 3 0xffffffff80000000).set_r 0 0)).m_pc
        = 0xffffffff80001004
    ∧ (update_pc (((example_state 0x0022182100000000).set_r 3 0xffffffff80000000).set_r 0 0)
        ).m_branch_state = branch_state_t.NONE :=
  ⟨rfl,
    (dispatch_update_table example_softfloat (example_state 0x0022182100000000) _ rfl).1,
    (dispatch_update_table example_softfloat (example_state 0x0022182100000000) _ rfl).2.1 rfl⟩

/-! ## Delay slots -/

/-- An instruction `B` fetched at `P = s.m_pc` that leaves the branch state BRANCH, followed
by a delay-slot instruction `D` that is fetched at `P + 4` and leaves the branch state as it
finds it: the dispatch loop executes `B` and moves to `P + 4` in state DELAY; its next
iteration fetches and executes `D`, whose register results stand; and after that single
execution of `D` the program counter is the stored target and the branch state NONE. -/
theorem delay_slot_of_branch_state (sf : softfloat_t) (s s1 s2 s3 s4 : State) (B D : Nat)
    (hfB : fetch s s.m_pc = (some B, s1))
    (hB : cpu_execute sf s1 B = Except.ok s2)
    (hbr : s2.m_branch_state = branch_state_t.BRANCH)
    (hfD : fetch (update_pc (s2.set_r 0 0)) (update_pc (s2.set_r 0 0)).m_pc = (some D, s3))
    (hD : cpu_execute sf s3 D = Except.ok s4)
    (hDn : s4.m_branch_state = s3.m_branch_state) :
    execute_step sf s = Except.ok (update_pc (s2.set_r 0 0))
    ∧ (update_pc (s2.set_r 0 0)).m_pc = (s.m_pc + 4) % 2 ^ 64
    ∧ (update_pc (s2.set_r 0 0)).m_branch_state = branch_state_t.DELAY
    ∧ execute_step sf (update_pc (s2.set_r 0 0)) = Except.ok (update_pc (s4.set_r 0 0))
    ∧ (∀ i, i ≠ 0 → (update_pc (s4.set_r 0 0)).m_r i = s4.m_r i)
    ∧ (update_pc (s4.set_r 0 0)).m_pc = s2.m_branch_target
    ∧ (update_pc (s4.set_r 0 0)).m_branch_state = branch_state_t.NONE := by
  -- the state after B
  obtain ⟨l1, rfl⟩ := fetch_some s _ B s1 hfB
  have hc2 := ctl_step_cpu_execute sf _ B s2 hB
  have hpc2 : s2.m_pc = s.m_pc := by
    rcases hc2.2 with he | hp
    · rw [hbr] at he
      cases he
    · exact hp
  have hA := update_pc_BRANCH (s2.set_r 0 0) hbr
  have hAf := update_pc_frame (s2.set_r 0 0)
  -- the state after D
  obtain ⟨l3, rfl⟩ := fetch_some _ _ D s3 hfD
  have hc4 := ctl_step_cpu_execute sf _ D s4 hD
  have hst4 : s4.m_branch_state = branch_state_t.DELAY := hDn.trans hA.2
  have htg4 : s4.m_branch_target = s2.m_branch_target := by
    rcases hc4.1 with hb | ht
    · rw [hst4] at hb
      cases hb
    · exact ht.trans hAf.2.1
  have hB4 := update_pc_DELAY (s4.set_r 0 0) hst4
  refine ⟨execute_step_of_fetch sf s _ s2 B hfB hB, ?_, hA.2,
    execute_step_of_fetch sf _ _ s4 D hfD hD, ?_, hB4.1.trans htg4, hB4.2⟩
  · rw [hA.1]
    show u64 (s2.m_pc + 4) = _
    rw [hpc2]
    unfold u64
    omega
  · intro i hi
    rw [update_pc_m_r]
    simp only [State.set_r, if_neg hi]

theorem cpu_regimm_taken (s : State) (op : Nat) :
    ((op >>> 16) &&& 0x1f = 0x00 → s64 (s.m_r (RSREG op)) < 0 → cpu_regimm s op = s.branch op)
    ∧ ((op >>> 16) &&& 0x1f = 0x01 → s64 (s.m_r (RSREG op)) ≥ 0 → cpu_regimm s op = s.branch op)
    ∧ ((op >>> 16) &&& 0x1f = 0x02 → s64 (s.m_r (RSREG op)) < 0 → cpu_regimm s op = s.branch op)
    ∧ ((op >>> 16) &&& 0x1f = 0x03 → s64 (s.m_r (RSREG op)) ≥ 0 → cpu_regimm s op = s.branch op)
    ∧ ((op >>> 16) &&& 0x1f = 0x10 → s64 (s.m_r (RSREG op)) < 0 →
        cpu_regimm s op = (s.branch op).set_r 31 (ADDR s s.m_pc 8))
    ∧ ((op >>> 16) &&& 0x1f = 0x11 → s64 (s.m_r (RSREG op)) ≥ 0 →
        cpu_regimm s op = (s.branch op).set_r 31 (ADDR s s.m_pc 8))
    ∧ ((op >>> 16) &&& 0x1f = 0x12 → s64 (s.m_r (RSREG op)) < 0 →
        cpu_regimm s op = (s.branch op).set_r 31 (ADDR s s.m_pc 8))
    ∧ ((op >>> 16) &&& 0x1f = 0x13 → s64 (s.m_r (RSREG op)) ≥ 0 →
        cpu_regimm s op = (s.branch op).set_r 31 (ADDR s s.m_pc 8)) := by
  unfold cpu_regimm
  dsimp only
  by_cases c1 : s64 (s.m_r (RSREG op)) < 0 <;>
  by_cases c2 : s64 (s.m_r (RSREG op)) ≥ 0 <;>
  by_cases c3 : s64 (s.m_r (RSREG op)) ≥ s16 op <;>
  by_cases c4 : s64 (s.m_r (RSREG op)) < s16 op <;>
  simp only [c1, c2, c3, c4, ↓reduceIte] <;>
  refine ⟨?_, ?_, ?_, ?_, ?_, ?_, ?_, ?_⟩ <;>
  intro h hc <;>
  first
    | exact False.elim hc
    | simp only [h]

theorem cp1_execute_taken (sf : softfloat_t) (s : State) (op : Nat)
    (h0 : op >>> 26 = 0x11) (h21 : (op >>> 21) &&& 0x1f = 0x08) (hcu : s.SR &&& SR_CU1 ≠ 0) :
    ((op >>> 16) &&& 0x1f = 0x00 → s.m_fcr31 &&& FCR31_C = 0 →
      cp1_execute sf s op = ({ s with softfloat_exceptionFlags := 0 }).branch op)
    ∧ ((op >>> 16) &&& 0x1f = 0x01 → s.m_fcr31 &&& FCR31_C ≠ 0 →
      cp1_execute sf s op = ({ s with softfloat_exceptionFlags := 0 }).branch op)
    ∧ ((op >>> 16) &&& 0x1f = 0x02 → s.m_fcr31 &&& FCR31_C = 0 →
      cp1_execute sf s op = ({ s with softfloat_exceptionFlags := 0 }).branch op)
    ∧ ((op >>> 16) &&& 0x1f = 0x03 → s.m_fcr31 &&& FCR31_C ≠ 0 →
      cp1_execute sf s op = ({ s with softfloat_exceptionFlags := 0 }).branch op) := by
  refine ⟨?_, ?_, ?_, ?_⟩ <;> intro h16 hc
  · simp only [cp1_execute, if_neg hcu, h0, cp1_cop1, h21, h16, if_pos hc]
  · simp only [cp1_execute, if_neg hcu, h0, cp1_cop1, h21, h16, if_pos hc]
  · simp only [cp1_execute, if_neg hcu, h0, cp1_cop1, h21, h16, if_pos hc]
  · simp only [cp1_execute, if_neg hcu, h0, cp1_cop1, h21, h16, if_pos hc]

/-- What a taken branch or jump does to the control state: it enters the branch state BRANCH
with the stored target of its form and leaves the program counter alone. -/
theorem cpu_execute_taken_branch (sf : softfloat_t) (s : State) (op : Nat)
    (ht : taken_branch s op) :
    ∃ s2, cpu_execute sf s op = Except.ok s2
      ∧ s2.m_branch_state = branch_state_t.BRANCH
      ∧ s2.m_branch_target = stored_target s op
      ∧ s2.m_pc = s.m_pc := by
  unfold taken_branch at ht
  rcases ht with h0 | h0 | ⟨h0, hf⟩ | ⟨h0, hf⟩ | ⟨h0, hc⟩ | ⟨h0, hc⟩ | ⟨h0, hc⟩ | ⟨h0, hc⟩
    | ⟨h0, hc⟩ | ⟨h0, hc⟩ | ⟨h0, hc⟩ | ⟨h0, hc⟩
    | ⟨h0, h16, hc⟩ | ⟨h0, h16, hc⟩ | ⟨h0, h16, hc⟩ | ⟨h0, h16, hc⟩
    | ⟨h0, h16, hc⟩ | ⟨h0, h16, hc⟩ | ⟨h0, h16, hc⟩ | ⟨h0, h16, hc⟩
    | ⟨h0, h21, h16, hcu, hc⟩ | ⟨h0, h21, h16, hcu, hc⟩ | ⟨h0, h21, h16, hcu, hc⟩
    | ⟨h0, h21, h16, hcu, hc⟩
  -- J, JAL
  · refine ⟨{ s with
        m_branch_state := branch_state_t.BRANCH
        m_branch_target :=
          (ADDR s s.m_pc 4 &&& not64 0x0fffffff) ||| ((op &&& 0x03ffffff) <<< 2) },
      ?_, rfl, ?_, rfl⟩
    · simp only [cpu_execute, h0]
    · simp only [stored_target, h0]
  · refine ⟨({ s with
        m_branch_state := branch_state_t.BRANCH
        m_branch_target :=
          (ADDR s s.m_pc 4 &&& not64 0x0fffffff) ||| ((op &&& 0x03ffffff) <<< 2)
        }).set_r 31 (ADDR s s.m_pc 8), ?_, rfl, ?_, rfl⟩
    · simp only [cpu_execute, h0]
    · simp only [stored_target, h0]
      rfl
  -- JR, JALR
  · refine ⟨{ s with m_branch_state := branch_state_t.BRANCH
                     m_branch_target := ADDR s (s.m_r (RSREG op)) 0 }, ?_, rfl, ?_, rfl⟩
    · simp only [cpu_execute, h0, cpu_special, hf]
    · simp only [stored_target, h0]
  · refine ⟨({ s with m_branch_state := branch_state_t.BRANCH
                      m_branch_target := ADDR s (s.m_r (RSREG op)) 0 }).set_r (RDREG op)
        (ADDR s s.m_pc 8), ?_, rfl, ?_, rfl⟩
    · simp only [cpu_execute, h0, cpu_special, hf]
    · simp only [stored_target, h0]
      rfl
  -- BEQ, BNE, BLEZ, BGTZ
  · refine ⟨s.branch op, ?_, rfl, ?_, rfl⟩
    · simp only [cpu_execute, h0]
      rw [if_pos hc]
    · simp only [stored_target, h0]
      rfl
  · refine ⟨s.branch op, ?_, rfl, ?_, rfl⟩
    · simp only [cpu_execute, h0]
      rw [if_pos hc]
    · simp only [stored_target, h0]
      rfl
  · refine ⟨s.branch op, ?_, rfl, ?_, rfl⟩
    · simp only [cpu_execute, h0]
      rw [if_pos hc]
    · simp only [stored_target, h0]
      rfl
  · refine ⟨s.branch op, ?_, rfl, ?_, rfl⟩
    · simp only [cpu_execute, h0]
      rw [if_pos hc]
    · simp only [stored_target, h0]
      rfl
  -- BEQL, BNEL, BLEZL, BGTZL
  · refine ⟨s.branch op, ?_, rfl, ?_, rfl⟩
    · simp only [cpu_execute, h0]
      rw [if_pos hc]
    · simp only [stored_target, h0]
      rfl
  · refine ⟨s.branch op, ?_, rfl, ?_, rfl⟩
    · simp only [cpu_execute, h0]
      rw [if_pos hc]
    · simp only [stored_target, h0]
      rfl
  · refine ⟨s.branch op, ?_, rfl, ?_, rfl⟩
    · simp only [cpu_execute, h0]
      rw [if_pos hc]
    · simp only [stored_target, h0]
      rfl
  · refine ⟨s.branch op, ?_, rfl, ?_, rfl⟩
    · simp only [cpu_execute, h0]
      rw [if_pos hc]
    · simp only [stored_target, h0]
      rfl
  -- BLTZ, BGEZ, BLTZL, BGEZL
  · refine ⟨s.branch op, ?_, rfl, ?_, rfl⟩
    · rw [cpu_execute_regimm sf s op h0, (cpu_regimm_taken s op).1 h16 hc]
    · simp only [stored_target, h0]
      rfl
  · refine ⟨s.branch op, ?_, rfl, ?_, rfl⟩
    · rw [cpu_execute_regimm sf s op h0, (cpu_regimm_taken s op).2.1 h16 hc]
    · simp only [stored_target, h0]
      rfl
  · refine ⟨s.branch op, ?_, rfl, ?_, rfl⟩
    · rw [cpu_execute_regimm sf s op h0, (cpu_regimm_taken s op).2.2.1 h16 hc]
    · simp only [stored_target, h0]
      rfl
  · refine ⟨s.branch op, ?_, rfl, ?_, rfl⟩
    · rw [cpu_execute_regimm sf s op h0, (cpu_regimm_taken s op).2.2.2.1 h16 hc]
    · simp only [stored_target, h0]
      rfl
  -- BLTZAL, BGEZAL, BLTZALL, BGEZALL
  · refine ⟨(s.branch op).set_r 31 (ADDR s s.m_pc 8), ?_, rfl, ?_, rfl⟩
    · rw [cpu_execute_regimm sf s op h0, (cpu_regimm_taken s op).2.2.2.2.1 h16 hc]
    · simp only [stored_target, h0]
      rfl
  · refine ⟨(s.branch op).set_r 31 (ADDR s s.m_pc 8), ?_, rfl, ?_, rfl⟩
    · rw [cpu_execute_regimm sf s op h0, (cpu_regimm_taken s op).2.2.2.2.2.1 h16 hc]
    · simp only [stored_target, h0]
      rfl
  · refine ⟨(s.branch op).set_r 31 (ADDR s s.m_pc 8), ?_, rfl, ?_, rfl⟩
    · rw [cpu_execute_regimm sf s op h0, (cpu_regimm_taken s op).2.2.2.2.2.2.1 h16 hc]
    · simp only [stored_target, h0]
      rfl
  · refine ⟨(s.branch op).set_r 31 (ADDR s s.m_pc 8), ?_, rfl, ?_, rfl⟩
    · rw [cpu_execute_regimm sf s op h0, (cpu_regimm_taken s op).2.2.2.2.2.2.2 h16 hc]
    · simp only [stored_target, h0]
      rfl
  -- BC1F, BC1T, BC1FL, BC1TL
  · refine ⟨({ s with softfloat_exceptionFlags := 0 }).branch op, ?_, rfl, ?_, rfl⟩
    · have h := (cp1_execute_taken sf s op h0 h21 hcu).1 h16 hc
      simp only [cpu_execute, h0]
      rw [h]
    · simp only [stored_target, h0]
      rfl
  · refine ⟨({ s with softfloat_exceptionFlags := 0 }).branch op, ?_, rfl, ?_, rfl⟩
    · have h := (cp1_execute_taken sf s op h0 h21 hcu).2.1 h16 hc
      simp only [cpu_execute, h0]
      rw [h]
    · simp only [stored_target, h0]
      rfl
  · refine ⟨({ s with softfloat_exceptionFlags := 0 }).branch op, ?_, rfl, ?_, rfl⟩
    · have h := (cp1_execute_taken sf s op h0 h21 hcu).2.2.1 h16 hc
      simp only [cpu_execute, h0]
      rw [h]
    · simp only [stored_target, h0]
      rfl
  · refine ⟨({ s with softfloat_exceptionFlags := 0 }).branch op, ?_, rfl, ?_, rfl⟩
    · have h := (cp1_execute_taken sf s op h0 h21 hcu).2.2.2 h16 hc
      simp only [cpu_execute, h0]
      rw [h]
    · simp only [stored_target, h0]
      rfl

/-! ## The instructions that enter the branch state BRANCH -/

theorem not_branch_of_ok {s s' : State} (h : ctl_ok s s')
    (hb : s'.m_branch_state = branch_state_t.BRANCH)
    (hn : s.m_branch_state ≠ branch_state_t.BRANCH) : False := by
  rcases h.2 with he | ⟨-, hs⟩
  · rw [hb] at he
    cases he
  · exact hn (hs ▸ hb)

theorem not_branch_nullify {s : State}
    (hb : s.nullify.m_branch_state = branch_state_t.BRANCH) : False := by
  cases hb

theorem not_branch_nullify_link {s : State} {i v : Nat}
    (hb : (s.nullify.set_r i v).m_branch_state = branch_state_t.BRANCH) : False := by
  cases hb

section branch_frame

attribute [local irreducible] cpu_exception cp0_mode_check cp0_set cp0_tlbr cp0_tlbwi cp0_tlbwr
  cp0_tlbp load store load_linked fetch address_error translate

theorem branch_only_cpu_special (s : State) (op : Nat) (s' : State)
    (h0 : op >>> 26 = 0x00)
    (h : cpu_special s op = Except.ok s')
    (hb : s'.m_branch_state = branch_state_t.BRANCH)
    (hn : s.m_branch_state ≠ branch_state_t.BRANCH) : taken_branch s op := by
  unfold cpu_special at h
  dsimp only at h
  split at h
  all_goals try unfold checked_sdiv at h
  all_goals try unfold checked_udiv at h
  all_goals repeat' (split at h)
  all_goals cases h
  all_goals first
    | exact (not_branch_of_ok (ctl_ok_set_r (ctl_ok.refl s) _ _) hb hn).elim
    | exact (not_branch_of_ok (ctl_ok_exception s _ _) hb hn).elim
    | exact (not_branch_of_ok (ctl_ok_eq (ctl_ok.refl s) rfl rfl rfl) hb hn).elim
    | exact Or.inr (Or.inr (Or.inl ⟨h0, by assumption⟩))
    | exact Or.inr (Or.inr (Or.inr (Or.inl ⟨h0, by assumption⟩)))

theorem branch_only_cpu_regimm (s : State) (op : Nat)
    (h0 : op >>> 26 = 0x01)
    (hb : (cpu_regimm s op).m_branch_state = branch_state_t.BRANCH)
    (hn : s.m_branch_state ≠ branch_state_t.BRANCH) : taken_branch s op := by
  unfold cpu_regimm at hb
  dsimp only at hb
  by_cases c1 : s64 (s.m_r (RSREG op)) < 0 <;>
  by_cases c2 : s64 (s.m_r (RSREG op)) ≥ 0 <;>
  by_cases c3 : s64 (s.m_r (RSREG op)) ≥ s16 op <;>
  by_cases c4 : s64 (s.m_r (RSREG op)) < s16 op <;>
  simp only [c1, c2, c3, c4, ↓reduceIte] at hb <;>
  repeat' (split at hb)
  all_goals first
    | exact (not_branch_of_ok (ctl_ok.refl s) hb hn).elim
    | exact (not_branch_of_ok (ctl_ok_set_r (ctl_ok.refl s) _ _) hb hn).elim
    | exact (not_branch_of_ok (ctl_ok_exception s _ _) hb hn).elim
    | exact (not_branch_nullify hb).elim
    | exact (not_branch_nullify_link hb).elim
    | (rename_i h16
       unfold taken_branch
       simp only [h0, h16, c1, c2, ge_iff_le, ne_eq, not_false_eq_true, and_true, true_and,
         or_true, true_or, and_self])

attribute [local irreducible] cp1_set State.signal_invalid State.set_C cp1_unimplemented
  State.set_f

theorem branch_only_cp1_cop1 (sf : softfloat_t) (s : State) (op : Nat)
    (h0 : op >>> 26 = 0x11) (hcu : s.SR &&& SR_CU1 ≠ 0)
    (hb : (cp1_cop1 sf s op).m_branch_state = branch_state_t.BRANCH)
    (hn : s.m_branch_state ≠ branch_state_t.BRANCH) : taken_branch s op := by
  unfold cp1_cop1 at hb
  dsimp only at hb
  repeat' (split at hb)
  all_goals first
    | (refine (not_branch_of_ok ?_ hb hn).elim
       first
        | exact ctl_ok.refl s
        | exact ctl_ok_cp1_s sf s op
        | exact ctl_ok_cp1_d sf s op
        | exact ctl_ok_cp1_w sf s op
        | exact ctl_ok_cp1_l sf s op
        | exact ctl_ok_set_r (ctl_ok.refl s) _ _
        | exact ctl_ok_set_f (ctl_ok.refl s) _ _
        | exact ctl_ok_exception s _ _
        | exact ctl_ok_cp1_unimplemented (ctl_ok.refl s)
        | (apply ctl_ok_exception_of; exact ctl_ok.refl s))
    | exact (not_branch_nullify hb).elim
    | (clear hb hn
       unfold taken_branch
       simp only [*, ne_eq, not_false_eq_true, and_true, true_and, or_true, true_or,
         and_self, not_true_eq_false])

theorem branch_only_cp1_execute (sf : softfloat_t) (s : State) (op : Nat)
    (hb : (cp1_execute sf s op).m_branch_state = branch_state_t.BRANCH)
    (hn : s.m_branch_state ≠ branch_state_t.BRANCH) : taken_branch s op := by
  unfold cp1_execute at hb
  split at hb
  · exact (not_branch_of_ok (ctl_ok_exception s _ _) hb hn).elim
  · rename_i hcu
    dsimp only at hb
    have h0 := ctl_ok_flags_clear s
    split at hb
    · rename_i h26
      exact branch_only_cp1_cop1 sf { s with softfloat_exceptionFlags := 0 } op h26 hcu hb hn
    · split at hb
      · rename_i hl
        have h1 := h0.trans (ctl_ok_load_eq hl)
        split_ifs at hb <;> exact (not_branch_of_ok (ctl_ok_set_f h1 _ _) hb hn).elim
      · rename_i hl
        exact (not_branch_of_ok (h0.trans (ctl_ok_load_eq hl)) hb hn).elim
    · split at hb
      · rename_i hl
        have h1 := h0.trans (ctl_ok_load_eq hl)
        split_ifs at hb
        · exact (not_branch_of_ok (ctl_ok_set_f h1 _ _) hb hn).elim
        · exact (not_branch_of_ok h1 hb hn).elim
      · rename_i hl
        exact (not_branch_of_ok (h0.trans (ctl_ok_load_eq hl)) hb hn).elim
    · split_ifs at hb <;>
        exact (not_branch_of_ok (h0.trans (ctl_ok_store _ _ _ _ _)) hb hn).elim
    · split_ifs at hb
      · exact (not_branch_of_ok (h0.trans (ctl_ok_store _ _ _ _ _)) hb hn).elim
      · exact (not_branch_of_ok h0 hb hn).elim
    · exact (not_branch_of_ok h0 hb hn).elim

attribute [local irreducible] State.set_r

/-- Only the taken branches and jumps enter the branch state BRANCH: an instruction that
`cpu_execute` completes in the state BRANCH from another branch state is one of them. -/
theorem branch_only_cpu_execute (sf : softfloat_t) (s : State) (op : Nat) (s' : State)
    (h : cpu_execute sf s op = Except.ok s')
    (hb : s'.m_branch_state = branch_state_t.BRANCH)
    (hn : s.m_branch_state ≠ branch_state_t.BRANCH) : taken_branch s op := by
  unfold cpu_execute at h
  dsimp only at h
  split at h
  all_goals first
    | exact branch_only_cpu_special s op s' (by assumption) h hb hn
    | exact (not_branch_of_ok (ctl_ok_cp0_execute s op s' h) hb hn).elim
    | skip
  all_goals repeat' (split at h)
  all_goals cases h
  all_goals first
    | exact branch_only_cpu_regimm s op (by assumption) hb hn
    | exact branch_only_cp1_execute sf s op hb hn
    | (refine (not_branch_of_ok ?_ hb hn).elim
       with_reducible first
        | exact ctl_ok_cp2_execute s op
        | exact ctl_ok.refl s
        | exact ctl_ok_set_r (ctl_ok.refl s) _ _
        | exact ctl_ok_exception s _ _
        | exact ctl_ok_cpu_lwl s op
        | exact ctl_ok_cpu_lwr s op
        | exact ctl_ok_cpu_swl s op
        | exact ctl_ok_cpu_swr s op
        | exact ctl_ok_cpu_ldl s op
        | exact ctl_ok_cpu_ldr s op
        | exact ctl_ok_cpu_sdl s op
        | exact ctl_ok_cpu_sdr s op
        | exact ctl_ok_store s _ _ _ _
        | exact ctl_ok_sc s _ _ _ _ _ _
        | exact ctl_ok_load_eq (by assumption)
        | exact ctl_ok_set_r (ctl_ok_load_eq (by assumption)) _ _
        | exact ctl_ok_load_linked_eq (by assumption)
        | exact ctl_ok_ll (ctl_ok_load_linked_eq (by assumption)) _ _ _ _ _)
    | exact (not_branch_nullify hb).elim
    | (clear hb hn
       unfold taken_branch
       simp only [*, ne_eq, gt_iff_lt, not_false_eq_true, and_true, true_and, or_true,
         true_or, and_self, not_true_eq_false])

end branch_frame

/-- The condition of a branch and its stored target read the registers, Status, FCR31, the
program counter and the 64-bit-mode flag only, none of which a fetch changes. -/
theorem taken_branch_last (s : State) (l : Nat → Nat) (op : Nat) :
    (taken_branch { s with m_last := l } op ↔ taken_branch s op)
    ∧ stored_target { s with m_last := l } op = stored_target s op :=
  ⟨Iff.rfl, rfl⟩

/-- C6: for every branch or jump instruction `B` (J, JAL, JR, JALR, BEQ, BNE, BLEZ, BGTZ,
BEQL, BNEL, BLEZL, BGTZL, BLTZ, BGEZ, BLTZL, BGEZL, BLTZAL, BGEZAL, BLTZALL, BGEZALL, BC1F,
BC1T, BC1FL, BC1TL) fetched at `P = s.m_pc` whose branch is taken in `s` (the branch state
before may be any, in particular NONE): executing `B` returns a state in the branch state
BRANCH whose stored target is `T = stored_target s B`, and the dispatch loop moves to `P + 4`
in state DELAY. For every delay-slot instruction `D` that is then fetched at `P + 4` and
leaves the branch state as it finds it (it neither branches nor raises an exception), the
next iteration executes `D`, whose register results stand, and after that single execution
of `D` the program counter is `T` and the branch state NONE, so the next fetch is at `T`.
The list is complete: an instruction that `cpu_execute` completes in the branch state BRANCH
from another branch state is one of these, with its branch taken. -/
theorem delay_slot_executes_once (sf : softfloat_t) (s s1 : State) (B : Nat)
    (hfB : fetch s s.m_pc = (some B, s1))
    (hT : taken_branch s B) :
    (∃ s2, cpu_execute sf s1 B = Except.ok s2
      ∧ s2.m_branch_state = branch_state_t.BRANCH
      ∧ s2.m_branch_target = stored_target s B
      ∧ execute_step sf s = Except.ok (update_pc (s2.set_r 0 0))
      ∧ (update_pc (s2.set_r 0 0)).m_pc = (s.m_pc + 4) % 2 ^ 64
      ∧ (update_pc (s2.set_r 0 0)).m_branch_state = branch_state_t.DELAY
      ∧ ∀ (D : Nat) (s3 s4 : State),
          fetch (update_pc (s2.set_r 0 0)) (update_pc (s2.set_r 0 0)).m_pc = (some D, s3) →
          cpu_execute sf s3 D = Except.ok s4 →
          s4.m_branch_state = s3.m_branch_state →
          execute_step sf (update_pc (s2.set_r 0 0)) = Except.ok (update_pc (s4.set_r 0 0))
          ∧ (∀ i, i ≠ 0 → (update_pc (s4.set_r 0 0)).m_r i = s4.m_r i)
          ∧ (update_pc (s4.set_r 0 0)).m_pc = stored_target s B
          ∧ (update_pc (s4.set_r 0 0)).m_branch_state = branch_state_t.NONE)
    ∧ (∀ (t t' : State) (op : Nat), cpu_execute sf t op = Except.ok t' →
        t'.m_branch_state = branch_state_t.BRANCH →
        t.m_branch_state ≠ branch_state_t.BRANCH → taken_branch t op) := by
  refine ⟨?_, fun t t' op h hb hn => branch_only_cpu_execute sf t op t' h hb hn⟩
  obtain ⟨l1, hl1⟩ := fetch_some s _ B s1 hfB
  have hT1 : taken_branch s1 B := by
    rw [hl1]
    exact (taken_branch_last s l1 B).1.mpr hT
  obtain ⟨s2, hB, hbr, htg, -⟩ := cpu_execute_taken_branch sf s1 B hT1
  have htg' : s2.m_branch_target = stored_target s B := by
    rw [htg, hl1]
    exact (taken_branch_last s l1 B).2
  have hA := update_pc_BRANCH (s2.set_r 0 0) hbr
  refine ⟨s2, hB, hbr, htg', execute_step_of_fetch sf s _ s2 B hfB hB, ?_, hA.2, ?_⟩
  · -- the fetch and the branch leave the program counter alone
    have hc2 := ctl_step_cpu_execute sf _ B s2 hB
    have hpc2 : s2.m_pc = s.m_pc := by
      rcases hc2.2 with he | hp
      · rw [hbr] at he
        cases he
      · rw [hp, hl1]
    rw [hA.1]
    show u64 (s2.m_pc + 4) = _
    rw [hpc2]
    unfold u64
    omega
  · intro D s3 s4 hfD hD hDn
    have h := delay_slot_of_branch_state sf s s1 s2 s3 s4 B D hfB hB hbr hfD hD hDn
    exact ⟨h.2.2.2.1, h.2.2.2.2.1, h.2.2.2.2.2.1.trans htg', h.2.2.2.2.2.2⟩

/-- Witness of C6: BEQ `r0, r0` (`0x10000003`, always taken, target `P + 16`) at
`P = 0xffffffff80001000` with ADDU (`0x00221821`, `r3 = r1 + r2`) in its delay slot. The
first iteration leaves the program counter at `P + 4` in state DELAY, the second executes
ADDU once (`r3 = 0xffffffff80000000`) and leaves the program counter at `P + 16` in state
NONE. -/
theorem delay_slot_executes_once_witness :
    fetch (example_state 0x1000000300221821) (example_state 0x1000000300221821).m_pc
      = (some 0x10000003, example_state 0x1000000300221821)
    ∧ taken_branch (example_state 0x1000000300221821) 0x10000003
    ∧ stored_target (example_state 0x1000000300221821) 0x10000003 = 0xffffffff80001010
    ∧ ∃ s2, cpu_execute example_softfloat (example_state 0x1000000300221821) 0x10000003
          = Except.ok s2
      ∧ s2.m_branch_state = branch_state_t.BRANCH
      ∧ execute_step example_softfloat (example_state 0x1000000300221821)
          = Except.ok (update_pc (s2.set_r 0 0))
      ∧ (update_pc (s2.set_r 0 0)).m_pc = 0xffffffff80001004
      ∧ (update_pc (s2.set_r 0 0)).m_branch_state = branch_state_t.DELAY
      ∧ fetch (update_pc (s2.set_r 0 0)) (update_pc (s2.set_r 0 0)).m_pc
          = (some 0x00221821, update_pc (s2.set_r 0 0))
      ∧ cpu_execute example_softfloat (update_pc (s2.set_r 0 0)) 0x00221821
          = Except.ok ((update_pc (s2.set_r 0 0)).set_r 3 0xffffffff80000000)
      ∧ execute_step example_softfloat (update_pc (s2.set_r 0 0))
          = Except.ok (update_pc
              (((update_pc (s2.set_r 0 0)).set_r 3 0xffffffff80000000).set_r 0 0))
      ∧ (update_pc (((update_pc (s2.set_r 0 0)).set_r 3 0xffffffff80000000).set_r 0 0)).m_r 3
          = 0xffffffff80000000
      ∧ (update_pc (((update_pc (s2.set_r 0 0)).set_r 3 0xffffffff80000000).set_r 0 0)).m_pc
          = 0xffffffff80001010
      ∧ (update_pc (((update_pc (s2.set_r 0 0)).set_r 3 0xffffffff80000000).set_r 0 0)
          ).m_branch_state = branch_state_t.NONE :=
  ⟨rfl, by decide, by decide,
    match (delay_slot_executes_once example_softfloat (example_state 0x1000000300221821)
      (example_state 0x1000000300221821) 0x10000003 rfl (by decide)).1 with
    | ⟨s2, hB, hbr, _, hstep, hpc, hdl, hD⟩ =>
      have e : s2 = (example_state 0x1000000300221821).branch 0x10000003 :=
        (Except.ok.inj hB).symm
      have hf : fetch (update_pc (s2.set_r 0 0)) (update_pc (s2.set_r 0 0)).m_pc
          = (some 0x00221821, update_pc (s2.set_r 0 0)) := e ▸ rfl
      have hx : cpu_execute example_softfloat (update_pc (s2.set_r 0 0)) 0x00221821
          = Except.ok ((update_pc (s2.set_r 0 0)).set_r 3 0xffffffff80000000) := e ▸ rfl
      have h := hD 0x00221821 _ _ hf hx rfl
      ⟨s2, hB, hbr, hstep, hpc.trans rfl, hdl, hf, hx, h.1,
        (h.2.1 3 (by decide)).trans (by simp [State.set_r]),
        h.2.2.1.trans (by decide), h.2.2.2⟩⟩

/-! ## Branch-likely instructions -/

theorem cpu_regimm_untaken (s : State) (op : Nat) :
    ((op >>> 16) &&& 0x1f = 0x02 → ¬ s64 (s.m_r (RSREG op)) < 0 → cpu_regimm s op = s.nullify)
    ∧ ((op >>> 16) &&& 0x1f = 0x03 → ¬ s64 (s.m_r (RSREG op)) ≥ 0 → cpu_regimm s op = s.nullify)
    ∧ ((op >>> 16) &&& 0x1f = 0x12 → ¬ s64 (s.m_r (RSREG op)) < 0 →
        cpu_regimm s op = s.nullify.set_r 31 (ADDR s s.m_pc 8))
    ∧ ((op >>> 16) &&& 0x1f = 0x13 → ¬ s64 (s.m_r (RSREG op)) ≥ 0 →
        cpu_regimm s op = s.nullify.set_r 31 (ADDR s s.m_pc 8)) := by
  unfold cpu_regimm
  dsimp only
  by_cases c1 : s64 (s.m_r (RSREG op)) < 0 <;>
  by_cases c2 : s64 (s.m_r (RSREG op)) ≥ 0 <;>
  by_cases c3 : s64 (s.m_r (RSREG op)) ≥ s16 op <;>
  by_cases c4 : s64 (s.m_r (RSREG op)) < s16 op <;>
  simp only [c1, c2, c3, c4, ↓reduceIte] <;>
  refine ⟨?_, ?_, ?_, ?_⟩ <;>
  intro h hc <;>
  first
    | exact absurd trivial hc
    | simp only [h]

theorem cp1_execute_untaken (sf : softfloat_t) (s : State) (op : Nat)
    (h0 : op >>> 26 = 0x11) (h21 : (op >>> 21) &&& 0x1f = 0x08) (hcu : s.SR &&& SR_CU1 ≠ 0) :
    ((op >>> 16) &&& 0x1f = 0x02 → ¬ s.m_fcr31 &&& FCR31_C = 0 →
      cp1_execute sf s op = ({ s with softfloat_exceptionFlags := 0 }).nullify)
    ∧ ((op >>> 16) &&& 0x1f = 0x03 → ¬ s.m_fcr31 &&& FCR31_C ≠ 0 →
      cp1_execute sf s op = ({ s with softfloat_exceptionFlags := 0 }).nullify) := by
  constructor
  · intro h16 hc
    simp only [cp1_execute, if_neg hcu, h0, cp1_cop1, h21, h16, if_neg hc]
  · intro h16 hc
    simp only [cp1_execute, if_neg hcu, h0, cp1_cop1, h21, h16, if_neg hc]

/-- What an untaken branch-likely instruction does to the state: it enters the branch state
NULLIFY; the linking forms also write register 31, and the coprocessor forms clear the
exception flags of the floating-point library on entry. -/
theorem cpu_execute_untaken_likely (sf : softfloat_t) (s : State) (op : Nat)
    (hu : untaken_likely s op) :
    cpu_execute sf s op = Except.ok s.nullify
    ∨ (links op ∧ cpu_execute sf s op = Except.ok (s.nullify.set_r 31 (ADDR s s.m_pc 8)))
    ∨ cpu_execute sf s op = Except.ok ({ s with softfloat_exceptionFlags := 0 }).nullify := by
  unfold untaken_likely at hu
  rcases hu with ⟨h0, hc⟩ | ⟨h0, hc⟩ | ⟨h0, hc⟩ | ⟨h0, hc⟩ | ⟨h0, h16, hc⟩ | ⟨h0, h16, hc⟩
    | ⟨h0, h16, hc⟩ | ⟨h0, h16, hc⟩ | ⟨h0, h21, h16, hcu, hc⟩ | ⟨h0, h21, h16, hcu, hc⟩
  · left
    simp only [cpu_execute, h0]
    rw [if_neg hc]
  · left
    simp only [cpu_execute, h0]
    rw [if_neg (not_not.mpr hc)]
  · left
    simp only [cpu_execute, h0]
    rw [if_neg hc]
  · left
    simp only [cpu_execute, h0]
    rw [if_neg hc]
  · left
    rw [cpu_execute_regimm sf s op h0, (cpu_regimm_untaken s op).1 h16 hc]
  · left
    rw [cpu_execute_regimm sf s op h0, (cpu_regimm_untaken s op).2.1 h16 hc]
  · right
    left
    refine ⟨⟨h0, Or.inl h16⟩, ?_⟩
    rw [cpu_execute_regimm sf s op h0, (cpu_regimm_untaken s op).2.2.1 h16 hc]
  · right
    left
    refine ⟨⟨h0, Or.inr h16⟩, ?_⟩
    rw [cpu_execute_regimm sf s op h0, (cpu_regimm_untaken s op).2.2.2 h16 hc]
  · right
    right
    have h := (cp1_execute_untaken sf s op h0 h21 hcu).1 h16 hc
    simp only [cpu_execute, h0]
    rw [h]
  · right
    right
    have h := (cp1_execute_untaken sf s op h0 h21 hcu).2 h16 hc
    simp only [cpu_execute, h0]
    rw [h]

/-- C7: a branch-likely instruction (BEQL, BNEL, BLEZL, BGTZL, BLTZL, BGEZL, BLTZALL,
BGEZALL, and BC1FL, BC1TL with coprocessor 1 usable) fetched at `P = s.m_pc` whose condition
is false leaves the branch state NULLIFY (whatever the branch state before, in particular
NONE); the dispatch loop then moves the program counter to `P + 8` in state NONE, so the
next fetch is at `P + 8` and the instruction at `P + 4` is never fetched or executed. Across
that iteration the general registers (but register 0, which is zeroed, and register 31 for
the linking forms, which write the return address themselves), HI, LO, the floating-point
registers, FCR31, memory, the CP0 registers and the TLB are unchanged. -/
theorem branch_likely_untaken (sf : softfloat_t) (s s1 : State) (op : Nat)
    (hf : fetch s s.m_pc = (some op, s1)) (hu : untaken_likely s1 op) :
    ∃ s2, cpu_execute sf s1 op = Except.ok s2
      ∧ s2.m_branch_state = branch_state_t.NULLIFY
      ∧ execute_step sf s = Except.ok (update_pc (s2.set_r 0 0))
      ∧ (update_pc (s2.set_r 0 0)).m_pc = (s.m_pc + 8) % 2 ^ 64
      ∧ (update_pc (s2.set_r 0 0)).m_branch_state = branch_state_t.NONE
      ∧ (∀ i, i ≠ 0 → (i = 31 → ¬ links op) → (update_pc (s2.set_r 0 0)).m_r i = s.m_r i)
      ∧ (update_pc (s2.set_r 0 0)).m_hi = s.m_hi
      ∧ (update_pc (s2.set_r 0 0)).m_lo = s.m_lo
      ∧ (update_pc (s2.set_r 0 0)).m_f = s.m_f
      ∧ (update_pc (s2.set_r 0 0)).m_fcr31 = s.m_fcr31
      ∧ (update_pc (s2.set_r 0 0)).mem = s.mem
      ∧ (update_pc (s2.set_r 0 0)).m_cp0 = s.m_cp0
      ∧ (update_pc (s2.set_r 0 0)).m_tlb = s.m_tlb := by
  have hsh := cpu_execute_untaken_likely sf s1 op hu
  obtain ⟨l, rfl⟩ := fetch_some s _ op s1 hf
  have hu8 : u64 (s.m_pc + 8) = (s.m_pc + 8) % 2 ^ 64 := by
    unfold u64
    omega
  have key : ∀ s2 : State, cpu_execute sf { s with m_last := l } op = Except.ok s2 →
      s2.m_branch_state = branch_state_t.NULLIFY → s2.m_pc = s.m_pc →
      (∀ i, (i = 31 → ¬ links op) → s2.m_r i = s.m_r i) →
      s2.m_hi = s.m_hi → s2.m_lo = s.m_lo → s2.m_f = s.m_f → s2.m_fcr31 = s.m_fcr31 →
      s2.mem = s.mem → s2.m_cp0 = s.m_cp0 → s2.m_tlb = s.m_tlb →
      ∃ s2, cpu_execute sf { s with m_last := l } op = Except.ok s2
        ∧ s2.m_branch_state = branch_state_t.NULLIFY
        ∧ execute_step sf s = Except.ok (update_pc (s2.set_r 0 0))
        ∧ (update_pc (s2.set_r 0 0)).m_pc = (s.m_pc + 8) % 2 ^ 64
        ∧ (update_pc (s2.set_r 0 0)).m_branch_state = branch_state_t.NONE
        ∧ (∀ i, i ≠ 0 → (i = 31 → ¬ links op) →
            (update_pc (s2.set_r 0 0)).m_r i = s.m_r i)
        ∧ (update_pc (s2.set_r 0 0)).m_hi = s.m_hi
        ∧ (update_pc (s2.set_r 0 0)).m_lo = s.m_lo
        ∧ (update_pc (s2.set_r 0 0)).m_f = s.m_f
        ∧ (update_pc (s2.set_r 0 0)).m_fcr31 = s.m_fcr31
        ∧ (update_pc (s2.set_r 0 0)).mem = s.mem
        ∧ (update_pc (s2.set_r 0 0)).m_cp0 = s.m_cp0
        ∧ (update_pc (s2.set_r 0 0)).m_tlb = s.m_tlb := by
    intro s2 hx hb hpc hr hhi hlo hfr hfc hmem hcp hT
    have hN := update_pc_NULLIFY (s2.set_r 0 0) hb
    have hF := update_pc_frame (s2.set_r 0 0)
    refine ⟨s2, hx, hb, execute_step_of_fetch sf s _ s2 op hf hx, ?_, hN.2, ?_,
      hF.2.2.2.1.trans hhi, hF.2.2.2.2.1.trans hlo, hF.2.2.2.2.2.2.2.1.trans hfr,
      hF.2.2.2.2.2.2.2.2.1.trans hfc, hF.2.2.2.2.2.2.1.trans hmem,
      hF.2.2.2.2.2.1.trans hcp, hF.2.2.2.2.2.2.2.2.2.trans hT⟩
    · rw [hN.1, ← hu8]
      show u64 (s2.m_pc + 8) = _
      rw [hpc]
    · intro i hi h31
      rw [hF.2.2.1]
      simp only [State.set_r, if_neg hi]
      exact hr i h31
  rcases hsh with hx | ⟨hl, hx⟩ | hx
  · exact key _ hx rfl rfl (fun _ _ => rfl) rfl rfl rfl rfl rfl rfl rfl
  · refine key _ hx rfl rfl ?_ rfl rfl rfl rfl rfl rfl rfl
    intro i h31
    have hi : i ≠ 31 := fun h => h31 h hl
    simp only [State.set_r, State.nullify, if_neg hi]
  · exact key _ hx rfl rfl (fun _ _ => rfl) rfl rfl rfl rfl rfl rfl rfl

/-- Witness of C7: BEQL `r1, r2` (`0x50220003`) at `P = 0xffffffff80001000` with
`r1 = 0x7fffffff` and `r2 = 1`, so the branch is not taken; ADDU (`r3 = r1 + r2`) sits at
`P + 4`. The iteration ends at `P + 8` in state NONE with `r3` still 0. -/
theorem branch_likely_untaken_witness :
    fetch (example_state 0x5022000300221821) (example_state 0x5022000300221821).m_pc = (some 0x50220003, (example_state 0x5022000300221821))
    ∧ untaken_likely (example_state 0x5022000300221821) 0x50220003
    ∧ ∃ s2, cpu_execute example_softfloat (example_state 0x5022000300221821) 0x50220003 = Except.ok s2
      ∧ s2.m_branch_state = branch_state_t.NULLIFY
      ∧ execute_step example_softfloat (example_state 0x5022000300221821) = Except.ok (update_pc (s2.set_r 0 0))
      ∧ (update_pc (s2.set_r 0 0)).m_pc = 0xffffffff80001008
      ∧ (update_pc (s2.set_r 0 0)).m_branch_state = branch_state_t.NONE
      ∧ (update_pc (s2.set_r 0 0)).m_r 3 = 0 :=
  have hu : untaken_likely (example_state 0x5022000300221821) 0x50220003 := Or.inl (by decide)
  ⟨rfl, hu,
    (branch_likely_untaken example_softfloat (example_state 0x5022000300221821)
      (example_state 0x5022000300221821) 0x50220003 rfl hu).imp
      (fun _ h => ⟨h.1, h.2.1, h.2.2.1, h.2.2.2.1, h.2.2.2.2.1,
        (h.2.2.2.2.2.1 3 (by decide) (fun h3 => absurd h3 (by decide))).trans rfl⟩)⟩


/-! ## Exception controller -/

theorem cpu_exception_m_64 (s : State) (e v : Nat) :
    (cpu_exception s e v).m_64
      = if s.SR &&& SR_EXL = 0 then decide (s.SR &&& SR_KX ≠ 0) else s.m_64 := by
  have h1 : CP0_Status ≠ CP0_Cause := by decide
  have h2 : CP0_Status ≠ CP0_EPC := by decide
  have h3 : SR_EXL &&& SR_KX = 0 := by decide
  unfold cpu_exception
  by_cases hE : s.SR &&& SR_EXL = 0 <;>
    by_cases hD : s.m_branch_state = branch_state_t.DELAY <;>
    simp only [hE, hD, State.set_cp0, if_neg h1, if_neg h2, if_true, if_false, ↓reduceIte]
      <;> simp only [State.SR, State.CAUSE, State.set_cp0, if_neg h1, if_neg h2, if_true,
        if_false, ↓reduceIte, and_or_right, h3, Nat.or_zero]

/-- C13: with Status.EXL clear, `cpu_exception(code)` latches the program counter in EPC
when the branch state is not DELAY, and the program counter minus 4 (in 64 bits) with
Cause.BD set when it is DELAY; Cause becomes the old interrupt-pending bits or-ed with the
code (and with BD in the delay-slot case); Status gains EXL and is otherwise unchanged; the
64-bit flag becomes Status.KX; and the branch state becomes EXCEPTION. -/
theorem exception_entry (s : State) (code v : Nat) (hE : s.SR &&& SR_EXL = 0) :
    (s.m_branch_state ≠ branch_state_t.DELAY →
        (cpu_exception s code v).m_cp0 CP0_EPC = s.m_pc
        ∧ (cpu_exception s code v).m_cp0 CP0_Cause = (s.CAUSE &&& CAUSE_IP) ||| code)
    ∧ (s.m_branch_state = branch_state_t.DELAY →
        (cpu_exception s code v).m_cp0 CP0_EPC = (s.m_pc + (2 ^ 64 - 4)) % 2 ^ 64
        ∧ (4 ≤ s.m_pc → s.m_pc < 2 ^ 64 → (cpu_exception s code v).m_cp0 CP0_EPC = s.m_pc - 4)
        ∧ (cpu_exception s code v).m_cp0 CP0_Cause
            = ((s.CAUSE &&& CAUSE_IP) ||| code) ||| CAUSE_BD
        ∧ (cpu_exception s code v).m_cp0 CP0_Cause &&& CAUSE_BD = CAUSE_BD)
    ∧ (cpu_exception s code v).m_cp0 CP0_Status = s.SR ||| SR_EXL
    ∧ (cpu_exception s code v).m_cp0 CP0_Status &&& SR_EXL = SR_EXL
    ∧ (cpu_exception s code v).m_64 = decide (s.SR &&& SR_KX ≠ 0)
    ∧ (cpu_exception s code v).m_branch_state = branch_state_t.EXCEPTION := by
  have hEPC := cpu_exception_EPC s code v
  have hC := cpu_exception_Cause s code v
  have hS := cpu_exception_Status s code v
  have hM := cpu_exception_m_64 s code v
  rw [if_pos hE] at hEPC hC hS hM
  refine ⟨?_, ?_, hS, ?_, hM, rfl⟩
  · intro hD
    rw [if_neg hD] at hEPC hC
    exact ⟨hEPC, hC⟩
  · intro hD
    rw [if_pos hD] at hEPC hC
    have hu : u64 ((s.m_pc : Int) - 4) = (s.m_pc + (2 ^ 64 - 4)) % 2 ^ 64 := by
      unfold u64
      omega
    refine ⟨hEPC.trans hu, ?_, hC, ?_⟩
    · intro h4 hlt
      rw [hEPC, hu]
      omega
    · rw [hC]
      exact or_and_self_right _ _
  · rw [hS]
    exact or_and_self_right _ _

/-- Witness of C13: a reserved-instruction exception taken in a delay slot at
`0xffffffff80001000` with Status = 0: EPC is `0xffffffff80000ffc` and Cause is the code
with BD. -/
theorem exception_entry_witness :
    ({ example_state 0 with m_branch_state := branch_state_t.DELAY } : State).SR &&& SR_EXL = 0
    ∧ (cpu_exception { example_state 0 with m_branch_state := branch_state_t.DELAY }
        EXCEPTION_RI GENERAL_VECTOR).m_cp0 CP0_EPC = 0xffffffff80000ffc
    ∧ (cpu_exception { example_state 0 with m_branch_state := branch_state_t.DELAY }
        EXCEPTION_RI GENERAL_VECTOR).m_cp0 CP0_Cause = 0x80000028
    ∧ (cpu_exception { example_state 0 with m_branch_state := branch_state_t.DELAY }
        EXCEPTION_RI GENERAL_VECTOR).m_cp0 CP0_Status = SR_EXL :=
  ⟨by decide,
    ((exception_entry { example_state 0 with m_branch_state := branch_state_t.DELAY }
      EXCEPTION_RI GENERAL_VECTOR (by decide)).2.1 rfl).1.trans (by decide),
    ((exception_entry { example_state 0 with m_branch_state := branch_state_t.DELAY }
      EXCEPTION_RI GENERAL_VECTOR (by decide)).2.1 rfl).2.2.1.trans (by decide),
    (exception_entry { example_state 0 with m_branch_state := branch_state_t.DELAY }
      EXCEPTION_RI GENERAL_VECTOR (by decide)).2.2.1.trans (by decide)⟩


/-- C14 (as amended): with Status.EXL set, `cpu_exception(code)` leaves EPC, ErrorEPC and
Status unchanged and sets Cause to the old BD and interrupt-pending bits or-ed with the
code: BD and the interrupt-pending bits keep their values (for a code that carries none of
them), and every other bit of Cause, the exception code and the coprocessor number among
them, is the bit of the code raised. -/
theorem nested_exception_frame (s : State) (code v : Nat) (hE : s.SR &&& SR_EXL ≠ 0) :
    (cpu_exception s code v).m_cp0 CP0_EPC = s.m_cp0 CP0_EPC
    ∧ (cpu_exception s code v).m_cp0 CP0_ErrorEPC = s.m_cp0 CP0_ErrorEPC
    ∧ (cpu_exception s code v).m_cp0 CP0_Status = s.m_cp0 CP0_Status
    ∧ (cpu_exception s code v).m_cp0 CP0_Cause = (s.CAUSE &&& (CAUSE_BD ||| CAUSE_IP)) ||| code
    ∧ (code &&& (CAUSE_BD ||| CAUSE_IP) = 0 →
        (cpu_exception s code v).m_cp0 CP0_Cause &&& (CAUSE_BD ||| CAUSE_IP)
          = s.CAUSE &&& (CAUSE_BD ||| CAUSE_IP))
    ∧ (∀ i, Nat.testBit (CAUSE_BD ||| CAUSE_IP) i = false →
        Nat.testBit ((cpu_exception s code v).m_cp0 CP0_Cause) i = Nat.testBit code i) := by
  have hEPC := cpu_exception_EPC s code v
  have hC := cpu_exception_Cause s code v
  have hS := cpu_exception_Status s code v
  rw [if_neg hE] at hEPC hC hS
  refine ⟨hEPC, cpu_exception_cp0_other s code v _ (by decide) (by decide) (by decide), hS,
    hC, ?_, ?_⟩
  · intro hc
    rw [hC, and_or_right, hc, Nat.or_zero, Nat.and_assoc, Nat.and_self]
  · intro i hi
    rw [hC, Nat.testBit_or, Nat.testBit_and, hi, Bool.and_false, Bool.false_or]

/-- Witness of C14 (as amended): a reserved instruction inside the handler of a
coprocessor-unusable exception. -/
theorem nested_exception_frame_witness :
    example_nested_state.SR &&& SR_EXL ≠ 0
    ∧ (cpu_exception example_nested_state EXCEPTION_RI GENERAL_VECTOR).m_cp0 CP0_EPC
        = 0xffffffff80001000
    ∧ (cpu_exception example_nested_state EXCEPTION_RI GENERAL_VECTOR).m_cp0 CP0_Cause
        = EXCEPTION_RI :=
  ⟨by decide,
    (nested_exception_frame example_nested_state EXCEPTION_RI GENERAL_VECTOR (by decide)).1.trans
      (by decide),
    (nested_exception_frame example_nested_state EXCEPTION_RI GENERAL_VECTOR
      (by decide)).2.2.2.1.trans (by decide)⟩

/-- C14 (the claim as stated fails): inside the handler of a coprocessor-unusable exception
Cause holds the coprocessor number 1 in bits 28 and 29; a reserved-instruction exception
taken there, with Status.EXL set, clears it, so a bit of Cause outside the exception-code
field changes. -/
theorem nested_exception_clears_CE :
    example_nested_state.SR &&& SR_EXL ≠ 0
    ∧ example_nested_state.CAUSE &&& not64 CAUSE_EXCCODE = 0x10000000
    ∧ (cpu_exception example_nested_state EXCEPTION_RI GENERAL_VECTOR).CAUSE
        &&& not64 CAUSE_EXCCODE = 0
    ∧ ¬ ((cpu_exception example_nested_state EXCEPTION_RI GENERAL_VECTOR).CAUSE
        &&& not64 CAUSE_EXCCODE = example_nested_state.CAUSE &&& not64 CAUSE_EXCCODE) := by
  decide


theorem cpu_exception_vector (s : State) (e v : Nat) (hv : v < 2 ^ 16) :
    (cpu_exception s e v).m_pc = vector_base s + v := by
  rw [cpu_exception_m_pc]
  unfold vector_base
  have h1 : s64 (s32 0xbfc00200) = -0x40400000 + 0x200 := by decide
  have h2 : s64 (s32 0x80000000) = -0x80000000 := by decide
  split
  · rw [h1]
    unfold u64
    omega
  · rw [h2]
    unfold u64
    omega

theorem cpu_exception_vector_of (s t : State) (e v : Nat) (hv : v < 2 ^ 16)
    (ht : t.SR = s.SR) : (cpu_exception t e v).m_pc = vector_base s + v := by
  rw [cpu_exception_vector t e v hv]
  unfold vector_base
  rw [ht]

/-- The miss path of `translate` with side effects: the vector of the exception raised when
the scan of the TLB ends without a usable entry. -/
theorem tlb_lookup_miss_pc (s : State) (intention address : Nat) (extended : Bool)
    (h : ∀ index pfn, tlb_scan s intention address
          ((address &&& (if extended then EH_R ||| EH_VPN2_64 else EH_VPN2_32))
            ||| (s.m_cp0 CP0_EntryHi &&& EH_ASID)) extended TLB_SIZE ≠ scan_t.hit index pfn)
    (hs : ¬ s.side_effects_disabled ∧ intention &&& TRANSLATE_DEBUG_MASK = 0) :
    (tlb_scan s intention address
          ((address &&& (if extended then EH_R ||| EH_VPN2_64 else EH_VPN2_32))
            ||| (s.m_cp0 CP0_EntryHi &&& EH_ASID)) extended TLB_SIZE = scan_t.invalid
        ∨ tlb_scan s intention address
          ((address &&& (if extended then EH_R ||| EH_VPN2_64 else EH_VPN2_32))
            ||| (s.m_cp0 CP0_EntryHi &&& EH_ASID)) extended TLB_SIZE = scan_t.modify
        ∨ s.SR &&& SR_EXL ≠ 0 →
      (tlb_lookup s intention address extended).2.2.m_pc = vector_base s + GENERAL_VECTOR)
    ∧ (tlb_scan s intention address
          ((address &&& (if extended then EH_R ||| EH_VPN2_64 else EH_VPN2_32))
            ||| (s.m_cp0 CP0_EntryHi &&& EH_ASID)) extended TLB_SIZE = scan_t.nomatch
        → s.SR &&& SR_EXL = 0 →
      (tlb_lookup s intention address extended).2.2.m_pc
        = vector_base s + (if extended then 0x000 else 0x080)) := by
  have hG : GENERAL_VECTOR < 2 ^ 16 := by decide
  have hR : (if extended then 0x000 else 0x080) < 2 ^ 16 := by split <;> decide
  cases hr : tlb_scan s intention address
          ((address &&& (if extended then EH_R ||| EH_VPN2_64 else EH_VPN2_32))
            ||| (s.m_cp0 CP0_EntryHi &&& EH_ASID)) extended TLB_SIZE
  · exact absurd hr (h _ _)
  ·
    refine ⟨fun _ => ?_, fun hc => by cases hc⟩
    simp only [tlb_lookup, hr, if_pos hs, decide_True, true_or, if_true]
    exact cpu_exception_vector_of s _ _ _ hG rfl
  ·
    refine ⟨fun _ => ?_, fun hc => by cases hc⟩
    simp only [tlb_lookup, hr, if_pos hs, decide_True, true_or, or_true, if_true]
    exact cpu_exception_vector_of s _ _ _ hG rfl
  ·
    constructor
    · intro hc
      rcases hc with hc | hc | hc
      · cases hc
      · cases hc
      · have hc' : ((((s.set_cp0 CP0_BadVAddr address).set_cp0 CP0_EntryHi
            ((address &&& (if extended then EH_R ||| EH_VPN2_64 else EH_VPN2_32))
              ||| (s.m_cp0 CP0_EntryHi &&& EH_ASID))).set_cp0 CP0_Context
            (((s.set_cp0 CP0_BadVAddr address).set_cp0 CP0_EntryHi
              ((address &&& (if extended then EH_R ||| EH_VPN2_64 else EH_VPN2_32))
                ||| (s.m_cp0 CP0_EntryHi &&& EH_ASID))).m_cp0 CP0_Context &&& CONTEXT_PTEBASE
              ||| address >>> 9 &&& CONTEXT_BADVPN2)).set_cp0 CP0_XContext
            ((((s.set_cp0 CP0_BadVAddr address).set_cp0 CP0_EntryHi
              ((address &&& (if extended then EH_R ||| EH_VPN2_64 else EH_VPN2_32))
                ||| (s.m_cp0 CP0_EntryHi &&& EH_ASID))).set_cp0 CP0_Context
              (((s.set_cp0 CP0_BadVAddr address).set_cp0 CP0_EntryHi
                ((address &&& (if extended then EH_R ||| EH_VPN2_64 else EH_VPN2_32))
                  ||| (s.m_cp0 CP0_EntryHi &&& EH_ASID))).m_cp0 CP0_Context &&& CONTEXT_PTEBASE
                ||| address >>> 9 &&& CONTEXT_BADVPN2)).m_cp0 CP0_XContext &&& XCONTEXT_PTEBASE
              ||| address >>> 31 &&& XCONTEXT_R ||| address >>> 9 &&& XCONTEXT_BADVPN2)).SR
            &&& SR_EXL ≠ 0 := hc
        simp only [tlb_lookup, hr, if_pos hs, if_pos (Or.inr (Or.inr hc'))]
        exact cpu_exception_vector_of s _ _ _ hG rfl
    · intro _ hE
      have hE' : ¬ (((((s.set_cp0 CP0_BadVAddr address).set_cp0 CP0_EntryHi
            ((address &&& (if extended then EH_R ||| EH_VPN2_64 else EH_VPN2_32))
              ||| (s.m_cp0 CP0_EntryHi &&& EH_ASID))).set_cp0 CP0_Context
            (((s.set_cp0 CP0_BadVAddr address).set_cp0 CP0_EntryHi
              ((address &&& (if extended then EH_R ||| EH_VPN2_64 else EH_VPN2_32))
                ||| (s.m_cp0 CP0_EntryHi &&& EH_ASID))).m_cp0 CP0_Context &&& CONTEXT_PTEBASE
              ||| address >>> 9 &&& CONTEXT_BADVPN2)).set_cp0 CP0_XContext
            ((((s.set_cp0 CP0_BadVAddr address).set_cp0 CP0_EntryHi
              ((address &&& (if extended then EH_R ||| EH_VPN2_64 else EH_VPN2_32))
                ||| (s.m_cp0 CP0_EntryHi &&& EH_ASID))).set_cp0 CP0_Context
              (((s.set_cp0 CP0_BadVAddr address).set_cp0 CP0_EntryHi
                ((address &&& (if extended then EH_R ||| EH_VPN2_64 else EH_VPN2_32))
                  ||| (s.m_cp0 CP0_EntryHi &&& EH_ASID))).m_cp0 CP0_Context &&& CONTEXT_PTEBASE
                ||| address >>> 9 &&& CONTEXT_BADVPN2)).m_cp0 CP0_XContext &&& XCONTEXT_PTEBASE
              ||| address >>> 31 &&& XCONTEXT_R ||| address >>> 9 &&& XCONTEXT_BADVPN2)).SR
            &&& SR_EXL ≠ 0) := not_not.mpr hE
      simp only [tlb_lookup, hr, if_pos hs, reduceCtorEq, decide_False, Bool.false_eq_true,
        false_or, if_neg hE']
      exact cpu_exception_vector_of s _ _ _ hR rfl

theorem address_error_pc (s : State) (intention address : Nat)
    (hs : ¬ s.side_effects_disabled ∧ intention &&& TRANSLATE_DEBUG_MASK = 0) :
    (address_error s intention address).m_pc = vector_base s + GENERAL_VECTOR := by
  unfold address_error
  rw [if_pos hs]
  apply cpu_exception_vector_of s _ _ _ (by decide)
  split <;> rfl

/-! ## The exception vector across an instruction -/

theorem vec_ok_refl (s : State) : vec_ok s s := Or.inl ⟨rfl, rfl, rfl, rfl⟩

theorem vector_base_congr {a b : State} (h : b.SR &&& SR_BEV = a.SR &&& SR_BEV) :
    vector_base b = vector_base a := by
  unfold vector_base
  rw [h]

theorem vec_ok_trans {a b c : State} (h1 : vec_ok a b) (h2 : vec_ok b c) : vec_ok a c := by
  rcases h2 with ⟨p2, b2, s2, c2⟩ | ⟨b2, x2, v2, r2⟩
  · rcases h1 with ⟨p1, b1, s1, c1⟩ | ⟨b1, x1, v1, r1⟩
    · exact Or.inl ⟨p2.trans p1, b2.trans b1, s2.trans s1, c2.trans c1⟩
    · refine Or.inr ⟨b2.trans b1, ?_, ?_, ?_⟩
      · rw [s2]
        exact x1
      · rw [s2]
        exact v1
      · rw [p2, c2]
        exact r1
  · rcases h1 with ⟨p1, b1, s1, c1⟩ | ⟨b1, x1, v1, r1⟩
    · refine Or.inr ⟨b2, x2, ?_, ?_⟩
      · rw [v2, s1]
      · have hb : vector_base b = vector_base a := vector_base_congr (by rw [s1])
        rw [← hb, ← s1]
        exact r2
    · have hb : vector_base b = vector_base a := vector_base_congr v1
      refine Or.inr ⟨b2, x2, v2.trans v1, Or.inl ?_⟩
      rcases r2 with g | ⟨e, -, -⟩
      · rw [g, hb]
      · exact absurd e x1

theorem cpu_exception_EXL (s : State) (e v : Nat) : (cpu_exception s e v).SR &&& SR_EXL ≠ 0 := by
  unfold State.SR
  rw [cpu_exception_Status]
  split
  · rw [or_and_self_right]
    decide
  · assumption

theorem cpu_exception_BEV (s : State) (e v : Nat) :
    (cpu_exception s e v).SR &&& SR_BEV = s.SR &&& SR_BEV := by
  have hEB : SR_EXL &&& SR_BEV = 0 := by decide
  unfold State.SR
  rw [cpu_exception_Status]
  split
  · show (s.m_cp0 CP0_Status ||| SR_EXL) &&& SR_BEV = _
    rw [and_or_right, hEB, Nat.or_zero]
  · rfl

theorem vec_ok_exception (s : State) (e : Nat) :
    vec_ok s (cpu_exception s e GENERAL_VECTOR) :=
  Or.inr ⟨rfl, cpu_exception_EXL s e _, cpu_exception_BEV s e _,
    Or.inl (cpu_exception_vector s e _ (by decide))⟩

theorem vec_ok_exception_of {s s' : State} (h : vec_ok s s') (e : Nat) :
    vec_ok s (cpu_exception s' e GENERAL_VECTOR) :=
  vec_ok_trans h (vec_ok_exception s' e)

/-- The TLB refill: a TLB load or store exception raised with Status.EXL clear at one of the
two refill vectors. -/
theorem vec_ok_refill (s : State) (e v : Nat) (hE : s.SR &&& SR_EXL = 0)
    (he : e = EXCEPTION_TLBL ∨ e = EXCEPTION_TLBS) (hv : v = 0x000 ∨ v = 0x080) :
    vec_ok s (cpu_exception s e v) := by
  refine Or.inr ⟨rfl, cpu_exception_EXL s e _, cpu_exception_BEV s e _, Or.inr ⟨hE, ?_, ?_⟩⟩
  · rw [cpu_exception_exccode]
    rcases he with rfl | rfl
    · exact Or.inl (by decide)
    · exact Or.inr (by decide)
  · rcases hv with rfl | rfl
    · exact Or.inl (cpu_exception_vector s e _ (by decide))
    · exact Or.inr (cpu_exception_vector s e _ (by decide))

theorem vec_ok_set_cp0 {s s' : State} (h : vec_ok s s') (i v : Nat)
    (h1 : i ≠ CP0_Status) (h2 : i ≠ CP0_Cause) : vec_ok s (s'.set_cp0 i v) := by
  have e1 : (s'.set_cp0 i v).SR = s'.SR := by
    unfold State.SR State.set_cp0
    exact if_neg (Ne.symm h1)
  have e2 : (s'.set_cp0 i v).CAUSE = s'.CAUSE := by
    unfold State.CAUSE State.set_cp0
    exact if_neg (Ne.symm h2)
  exact vec_ok_trans h (Or.inl ⟨rfl, rfl, e1, e2⟩)

theorem vec_ok_set_r {s s' : State} (h : vec_ok s s') (i v : Nat) :
    vec_ok s (s'.set_r i v) := h

theorem vec_ok_set_f {s s' : State} (h : vec_ok s s') (i v : Nat) :
    vec_ok s (s'.set_f i v) := h

theorem vec_ok_address_error (s : State) (i a : Nat) : vec_ok s (address_error s i a) := by
  unfold address_error
  split
  · apply vec_ok_exception_of
    split
    · exact vec_ok_set_cp0 (vec_ok_refl s) _ _ (by decide) (by decide)
    · exact vec_ok_refl s
  · exact vec_ok_refl s

theorem vec_ok_address_error_of {s s' : State} (h : vec_ok s s') (i a : Nat) :
    vec_ok s (address_error s' i a) :=
  vec_ok_trans h (vec_ok_address_error s' i a)

/-- The exception of the miss path of `translate`: the general vector for an invalid entry,
a store to a clean entry and a miss with Status.EXL set, a refill vector otherwise. -/
theorem vec_ok_miss {s s4 : State} (h : vec_ok s s4) (c1 c2 w : Prop) [Decidable c1]
    [Decidable c2] [Decidable w] (e v a : Nat) (hv : v = 0x000 ∨ v = 0x080) :
    vec_ok s (if c1 ∨ c2 ∨ s4.SR &&& SR_EXL ≠ 0 then
        (translate_t.MISS, a, cpu_exception s4 e GENERAL_VECTOR)
      else
        (translate_t.MISS, a, cpu_exception s4
          (if w then EXCEPTION_TLBS else EXCEPTION_TLBL) v)).2.2 := by
  split
  · exact vec_ok_exception_of h _
  · rename_i hc
    refine vec_ok_trans h (vec_ok_refill _ _ _ ?_ ?_ hv)
    · exact not_not.mp (fun hx => hc (Or.inr (Or.inr hx)))
    · split
      · exact Or.inr rfl
      · exact Or.inl rfl

theorem vec_ok_tlb_lookup (s : State) (i a : Nat) (ext : Bool) :
    vec_ok s (tlb_lookup s i a ext).2.2 := by
  unfold tlb_lookup
  dsimp only
  split
  · exact Or.inl ⟨rfl, rfl, rfl, rfl⟩
  · have h4 : ∀ v1 v2 v3 v4, vec_ok s
        ((((s.set_cp0 CP0_BadVAddr v1).set_cp0 CP0_EntryHi v2).set_cp0 CP0_Context
          v3).set_cp0 CP0_XContext v4) := fun v1 v2 v3 v4 =>
      vec_ok_set_cp0 (vec_ok_set_cp0 (vec_ok_set_cp0 (vec_ok_set_cp0 (vec_ok_refl s) _ _
        (by decide) (by decide)) _ _ (by decide) (by decide)) _ _ (by decide) (by decide))
        _ _ (by decide) (by decide)
    by_cases hs : ¬ s.side_effects_disabled ∧ i &&& TRANSLATE_DEBUG_MASK = 0
    · rw [if_pos hs]
      exact vec_ok_miss (h4 _ _ _ _) _ _ _ _ _ _ (by cases ext <;> decide)
    · rw [if_neg hs]
      exact vec_ok_refl s

theorem vec_ok_translate (s : State) (i a : Nat) : vec_ok s (translate s i a).2.2 := by
  rcases translate_cases s i a with ⟨ext, h⟩ | h | h | h | h | h
  · rw [h]; exact vec_ok_tlb_lookup s i a ext
  all_goals rw [h]; exact vec_ok_refl s

theorem vec_ok_load (s : State) (n a : Nat) : vec_ok s (load s n a).2 := by
  unfold load
  split
  · exact vec_ok_address_error _ _ _
  · have ht := vec_ok_translate s TRANSLATE_READ a
    split
    · rename_i heq
      rw [heq] at ht
      exact vec_ok_address_error_of ht _ _
    · rename_i heq
      rw [heq] at ht
      exact ht
    · rename_i heq
      rw [heq] at ht
      split
      · exact vec_ok_exception_of ht _
      · exact ht

theorem vec_ok_load_linked (s : State) (n a : Nat) : vec_ok s (load_linked s n a).2 := by
  unfold load_linked
  split
  · exact vec_ok_address_error _ _ _
  · have ht := vec_ok_translate s TRANSLATE_READ a
    split
    · rename_i heq
      rw [heq] at ht
      exact vec_ok_address_error_of ht _ _
    · rename_i heq
      rw [heq] at ht
      exact ht
    · rename_i heq
      rw [heq] at ht
      split
      · exact vec_ok_exception_of ht _
      · exact ht

theorem vec_ok_bus_write (s : State) (n a d m : Nat) : vec_ok s (bus_write s n a d m) := by
  unfold bus_write
  dsimp only
  split
  · split <;> exact Or.inl ⟨rfl, rfl, rfl, rfl⟩
  · exact Or.inl ⟨rfl, rfl, rfl, rfl⟩

theorem vec_ok_store (s : State) (n a d m : Nat) : vec_ok s (store s n a d m).2 := by
  unfold store
  split
  · exact vec_ok_address_error _ _ _
  · have ht := vec_ok_translate s TRANSLATE_WRITE a
    split
    · rename_i heq
      rw [heq] at ht
      exact vec_ok_address_error_of ht _ _
    · rename_i heq
      rw [heq] at ht
      exact ht
    · rename_i heq
      rw [heq] at ht
      split
      · exact vec_ok_exception_of ht _
      · exact vec_ok_trans ht (vec_ok_bus_write _ _ _ _ _)

theorem vec_ok_fetch (s : State) (a : Nat) : vec_ok s (fetch s a).2 := by
  unfold fetch
  split
  · exact vec_ok_address_error _ _ _
  · have ht := vec_ok_translate s TRANSLATE_FETCH a
    split
    · rename_i heq
      rw [heq] at ht
      exact vec_ok_address_error_of ht _ _
    · rename_i heq
      rw [heq] at ht
      exact ht
    · rename_i heq
      rw [heq] at ht
      exact ht

theorem vec_ok_eq {s a b : State} (h : vec_ok s a)
    (hbs : b.m_branch_state = a.m_branch_state) (hpc : b.m_pc = a.m_pc)
    (hsr : b.SR = a.SR) (hc : b.CAUSE = a.CAUSE) : vec_ok s b :=
  vec_ok_trans h (Or.inl ⟨hpc, hbs, hsr, hc⟩)

section vector_frame

attribute [local irreducible] cpu_exception load store load_linked fetch address_error
  translate

theorem vec_ok_set_C {s s' : State} (h : vec_ok s s') (c : Bool) : vec_ok s (s'.set_C c) := by
  unfold State.set_C
  split <;> exact h

theorem vec_ok_signal_invalid {s s' : State} (h : vec_ok s s') :
    vec_ok s s'.signal_invalid := by
  unfold State.signal_invalid
  split
  · apply vec_ok_exception_of
    exact h
  · exact h

theorem vec_ok_ite_fcr31 {s a : State} (h : vec_ok s a) (c : Prop) [Decidable c] (v : Nat) :
    vec_ok s (if c then { a with m_fcr31 := v } else a) := by
  split <;> exact h

theorem vec_ok_cp1_set {s s' : State} (h : vec_ok s s') (reg data : Nat) :
    vec_ok s (cp1_set s' reg data) := by
  unfold cp1_set
  split
  · lift_lets
    intro s1 s2 s3 s4 s5
    have h1 : vec_ok s s1 := vec_ok_ite_fcr31 h _ _
    have h2 : vec_ok s s2 := vec_ok_ite_fcr31 h1 _ _
    have h3 : vec_ok s s3 := vec_ok_ite_fcr31 h2 _ _
    have h4 : vec_ok s s4 := vec_ok_ite_fcr31 h3 _ _
    have h5 : vec_ok s s5 := vec_ok_ite_fcr31 h4 _ _
    split
    · exact vec_ok_exception_of h5 _
    · apply vec_ok_set_f
      exact h5
  · exact h

theorem vec_ok_cp1_unimplemented {s s' : State} (h : vec_ok s s') :
    vec_ok s (cp1_unimplemented s') := by
  unfold cp1_unimplemented
  apply vec_ok_exception_of
  exact h

attribute [local irreducible] cp1_set State.signal_invalid State.set_C cp1_unimplemented
  State.set_f

theorem vec_ok_cp1_s (sf : softfloat_t) (s : State) (op : Nat) : vec_ok s (cp1_s sf s op) := by
  unfold cp1_s
  dsimp only [State.sf]
  repeat' split
  all_goals
    repeat (first
      | exact vec_ok_refl s
      | apply vec_ok_cp1_set
      | apply vec_ok_signal_invalid
      | apply vec_ok_set_C
      | apply vec_ok_set_f
      | apply vec_ok_exception_of
      | apply vec_ok_cp1_unimplemented)

theorem vec_ok_cp1_d (sf : softfloat_t) (s : State) (op : Nat) : vec_ok s (cp1_d sf s op) := by
  unfold cp1_d
  dsimp only [State.sf]
  repeat' split
  all_goals
    repeat (first
      | exact vec_ok_refl s
      | apply vec_ok_cp1_set
      | apply vec_ok_signal_invalid
      | apply vec_ok_set_C
      | apply vec_ok_set_f
      | apply vec_ok_exception_of
      | apply vec_ok_cp1_unimplemented)

theorem vec_ok_cp1_w (sf : softfloat_t) (s : State) (op : Nat) : vec_ok s (cp1_w sf s op) := by
  unfold cp1_w
  dsimp only [State.sf]
  repeat' split
  all_goals
    repeat (first
      | exact vec_ok_refl s
      | apply vec_ok_cp1_set
      | apply vec_ok_signal_invalid
      | apply vec_ok_set_C
      | apply vec_ok_set_f
      | apply vec_ok_exception_of
      | apply vec_ok_cp1_unimplemented)

theorem vec_ok_cp1_l (sf : softfloat_t) (s : State) (op : Nat) : vec_ok s (cp1_l sf s op) := by
  unfold cp1_l
  dsimp only [State.sf]
  repeat' split
  all_goals
    repeat (first
      | exact vec_ok_refl s
      | apply vec_ok_cp1_set
      | apply vec_ok_signal_invalid
      | apply vec_ok_set_C
      | apply vec_ok_set_f
      | apply vec_ok_exception_of
      | apply vec_ok_cp1_unimplemented)

end vector_frame

theorem vector_rule_of_ok {s s' : State} (h : vec_ok s s') : vector_rule s s' := by
  rcases h with ⟨p, -, -, -⟩ | h
  · exact Or.inl p
  · exact Or.inr h

theorem vector_rule_same {s s' : State} (h : s'.m_pc = s.m_pc) : vector_rule s s' :=
  Or.inl h

theorem vector_rule_branch (s : State) (op : Nat) : vector_rule s (s.branch op) :=
  Or.inl rfl

theorem vector_rule_nullify (s : State) : vector_rule s s.nullify :=
  Or.inl rfl

theorem vector_rule_jump (s : State) (t : Nat) :
    vector_rule s { s with m_branch_state := branch_state_t.BRANCH, m_branch_target := t } :=
  Or.inl rfl

theorem vector_rule_set_r {s s' : State} (h : vector_rule s s') (i v : Nat) :
    vector_rule s (s'.set_r i v) := h

theorem vector_rule_congr {s a x : State} (h : vector_rule a x)
    (hp : a.m_pc = s.m_pc) (hs : a.SR = s.SR) : vector_rule s x := by
  unfold vector_rule vector_base at *
  rw [← hp, ← hs]
  exact h

theorem vec_ok_load_eq {s s1 : State} {n a : Nat} {r : Option Nat}
    (h : load s n a = (r, s1)) : vec_ok s s1 := by
  have := vec_ok_load s n a
  rw [h] at this
  exact this

theorem vec_ok_load_linked_eq {s s1 : State} {n a : Nat} {r : Option (Nat × Nat)}
    (h : load_linked s n a = (r, s1)) : vec_ok s s1 := by
  have := vec_ok_load_linked s n a
  rw [h] at this
  exact this

theorem vec_ok_store_eq {s s1 : State} {n a d m : Nat} {r : Bool}
    (h : store s n a d m = (r, s1)) : vec_ok s s1 := by
  have := vec_ok_store s n a d m
  rw [h] at this
  exact this

theorem cp0_update_timer_m_pc (s : State) (b : Bool) :
    (cp0_update_timer s b).m_pc = s.m_pc := by
  unfold cp0_update_timer
  split_ifs <;> rfl

theorem cp0_mode_check_m_pc (s : State) : (cp0_mode_check s).m_pc = s.m_pc := by
  unfold cp0_mode_check
  split_ifs <;> rfl

theorem cp0_set_m_pc (s : State) (reg data : Nat) (s' : State)
    (h : cp0_set s reg data = Except.ok s') : s'.m_pc = s.m_pc := by
  unfold cp0_set at h
  dsimp only at h
  split_ifs at h
  all_goals cases h
  all_goals first
    | rfl
    | exact cp0_update_timer_m_pc _ _
    | exact cp0_mode_check_m_pc _

theorem cp0_tlbr_m_pc (s : State) : (cp0_tlbr s).m_pc = s.m_pc := by
  unfold cp0_tlbr
  dsimp only
  split <;> rfl

theorem cp0_tlbwi_m_pc (s : State) (i : Nat) : (cp0_tlbwi s i).m_pc = s.m_pc := by
  unfold cp0_tlbwi
  split <;> rfl

theorem cp0_tlbwr_m_pc (s : State) : (cp0_tlbwr s).m_pc = s.m_pc :=
  cp0_tlbwi_m_pc s _

theorem cp0_tlbp_m_pc (s : State) : (cp0_tlbp s).m_pc = s.m_pc := by
  unfold cp0_tlbp
  split <;> rfl

section vector_frame

attribute [local irreducible] cpu_exception cp0_mode_check cp0_set cp0_tlbr cp0_tlbwi cp0_tlbwr
  cp0_tlbp load store load_linked fetch address_error translate

/-- The group COP0: whatever coprocessor 0 executes other than ERET leaves the program
counter alone or raises an exception at the general vector. -/
theorem vector_rule_cp0_execute (s : State) (op : Nat) (s' : State)
    (h : cp0_execute s op = Except.ok s') :
    (¬ (s.SR &&& SR_KSU ≠ 0 ∧ s.SR &&& SR_CU0 = 0 ∧ s.SR &&& (SR_EXL ||| SR_ERL) = 0)
      ∧ 0x10 ≤ (op >>> 21) &&& 0x1f ∧ op &&& 0x3f = 0x18)
    ∨ vector_rule s s' := by
  by_cases hu : s.SR &&& SR_KSU ≠ 0 ∧ s.SR &&& SR_CU0 = 0 ∧ s.SR &&& (SR_EXL ||| SR_ERL) = 0
  · right
    unfold cp0_execute at h
    rw [if_pos hu] at h
    cases h
    exact vector_rule_of_ok (vec_ok_exception s _)
  · by_cases he : 0x10 ≤ (op >>> 21) &&& 0x1f ∧ op &&& 0x3f = 0x18
    · exact Or.inl ⟨hu, he⟩
    · right
      unfold cp0_execute at h
      rw [if_neg hu] at h
      split at h
      all_goals first
        | exact vector_rule_same (cp0_set_m_pc _ _ _ _ h)
        | (cases h; first
            | exact vector_rule_same rfl
            | exact vector_rule_of_ok (vec_ok_exception s _))
        | (split at h <;> first
            | exact vector_rule_same (cp0_set_m_pc _ _ _ _ h)
            | (cases h; first
                | exact vector_rule_same rfl
                | exact vector_rule_of_ok (vec_ok_exception s _)
                | exact vector_rule_same (cp0_tlbr_m_pc s)
                | exact vector_rule_same (cp0_tlbwi_m_pc s _)
                | exact vector_rule_same (cp0_tlbwr_m_pc s)
                | exact vector_rule_same (cp0_tlbp_m_pc s)
                | (exfalso
                   apply he
                   refine ⟨?_, by assumption⟩
                   omega)))

theorem vec_ok_cp2_execute (s : State) (op : Nat) : vec_ok s (cp2_execute s op) := by
  unfold cp2_execute
  repeat' split
  all_goals first
    | exact vec_ok_refl s
    | exact vec_ok_exception s _

theorem vec_ok_cpu_lwl (s : State) (op : Nat) : vec_ok s (cpu_lwl s op) := by
  unfold cpu_lwl
  dsimp only
  split
  · rename_i h
    exact vec_ok_set_r (vec_ok_load_eq h) _ _
  · rename_i h
    exact vec_ok_load_eq h

theorem vec_ok_cpu_lwr (s : State) (op : Nat) : vec_ok s (cpu_lwr s op) := by
  unfold cpu_lwr
  dsimp only
  split
  · rename_i h
    exact vec_ok_set_r (vec_ok_load_eq h) _ _
  · rename_i h
    exact vec_ok_load_eq h

theorem vec_ok_cpu_ldl (s : State) (op : Nat) : vec_ok s (cpu_ldl s op) := by
  unfold cpu_ldl
  dsimp only
  split
  · rename_i h
    exact vec_ok_set_r (vec_ok_load_eq h) _ _
  · rename_i h
    exact vec_ok_load_eq h

theorem vec_ok_cpu_ldr (s : State) (op : Nat) : vec_ok s (cpu_ldr s op) := by
  unfold cpu_ldr
  dsimp only
  split
  · rename_i h
    exact vec_ok_set_r (vec_ok_load_eq h) _ _
  · rename_i h
    exact vec_ok_load_eq h

theorem vec_ok_cpu_swl (s : State) (op : Nat) : vec_ok s (cpu_swl s op) :=
  vec_ok_store s _ _ _ _

theorem vec_ok_cpu_swr (s : State) (op : Nat) : vec_ok s (cpu_swr s op) :=
  vec_ok_store s _ _ _ _

theorem vec_ok_cpu_sdl (s : State) (op : Nat) : vec_ok s (cpu_sdl s op) :=
  vec_ok_store s _ _ _ _

theorem vec_ok_cpu_sdr (s : State) (op : Nat) : vec_ok s (cpu_sdr s op) :=
  vec_ok_store s _ _ _ _

attribute [local irreducible] cp1_set State.signal_invalid State.set_C cp1_unimplemented
  State.set_f State.set_r

theorem vector_rule_cp1_cop1 (sf : softfloat_t) (s : State) (op : Nat) :
    vector_rule s (cp1_cop1 sf s op) := by
  unfold cp1_cop1
  dsimp only
  repeat' split
  all_goals first
    | exact vector_rule_branch s op
    | exact vector_rule_nullify s
    | (apply vector_rule_of_ok
       first
        | exact vec_ok_refl s
        | exact vec_ok_cp1_s sf s op
        | exact vec_ok_cp1_d sf s op
        | exact vec_ok_cp1_w sf s op
        | exact vec_ok_cp1_l sf s op
        | exact vec_ok_set_r (vec_ok_refl s) _ _
        | exact vec_ok_set_f (vec_ok_refl s) _ _
        | exact vec_ok_exception s _
        | exact vec_ok_cp1_unimplemented (vec_ok_refl s)
        | (apply vec_ok_exception_of; exact vec_ok_refl s))

theorem vec_ok_flags_clear (s : State) : vec_ok s { s with softfloat_exceptionFlags := 0 } :=
  Or.inl ⟨rfl, rfl, rfl, rfl⟩

theorem vec_ok_ll_clear (s : State) : vec_ok s { s with m_ll_watch := none } :=
  Or.inl ⟨rfl, rfl, rfl, rfl⟩

theorem vector_rule_cp1_execute (sf : softfloat_t) (s : State) (op : Nat) :
    vector_rule s (cp1_execute sf s op) := by
  unfold cp1_execute
  split
  · exact vector_rule_of_ok (vec_ok_exception s _)
  · dsimp only
    have h0 := vec_ok_flags_clear s
    split
    · exact vector_rule_congr (vector_rule_cp1_cop1 sf _ op) rfl rfl
    · split
      · rename_i hl
        have h1 := vec_ok_trans h0 (vec_ok_load_eq hl)
        split_ifs <;> exact vector_rule_of_ok (vec_ok_set_f h1 _ _)
      · rename_i hl
        exact vector_rule_of_ok (vec_ok_trans h0 (vec_ok_load_eq hl))
    · split
      · rename_i hl
        have h1 := vec_ok_trans h0 (vec_ok_load_eq hl)
        split_ifs
        · exact vector_rule_of_ok (vec_ok_set_f h1 _ _)
        · exact vector_rule_of_ok h1
      · rename_i hl
        exact vector_rule_of_ok (vec_ok_trans h0 (vec_ok_load_eq hl))
    · split_ifs <;> exact vector_rule_of_ok (vec_ok_trans h0 (vec_ok_store _ _ _ _ _))
    · split_ifs
      · exact vector_rule_of_ok (vec_ok_trans h0 (vec_ok_store _ _ _ _ _))
      · exact vector_rule_of_ok h0
    · exact vector_rule_of_ok h0

theorem vector_rule_cpu_regimm (s : State) (op : Nat) : vector_rule s (cpu_regimm s op) := by
  unfold cpu_regimm
  dsimp only
  by_cases c1 : s64 (s.m_r (RSREG op)) < 0 <;>
  by_cases c2 : s64 (s.m_r (RSREG op)) ≥ 0 <;>
  by_cases c3 : s64 (s.m_r (RSREG op)) ≥ s16 op <;>
  by_cases c4 : s64 (s.m_r (RSREG op)) < s16 op <;>
  simp only [c1, c2, c3, c4, ↓reduceIte] <;>
  repeat' split
  all_goals with_reducible first
    | exact vector_rule_branch s op
    | exact vector_rule_nullify s
    | exact vector_rule_set_r (vector_rule_branch s op) _ _
    | exact vector_rule_set_r (vector_rule_nullify s) _ _
    | exact vector_rule_of_ok (vec_ok_refl s)
    | exact vector_rule_of_ok (vec_ok_set_r (vec_ok_refl s) _ _)
    | exact vector_rule_of_ok (vec_ok_exception s _)

theorem vector_rule_cpu_special (s : State) (op : Nat) (s' : State)
    (h : cpu_special s op = Except.ok s') : vector_rule s s' := by
  unfold cpu_special at h
  dsimp only at h
  split at h
  all_goals try unfold checked_sdiv at h
  all_goals try unfold checked_udiv at h
  all_goals repeat' (split at h)
  all_goals cases h
  all_goals with_reducible first
    | exact vector_rule_of_ok (vec_ok_set_r (vec_ok_refl s) _ _)
    | exact vector_rule_of_ok (vec_ok_exception s _)
    | exact vector_rule_jump s _
    | exact vector_rule_set_r (vector_rule_jump s _) _ _
    | exact vector_rule_same rfl

theorem vec_ok_ll {s s1 : State} (h : vec_ok s s1) (i v j w : Nat) (t : Option ll_tap)
    (h1 : j ≠ CP0_Status) (h2 : j ≠ CP0_Cause) :
    vec_ok s { (s1.set_r i v).set_cp0 j w with m_ll_watch := t } :=
  vec_ok_set_cp0 (vec_ok_set_r h i v) j w h1 h2

theorem vec_ok_sc (s : State) (n a d m i v : Nat) :
    vec_ok s ((store { s with m_ll_watch := none } n a d m).2.set_r i v) :=
  vec_ok_set_r (vec_ok_trans (vec_ok_ll_clear s) (vec_ok_store _ _ _ _ _)) _ _

/-- The rule of the exception vectors holds across every instruction but an ERET that
coprocessor 0 executes. -/
theorem vector_rule_cpu_execute (sf : softfloat_t) (s : State) (op : Nat) (s' : State)
    (h : cpu_execute sf s op = Except.ok s') : executes_eret s op ∨ vector_rule s s' := by
  by_cases h0 : op >>> 26 = 0x10
  · simp only [cpu_execute, h0] at h
    rcases vector_rule_cp0_execute s op s' h with ⟨h1, h2, h3⟩ | h1
    · exact Or.inl ⟨h0, h1, h2, h3⟩
    · exact Or.inr h1
  · right
    unfold cpu_execute at h
    dsimp only at h
    split at h
    all_goals first
      | exact vector_rule_cpu_special s op s' h
      | exact absurd (by assumption) h0
      | skip
    all_goals repeat' (split at h)
    all_goals cases h
    all_goals with_reducible first
      | exact vector_rule_cpu_regimm s op
      | exact vector_rule_cp1_execute sf s op
      | exact vector_rule_branch s op
      | exact vector_rule_nullify s
      | exact vector_rule_jump s _
      | exact vector_rule_set_r (vector_rule_jump s _) _ _
      | exact vector_rule_of_ok (vec_ok_refl s)
      | exact vector_rule_of_ok (vec_ok_set_r (vec_ok_refl s) _ _)
      | exact vector_rule_of_ok (vec_ok_cp2_execute s op)
      | exact vector_rule_of_ok (vec_ok_exception s _)
      | exact vector_rule_of_ok (vec_ok_cpu_lwl s op)
      | exact vector_rule_of_ok (vec_ok_cpu_lwr s op)
      | exact vector_rule_of_ok (vec_ok_cpu_swl s op)
      | exact vector_rule_of_ok (vec_ok_cpu_swr s op)
      | exact vector_rule_of_ok (vec_ok_cpu_ldl s op)
      | exact vector_rule_of_ok (vec_ok_cpu_ldr s op)
      | exact vector_rule_of_ok (vec_ok_cpu_sdl s op)
      | exact vector_rule_of_ok (vec_ok_cpu_sdr s op)
      | exact vector_rule_of_ok (vec_ok_store s _ _ _ _)
      | exact vector_rule_of_ok (vec_ok_sc s _ _ _ _ _ _)
      | exact vector_rule_of_ok (vec_ok_load_eq (by assumption))
      | exact vector_rule_of_ok (vec_ok_set_r (vec_ok_load_eq (by assumption)) _ _)
      | exact vector_rule_of_ok (vec_ok_load_linked_eq (by assumption))
      | exact vector_rule_of_ok
          (vec_ok_ll (vec_ok_load_linked_eq (by assumption)) _ _ _ _ _ (by decide) (by decide))

end vector_frame

/-- The rule of the exception vectors across the fetch of an instruction and its execution:
the closure `cpu_execute(op); m_r[0] = 0` that `execute_run` hands to `fetch`. -/
theorem vector_rule_fetch_execute (sf : softfloat_t) (s s' : State)
    (h : fetch_execute sf s = Except.ok s') :
    (∃ op s1, fetch s s.m_pc = (some op, s1) ∧ executes_eret s op) ∨ vector_rule s s' := by
  unfold fetch_execute at h
  split at h
  · rename_i op s1 hf
    obtain ⟨l, rfl⟩ := fetch_some s _ op s1 hf
    cases hx : cpu_execute sf { s with m_last := l } op with
    | error e =>
      rw [hx] at h
      cases h
    | ok s2 =>
      rw [hx] at h
      cases h
      rcases vector_rule_cpu_execute sf _ op s2 hx with he | hr
      · exact Or.inl ⟨op, _, hf, he⟩
      · exact Or.inr (vector_rule_set_r (vector_rule_congr hr rfl rfl) 0 0)
  · rename_i s1 hf
    cases h
    have hv := vec_ok_fetch s s.m_pc
    rw [hf] at hv
    exact Or.inr (vector_rule_of_ok hv)

/-- The interrupt check at the entry of `execute_run` raises the interrupt exception at the
general vector. -/
theorem execute_run_interrupt_vector (sf : softfloat_t) (fuel : Nat) (s : State)
    (h : s.CAUSE &&& s.SR &&& CAUSE_IP ≠ 0 ∧ s.SR &&& SR_IE ≠ 0
      ∧ s.SR &&& (SR_EXL ||| SR_ERL) = 0) :
    execute_run sf fuel s
      = execute_loop sf fuel (cpu_exception s EXCEPTION_INT GENERAL_VECTOR) := by
  unfold execute_run
  rw [if_pos h]

/-- C15: after `cpu_exception(code, v)` the program counter is the sign-extended boot base
`0xffffffffbfc00200` plus `v` when Status.BEV is set and the sign-extended base
`0xffffffff80000000` plus `v` when it is clear (`v` is a `u16`). The default offset is
`0x180`, and the exceptions raised on the translation path use it: an address error, and in
the miss path of `translate` a matching entry that is invalid, a store to a matching entry
that is not dirty, and any miss with Status.EXL set; only a miss without a matching entry
and with EXL clear, the TLB refill, uses the offset chosen by the addressing width. Across
every instruction word that `cpu_execute` completes, an ERET that coprocessor 0 executes
apart, and across the fetch of an instruction followed by its execution, the rule of the
exception vectors holds: the program counter is as before, or the instruction ends in the
branch state EXCEPTION at the vector base plus the general offset, unless Status.EXL was
clear before and the exception code left in Cause is TLBL or TLBS, where it ends at the
vector base plus `0x000` or `0x080`; so that system call, breakpoint, overflow, trap,
reserved instruction, coprocessor unusable, floating-point, watch, address error and TLB
modified exceptions, whose codes are neither TLBL nor TLBS, all enter at the general offset
(for the TLB invalid exception, whose code is TLBL or TLBS, this is the statement on the
miss path). The interrupt that `execute_run` takes at its entry is raised with the general
offset too. -/
theorem exception_vector (s : State) (code v : Nat) (hv : v < 2 ^ 16) :
    (s.SR &&& SR_BEV ≠ 0 → (cpu_exception s code v).m_pc = 0xffffffffbfc00200 + v)
    ∧ (s.SR &&& SR_BEV = 0 → (cpu_exception s code v).m_pc = 0xffffffff80000000 + v)
    ∧ GENERAL_VECTOR = 0x180
    ∧ (∀ intention address,
        ¬ s.side_effects_disabled ∧ intention &&& TRANSLATE_DEBUG_MASK = 0 →
        (address_error s intention address).m_pc = vector_base s + GENERAL_VECTOR)
    ∧ (∀ intention address extended,
        ¬ s.side_effects_disabled ∧ intention &&& TRANSLATE_DEBUG_MASK = 0 →
        (∀ index pfn, tlb_scan s intention address
          ((address &&& (if extended then EH_R ||| EH_VPN2_64 else EH_VPN2_32))
            ||| (s.m_cp0 CP0_EntryHi &&& EH_ASID)) extended TLB_SIZE ≠ scan_t.hit index pfn) →
        (tlb_scan s intention address
              ((address &&& (if extended then EH_R ||| EH_VPN2_64 else EH_VPN2_32))
                ||| (s.m_cp0 CP0_EntryHi &&& EH_ASID)) extended TLB_SIZE = scan_t.invalid
            ∨ tlb_scan s intention address
              ((address &&& (if extended then EH_R ||| EH_VPN2_64 else EH_VPN2_32))
                ||| (s.m_cp0 CP0_EntryHi &&& EH_ASID)) extended TLB_SIZE = scan_t.modify
            ∨ s.SR &&& SR_EXL ≠ 0 →
          (tlb_lookup s intention address extended).2.2.m_pc
            = vector_base s + GENERAL_VECTOR)
        ∧ (tlb_scan s intention address
              ((address &&& (if extended then EH_R ||| EH_VPN2_64 else EH_VPN2_32))
                ||| (s.m_cp0 CP0_EntryHi &&& EH_ASID)) extended TLB_SIZE = scan_t.nomatch
            → s.SR &&& SR_EXL = 0 →
          (tlb_lookup s intention address extended).2.2.m_pc
            = vector_base s + (if extended then 0x000 else 0x080)))
    ∧ (∀ sf op s', cpu_execute sf s op = Except.ok s' →
        executes_eret s op ∨ vector_rule s s')
    ∧ (∀ sf s', fetch_execute sf s = Except.ok s' →
        (∃ op s1, fetch s s.m_pc = (some op, s1) ∧ executes_eret s op) ∨ vector_rule s s')
    ∧ (s.CAUSE &&& s.SR &&& CAUSE_IP ≠ 0 ∧ s.SR &&& SR_IE ≠ 0
        ∧ s.SR &&& (SR_EXL ||| SR_ERL) = 0 →
      (∀ sf fuel, execute_run sf fuel s
        = execute_loop sf fuel (cpu_exception s EXCEPTION_INT GENERAL_VECTOR))
      ∧ (cpu_exception s EXCEPTION_INT GENERAL_VECTOR).m_pc
        = vector_base s + GENERAL_VECTOR) := by
  have hp := cpu_exception_vector s code v hv
  unfold vector_base at hp
  refine ⟨?_, ?_, rfl, address_error_pc s, ?_, ?_, ?_, ?_⟩
  · intro hb
    rw [hp, if_pos hb]
  · intro hb
    rw [hp, if_neg (not_not.mpr hb)]
  · intro intention address extended hs h
    exact tlb_lookup_miss_pc s intention address extended h hs
  · intro sf op s' h
    exact vector_rule_cpu_execute sf s op s' h
  · intro sf s' h
    exact vector_rule_fetch_execute sf s s' h
  · intro h
    exact ⟨fun sf fuel => execute_run_interrupt_vector sf fuel s h,
      cpu_exception_vector s _ _ (by decide)⟩

/-- Witness of C15: the general vector with BEV clear is `0xffffffff80000180`; a load from
the mapped address `0x2000`, which no TLB entry matches, with EXL clear is a refill and goes
to offset `0x080`, the same miss inside an exception handler goes to the general vector.
SYSCALL (`0x0000000c`), BREAK (`0x0000000d`), ADDI `r3, r1, 1` (`0x20230001`, an overflow),
TEQ `r0, r0` (`0x00000034`), the reserved word `0x70000000`, LWC1 with coprocessor 1
unusable (`0xc4000000`) and LW from the odd address 1 (`0x8c030001`) in the example state
all end in the branch state EXCEPTION at `0xffffffff80000180`, with their exception codes in
Cause (`0x2c` is coprocessor unusable); the rule of the exception vectors holds across SYSCALL. -/
theorem exception_vector_witness :
    GENERAL_VECTOR < 2 ^ 16
    ∧ (cpu_exception (example_state 0) EXCEPTION_RI GENERAL_VECTOR).m_pc = 0xffffffff80000180
    ∧ (translate (example_state 0) TRANSLATE_READ 0x2000).2.2.m_pc = 0xffffffff80000080
    ∧ (translate example_nested_state TRANSLATE_READ 0x2000).2.2.m_pc = 0xffffffff80000180
    ∧ vector_rule (example_state 0)
        (cpu_exception (example_state 0) EXCEPTION_SYS GENERAL_VECTOR)
    ∧ (cpu_execute example_softfloat (example_state 0) 0x0000000c).toOption.map
        (fun s' => (s'.m_pc, s'.m_branch_state, s'.CAUSE &&& CAUSE_EXCCODE))
      = some (0xffffffff80000180, branch_state_t.EXCEPTION, EXCEPTION_SYS)
    ∧ (cpu_execute example_softfloat (example_state 0) 0x0000000d).toOption.map
        (fun s' => (s'.m_pc, s'.m_branch_state, s'.CAUSE &&& CAUSE_EXCCODE))
      = some (0xffffffff80000180, branch_state_t.EXCEPTION, EXCEPTION_BP)
    ∧ (cpu_execute example_softfloat (example_state 0) 0x20230001).toOption.map
        (fun s' => (s'.m_pc, s'.m_branch_state, s'.CAUSE &&& CAUSE_EXCCODE))
      = some (0xffffffff80000180, branch_state_t.EXCEPTION, EXCEPTION_OV)
    ∧ (cpu_execute example_softfloat (example_state 0) 0x00000034).toOption.map
        (fun s' => (s'.m_pc, s'.m_branch_state, s'.CAUSE &&& CAUSE_EXCCODE))
      = some (0xffffffff80000180, branch_state_t.EXCEPTION, EXCEPTION_TR)
    ∧ (cpu_execute example_softfloat (example_state 0) 0x70000000).toOption.map
        (fun s' => (s'.m_pc, s'.m_branch_state, s'.CAUSE &&& CAUSE_EXCCODE))
      = some (0xffffffff80000180, branch_state_t.EXCEPTION, EXCEPTION_RI)
    ∧ (cpu_execute example_softfloat (example_state 0) 0xc4000000).toOption.map
        (fun s' => (s'.m_pc, s'.m_branch_state, s'.CAUSE &&& CAUSE_EXCCODE))
      = some (0xffffffff80000180, branch_state_t.EXCEPTION, 0x2c)
    ∧ (cpu_execute example_softfloat (example_state 0) 0x8c030001).toOption.map
        (fun s' => (s'.m_pc, s'.m_branch_state, s'.CAUSE &&& CAUSE_EXCCODE))
      = some (0xffffffff80000180, branch_state_t.EXCEPTION, EXCEPTION_ADEL) :=
  ⟨by decide,
    (exception_vector (example_state 0) EXCEPTION_RI GENERAL_VECTOR (by decide)).2.1 (by decide),
    by decide, by decide,
    ((exception_vector (example_state 0) EXCEPTION_RI GENERAL_VECTOR
      (by decide)).2.2.2.2.2.1 example_softfloat 0x0000000c _ rfl).resolve_left (by decide),
    by decide, by decide, by decide, by decide, by decide, by decide, by decide⟩

/-! ## Side-effect-suppressed accesses -/

theorem tlb_lookup_miss_debug (s : State) (intention address : Nat) (extended : Bool)
    (h : ∀ index pfn, tlb_scan s intention address
          ((address &&& (if extended then EH_R ||| EH_VPN2_64 else EH_VPN2_32))
            ||| (s.m_cp0 CP0_EntryHi &&& EH_ASID)) extended TLB_SIZE ≠ scan_t.hit index pfn)
    (hs : ¬ (¬ s.side_effects_disabled ∧ intention &&& TRANSLATE_DEBUG_MASK = 0)) :
    tlb_lookup s intention address extended = (translate_t.MISS, address, s) := by
  cases hr : tlb_scan s intention address
          ((address &&& (if extended then EH_R ||| EH_VPN2_64 else EH_VPN2_32))
            ||| (s.m_cp0 CP0_EntryHi &&& EH_ASID)) extended TLB_SIZE
  · exact absurd hr (h _ _)
  · simp only [tlb_lookup, hr, if_neg hs]
  · simp only [tlb_lookup, hr, if_neg hs]
  · simp only [tlb_lookup, hr, if_neg hs]

/-- C17: for an access whose intention carries the debug flag, or with the side effects of
the machine disabled, a call of `translate` that returns MISS or ERROR hands back the state
it was given, and so does `address_error`: no exception is raised, and no CP0 register
(BadVAddr, EntryHi, Context, XContext, Cause, Status, EPC among them), nor the program
counter, the branch state, the TLB or the last-used indices changes. The address handed
back by `translate` is the one passed in. -/
theorem suppressed_access_is_silent (s : State) (intention address : Nat)
    (hd : s.side_effects_disabled = true ∨ intention &&& TRANSLATE_DEBUG_MASK ≠ 0) :
    ((translate s intention address).1 = translate_t.MISS
        ∨ (translate s intention address).1 = translate_t.ERROR →
      (translate s intention address).2.2 = s
      ∧ (translate s intention address).2.1 = address)
    ∧ address_error s intention address = s := by
  have hs : ¬ (¬ s.side_effects_disabled ∧ intention &&& TRANSLATE_DEBUG_MASK = 0) := by
    rintro ⟨h1, h2⟩
    rcases hd with h | h
    · exact h1 h
    · exact h h2
  constructor
  · intro hm
    rcases translate_cases s intention address with ⟨ext, hx⟩ | hx | hx | hx | hx | hx
    · by_cases hh : ∃ index pfn, tlb_scan s intention address
          ((address &&& (if ext then EH_R ||| EH_VPN2_64 else EH_VPN2_32))
            ||| (s.m_cp0 CP0_EntryHi &&& EH_ASID)) ext TLB_SIZE = scan_t.hit index pfn
      · obtain ⟨index, pfn, hit⟩ := hh
        rw [hx, tlb_lookup_hit s intention address ext index pfn hit] at hm
        dsimp only at hm
        rcases hm with hm | hm <;> split at hm <;> cases hm
      · have hn : ∀ index pfn, tlb_scan s intention address
            ((address &&& (if ext then EH_R ||| EH_VPN2_64 else EH_VPN2_32))
              ||| (s.m_cp0 CP0_EntryHi &&& EH_ASID)) ext TLB_SIZE ≠ scan_t.hit index pfn :=
          fun index pfn hc => hh ⟨index, pfn, hc⟩
        rw [hx, tlb_lookup_miss_debug s intention address ext hn hs]
        exact ⟨rfl, rfl⟩
    · rw [hx]
      exact ⟨rfl, rfl⟩
    all_goals
      rw [hx] at hm
      rcases hm with hm | hm <;> cases hm
  · unfold address_error
    rw [if_neg hs]

/-- Witness of C17: a debugger read of the mapped address `0x2000`, which no TLB entry
matches, reports a miss and leaves the state as it was. -/
theorem suppressed_access_is_silent_witness :
    (TRANSLATE_READ ||| TRANSLATE_DEBUG_MASK) &&& TRANSLATE_DEBUG_MASK ≠ 0
    ∧ (translate (example_state 0) (TRANSLATE_READ ||| TRANSLATE_DEBUG_MASK) 0x2000).1
        = translate_t.MISS
    ∧ (translate (example_state 0) (TRANSLATE_READ ||| TRANSLATE_DEBUG_MASK) 0x2000).2.2
        = example_state 0
    ∧ address_error (example_state 0) (TRANSLATE_READ ||| TRANSLATE_DEBUG_MASK) 0x2001
        = example_state 0 :=
  ⟨by decide, by decide,
    ((suppressed_access_is_silent (example_state 0) (TRANSLATE_READ ||| TRANSLATE_DEBUG_MASK)
      0x2000 (Or.inr (by decide))).1 (Or.inl (by decide))).1,
    (suppressed_access_is_silent (example_state 0) (TRANSLATE_READ ||| TRANSLATE_DEBUG_MASK)
      0x2001 (Or.inr (by decide))).2⟩


/-! ## Random and Wired -/

theorem and_63_of_lt (x : Nat) (h : x < 64) : x &&& 0x3f = x := by
  have := Nat.and_pow_two_sub_one_eq_mod x 6
  simp only [Nat.reducePow, Nat.add_one_sub_one] at this
  rw [this]
  omega

theorem wired_lt_64 (s : State) : s.m_cp0 CP0_Wired &&& 0x3f < 64 :=
  Nat.lt_of_le_of_lt Nat.and_le_right (by decide)

theorem cp0_get_Random (s : State) :
    cp0_get s CP0_Random
      = if s.m_cp0 CP0_Wired &&& 0x3f < TLB_SIZE then
          u64 ((s.total_cycles : Int) - s.m_cp0_timer_zero)
            % (TLB_SIZE - (s.m_cp0 CP0_Wired &&& 0x3f)) + (s.m_cp0 CP0_Wired &&& 0x3f)
        else TLB_SIZE - 1 := by
  have hw := wired_lt_64 s
  have h8 : u8 ((s.m_cp0 CP0_Wired &&& 0x3f : Nat) : Int) = s.m_cp0 CP0_Wired &&& 0x3f :=
    u8_of_lt _ (by omega)
  unfold cp0_get
  rw [if_neg (by decide : CP0_Random ≠ CP0_Count), if_pos rfl]
  dsimp only
  rw [h8]
  split
  · rename_i hlt
    apply and_63_of_lt
    have hm := Nat.mod_lt (u64 ((s.total_cycles : Int) - s.m_cp0_timer_zero))
      (show 0 < TLB_SIZE - (s.m_cp0 CP0_Wired &&& 0x3f) by omega)
    have hT : TLB_SIZE = 48 := rfl
    omega
  · rfl

theorem random_range_aux (s : State) :
    cp0_get s CP0_Random ≤ TLB_SIZE - 1
    ∧ (s.m_cp0 CP0_Wired &&& 0x3f < TLB_SIZE →
        s.m_cp0 CP0_Wired &&& 0x3f ≤ cp0_get s CP0_Random) := by
  have hT : TLB_SIZE = 48 := rfl
  rw [cp0_get_Random]
  constructor
  · split
    · rename_i hlt
      have hm := Nat.mod_lt (u64 ((s.total_cycles : Int) - s.m_cp0_timer_zero))
        (show 0 < TLB_SIZE - (s.m_cp0 CP0_Wired &&& 0x3f) by omega)
      omega
    · exact Nat.le_refl _
  · intro hlt
    rw [if_pos hlt]
    omega

/-- C19 (as amended): a read of Random returns a value of at most `TLB_SIZE - 1`; when the
6-bit value of Wired is below `TLB_SIZE` the value is at least Wired, and when Wired is
`TLB_SIZE` or more the value is `TLB_SIZE - 1`, which is below Wired. -/
theorem random_range (s : State) :
    cp0_get s CP0_Random ≤ TLB_SIZE - 1
    ∧ (s.m_cp0 CP0_Wired &&& 0x3f < TLB_SIZE →
        s.m_cp0 CP0_Wired &&& 0x3f ≤ cp0_get s CP0_Random)
    ∧ (TLB_SIZE ≤ s.m_cp0 CP0_Wired &&& 0x3f →
        cp0_get s CP0_Random = TLB_SIZE - 1 ∧ cp0_get s CP0_Random < s.m_cp0 CP0_Wired &&& 0x3f)
    := by
  have hT : TLB_SIZE = 48 := rfl
  rw [cp0_get_Random]
  refine ⟨?_, ?_, ?_⟩
  · split
    · rename_i hlt
      have hm := Nat.mod_lt (u64 ((s.total_cycles : Int) - s.m_cp0_timer_zero))
        (show 0 < TLB_SIZE - (s.m_cp0 CP0_Wired &&& 0x3f) by omega)
      omega
    · exact Nat.le_refl _
  · intro hlt
    rw [if_pos hlt]
    omega
  · intro hge
    rw [if_neg (by omega)]
    omega

/-- C19 (the claim as stated fails): with Wired = 48 a read of Random returns 47, which is
below Wired. -/
theorem random_below_wired :
    ((example_state 0).set_cp0 CP0_Wired 48).m_cp0 CP0_Wired &&& 0x3f = 48
    ∧ cp0_get ((example_state 0).set_cp0 CP0_Wired 48) CP0_Random = 47
    ∧ ¬ (((example_state 0).set_cp0 CP0_Wired 48).m_cp0 CP0_Wired &&& 0x3f
          ≤ cp0_get ((example_state 0).set_cp0 CP0_Wired 48) CP0_Random) := by
  decide

theorem cp0_tlbwi_entry (s : State) (i : Nat) (hi : i < TLB_SIZE) :
    (cp0_tlbwi s i).m_tlb i =
      { mask := s.m_cp0 CP0_PageMask
        vpn := (if s.m_cp0 CP0_EntryLo0 &&& EL_G ≠ 0 ∧ s.m_cp0 CP0_EntryLo1 &&& EL_G ≠ 0
                then s.m_cp0 CP0_EntryHi ||| EH_G else s.m_cp0 CP0_EntryHi)
        pfn0 := s.m_cp0 CP0_EntryLo0
        pfn1 := s.m_cp0 CP0_EntryLo1
        low_bit := 32 - count_leading_zeros ((s.m_cp0 CP0_PageMask >>> 1) ||| 0xfff) } := by
  unfold cp0_tlbwi
  rw [if_pos hi]
  show (if i = i then _ else _) = _
  rw [if_pos rfl]

theorem cp0_tlbwi_frame (s : State) (i : Nat) :
    cp0_tlbwi s i = { s with m_tlb := (cp0_tlbwi s i).m_tlb }
    ∧ (∀ j, j ≠ i → (cp0_tlbwi s i).m_tlb j = s.m_tlb j) := by
  unfold cp0_tlbwi
  split
  · refine ⟨rfl, ?_⟩
    intro j hj
    show (if j = i then _ else _) = _
    rw [if_neg hj]
  · exact ⟨rfl, fun _ _ => rfl⟩

theorem cp0_tlbwr_eq (s : State) (hw : s.m_cp0 CP0_Wired &&& 0x3f ≤ TLB_SIZE) :
    cp0_tlbwr s = cp0_tlbwi s (cp0_get s CP0_Random) := by
  have hT : TLB_SIZE = 48 := rfl
  have h8 : u8 ((s.m_cp0 CP0_Wired &&& 0x3f : Nat) : Int) = s.m_cp0 CP0_Wired &&& 0x3f :=
    u8_of_lt _ (by omega)
  have hun : u8 ((TLB_SIZE : Int) - (s.m_cp0 CP0_Wired &&& 0x3f : Nat))
      = TLB_SIZE - (s.m_cp0 CP0_Wired &&& 0x3f) := by
    unfold u8
    omega
  rw [cp0_get_Random]
  unfold cp0_tlbwr
  dsimp only
  rw [h8, hun]
  by_cases hlt : s.m_cp0 CP0_Wired &&& 0x3f < TLB_SIZE
  · have hm := Nat.mod_lt (u64 ((s.total_cycles : Int) - s.m_cp0_timer_zero))
      (show 0 < TLB_SIZE - (s.m_cp0 CP0_Wired &&& 0x3f) by omega)
    rw [if_pos (show TLB_SIZE - (s.m_cp0 CP0_Wired &&& 0x3f) > 0 by omega), if_pos hlt,
      and_63_of_lt _ (by omega), u8_of_lt _ (by omega)]
  · rw [if_neg (show ¬ TLB_SIZE - (s.m_cp0 CP0_Wired &&& 0x3f) > 0 by omega), if_neg hlt]
    rfl

/-- C20 (as amended): when the 6-bit value of Wired is at most `TLB_SIZE`, Write Random
writes exactly the TLB entry whose index is the value a read of Random returns at that
moment: that entry receives PageMask, EntryHi (with the global flag), EntryLo0 and EntryLo1,
no other entry and nothing else of the state changes, and when Wired is below `TLB_SIZE` the
index is not below Wired. -/
theorem tlbwr_writes_random_entry (s : State) (hw : s.m_cp0 CP0_Wired &&& 0x3f ≤ TLB_SIZE) :
    cp0_tlbwr s = cp0_tlbwi s (cp0_get s CP0_Random)
    ∧ cp0_get s CP0_Random < TLB_SIZE
    ∧ cp0_tlbwr s = { s with m_tlb := (cp0_tlbwr s).m_tlb }
    ∧ (∀ j, j ≠ cp0_get s CP0_Random → (cp0_tlbwr s).m_tlb j = s.m_tlb j)
    ∧ ((cp0_tlbwr s).m_tlb (cp0_get s CP0_Random)).mask = s.m_cp0 CP0_PageMask
    ∧ ((cp0_tlbwr s).m_tlb (cp0_get s CP0_Random)).pfn0 = s.m_cp0 CP0_EntryLo0
    ∧ ((cp0_tlbwr s).m_tlb (cp0_get s CP0_Random)).pfn1 = s.m_cp0 CP0_EntryLo1
    ∧ ((cp0_tlbwr s).m_tlb (cp0_get s CP0_Random)).vpn
        = (if s.m_cp0 CP0_EntryLo0 &&& EL_G ≠ 0 ∧ s.m_cp0 CP0_EntryLo1 &&& EL_G ≠ 0
            then s.m_cp0 CP0_EntryHi ||| EH_G else s.m_cp0 CP0_EntryHi)
    ∧ (s.m_cp0 CP0_Wired &&& 0x3f < TLB_SIZE →
        s.m_cp0 CP0_Wired &&& 0x3f ≤ cp0_get s CP0_Random) := by
  have hT : TLB_SIZE = 48 := rfl
  have he := cp0_tlbwr_eq s hw
  have hr := random_range_aux s
  have hlt : cp0_get s CP0_Random < TLB_SIZE := by omega
  have hf := cp0_tlbwi_frame s (cp0_get s CP0_Random)
  rw [he]
  refine ⟨rfl, hlt, hf.1, hf.2, ?_⟩
  have hen := cp0_tlbwi_entry s (cp0_get s CP0_Random) hlt
  rw [hen]
  exact ⟨rfl, rfl, rfl, rfl, hr.2⟩

/-- Witness of C20: with Wired = 8, 100 cycles after the timer origin, a read of Random
returns 28 and Write Random writes entry 28, which receives EntryHi with the global flag. -/
theorem tlbwr_writes_random_entry_witness :
    (example_wired_state 8 100).m_cp0 CP0_Wired &&& 0x3f ≤ TLB_SIZE
    ∧ cp0_get (example_wired_state 8 100) CP0_Random = 28
    ∧ cp0_tlbwr (example_wired_state 8 100) = cp0_tlbwi (example_wired_state 8 100) 28
    ∧ ((cp0_tlbwr (example_wired_state 8 100)).m_tlb 28).vpn = 0x12349045
    ∧ (cp0_tlbwr (example_wired_state 8 100)).m_tlb 7 = (example_wired_state 8 100).m_tlb 7 :=
  ⟨by decide, by decide,
    (tlbwr_writes_random_entry (example_wired_state 8 100) (by decide)).1,
    by decide, by decide⟩

/-- Counterexample to C20 as stated: with Wired = 48 nothing is unwired and Write Random
replaces entry 47, the index Random reads, although 47 is below Wired. -/
theorem tlbwr_writes_below_wired :
    (example_wired_state 48 0).m_cp0 CP0_Wired = 48
    ∧ cp0_get (example_wired_state 48 0) CP0_Random = 47
    ∧ (cp0_tlbwr (example_wired_state 48 0)).m_tlb 47 ≠ (example_wired_state 48 0).m_tlb 47
    ∧ 47 < (example_wired_state 48 0).m_cp0 CP0_Wired := by
  decide

/-- With Wired above `TLB_SIZE` the `u8` difference `unwired` wraps around: at Wired = 63, one
cycle after the timer origin, Write Random writes entry 0 and leaves entry 47 alone, while a
read of Random returns 47. -/
theorem tlbwr_wired_above_size :
    cp0_get (example_wired_state 63 1) CP0_Random = 47
    ∧ (cp0_tlbwr (example_wired_state 63 1)).m_tlb 0 ≠ (example_wired_state 63 1).m_tlb 0
    ∧ (cp0_tlbwr (example_wired_state 63 1)).m_tlb 47 = (example_wired_state 63 1).m_tlb 47 := by
  decide

/-! ## Probe -/

theorem and_or_eq_iff (x y a b : Nat) :
    x &&& (a ||| b) = y &&& (a ||| b) ↔ x &&& a = y &&& a ∧ x &&& b = y &&& b := by
  constructor
  · intro h
    constructor
    · apply Nat.eq_of_testBit_eq
      intro i
      have hi := congrArg (fun z => Nat.testBit z i) h
      simp only [Nat.testBit_and, Nat.testBit_or] at hi ⊢
      revert hi
      cases x.testBit i <;> cases y.testBit i <;> cases a.testBit i <;> cases b.testBit i <;>
        simp
    · apply Nat.eq_of_testBit_eq
      intro i
      have hi := congrArg (fun z => Nat.testBit z i) h
      simp only [Nat.testBit_and, Nat.testBit_or] at hi ⊢
      revert hi
      cases x.testBit i <;> cases y.testBit i <;> cases a.testBit i <;> cases b.testBit i <;>
        simp
  · intro ⟨ha, hb⟩
    rw [Nat.and_or_distrib_left, Nat.and_or_distrib_left, ha, hb]

/-- The comparison of `cp0_tlbp` under its combined mask is the field-by-field match of the
specification. -/
theorem probe_match_iff (s : State) (entry : tlb_entry_t) :
    probe_match s entry ↔
      entry.vpn &&& ((if s.m_64 then EH_R ||| (EH_VPN2_64 &&& not64 entry.mask)
          else EH_VPN2_32 &&& not64 entry.mask)
        ||| (if entry.vpn &&& EH_G ≠ 0 then 0 else EH_ASID))
      = s.m_cp0 CP0_EntryHi &&& ((if s.m_64 then EH_R ||| (EH_VPN2_64 &&& not64 entry.mask)
          else EH_VPN2_32 &&& not64 entry.mask)
        ||| (if entry.vpn &&& EH_G ≠ 0 then 0 else EH_ASID)) := by
  unfold probe_match vpn2_asid_match
  rw [and_or_eq_iff]
  by_cases h64 : s.m_64 = true <;> by_cases hg : entry.vpn &&& EH_G = 0
  · simp only [h64, if_true, hg, ne_eq, not_true_eq_false, if_false, and_or_eq_iff,
      forall_const, and_assoc]
  · simp only [h64, if_true, hg, ne_eq, not_false_eq_true, and_or_eq_iff, forall_const,
      Nat.and_zero, and_true, false_implies, and_assoc]
  · simp only [h64, if_false, hg, ne_eq, not_true_eq_false, forall_const, false_implies,
      true_and, Bool.false_eq_true]
  · simp only [h64, if_false, hg, ne_eq, not_false_eq_true, if_true, false_implies,
      true_and, Nat.and_zero, and_true, Bool.false_eq_true]

theorem cp0_tlbp_scan_succ (s : State) (n : Nat) :
    cp0_tlbp_scan s (n + 1)
      = if probe_match s (s.m_tlb (TLB_SIZE - (n + 1))) then some (TLB_SIZE - (n + 1))
        else cp0_tlbp_scan s n := by
  have hm := probe_match_iff s (s.m_tlb (TLB_SIZE - (n + 1)))
  rw [cp0_tlbp_scan]
  by_cases hp : probe_match s (s.m_tlb (TLB_SIZE - (n + 1)))
  · rw [if_pos hp]
    exact if_pos (hm.1 hp)
  · rw [if_neg hp]
    exact if_neg (fun hc => hp (hm.2 hc))

theorem cp0_tlbp_scan_spec (s : State) (n : Nat) (hn : n ≤ TLB_SIZE) :
    (∀ i, cp0_tlbp_scan s n = some i →
        TLB_SIZE - n ≤ i ∧ i < TLB_SIZE ∧ probe_match s (s.m_tlb i)
        ∧ ∀ j, TLB_SIZE - n ≤ j → j < i → ¬ probe_match s (s.m_tlb j))
    ∧ (cp0_tlbp_scan s n = none →
        ∀ j, TLB_SIZE - n ≤ j → j < TLB_SIZE → ¬ probe_match s (s.m_tlb j)) := by
  have hT : TLB_SIZE = 48 := rfl
  induction n with
  | zero =>
    refine ⟨fun i h => ?_, fun _ j h1 h2 => ?_⟩
    · simp only [cp0_tlbp_scan] at h
      cases h
    · omega
  | succ n ih =>
    obtain ⟨ih1, ih2⟩ := ih (by omega)
    rw [cp0_tlbp_scan_succ]
    by_cases hp : probe_match s (s.m_tlb (TLB_SIZE - (n + 1)))
    · rw [if_pos hp]
      refine ⟨fun i h => ?_, fun h => by cases h⟩
      have hi : TLB_SIZE - (n + 1) = i := Option.some.inj h
      subst hi
      exact ⟨Nat.le_refl _, by omega, hp, fun j h1 h2 => by omega⟩
    · rw [if_neg hp]
      refine ⟨fun i h => ?_, fun h j h1 h2 => ?_⟩
      · obtain ⟨a1, a2, a3, a4⟩ := ih1 i h
        refine ⟨by omega, a2, a3, fun j h1 h2 => ?_⟩
        by_cases hj : j = TLB_SIZE - (n + 1)
        · rw [hj]
          exact hp
        · exact a4 j (by omega) h2
      · by_cases hj : j = TLB_SIZE - (n + 1)
        · rw [hj]
          exact hp
        · exact ih2 h j (by omega) h2

theorem cp0_tlbp_scan_set_Index (s : State) (v n : Nat) :
    cp0_tlbp_scan (s.set_cp0 CP0_Index v) n = cp0_tlbp_scan s n := by
  induction n with
  | zero => rfl
  | succ n ih =>
    unfold cp0_tlbp_scan
    rw [ih]
    rfl

theorem set_cp0_set_cp0 (s : State) (i v w : Nat) :
    (s.set_cp0 i v).set_cp0 i w = s.set_cp0 i w := by
  unfold State.set_cp0
  have : (fun j => if j = i then w else (fun j => if j = i then v else s.m_cp0 j) j)
      = fun j => if j = i then w else s.m_cp0 j := by
    funext j
    by_cases h : j = i
    · rw [if_pos h, if_pos h]
    · rw [if_neg h, if_neg h]
      exact if_neg h
  exact congrArg (fun f => { s with m_cp0 := f }) this

/-- C11 (as amended): Probe is idempotent, changes nothing but Index, and leaves in Index
the lowest index of a TLB entry that matches EntryHi in the virtual page number pair under
the page mask of the entry, in the address space identifier unless the entry is global, and
in 64-bit mode also in the region bits; it leaves `0x80000000`, whose bit 31 is set, when no
entry matches. Outside 64-bit mode the match is the one on the virtual page number pair and
the address space identifier alone. -/
theorem probe_idempotent_lowest_match (s : State) :
    cp0_tlbp (cp0_tlbp s) = cp0_tlbp s
    ∧ (cp0_tlbp (cp0_tlbp s)).m_cp0 CP0_Index = (cp0_tlbp s).m_cp0 CP0_Index
    ∧ cp0_tlbp s = s.set_cp0 CP0_Index ((cp0_tlbp s).m_cp0 CP0_Index)
    ∧ ((∃ i, i < TLB_SIZE ∧ (cp0_tlbp s).m_cp0 CP0_Index = i
          ∧ probe_match s (s.m_tlb i)
          ∧ ∀ j, j < i → ¬ probe_match s (s.m_tlb j))
      ∨ ((cp0_tlbp s).m_cp0 CP0_Index = 0x80000000
          ∧ BIT 0x80000000 31 = true
          ∧ ∀ j, j < TLB_SIZE → ¬ probe_match s (s.m_tlb j)))
    ∧ (s.m_64 = false → ∀ entry, probe_match s entry ↔ vpn2_asid_match s entry) := by
  have hsp := cp0_tlbp_scan_spec s TLB_SIZE (Nat.le_refl _)
  have hidx : ∀ v, (s.set_cp0 CP0_Index v).m_cp0 CP0_Index = v := fun v => by
    show (if CP0_Index = CP0_Index then v else s.m_cp0 CP0_Index) = v
    exact if_pos rfl
  have hid : cp0_tlbp (cp0_tlbp s) = cp0_tlbp s := by
    unfold cp0_tlbp
    cases hr : cp0_tlbp_scan s TLB_SIZE with
    | none =>
      simp only [cp0_tlbp_scan_set_Index, hr, set_cp0_set_cp0]
    | some i =>
      simp only [cp0_tlbp_scan_set_Index, hr, set_cp0_set_cp0]
  refine ⟨hid, by rw [hid], ?_, ?_, ?_⟩
  rotate_left 2
  · intro h64 entry
    unfold probe_match
    rw [h64]
    exact ⟨fun h => h.2, fun h => ⟨fun hc => Bool.noConfusion hc, h⟩⟩
  · unfold cp0_tlbp
    cases hr : cp0_tlbp_scan s TLB_SIZE with
    | none => simp only [hidx]
    | some i => simp only [hidx]
  · unfold cp0_tlbp
    cases hr : cp0_tlbp_scan s TLB_SIZE with
    | none =>
      refine Or.inr ⟨hidx _, by decide, fun j hj => hsp.2 hr j (by omega) hj⟩
    | some i =>
      obtain ⟨-, a2, a3, a4⟩ := hsp.1 i hr
      exact Or.inl ⟨i, a2, hidx _, a3, fun j hj => a4 j (by omega) hj⟩

/-- Counterexample to C11 as stated: in 64-bit mode, with every TLB entry zero and only the
region bits of EntryHi set, entry 0 agrees with EntryHi in the virtual page number pair and
the address space identifier, yet Probe reports no match instead of index 0. -/
theorem probe_compares_region :
    example_probe_state.m_64 = true
    ∧ vpn2_asid_match example_probe_state (example_probe_state.m_tlb 0)
    ∧ (cp0_tlbp example_probe_state).m_cp0 CP0_Index = 0x80000000
    ∧ ¬ (cp0_tlbp example_probe_state).m_cp0 CP0_Index = 0 := by
  decide

/-- Probe on the example TLB after an indexed write of entry 5: no entry below 5 matches and
Index reads 5; with another address space identifier in EntryHi and a non-global entry
nothing matches and Index reads `0x80000000`. -/
theorem probe_example :
    (cp0_tlbp (cp0_tlbwi example_tlbw_state 5)).m_cp0 CP0_Index = 5
    ∧ (cp0_tlbp ((cp0_tlbwi (example_tlbw_state.set_cp0 CP0_EntryLo0 0) 5).set_cp0
        CP0_EntryHi 0x12348046)).m_cp0 CP0_Index = 0x80000000 := by
  decide

/-! ## Return from exception -/

theorem cp0_mode_check_frame (s : State) :
    cp0_mode_check s = { s with m_64 := (cp0_mode_check s).m_64 } := by
  unfold cp0_mode_check
  repeat' split
  all_goals rfl

theorem cp0_mode_check_m_64 (s : State) :
    (cp0_mode_check s).m_64 =
      (if s.SR &&& (SR_EXL ||| SR_ERL) = 0 then
        if s.SR &&& SR_KSU = SR_KSU_K then decide (s.SR &&& SR_KX ≠ 0)
        else if s.SR &&& SR_KSU = SR_KSU_S then decide (s.SR &&& SR_SX ≠ 0)
        else if s.SR &&& SR_KSU = SR_KSU_U then decide (s.SR &&& SR_UX ≠ 0)
        else s.m_64
      else decide (s.SR &&& SR_KX ≠ 0)) := by
  unfold cp0_mode_check State.SR
  repeat' split
  all_goals rfl

theorem testBit_not32 (m i : Nat) (hm : m < 2 ^ 32) :
    (not32 m).testBit i = (decide (i < 32) && !m.testBit i) := by
  have hn : not32 m = 2 ^ 32 - (m + 1) := by
    unfold not32
    rw [Nat.mod_eq_of_lt hm]
    omega
  rw [hn, Nat.testBit_two_pow_sub_succ hm]

theorem and_not32_self (x m : Nat) (hm : m < 2 ^ 32) : (x &&& not32 m) &&& m = 0 := by
  apply Nat.eq_of_testBit_eq
  intro i
  simp only [Nat.testBit_and, Nat.zero_testBit, testBit_not32 m i hm]
  cases m.testBit i <;> simp

theorem and_not32_disjoint (x m k : Nat) (hm : m < 2 ^ 32) (hk : k < 2 ^ 32)
    (hd : m &&& k = 0) : (x &&& not32 m) &&& k = x &&& k := by
  apply Nat.eq_of_testBit_eq
  intro i
  have hdi := congrArg (fun z => Nat.testBit z i) hd
  simp only [Nat.testBit_and, Nat.zero_testBit] at hdi
  simp only [Nat.testBit_and, testBit_not32 m i hm]
  by_cases hi : i < 32
  · revert hdi
    cases m.testBit i <;> cases k.testBit i <;> simp [hi]
  · have : k.testBit i = false := Nat.testBit_lt_two_pow
      (Nat.lt_of_lt_of_le hk (Nat.pow_le_pow_right (by decide) (by omega)))
    rw [this]
    simp

theorem cp0_execute_ERET (s : State) (op : Nat)
    (hco : 0x10 ≤ (op >>> 21) &&& 0x1f) (hfn : op &&& 0x3f = 0x18)
    (hu : ¬ (s.SR &&& SR_KSU ≠ 0 ∧ s.SR &&& SR_CU0 = 0 ∧ s.SR &&& (SR_EXL ||| SR_ERL) = 0)) :
    cp0_execute s op = Except.ok
      { cp0_mode_check
          (({ s with
              m_branch_state := branch_state_t.EXCEPTION,
              m_pc := if s.SR &&& SR_ERL ≠ 0 then s.m_cp0 CP0_ErrorEPC else s.m_cp0 CP0_EPC
            } : State).set_cp0 CP0_Status
            (if s.SR &&& SR_ERL ≠ 0 then s.SR &&& not32 SR_ERL else s.SR &&& not32 SR_EXL))
        with m_ll_watch := none } := by
  have hlt : (op >>> 21) &&& 0x1f < 32 := Nat.lt_of_le_of_lt Nat.and_le_right (by decide)
  unfold cp0_execute
  rw [if_neg hu]
  generalize (op >>> 21) &&& 0x1f = c at hco hlt
  by_cases hE : s.SR &&& SR_ERL ≠ 0
  · interval_cases c <;> simp only [hfn, if_pos hE]
  · interval_cases c <;> simp only [hfn, if_neg hE]

theorem eret_state (t s' : State) (v : Nat)
    (h : s' = { cp0_mode_check (t.set_cp0 CP0_Status v) with m_ll_watch := none }) :
    s'.m_pc = t.m_pc
    ∧ s'.SR = v
    ∧ s'.m_64 =
        (if v &&& (SR_EXL ||| SR_ERL) = 0 then
          if v &&& SR_KSU = SR_KSU_K then decide (v &&& SR_KX ≠ 0)
          else if v &&& SR_KSU = SR_KSU_S then decide (v &&& SR_SX ≠ 0)
          else if v &&& SR_KSU = SR_KSU_U then decide (v &&& SR_UX ≠ 0)
          else t.m_64
        else decide (v &&& SR_KX ≠ 0))
    ∧ (∀ i, i ≠ CP0_Status → s'.m_cp0 i = t.m_cp0 i)
    ∧ s'.m_r = t.m_r
    ∧ s'.mem = t.mem
    ∧ s'.m_tlb = t.m_tlb
    ∧ s'.m_branch_state = t.m_branch_state
    ∧ s'.m_ll_watch = none := by
  have hv : (t.set_cp0 CP0_Status v).SR = v := by
    show (if CP0_Status = CP0_Status then v else t.m_cp0 CP0_Status) = v
    exact if_pos rfl
  have hm := cp0_mode_check_m_64 (t.set_cp0 CP0_Status v)
  rw [hv] at hm
  subst h
  refine ⟨?_, ?_, hm, ?_, ?_, ?_, ?_, ?_, rfl⟩
  · rw [cp0_mode_check_frame]
    rfl
  · rw [cp0_mode_check_frame]
    exact hv
  · intro i hi
    rw [cp0_mode_check_frame]
    show (if i = CP0_Status then v else t.m_cp0 i) = t.m_cp0 i
    exact if_neg hi
  · rw [cp0_mode_check_frame]
    rfl
  · rw [cp0_mode_check_frame]
    rfl
  · rw [cp0_mode_check_frame]
    rfl
  · rw [cp0_mode_check_frame]
    rfl

/-- C16 (as amended): with coprocessor 0 usable, ERET with Status.ERL set loads the program
counter from ErrorEPC and clears ERL, leaving EXL as it was; with ERL clear it loads the
program counter from EPC and clears EXL. In both cases the load-linked observer is removed;
the 64-bit-mode flag is the one the new Status determines (KX when EXL or ERL is set or KSU
selects kernel, SX for supervisor, UX for user), except that it keeps its previous value
when the new Status has EXL and ERL clear and the reserved value 3 in KSU; the branch state
is EXCEPTION, so that the dispatch step leaves the restored program counter alone, and the
iteration of the dispatch loop that fetched the ERET ends with the program counter at the
restored address. -/
theorem eret_returns (sf : softfloat_t) (s : State) (op : Nat)
    (hop : op >>> 26 = 0x10) (hco : 0x10 ≤ (op >>> 21) &&& 0x1f) (hfn : op &&& 0x3f = 0x18)
    (hu : s.SR &&& SR_KSU = 0 ∨ s.SR &&& SR_CU0 ≠ 0 ∨ s.SR &&& (SR_EXL ||| SR_ERL) ≠ 0) :
    ∃ s', cpu_execute sf s op = Except.ok s'
      ∧ (s.SR &&& SR_ERL ≠ 0 →
          s'.m_pc = s.m_cp0 CP0_ErrorEPC ∧ s'.SR = s.SR &&& not32 SR_ERL
          ∧ s'.SR &&& SR_ERL = 0 ∧ s'.SR &&& SR_EXL = s.SR &&& SR_EXL)
      ∧ (s.SR &&& SR_ERL = 0 →
          s'.m_pc = s.m_cp0 CP0_EPC ∧ s'.SR = s.SR &&& not32 SR_EXL
          ∧ s'.SR &&& SR_EXL = 0 ∧ s'.SR &&& SR_ERL = 0)
      ∧ s'.m_ll_watch = none
      ∧ s'.m_64 =
          (if s'.SR &&& (SR_EXL ||| SR_ERL) = 0 then
            if s'.SR &&& SR_KSU = SR_KSU_K then decide (s'.SR &&& SR_KX ≠ 0)
            else if s'.SR &&& SR_KSU = SR_KSU_S then decide (s'.SR &&& SR_SX ≠ 0)
            else if s'.SR &&& SR_KSU = SR_KSU_U then decide (s'.SR &&& SR_UX ≠ 0)
            else s.m_64
          else decide (s'.SR &&& SR_KX ≠ 0))
      ∧ (∀ i, i ≠ CP0_Status → s'.m_cp0 i = s.m_cp0 i)
      ∧ s'.m_r = s.m_r ∧ s'.mem = s.mem ∧ s'.m_tlb = s.m_tlb
      ∧ s'.m_branch_state = branch_state_t.EXCEPTION
      ∧ (update_pc (s'.set_r 0 0)).m_pc = s'.m_pc
      ∧ (update_pc (s'.set_r 0 0)).m_branch_state = branch_state_t.NONE
      ∧ (∀ s0, fetch s0 s0.m_pc = (some op, s) →
          execute_step sf s0 = Except.ok (update_pc (s'.set_r 0 0))) := by
  have hu' : ¬ (s.SR &&& SR_KSU ≠ 0 ∧ s.SR &&& SR_CU0 = 0 ∧ s.SR &&& (SR_EXL ||| SR_ERL) = 0) := by
    rintro ⟨h1, h2, h3⟩
    rcases hu with h | h | h
    · exact h1 h
    · exact h h2
    · exact h h3
  have hx : cpu_execute sf s op = cp0_execute s op := by
    simp only [cpu_execute, hop]
  have he := cp0_execute_ERET s op hco hfn hu'
  rw [← hx] at he
  cases hx2 : cpu_execute sf s op with
  | error e =>
    rw [hx2] at he
    cases he
  | ok s' =>
  rw [hx2] at he
  obtain ⟨a1, a2, a3, a4, a5, a6, a7, a8, a9⟩ := eret_state _ s' _ (Except.ok.inj he)
  refine ⟨s', rfl, ?_, ?_, a9, ?_, a4, a5, a6, a7, a8,
    (update_pc_EXCEPTION (s'.set_r 0 0) a8).1,
    (update_pc_EXCEPTION (s'.set_r 0 0) a8).2,
    fun s0 hf => execute_step_of_fetch sf s0 s s' op hf hx2⟩
  · intro hE
    simp only [if_pos hE] at a1 a2
    refine ⟨a1, a2, ?_, ?_⟩
    · rw [a2]
      exact and_not32_self s.SR SR_ERL (by decide)
    · rw [a2]
      exact and_not32_disjoint s.SR SR_ERL SR_EXL (by decide) (by decide) (by decide)
  · intro hE
    have hE' : ¬ s.SR &&& SR_ERL ≠ 0 := fun h => h hE
    simp only [if_neg hE'] at a1 a2
    refine ⟨a1, a2, ?_, ?_⟩
    · rw [a2]
      exact and_not32_self s.SR SR_EXL (by decide)
    · rw [a2, and_not32_disjoint s.SR SR_EXL SR_ERL (by decide) (by decide) (by decide)]
      exact hE
  · rw [a2]
    exact a3

/-- Witness of C16: ERET (`0x42000018`) in the example handler state with only EXL set
returns to EPC, clears EXL and removes the load-linked observer; with ERL set as well it
returns to ErrorEPC and leaves EXL set. -/
theorem eret_returns_witness :
    (∃ s', cpu_execute example_softfloat (example_eret_state false) 0x42000018 = Except.ok s'
      ∧ s'.m_pc = 0xffffffff80002000 ∧ s'.SR = 0 ∧ s'.m_ll_watch = none
      ∧ (update_pc (s'.set_r 0 0)).m_pc = 0xffffffff80002000)
    ∧ (∃ s', cpu_execute example_softfloat (example_eret_state true) 0x42000018 = Except.ok s'
      ∧ s'.m_pc = 0xffffffff80003000 ∧ s'.SR = SR_EXL ∧ s'.m_ll_watch = none) :=
  ⟨(eret_returns example_softfloat (example_eret_state false) 0x42000018 (by decide)
      (by decide) (by decide) (by decide)).imp
      (fun s' h => ⟨h.1, (h.2.2.1 (by decide)).1, (h.2.2.1 (by decide)).2.1, h.2.2.2.1,
        h.2.2.2.2.2.2.2.2.2.2.1.trans (h.2.2.1 (by decide)).1⟩),
    (eret_returns example_softfloat (example_eret_state true) 0x42000018 (by decide)
      (by decide) (by decide) (by decide)).imp
      (fun s' h => ⟨h.1, (h.2.1 (by decide)).1, (h.2.1 (by decide)).2.1, h.2.2.2.1⟩)⟩

/-- Counterexample to C16 as stated: ERET (`0x42000018`) with Status = `0x1a` (EXL set, KSU = 3)
leaves Status = `0x18` and the 64-bit-mode flag as it was, so two states that differ in the
old flag only return with the same new Status and different flags: the flag is not
recomputed from the new Status. -/
theorem eret_keeps_flag_for_reserved_ksu :
    (cpu_execute example_softfloat ((example_state 0).set_cp0 CP0_Status 0x1a)
        0x42000018).toOption.map (fun s' => (s'.SR, s'.m_64)) = some (0x18, false)
    ∧ (cpu_execute example_softfloat
        { (example_state 0).set_cp0 CP0_Status 0x1a with m_64 := true }
        0x42000018).toOption.map (fun s' => (s'.SR, s'.m_64)) = some (0x18, true) :=
  ⟨by decide, by decide⟩

/-! ## Store conditional -/

theorem translate_success_frame (s : State) (intention address : Nat)
    (r : translate_t) (a : Nat) (t : State)
    (h : translate s intention address = (r, a, t))
    (hr : r = translate_t.CACHED ∨ r = translate_t.UNCACHED) :
    ∃ l, t = { s with m_last := l } := by
  have hc := translate_cases s intention address
  rw [h] at hc
  rcases hc with ⟨ext, hx⟩ | hx | hx | hx | hx | hx
  · obtain ⟨index, pfn, -, -, hs1⟩ := tlb_lookup_success s _ _ ext r a t hx.symm hr
    exact ⟨_, hs1⟩
  all_goals
    have h3 := congrArg (fun x => x.2.2) hx
    exact ⟨s.m_last, h3⟩

/-- Reading back the lane of a bus word that a full-mask write has just replaced. -/
theorem bus_lane_roundtrip (x d w sh : Nat) (hd : d < 2 ^ w) :
    (((x &&& not64 ((2 ^ w - 1) <<< sh)) ||| ((d <<< sh) &&& ((2 ^ w - 1) <<< sh))) >>> sh)
      % 2 ^ w = d := by
  apply Nat.eq_of_testBit_eq
  intro i
  simp only [Nat.testBit_mod_two_pow, Nat.testBit_shiftRight, Nat.testBit_or, Nat.testBit_and,
    Nat.testBit_shiftLeft, testBit_not64, Nat.testBit_two_pow_sub_one,
    Nat.add_sub_cancel_left, Nat.le_add_right, decide_True, Bool.true_and]
  by_cases hi : i < w
  · simp [hi]
  · have : d.testBit i = false := Nat.testBit_lt_two_pow
      (Nat.lt_of_lt_of_le hd (Nat.pow_le_pow_right (by decide) (by omega)))
    simp [hi, this]

/-- A full-mask write of `size` bytes with no observer installed, read back. -/
theorem bus_read_bus_write (t : State) (size a data : Nat) (hl : t.m_ll_watch = none) :
    bus_write t size a data (2 ^ (8 * size) - 1)
      = { t with mem := (bus_write t size a data (2 ^ (8 * size) - 1)).mem }
    ∧ bus_read (bus_write t size a data (2 ^ (8 * size) - 1)) size a = data % 2 ^ (8 * size)
    ∧ ∀ q, q ≠ u32 a / 8 → (bus_write t size a data (2 ^ (8 * size) - 1)).mem q = t.mem q := by
  have hF : (2 ^ (8 * size) - 1) % 2 ^ (8 * size) = 2 ^ (8 * size) - 1 :=
    Nat.mod_eq_of_lt (Nat.sub_lt (Nat.two_pow_pos _) (by decide))
  have hbw : bus_write t size a data (2 ^ (8 * size) - 1)
      = { t with mem := fun q =>
          if q = u32 a / 8 then
            (t.mem q &&& not64 ((2 ^ (8 * size) - 1) <<< bus_shift t size (u32 a)))
              ||| (((data % 2 ^ (8 * size)) <<< bus_shift t size (u32 a))
                &&& ((2 ^ (8 * size) - 1) <<< bus_shift t size (u32 a)))
          else t.mem q } := by
    unfold bus_write
    simp only [hl, hF]
  rw [hbw]
  refine ⟨rfl, ?_, ?_⟩
  · unfold bus_read
    show ((if u32 a / 8 = u32 a / 8 then _ else _) >>> bus_shift t size (u32 a)) % _ = _
    rw [if_pos rfl]
    exact bus_lane_roundtrip _ _ _ _ (Nat.mod_lt _ (Nat.two_pow_pos _))
  · intro q hq
    show (if q = u32 a / 8 then _ else _) = _
    rw [if_neg hq]

theorem store_performed (s : State) (size address data : Nat) (r : translate_t) (a : Nat)
    (t : State) (hs : size = 4 ∨ size = 8)
    (hal : address &&& (size - 1) = 0)
    (htr : translate s TRANSLATE_WRITE address = (r, a, t))
    (hr : r = translate_t.CACHED ∨ r = translate_t.UNCACHED)
    (hw : watch_hit t WATCHLO_W a = false) :
    store s size address data (2 ^ (8 * size) - 1)
      = (true, bus_write t size a data (2 ^ (8 * size) - 1)) := by
  have h1 : size ≠ 1 := by omega
  unfold store
  rw [if_neg (not_not.mpr hal), htr]
  rcases hr with rfl | rfl
  · simp only [hw, if_neg h1, Bool.false_eq_true, if_false]
  · simp only [hw, if_neg h1, Bool.false_eq_true, if_false]

/-- C12: for SC (`size = 4`) and SCD (`size = 8`) whose address is aligned, translates to
the physical address `a` and hits no watchpoint: with the load-linked observer installed the
low `size` bytes of rt are stored at `a` (reading them back returns them, and no other bus
word changes), rt becomes 1 and the observer is removed; with no observer installed the
instruction only sets rt to 0 and the bus contents are unchanged. -/
theorem store_conditional (sf : softfloat_t) (s : State) (op size : Nat)
    (r : translate_t) (a : Nat) (t : State)
    (hop : (op >>> 26 = 0x38 ∧ size = 4) ∨ (op >>> 26 = 0x3c ∧ size = 8))
    (hal : ADDR s (s.m_r (RSREG op)) op &&& (size - 1) = 0)
    (htr : translate { s with m_ll_watch := none } TRANSLATE_WRITE
      (ADDR s (s.m_r (RSREG op)) op) = (r, a, t))
    (hr : r = translate_t.CACHED ∨ r = translate_t.UNCACHED)
    (hw : watch_hit t WATCHLO_W a = false) :
    (s.m_ll_watch.isSome = true →
      ∃ s', cpu_execute sf s op = Except.ok s'
        ∧ bus_read s' size a = s.m_r (RTREG op) % 2 ^ (8 * size)
        ∧ (∀ q, q ≠ u32 a / 8 → s'.mem q = s.mem q)
        ∧ s'.m_r (RTREG op) = 1
        ∧ (∀ i, i ≠ RTREG op → s'.m_r i = s.m_r i)
        ∧ s'.m_ll_watch = none)
    ∧ (s.m_ll_watch = none →
        cpu_execute sf s op = Except.ok (s.set_r (RTREG op) 0)
        ∧ (s.set_r (RTREG op) 0).mem = s.mem
        ∧ (s.set_r (RTREG op) 0).m_r (RTREG op) = 0
        ∧ (s.set_r (RTREG op) 0).m_ll_watch = none) := by
  have hs : size = 4 ∨ size = 8 := hop.imp (fun h => h.2) (fun h => h.2)
  obtain ⟨l, ht⟩ := translate_success_frame _ _ _ r a t htr hr
  have hl : t.m_ll_watch = none := by rw [ht]
  have hrt : ∀ (u : State) (v : Nat), (u.set_r (RTREG op) v).m_r (RTREG op) = v := by
    intro u v
    show (if RTREG op = RTREG op then v else _) = v
    exact if_pos rfl
  have hri : ∀ (u : State) (v i : Nat), i ≠ RTREG op → (u.set_r (RTREG op) v).m_r i = u.m_r i := by
    intro u v i hi
    show (if i = RTREG op then v else _) = _
    exact if_neg hi
  constructor
  · intro hsome
    obtain ⟨b1, b2, b3⟩ := bus_read_bus_write t size a (s.m_r (RTREG op)) hl
    have hmod : ∀ d, bus_write t size a (d % 2 ^ (8 * size)) (2 ^ (8 * size) - 1)
        = bus_write t size a d (2 ^ (8 * size) - 1) := by
      intro d
      unfold bus_write
      simp only [Nat.mod_mod]
    have hx : cpu_execute sf s op = Except.ok
        ((bus_write t size a (s.m_r (RTREG op)) (2 ^ (8 * size) - 1)).set_r (RTREG op) 1) := by
      rcases hop with ⟨h0, rfl⟩ | ⟨h0, rfl⟩
      · have hst := store_performed { s with m_ll_watch := none } 4 _
          (u32 (s.m_r (RTREG op))) r a t hs hal htr hr hw
        have hu : u32 (s.m_r (RTREG op) : Nat) = s.m_r (RTREG op) % 2 ^ (8 * 4) := by
          unfold u32
          omega
        rw [hu, hmod] at hst
        simp only [cpu_execute, h0, hsome, if_true]
        exact congrArg (fun x => Except.ok (State.set_r x.2 (RTREG op) 1)) hst
      · have hst := store_performed { s with m_ll_watch := none } 8 _
          (s.m_r (RTREG op)) r a t hs hal htr hr hw
        simp only [cpu_execute, h0, hsome, if_true]
        exact congrArg (fun x => Except.ok (State.set_r x.2 (RTREG op) 1)) hst
    refine ⟨_, hx, b2, ?_, hrt _ _, ?_, ?_⟩
    · intro q hq
      rw [show (State.set_r (bus_write t size a (s.m_r (RTREG op)) (2 ^ (8 * size) - 1))
          (RTREG op) 1).mem = (bus_write t size a (s.m_r (RTREG op)) (2 ^ (8 * size) - 1)).mem
          from rfl, b3 q hq, ht]
    · intro i hi
      rw [hri _ _ i hi, b1, ht]
    · show (bus_write t size a (s.m_r (RTREG op)) (2 ^ (8 * size) - 1)).m_ll_watch = none
      rw [b1]
      exact hl
  · intro hnone
    refine ⟨?_, rfl, hrt _ _, hnone⟩
    rcases hop with ⟨h0, -⟩ | ⟨h0, -⟩
    · simp only [cpu_execute, h0, hnone, Option.isSome_none, Bool.false_eq_true, if_false]
    · simp only [cpu_execute, h0, hnone, Option.isSome_none, Bool.false_eq_true, if_false]

/-- Witness of C12: SC r1, 0x200(r3) (`0xe0610200`) in the example state, whose register 3
points at the unmapped cached segment: with the observer installed the word `0x7fffffff` of
register 1 is stored at physical address `0x200`, register 1 becomes 1 and the observer is
removed; without the observer register 1 becomes 0 and nothing else changes. -/
theorem store_conditional_witness :
    (∃ s', cpu_execute example_softfloat (example_ll_state true) 0xe0610200 = Except.ok s'
      ∧ bus_read s' 4 0x200 = 0x7fffffff ∧ s'.m_r 1 = 1 ∧ s'.m_ll_watch = none)
    ∧ cpu_execute example_softfloat (example_ll_state false) 0xe0610200
        = Except.ok ((example_ll_state false).set_r 1 0) :=
  ⟨((store_conditional example_softfloat (example_ll_state true) 0xe0610200 4
      translate_t.CACHED 0x200 { example_ll_state true with m_ll_watch := none }
      (Or.inl ⟨by decide, rfl⟩) (by decide) rfl (Or.inl rfl) (by decide)).1 (by decide)).imp
      (fun s' h => ⟨h.1, h.2.1, h.2.2.2.1, h.2.2.2.2.2⟩),
    ((store_conditional example_softfloat (example_ll_state false) 0xe0610200 4
      translate_t.CACHED 0x200 { example_ll_state false with m_ll_watch := none }
      (Or.inl ⟨by decide, rfl⟩) (by decide) rfl (Or.inl rfl) (by decide)).2 rfl).1⟩

/-! ## Global flag of a written TLB entry -/

/-- The global flag of the entry an indexed write leaves behind: set when both descriptors
are global, and also when bit 12 of EntryHi is set. -/
theorem tlbwi_global_flag (s : State) (i : Nat) (hi : i < TLB_SIZE) :
    (((cp0_tlbwi s i).m_tlb i).vpn &&& EH_G ≠ 0
      ↔ (s.m_cp0 CP0_EntryLo0 &&& EL_G ≠ 0 ∧ s.m_cp0 CP0_EntryLo1 &&& EL_G ≠ 0)
        ∨ s.m_cp0 CP0_EntryHi &&& EH_G ≠ 0) := by
  have he : ((cp0_tlbwi s i).m_tlb i).vpn
      = (if s.m_cp0 CP0_EntryLo0 &&& EL_G ≠ 0 ∧ s.m_cp0 CP0_EntryLo1 &&& EL_G ≠ 0
          then s.m_cp0 CP0_EntryHi ||| EH_G else s.m_cp0 CP0_EntryHi) := by
    rw [cp0_tlbwi_entry s i hi]
  rw [he]
  by_cases hg : s.m_cp0 CP0_EntryLo0 &&& EL_G ≠ 0 ∧ s.m_cp0 CP0_EntryLo1 &&& EL_G ≠ 0
  · rw [if_pos hg, or_and_self_right]
    exact ⟨fun _ => Or.inl hg, fun _ => by decide⟩
  · rw [if_neg hg]
    exact ⟨fun h => Or.inr h, fun h => h.resolve_left hg⟩

/-- A write of EntryHi through `cp0_set` never sets bit 12. -/
theorem cp0_set_EntryHi_clears_G (s s' : State) (data : Nat)
    (h : cp0_set s CP0_EntryHi data = Except.ok s') : s'.m_cp0 CP0_EntryHi &&& EH_G = 0 := by
  unfold cp0_set at h
  rw [if_neg (by decide), if_pos rfl] at h
  cases h
  show (if CP0_EntryHi = CP0_EntryHi then data &&& (EH_R ||| EH_VPN2_64 ||| EH_ASID)
    else s.m_cp0 CP0_EntryHi) &&& EH_G = 0
  rw [if_pos rfl, Nat.and_assoc, show (EH_R ||| EH_VPN2_64 ||| EH_ASID) &&& EH_G = 0 by decide,
    Nat.and_zero]

/-- Reading a global entry with TLBR copies the global flag into bit 12 of EntryHi. -/
theorem cp0_tlbr_EntryHi (s : State) (h : s.m_cp0 CP0_Index &&& 0x3f < TLB_SIZE) :
    (cp0_tlbr s).m_cp0 CP0_EntryHi = (s.m_tlb (s.m_cp0 CP0_Index &&& 0x3f)).vpn := by
  have h8 : u8 ((s.m_cp0 CP0_Index &&& 0x3f : Nat) : Int) = s.m_cp0 CP0_Index &&& 0x3f :=
    u8_of_lt _ (Nat.lt_of_lt_of_le h (by decide))
  unfold cp0_tlbr
  simp only [h8, if_pos h]
  rfl

/-- C18, failing input: from reset, the program ORI r1, r0, 1; ORI r2, r0, 5; MTC0 r1,
EntryLo0; MTC0 r1, EntryLo1; MTC0 r2, Index; TLBWI; TLBR; MTC0 r0, EntryLo0; TLBWI runs to
completion, and its last TLB write leaves entry 5 with the global flag set although
EntryLo0.G is clear at the time of the write. -/
theorem tlbwi_keeps_stale_global_flag :
    (execute_words example_softfloat example_global_program
        (device_reset (example_state 0))).toOption.map
      (fun s' => ((s'.m_tlb 5).vpn &&& EH_G, s'.m_cp0 CP0_EntryLo0 &&& EL_G,
        s'.m_cp0 CP0_EntryLo1 &&& EL_G, s'.m_cp0 CP0_Index))
      = some (EH_G, 0, EL_G, 5) := by
  decide

/-! ## Coprocessor 0 function codes -/

/-- C28 (as amended): with coprocessor 0 usable, a COP0 word of the coprocessor-operation
group whose function code is RFE (`0x10`) raises the reserved-instruction exception, and one
whose function code is none of TLBR, TLBWI, TLBWR, TLBP, RFE and ERET completes without any
change of state. -/
theorem cp0_function_unassigned (s : State) (op : Nat)
    (hco : 0x10 ≤ (op >>> 21) &&& 0x1f)
    (hu : ¬ (s.SR &&& SR_KSU ≠ 0 ∧ s.SR &&& SR_CU0 = 0 ∧ s.SR &&& (SR_EXL ||| SR_ERL) = 0)) :
    (op &&& 0x3f = 0x10 →
      cp0_execute s op = Except.ok (cpu_exception s EXCEPTION_RI GENERAL_VECTOR))
    ∧ (op &&& 0x3f ≠ 0x01 → op &&& 0x3f ≠ 0x02 → op &&& 0x3f ≠ 0x06 → op &&& 0x3f ≠ 0x08 →
        op &&& 0x3f ≠ 0x10 → op &&& 0x3f ≠ 0x18 → cp0_execute s op = Except.ok s) := by
  have hlt : (op >>> 21) &&& 0x1f < 32 := Nat.lt_of_le_of_lt Nat.and_le_right (by decide)
  unfold cp0_execute
  rw [if_neg hu]
  generalize (op >>> 21) &&& 0x1f = c at hco hlt
  constructor
  · intro hfn
    interval_cases c <;> simp only [hfn]
  · intro h1 h2 h6 h8 h10 h18
    interval_cases c <;> (dsimp only; split <;> first | rfl | omega)

/-- Witness of C28 (as amended): RFE (`0x42000010`) in the example state raises the
reserved-instruction exception, and the unassigned function code 0 (`0x42000000`) leaves the
state as it is. -/
theorem cp0_function_unassigned_witness :
    cp0_execute (example_state 0) 0x42000010
        = Except.ok (cpu_exception (example_state 0) EXCEPTION_RI GENERAL_VECTOR)
    ∧ cp0_execute (example_state 0) 0x42000000 = Except.ok (example_state 0) :=
  ⟨(cp0_function_unassigned (example_state 0) 0x42000010 (by decide) (by decide)).1 (by decide),
    (cp0_function_unassigned (example_state 0) 0x42000000 (by decide) (by decide)).2
      (by decide) (by decide) (by decide) (by decide) (by decide) (by decide)⟩

/-- Counterexample to C28 as stated: the COP0 word `0x42000000`, function code 0 of the
coprocessor-operation group, executed in kernel mode completes without an exception: the
branch state is not EXCEPTION, and Cause, EPC and the program counter are untouched. -/
theorem cp0_function_zero_is_silent :
    0x10 ≤ ((0x42000000 : Nat) >>> 21) &&& 0x1f
    ∧ (cp0_execute (example_state 0) 0x42000000).toOption.map
        (fun s' => (s'.m_branch_state, s'.CAUSE, s'.m_cp0 CP0_EPC, s'.m_pc))
      = some (branch_state_t.NONE, 0, 0, 0xffffffff80001000)
    ∧ (cpu_exception (example_state 0) EXCEPTION_RI GENERAL_VECTOR).m_branch_state
      = branch_state_t.EXCEPTION := by
  decide

/-! ## Segment decode in user mode -/

theorem and_ne_zero_iff_testBit (x m : Nat) :
    x &&& m ≠ 0 ↔ ∃ i, x.testBit i = true ∧ m.testBit i = true := by
  constructor
  · intro h
    obtain ⟨i, hi⟩ := Nat.ne_zero_implies_bit_true h
    rw [Nat.testBit_and, Bool.and_eq_true] at hi
    exact ⟨i, hi⟩
  · rintro ⟨i, h1, h2⟩ h0
    have := congrArg (fun z => Nat.testBit z i) h0
    simp only [Nat.testBit_and, h1, h2, Nat.zero_testBit] at this
    cases this

theorem testBit_field (lo n i : Nat) :
    (((2 ^ n - 1) <<< lo : Nat)).testBit i = decide (lo ≤ i ∧ i < lo + n) := by
  rw [Nat.testBit_shiftLeft, Nat.testBit_two_pow_sub_one]
  by_cases h : lo ≤ i
  · by_cases h2 : i < lo + n
    · simp [h, h2]
      omega
    · simp [h, h2]
      omega
  · simp [h]

/-- An address has one of the bits `63..lo` set exactly when it meets the mask of those
bits. -/
theorem high_bits_set_iff (address lo : Nat) (hlo : lo ≤ 64) :
    address &&& ((2 ^ (64 - lo) - 1) <<< lo) ≠ 0
      ↔ ∃ i, lo ≤ i ∧ i < 64 ∧ address.testBit i = true := by
  rw [and_ne_zero_iff_testBit]
  constructor
  · rintro ⟨i, h1, h2⟩
    rw [testBit_field, decide_eq_true_eq] at h2
    exact ⟨i, h2.1, by omega, h1⟩
  · rintro ⟨i, h1, h2, h3⟩
    refine ⟨i, h3, ?_⟩
    rw [testBit_field, decide_eq_true_eq]
    omega

theorem translate_user (s : State) (intention address : Nat)
    (hK : s.SR &&& SR_KSU = SR_KSU_U) (hE : s.SR &&& SR_EXL = 0) (hL : s.SR &&& SR_ERL = 0) :
    translate s intention address =
      if s.SR &&& SR_UX ≠ 0 then
        if address &&& 0xffffff0000000000 ≠ 0 then (translate_t.ERROR, address, s)
        else tlb_lookup s intention address true
      else
        if address &&& 0xffffffff80000000 ≠ 0 then (translate_t.ERROR, address, s)
        else tlb_lookup s intention address false := by
  have h1 : ¬ (s.SR &&& SR_KSU = 0 ∨ s.SR &&& SR_EXL ≠ 0 ∨ s.SR &&& SR_ERL ≠ 0) := by
    rw [hK, hE, hL]
    decide
  have h2 : ¬ s.SR &&& SR_KSU = SR_KSU_S := by
    rw [hK]
    decide
  unfold translate
  rw [if_neg h1, if_neg h2]

theorem tlb_lookup_shape (s : State) (intention address : Nat) (extended : Bool) :
    (tlb_lookup s intention address extended).1 = translate_t.MISS
    ∨ ∃ index pfn,
        tlb_scan s intention address
          ((address &&& (if extended then EH_R ||| EH_VPN2_64 else EH_VPN2_32))
            ||| (s.m_cp0 CP0_EntryHi &&& EH_ASID)) extended TLB_SIZE = scan_t.hit index pfn
        ∧ tlb_lookup s intention address extended
          = (if pfn &&& EL_C = C_2 then translate_t.UNCACHED else translate_t.CACHED,
            (address &&& (((s.m_tlb index).mask >>> 1) ||| 0xfff))
              ||| (((pfn &&& EL_PFN) <<< 6) &&& not64 ((s.m_tlb index).mask >>> 1)),
            { s with m_last := fun j =>
              if j = intention &&& TRANSLATE_TYPE_MASK then index else s.m_last j }) := by
  by_cases hh : ∃ index pfn, tlb_scan s intention address
      ((address &&& (if extended then EH_R ||| EH_VPN2_64 else EH_VPN2_32))
        ||| (s.m_cp0 CP0_EntryHi &&& EH_ASID)) extended TLB_SIZE = scan_t.hit index pfn
  · obtain ⟨index, pfn, h⟩ := hh
    exact Or.inr ⟨index, pfn, h, tlb_lookup_hit s intention address extended index pfn h⟩
  · exact Or.inl (tlb_lookup_not_hit s intention address extended
      (fun index pfn h => hh ⟨index, pfn, h⟩))

/-- C24: in user mode (KSU = user, EXL and ERL clear) `translate` returns ERROR, leaving the
state alone and whatever the TLB holds, for every address with one of the bits 63..31 set
when Status.UX is clear and for every address with one of the bits 63..40 set when Status.UX
is set; for every other address it is the TLB lookup (32-bit key with UX clear, extended key
with UX set), which returns MISS or the frame of a TLB entry, never the result of an
unmapped segment. -/
theorem user_mode_segments (s : State) (intention address : Nat)
    (hK : s.SR &&& SR_KSU = SR_KSU_U) (hE : s.SR &&& SR_EXL = 0) (hL : s.SR &&& SR_ERL = 0) :
    (s.SR &&& SR_UX = 0 → (∃ i, 31 ≤ i ∧ i < 64 ∧ address.testBit i = true) →
      translate s intention address = (translate_t.ERROR, address, s)
      ∧ ∀ tlb, translate { s with m_tlb := tlb } intention address
          = (translate_t.ERROR, address, { s with m_tlb := tlb }))
    ∧ (s.SR &&& SR_UX ≠ 0 → (∃ i, 40 ≤ i ∧ i < 64 ∧ address.testBit i = true) →
      translate s intention address = (translate_t.ERROR, address, s)
      ∧ ∀ tlb, translate { s with m_tlb := tlb } intention address
          = (translate_t.ERROR, address, { s with m_tlb := tlb }))
    ∧ (s.SR &&& SR_UX = 0 → (¬ ∃ i, 31 ≤ i ∧ i < 64 ∧ address.testBit i = true) →
      translate s intention address = tlb_lookup s intention address false)
    ∧ (s.SR &&& SR_UX ≠ 0 → (¬ ∃ i, 40 ≤ i ∧ i < 64 ∧ address.testBit i = true) →
      translate s intention address = tlb_lookup s intention address true)
    ∧ (∀ extended,
        (tlb_lookup s intention address extended).1 = translate_t.MISS
        ∨ ∃ index pfn,
            tlb_scan s intention address
              ((address &&& (if extended then EH_R ||| EH_VPN2_64 else EH_VPN2_32))
                ||| (s.m_cp0 CP0_EntryHi &&& EH_ASID)) extended TLB_SIZE
              = scan_t.hit index pfn
            ∧ tlb_lookup s intention address extended
              = (if pfn &&& EL_C = C_2 then translate_t.UNCACHED else translate_t.CACHED,
                (address &&& (((s.m_tlb index).mask >>> 1) ||| 0xfff))
                  ||| (((pfn &&& EL_PFN) <<< 6) &&& not64 ((s.m_tlb index).mask >>> 1)),
                { s with m_last := fun j =>
                  if j = intention &&& TRANSLATE_TYPE_MASK then index else s.m_last j })) := by
  have h31 := high_bits_set_iff address 31 (by decide)
  have h40 := high_bits_set_iff address 40 (by decide)
  rw [show ((2 ^ (64 - 31) - 1) <<< 31 : Nat) = 0xffffffff80000000 by decide] at h31
  rw [show ((2 ^ (64 - 40) - 1) <<< 40 : Nat) = 0xffffff0000000000 by decide] at h40
  have ht := translate_user s intention address hK hE hL
  have htt : ∀ tlb, translate { s with m_tlb := tlb } intention address = _ :=
    fun tlb => translate_user { s with m_tlb := tlb } intention address hK hE hL
  refine ⟨?_, ?_, ?_, ?_, tlb_lookup_shape s intention address⟩
  · intro hU hb
    have hb' := h31.2 hb
    have hU' : ¬ s.SR &&& SR_UX ≠ 0 := fun h => h hU
    refine ⟨?_, fun tlb => ?_⟩
    · rw [ht, if_neg hU', if_pos hb']
    · rw [htt tlb]
      exact (if_neg hU').trans (if_pos hb')
  · intro hU hb
    have hb' := h40.2 hb
    refine ⟨?_, fun tlb => ?_⟩
    · rw [ht, if_pos hU, if_pos hb']
    · rw [htt tlb]
      exact (if_pos hU).trans (if_pos hb')
  · intro hU hb
    have hb' : ¬ address &&& 0xffffffff80000000 ≠ 0 := fun h => hb (h31.1 h)
    have hU' : ¬ s.SR &&& SR_UX ≠ 0 := fun h => h hU
    rw [ht, if_neg hU', if_neg hb']
  · intro hU hb
    have hb' : ¬ address &&& 0xffffff0000000000 ≠ 0 := fun h => hb (h40.1 h)
    rw [ht, if_pos hU, if_neg hb']

/-- Witness of C24: in the example state switched to 32-bit user mode a read of the kseg0
address `0xffffffff80001000` is an ERROR that leaves the state alone, and a read of
`0x80001000` (bit 31 set) likewise. -/
theorem user_mode_segments_witness :
    translate example_user_state TRANSLATE_READ 0xffffffff80001000
        = (translate_t.ERROR, 0xffffffff80001000, example_user_state)
    ∧ translate example_user_state TRANSLATE_READ 0x80001000
        = (translate_t.ERROR, 0x80001000, example_user_state) :=
  ⟨((user_mode_segments example_user_state TRANSLATE_READ 0xffffffff80001000 (by decide)
      (by decide) (by decide)).1 (by decide) ⟨63, by decide, by decide, by decide⟩).1,
    ((user_mode_segments example_user_state TRANSLATE_READ 0x80001000 (by decide)
      (by decide) (by decide)).1 (by decide) ⟨31, by decide, by decide, by decide⟩).1⟩

/-! ## Operating-mode flag -/

theorem ksu_values (x : Nat) :
    x &&& SR_KSU = 0 ∨ x &&& SR_KSU = 0x08 ∨ x &&& SR_KSU = 0x10 ∨ x &&& SR_KSU = 0x18 := by
  have h : x &&& SR_KSU = (x % 32) &&& SR_KSU := by
    have h1 : x % 32 = x &&& (2 ^ 5 - 1) := (Nat.and_pow_two_sub_one_eq_mod x 5).symm
    rw [h1, Nat.and_assoc]
    rfl
  have hlt : x % 32 < 32 := Nat.mod_lt _ (by decide)
  rw [h]
  generalize x % 32 = y at hlt
  interval_cases y <;> decide

/-- The flag `cp0_mode_check` computes is the one the Status value determines, unless EXL
and ERL are clear and the KSU field holds the reserved value 3, in which case it is the old
flag. -/
theorem mode_check_flag (v : Nat) (b : Bool) :
    ((v &&& (SR_EXL ||| SR_ERL) ≠ 0 ∨ v &&& SR_KSU ≠ 0x18) →
      (if v &&& (SR_EXL ||| SR_ERL) = 0 then
        if v &&& SR_KSU = SR_KSU_K then decide (v &&& SR_KX ≠ 0)
        else if v &&& SR_KSU = SR_KSU_S then decide (v &&& SR_SX ≠ 0)
        else if v &&& SR_KSU = SR_KSU_U then decide (v &&& SR_UX ≠ 0)
        else b
      else decide (v &&& SR_KX ≠ 0)) = status_mode_flag v)
    ∧ (v &&& (SR_EXL ||| SR_ERL) = 0 → v &&& SR_KSU = 0x18 →
      (if v &&& (SR_EXL ||| SR_ERL) = 0 then
        if v &&& SR_KSU = SR_KSU_K then decide (v &&& SR_KX ≠ 0)
        else if v &&& SR_KSU = SR_KSU_S then decide (v &&& SR_SX ≠ 0)
        else if v &&& SR_KSU = SR_KSU_U then decide (v &&& SR_UX ≠ 0)
        else b
      else decide (v &&& SR_KX ≠ 0)) = b) := by
  have hK : SR_KSU_K = 0 := rfl
  have hS : SR_KSU_S = 0x08 := rfl
  have hU : SR_KSU_U = 0x10 := rfl
  unfold status_mode_flag
  rw [hK, hS, hU]
  constructor
  · intro h
    by_cases hx : v &&& (SR_EXL ||| SR_ERL) = 0
    · have h3 : v &&& SR_KSU ≠ 0x18 := h.resolve_left (fun hn => hn hx)
      rcases ksu_values v with h0 | h0 | h0 | h0
      · simp only [hx, h0, ne_eq, not_true_eq_false, false_or, if_true]
      · simp only [hx, h0, ne_eq, not_true_eq_false, false_or, if_true,
          show ¬ (8 : Nat) = 0 by decide, if_false]
      · simp only [hx, h0, ne_eq, not_true_eq_false, false_or, if_true,
          show ¬ (16 : Nat) = 0 by decide, show ¬ (16 : Nat) = 8 by decide, if_false]
      · exact absurd h0 h3
    · simp only [hx, ne_eq, not_false_eq_true, true_or, if_true, if_false]
  · intro hx h3
    simp only [hx, h3, if_true, show ¬ (24 : Nat) = 0 by decide,
      show ¬ (24 : Nat) = 8 by decide, show ¬ (24 : Nat) = 16 by decide, if_false]

theorem cp0_set_Status (s s' : State) (v : Nat) (h : cp0_set s CP0_Status v = Except.ok s') :
    s'.SR = u32 v
    ∧ s'.m_64 = (cp0_mode_check (s.set_cp0 CP0_Status (u32 v))).m_64 := by
  have hv : (cp0_mode_check (s.set_cp0 CP0_Status (u32 v))).SR = u32 v := by
    rw [cp0_mode_check_frame]
    show (if CP0_Status = CP0_Status then u32 v else s.m_cp0 CP0_Status) = u32 v
    exact if_pos rfl
  unfold cp0_set at h
  rw [if_neg (by decide), if_neg (by decide), if_neg (by decide), if_pos rfl] at h
  dsimp only at h
  split at h
  · cases h
  · have h' := Except.ok.inj h
    rw [← h']
    split
    · exact ⟨hv, rfl⟩
    · exact ⟨hv, rfl⟩

/-- C21 (as amended): after a write to Status through `cp0_set` and after an ERET the
64-bit-mode flag is the one the new Status value determines (KX when EXL or ERL is set or
KSU selects kernel, SX for supervisor, UX for user), unless the new Status has EXL and ERL
clear and the reserved value 3 in the KSU field: then the flag keeps its previous value. -/
theorem mode_flag_follows_status (s s' : State) (v op : Nat) :
    (cp0_set s CP0_Status v = Except.ok s' →
      s'.SR = u32 v
      ∧ ((s'.SR &&& (SR_EXL ||| SR_ERL) ≠ 0 ∨ s'.SR &&& SR_KSU ≠ 0x18) →
          s'.m_64 = status_mode_flag s'.SR)
      ∧ (s'.SR &&& (SR_EXL ||| SR_ERL) = 0 → s'.SR &&& SR_KSU = 0x18 → s'.m_64 = s.m_64))
    ∧ (0x10 ≤ (op >>> 21) &&& 0x1f → op &&& 0x3f = 0x18 →
        ¬ (s.SR &&& SR_KSU ≠ 0 ∧ s.SR &&& SR_CU0 = 0 ∧ s.SR &&& (SR_EXL ||| SR_ERL) = 0) →
        cp0_execute s op = Except.ok s' →
      s'.SR = (if s.SR &&& SR_ERL ≠ 0 then s.SR &&& not32 SR_ERL else s.SR &&& not32 SR_EXL)
      ∧ ((s'.SR &&& (SR_EXL ||| SR_ERL) ≠ 0 ∨ s'.SR &&& SR_KSU ≠ 0x18) →
          s'.m_64 = status_mode_flag s'.SR)
      ∧ (s'.SR &&& (SR_EXL ||| SR_ERL) = 0 → s'.SR &&& SR_KSU = 0x18 → s'.m_64 = s.m_64)) := by
  constructor
  · intro h
    obtain ⟨h1, h2⟩ := cp0_set_Status s s' v h
    have hm := cp0_mode_check_m_64 (s.set_cp0 CP0_Status (u32 v))
    have hv : (s.set_cp0 CP0_Status (u32 v)).SR = u32 v := by
      show (if CP0_Status = CP0_Status then u32 v else s.m_cp0 CP0_Status) = u32 v
      exact if_pos rfl
    rw [hv] at hm
    have hb : (s.set_cp0 CP0_Status (u32 v)).m_64 = s.m_64 := rfl
    rw [hb] at hm
    rw [h2, hm, h1]
    exact ⟨rfl, (mode_check_flag (u32 v) s.m_64).1, (mode_check_flag (u32 v) s.m_64).2⟩
  · intro hco hfn hu h
    have he := cp0_execute_ERET s op hco hfn hu
    rw [h] at he
    obtain ⟨-, a2, a3, -⟩ := eret_state _ s' _ (Except.ok.inj he)
    rw [a3, a2]
    exact ⟨rfl, (mode_check_flag _ s.m_64).1, (mode_check_flag _ s.m_64).2⟩

/-- Counterexample to C21 as stated: writing `0x18` (KSU = 3, EXL and ERL clear) to Status
leaves the 64-bit-mode flag as it was, so two states that differ in the old flag only end
with the same Status and different flags. -/
theorem mode_flag_stale_for_reserved_ksu :
    (cp0_set (example_state 0) CP0_Status 0x18).toOption.map (fun s' => (s'.SR, s'.m_64))
      = some (0x18, false)
    ∧ (cp0_set { example_state 0 with m_64 := true } CP0_Status 0x18).toOption.map
        (fun s' => (s'.SR, s'.m_64)) = some (0x18, true) := by
  decide

/-- A write of KSU = supervisor with SX set to Status in the example state turns the
64-bit-mode flag on. -/
theorem mode_flag_example :
    (cp0_set (example_state 0) CP0_Status (SR_KSU_S ||| SR_SX)).toOption.map
      (fun s' => (s'.m_64, status_mode_flag s'.SR)) = some (true, true) := by
  decide

/-! ## Misaligned loads -/

theorem set_cp0_same (s : State) (i v : Nat) : (s.set_cp0 i v).m_cp0 i = v := by
  show (if i = i then v else s.m_cp0 i) = v
  exact if_pos rfl

theorem set_cp0_other (s : State) (i j v : Nat) (h : j ≠ i) :
    (s.set_cp0 i v).m_cp0 j = s.m_cp0 j := by
  show (if j = i then v else s.m_cp0 j) = s.m_cp0 j
  exact if_neg h

theorem cpu_exception_eq (s : State) (e v : Nat) :
    cpu_exception s e v
      = { s with
          m_cp0 := (cpu_exception s e v).m_cp0, m_64 := (cpu_exception s e v).m_64,
          m_branch_state := branch_state_t.EXCEPTION, m_pc := (cpu_exception s e v).m_pc } := by
  unfold cpu_exception
  by_cases hE : s.SR &&& SR_EXL = 0 <;>
    by_cases hD : s.m_branch_state = branch_state_t.DELAY <;>
    simp only [hE, hD, State.set_cp0, if_true, if_false, ↓reduceIte]

theorem cpu_exception_with_fields (s : State) (e v : Nat) (mem : Nat → Nat)
    (tlb : Nat → tlb_entry_t) (last : Nat → Nat) :
    (cpu_exception { s with mem := mem, m_tlb := tlb, m_last := last } e v).m_cp0
      = (cpu_exception s e v).m_cp0
    ∧ (cpu_exception { s with mem := mem, m_tlb := tlb, m_last := last } e v).m_64
      = (cpu_exception s e v).m_64
    ∧ (cpu_exception { s with mem := mem, m_tlb := tlb, m_last := last } e v).m_pc
      = (cpu_exception s e v).m_pc := by
  unfold cpu_exception
  by_cases hE : s.SR &&& SR_EXL = 0 <;>
    by_cases hD : s.m_branch_state = branch_state_t.DELAY <;>
    simp only [State.SR, State.CAUSE, State.set_cp0] at hE ⊢ <;>
    simp only [hE, hD, if_true, if_false, ↓reduceIte, and_self]

/-- Raising an exception neither reads nor writes the bus contents, the TLB and the
last-used indices. -/
theorem cpu_exception_with (s : State) (e v : Nat) (mem : Nat → Nat)
    (tlb : Nat → tlb_entry_t) (last : Nat → Nat) :
    cpu_exception { s with mem := mem, m_tlb := tlb, m_last := last } e v
      = { cpu_exception s e v with mem := mem, m_tlb := tlb, m_last := last } := by
  obtain ⟨h1, h2, h3⟩ := cpu_exception_with_fields s e v mem tlb last
  rw [cpu_exception_eq { s with mem := mem, m_tlb := tlb, m_last := last }, h1, h2, h3]
  conv_rhs => rw [cpu_exception_eq s e v]

theorem set_cp0_with (s : State) (i x : Nat) (mem : Nat → Nat)
    (tlb : Nat → tlb_entry_t) (last : Nat → Nat) :
    ({ s with mem := mem, m_tlb := tlb, m_last := last } : State).set_cp0 i x
      = { s.set_cp0 i x with mem := mem, m_tlb := tlb, m_last := last } := rfl

theorem address_error_with (s : State) (intention address : Nat) (mem : Nat → Nat)
    (tlb : Nat → tlb_entry_t) (last : Nat → Nat) :
    address_error { s with mem := mem, m_tlb := tlb, m_last := last } intention address
      = { address_error s intention address with mem := mem, m_tlb := tlb, m_last := last } := by
  unfold address_error
  by_cases hc : ¬ s.side_effects_disabled ∧ intention &&& TRANSLATE_DEBUG_MASK = 0
  · rw [if_pos hc, if_pos (show ¬ ({ s with mem := mem, m_tlb := tlb, m_last := last }
        : State).side_effects_disabled ∧ intention &&& TRANSLATE_DEBUG_MASK = 0 from hc)]
    by_cases hE : s.SR &&& SR_EXL = 0
    · rw [if_pos hE, if_pos (show ({ s with mem := mem, m_tlb := tlb, m_last := last }
        : State).SR &&& SR_EXL = 0 from hE), set_cp0_with, cpu_exception_with]
    · rw [if_neg hE, if_neg (show ¬ ({ s with mem := mem, m_tlb := tlb, m_last := last }
        : State).SR &&& SR_EXL = 0 from hE), cpu_exception_with]
  · rw [if_neg hc, if_neg (show ¬ (¬ ({ s with mem := mem, m_tlb := tlb, m_last := last }
        : State).side_effects_disabled ∧ intention &&& TRANSLATE_DEBUG_MASK = 0) from hc)]

theorem load_misaligned (s : State) (size address : Nat)
    (h : address &&& (size - 1) ≠ 0) :
    load s size address = (none, address_error s TRANSLATE_READ address)
    ∧ load_linked s size address = (none, address_error s TRANSLATE_READ address) := by
  unfold load load_linked
  rw [if_pos h, if_pos h]
  exact ⟨rfl, rfl⟩

theorem misaligned_iff (address size : Nat) (hs : size = 2 ∨ size = 4 ∨ size = 8) :
    address &&& (size - 1) ≠ 0 ↔ address % size ≠ 0 := by
  rcases hs with rfl | rfl | rfl
  · rw [show (2 - 1 : Nat) = 2 ^ 1 - 1 from rfl, Nat.and_pow_two_sub_one_eq_mod]
  · rw [show (4 - 1 : Nat) = 2 ^ 2 - 1 from rfl, Nat.and_pow_two_sub_one_eq_mod]
  · rw [show (8 - 1 : Nat) = 2 ^ 3 - 1 from rfl, Nat.and_pow_two_sub_one_eq_mod]

theorem misaligned_load_executes (sf : softfloat_t) (s : State) (op size : Nat)
    (hop : (op >>> 26 = 0x21 ∧ size = 2) ∨ (op >>> 26 = 0x25 ∧ size = 2)
      ∨ (op >>> 26 = 0x23 ∧ size = 4) ∨ (op >>> 26 = 0x27 ∧ size = 4)
      ∨ (op >>> 26 = 0x37 ∧ size = 8) ∨ (op >>> 26 = 0x30 ∧ size = 4)
      ∨ (op >>> 26 = 0x34 ∧ size = 8)
      ∨ (op >>> 26 = 0x31 ∧ size = 4 ∧ s.SR &&& SR_CU1 ≠ 0)
      ∨ (op >>> 26 = 0x35 ∧ size = 8 ∧ s.SR &&& SR_CU1 ≠ 0))
    (hal : ADDR s (s.m_r (RSREG op)) op % size ≠ 0) :
    cpu_execute sf s op = Except.ok
      (address_error (load_state s op) TRANSLATE_READ (ADDR s (s.m_r (RSREG op)) op)) := by
  have hs : size = 2 ∨ size = 4 ∨ size = 8 := by
    rcases hop with h | h | h | h | h | h | h | h | h <;> omega
  have hm := (misaligned_iff _ size hs).2 hal
  rcases hop with ⟨h0, rfl⟩ | ⟨h0, rfl⟩ | ⟨h0, rfl⟩ | ⟨h0, rfl⟩ | ⟨h0, rfl⟩ | ⟨h0, rfl⟩
    | ⟨h0, rfl⟩ | ⟨h0, rfl, hcu⟩ | ⟨h0, rfl, hcu⟩
  · simp only [cpu_execute, h0, load_state, (load_misaligned s 2 _ hm).1]
    rfl
  · simp only [cpu_execute, h0, load_state, (load_misaligned s 2 _ hm).1]
    rfl
  · simp only [cpu_execute, h0, load_state, (load_misaligned s 4 _ hm).1]
    rfl
  · simp only [cpu_execute, h0, load_state, (load_misaligned s 4 _ hm).1]
    rfl
  · simp only [cpu_execute, h0, load_state, (load_misaligned s 8 _ hm).1]
    rfl
  · simp only [cpu_execute, h0, load_state, (load_misaligned s 4 _ hm).2]
    rfl
  · simp only [cpu_execute, h0, load_state, (load_misaligned s 8 _ hm).2]
    rfl
  · have hl := (load_misaligned { s with softfloat_exceptionFlags := 0 } 4 _ hm).1
    simp only [cpu_execute, h0, load_state, cp1_execute, if_neg hcu]
    rw [show ADDR { s with softfloat_exceptionFlags := 0 }
        (({ s with softfloat_exceptionFlags := 0 } : State).m_r (RSREG op)) op
        = ADDR s (s.m_r (RSREG op)) op from rfl, hl]
    rfl
  · have hl := (load_misaligned { s with softfloat_exceptionFlags := 0 } 8 _ hm).1
    simp only [cpu_execute, h0, load_state, cp1_execute, if_neg hcu]
    rw [show ADDR { s with softfloat_exceptionFlags := 0 }
        (({ s with softfloat_exceptionFlags := 0 } : State).m_r (RSREG op)) op
        = ADDR s (s.m_r (RSREG op)) op from rfl, hl]
    rfl

theorem load_state_fields (s : State) (op : Nat) :
    (load_state s op).m_cp0 = s.m_cp0 ∧ (load_state s op).m_r = s.m_r
    ∧ (load_state s op).m_f = s.m_f ∧ (load_state s op).mem = s.mem
    ∧ (load_state s op).m_tlb = s.m_tlb ∧ (load_state s op).m_last = s.m_last
    ∧ (load_state s op).side_effects_disabled = s.side_effects_disabled
    ∧ (load_state s op).m_pc = s.m_pc
    ∧ (load_state s op).m_branch_state = s.m_branch_state := by
  unfold load_state
  split <;> exact ⟨rfl, rfl, rfl, rfl, rfl, rfl, rfl, rfl, rfl⟩

theorem load_state_with (s : State) (op : Nat) (mem : Nat → Nat)
    (tlb : Nat → tlb_entry_t) (last : Nat → Nat) :
    load_state { s with mem := mem, m_tlb := tlb, m_last := last } op
      = { load_state s op with mem := mem, m_tlb := tlb, m_last := last } := by
  unfold load_state
  split <;> rfl

/-- C23: a load of width 2, 4 or 8 (LH, LHU, LW, LWU, LD, LL, LLD, and LWC1, LDC1 with
coprocessor 1 usable) whose effective address is not a multiple of the width, with side
effects enabled, only calls `address_error(TRANSLATE_READ, address)`: the address-error-on-
load exception is raised at the general vector, BadVAddr receives the address when
Status.EXL is clear, the general and floating-point registers, the bus contents, the TLB and
the last-used TLB indices are unchanged, and the outcome is the same whatever the bus and
the TLB hold, so neither a translation nor a bus read takes place. -/
theorem misaligned_load (sf : softfloat_t) (s : State) (op size : Nat)
    (hop : (op >>> 26 = 0x21 ∧ size = 2) ∨ (op >>> 26 = 0x25 ∧ size = 2)
      ∨ (op >>> 26 = 0x23 ∧ size = 4) ∨ (op >>> 26 = 0x27 ∧ size = 4)
      ∨ (op >>> 26 = 0x37 ∧ size = 8) ∨ (op >>> 26 = 0x30 ∧ size = 4)
      ∨ (op >>> 26 = 0x34 ∧ size = 8)
      ∨ (op >>> 26 = 0x31 ∧ size = 4 ∧ s.SR &&& SR_CU1 ≠ 0)
      ∨ (op >>> 26 = 0x35 ∧ size = 8 ∧ s.SR &&& SR_CU1 ≠ 0))
    (hse : s.side_effects_disabled = false)
    (hal : ADDR s (s.m_r (RSREG op)) op % size ≠ 0) :
    ∃ s', cpu_execute sf s op = Except.ok s'
      ∧ s' = address_error (load_state s op) TRANSLATE_READ (ADDR s (s.m_r (RSREG op)) op)
      ∧ s'.CAUSE &&& CAUSE_EXCCODE = EXCEPTION_ADEL
      ∧ s'.m_branch_state = branch_state_t.EXCEPTION
      ∧ s'.m_pc = vector_base s + GENERAL_VECTOR
      ∧ (s.SR &&& SR_EXL = 0 → s'.m_cp0 CP0_BadVAddr = ADDR s (s.m_r (RSREG op)) op)
      ∧ s'.m_r = s.m_r ∧ s'.m_f = s.m_f
      ∧ s'.mem = s.mem ∧ s'.m_tlb = s.m_tlb ∧ s'.m_last = s.m_last
      ∧ (∀ i, i ≠ CP0_Status → i ≠ CP0_Cause → i ≠ CP0_EPC → i ≠ CP0_BadVAddr →
          s'.m_cp0 i = s.m_cp0 i)
      ∧ (∀ mem tlb last,
          cpu_execute sf { s with mem := mem, m_tlb := tlb, m_last := last } op
            = Except.ok { s' with mem := mem, m_tlb := tlb, m_last := last }) := by
  obtain ⟨l1, l2, l3, l4, l5, l6, l7, l8, l9⟩ := load_state_fields s op
  have hx := misaligned_load_executes sf s op size hop hal
  have hen : ¬ (load_state s op).side_effects_disabled
      ∧ TRANSLATE_READ &&& TRANSLATE_DEBUG_MASK = 0 := by
    rw [l7, hse]
    exact ⟨Bool.false_ne_true, by decide⟩
  have hSR : (load_state s op).SR = s.SR := congrFun l1 CP0_Status
  have hae : address_error (load_state s op) TRANSLATE_READ (ADDR s (s.m_r (RSREG op)) op)
      = cpu_exception
          (if s.SR &&& SR_EXL = 0
            then (load_state s op).set_cp0 CP0_BadVAddr (ADDR s (s.m_r (RSREG op)) op)
            else load_state s op) EXCEPTION_ADEL GENERAL_VECTOR := by
    unfold address_error
    rw [if_pos hen, hSR, if_neg (show ¬ TRANSLATE_READ &&& TRANSLATE_WRITE ≠ 0 by decide)]
  refine ⟨_, hx, rfl, ?_, ?_, ?_, ?_, ?_, ?_, ?_, ?_, ?_, ?_, ?_⟩
  · rw [hae, cpu_exception_exccode]
    decide
  · rw [hae]
    rfl
  · rw [hae]
    by_cases hE : s.SR &&& SR_EXL = 0
    · rw [if_pos hE]
      exact cpu_exception_vector_of s _ _ _ (by decide)
        ((rfl : ((load_state s op).set_cp0 CP0_BadVAddr
          (ADDR s (s.m_r (RSREG op)) op)).SR = (load_state s op).SR).trans hSR)
    · rw [if_neg hE]
      exact cpu_exception_vector_of s _ _ _ (by decide) hSR
  · intro hE
    rw [hae, if_pos hE, cpu_exception_cp0_other _ _ _ _ (by decide) (by decide) (by decide)]
    exact set_cp0_same _ _ _
  · rw [hae, cpu_exception_m_r]
    split
    · exact l2
    · exact l2
  · rw [hae, (cpu_exception_frame _ _ _).2.2.2.1]
    split
    · exact l3
    · exact l3
  · rw [hae, (cpu_exception_frame _ _ _).2.2.2.2.2.1]
    split
    · exact l4
    · exact l4
  · rw [hae, (cpu_exception_frame _ _ _).2.2.2.2.1]
    split
    · exact l5
    · exact l5
  · rw [hae, (cpu_exception_frame _ _ _).2.2.2.2.2.2.2.2.2.2]
    split
    · exact l6
    · exact l6
  · intro i h1 h2 h3 h4
    rw [hae, cpu_exception_cp0_other _ _ _ _ h1 h2 h3]
    split
    · exact (set_cp0_other _ _ _ _ h4).trans (congrFun l1 i)
    · rw [l1]
  · intro mem tlb last
    have hop' : (op >>> 26 = 0x21 ∧ size = 2) ∨ (op >>> 26 = 0x25 ∧ size = 2)
        ∨ (op >>> 26 = 0x23 ∧ size = 4) ∨ (op >>> 26 = 0x27 ∧ size = 4)
        ∨ (op >>> 26 = 0x37 ∧ size = 8) ∨ (op >>> 26 = 0x30 ∧ size = 4)
        ∨ (op >>> 26 = 0x34 ∧ size = 8)
        ∨ (op >>> 26 = 0x31 ∧ size = 4
          ∧ ({ s with mem := mem, m_tlb := tlb, m_last := last } : State).SR &&& SR_CU1 ≠ 0)
        ∨ (op >>> 26 = 0x35 ∧ size = 8
          ∧ ({ s with mem := mem, m_tlb := tlb, m_last := last } : State).SR &&& SR_CU1 ≠ 0) :=
      hop
    have hx' := misaligned_load_executes sf
      { s with mem := mem, m_tlb := tlb, m_last := last } op size hop' hal
    rw [hx', load_state_with, address_error_with]
    rfl

/-- Witness of C23: LW r2, 1(r0) (`0x8c020001`) in the example state raises the
address-error-on-load exception with BadVAddr = 1 and leaves r2 alone. -/
theorem misaligned_load_witness :
    ∃ s', cpu_execute example_softfloat (example_state 0) 0x8c020001 = Except.ok s'
      ∧ s'.CAUSE &&& CAUSE_EXCCODE = EXCEPTION_ADEL
      ∧ s'.m_cp0 CP0_BadVAddr = 1
      ∧ s'.m_r 2 = 1 :=
  (misaligned_load example_softfloat (example_state 0) 0x8c020001 4
    (Or.inr (Or.inr (Or.inl ⟨by decide, rfl⟩))) rfl (by decide)).imp
    (fun s' h => ⟨h.1, h.2.2.1, h.2.2.2.2.2.1 (by decide),
      congrFun h.2.2.2.2.2.2.1 2⟩)

/-! ## Floating-point exceptions -/

/-- The body of `cp1_set` in terms of the image of the library flags. -/
theorem cp1_set_eq (s : State) (reg data : Nat) :
    cp1_set s reg data =
      if s.softfloat_exceptionFlags ≠ 0 then
        if (((s.m_fcr31 ||| cause_image s.softfloat_exceptionFlags) &&& FCR31_CM) >>> 5)
            &&& ((s.m_fcr31 ||| cause_image s.softfloat_exceptionFlags) &&& FCR31_EM) ≠ 0 then
          cpu_exception
            { s with m_fcr31 := s.m_fcr31 ||| cause_image s.softfloat_exceptionFlags }
            EXCEPTION_FPE GENERAL_VECTOR
        else
          ({ s with m_fcr31 := (s.m_fcr31 ||| cause_image s.softfloat_exceptionFlags)
              ||| (((s.m_fcr31 ||| cause_image s.softfloat_exceptionFlags) &&& FCR31_CM)
                >>> 10) } : State).set_f reg data
      else s.set_f reg data := by
  unfold cp1_set cause_image
  by_cases h0 : s.softfloat_exceptionFlags ≠ 0
  · rw [if_pos h0, if_pos h0]
    by_cases h1 : s.softfloat_exceptionFlags &&& softfloat_flag_inexact ≠ 0 <;>
    by_cases h2 : s.softfloat_exceptionFlags &&& softfloat_flag_underflow ≠ 0 <;>
    by_cases h3 : s.softfloat_exceptionFlags &&& softfloat_flag_overflow ≠ 0 <;>
    by_cases h4 : s.softfloat_exceptionFlags &&& softfloat_flag_infinite ≠ 0 <;>
    by_cases h5 : s.softfloat_exceptionFlags &&& softfloat_flag_invalid ≠ 0 <;>
    simp only [ne_eq] at h1 h2 h3 h4 h5 ⊢ <;>
    simp only [h1, h2, h3, h4, h5, if_true, if_false, ↓reduceIte, Nat.or_zero, Nat.zero_or,
      Nat.or_assoc, not_true_eq_false, not_false_eq_true, not_not]
  · rw [if_neg h0, if_neg h0]

/-- The test `((m_fcr31 & FCR31_CM) >> 5) & (m_fcr31 & FCR31_EM)` of `cp1_set` holds exactly when
some cause bit has its matching enable bit set. -/
theorem enabled_cause_iff (c : Nat) :
    ((c &&& FCR31_CM) >>> 5) &&& (c &&& FCR31_EM) ≠ 0 ↔ enabled_cause c := by
  have hCM : FCR31_CM = (2 ^ 5 - 1) <<< 12 := by decide
  have hEM : FCR31_EM = (2 ^ 5 - 1) <<< 7 := by decide
  rw [and_ne_zero_iff_testBit]
  unfold enabled_cause
  constructor
  · rintro ⟨j, h1, h2⟩
    rw [Nat.testBit_shiftRight, Nat.testBit_and, hCM, testBit_field, Bool.and_eq_true,
      decide_eq_true_eq] at h1
    rw [Nat.testBit_and, hEM, testBit_field, Bool.and_eq_true, decide_eq_true_eq] at h2
    refine ⟨j - 7, by omega, ?_, ?_⟩
    · rw [show 12 + (j - 7) = 5 + j by omega]
      exact h1.1
    · rw [show 7 + (j - 7) = j by omega]
      exact h2.1
  · rintro ⟨i, hi, h1, h2⟩
    refine ⟨7 + i, ?_, ?_⟩
    · rw [Nat.testBit_shiftRight, Nat.testBit_and, hCM, testBit_field, Bool.and_eq_true,
        decide_eq_true_eq, show 5 + (7 + i) = 12 + i by omega]
      exact ⟨h1, by omega⟩
    · rw [Nat.testBit_and, hEM, testBit_field, Bool.and_eq_true, decide_eq_true_eq]
      exact ⟨h2, by omega⟩

theorem cause_image_le (f : Nat) : cause_image f &&& FCR31_CM = cause_image f := by
  unfold cause_image
  split_ifs <;> decide

theorem cause_image_flags (f : Nat) : cause_image f &&& FCR31_FM = 0 := by
  have h := cause_image_le f
  rw [← h, Nat.and_assoc, show FCR31_CM &&& FCR31_FM = 0 by decide, Nat.and_zero]

theorem set_f_same (s : State) (i v : Nat) : (s.set_f i v).m_f i = v := by
  show (if i = i then v else s.m_f i) = v
  exact if_pos rfl

theorem set_f_other (s : State) (i j v : Nat) (h : j ≠ i) :
    (s.set_f i v).m_f j = s.m_f j := by
  show (if j = i then v else s.m_f j) = s.m_f j
  exact if_neg h

theorem cause_image_testBit_low (f i : Nat) (hi : i < 12) :
    (cause_image f).testBit i = false := by
  have h := congrArg (fun z => Nat.testBit z i) (cause_image_le f)
  simp only [Nat.testBit_and] at h
  rw [show FCR31_CM = (2 ^ 5 - 1) <<< 12 by decide, testBit_field] at h
  rw [show decide (12 ≤ i ∧ i < 12 + 5) = false from decide_eq_false (by omega),
    Bool.and_false] at h
  exact h.symm

/-- C26: `cp1_set` with a non-empty set of library flags ors their image into the cause
field of FCR31; if then some cause bit has its matching enable bit set it raises the
floating-point exception and leaves the floating-point registers and the flag field alone;
otherwise it writes the result to the destination register and ors the cause bits into the
flag field. With no flag raised it writes the result and leaves FCR31 unchanged. -/
theorem cp1_set_commit_or_trap (s : State) (reg data : Nat) :
    (s.softfloat_exceptionFlags ≠ 0 →
      enabled_cause (s.m_fcr31 ||| cause_image s.softfloat_exceptionFlags) →
        cp1_set s reg data
          = cpu_exception
              { s with m_fcr31 := s.m_fcr31 ||| cause_image s.softfloat_exceptionFlags }
              EXCEPTION_FPE GENERAL_VECTOR
        ∧ (cp1_set s reg data).CAUSE &&& CAUSE_EXCCODE = EXCEPTION_FPE
        ∧ (cp1_set s reg data).m_branch_state = branch_state_t.EXCEPTION
        ∧ (cp1_set s reg data).m_f = s.m_f
        ∧ (cp1_set s reg data).m_fcr31
            = s.m_fcr31 ||| cause_image s.softfloat_exceptionFlags
        ∧ (cp1_set s reg data).m_fcr31 &&& FCR31_FM = s.m_fcr31 &&& FCR31_FM)
    ∧ (s.softfloat_exceptionFlags ≠ 0 →
      ¬ enabled_cause (s.m_fcr31 ||| cause_image s.softfloat_exceptionFlags) →
        (cp1_set s reg data).m_f reg = data
        ∧ (∀ j, j ≠ reg → (cp1_set s reg data).m_f j = s.m_f j)
        ∧ (cp1_set s reg data).m_fcr31
            = (s.m_fcr31 ||| cause_image s.softfloat_exceptionFlags)
              ||| (((s.m_fcr31 ||| cause_image s.softfloat_exceptionFlags) &&& FCR31_CM)
                >>> 10)
        ∧ (∀ i, i < 5 →
            (cp1_set s reg data).m_fcr31.testBit (2 + i)
              = (s.m_fcr31.testBit (2 + i)
                || (s.m_fcr31 ||| cause_image s.softfloat_exceptionFlags).testBit (12 + i)))
        ∧ (cp1_set s reg data).m_branch_state = s.m_branch_state
        ∧ (cp1_set s reg data).m_cp0 = s.m_cp0
        ∧ (cp1_set s reg data).m_pc = s.m_pc)
    ∧ (s.softfloat_exceptionFlags = 0 →
        cp1_set s reg data = s.set_f reg data
        ∧ (cp1_set s reg data).m_f reg = data
        ∧ (cp1_set s reg data).m_fcr31 = s.m_fcr31) := by
  have he := cp1_set_eq s reg data
  refine ⟨?_, ?_, ?_⟩
  · intro h0 hen
    rw [if_pos h0, if_pos ((enabled_cause_iff _).2 hen)] at he
    rw [he]
    refine ⟨rfl, ?_, rfl, (cpu_exception_frame _ _ _).2.2.2.1, ?_, ?_⟩
    · rw [cpu_exception_exccode]
      decide
    · exact (cpu_exception_frame _ _ _).2.2.2.2.2.2.1
    · rw [(cpu_exception_frame _ _ _).2.2.2.2.2.2.1]
      show (s.m_fcr31 ||| cause_image s.softfloat_exceptionFlags) &&& FCR31_FM = _
      rw [and_or_right, cause_image_flags, Nat.or_zero]
  · intro h0 hen
    rw [if_pos h0, if_neg (fun h => hen ((enabled_cause_iff _).1 h))] at he
    rw [he]
    refine ⟨set_f_same _ _ _, fun j hj => set_f_other _ _ _ _ hj, rfl, ?_, rfl, rfl, rfl⟩
    intro i hi
    show ((s.m_fcr31 ||| cause_image s.softfloat_exceptionFlags)
      ||| (((s.m_fcr31 ||| cause_image s.softfloat_exceptionFlags) &&& FCR31_CM)
        >>> 10)).testBit (2 + i) = _
    rw [Nat.testBit_or, Nat.testBit_or, Nat.testBit_shiftRight, Nat.testBit_and,
      cause_image_testBit_low _ _ (by omega), Bool.or_false,
      show FCR31_CM = (2 ^ 5 - 1) <<< 12 by decide, testBit_field,
      show 10 + (2 + i) = 12 + i by omega,
      show decide (12 ≤ 12 + i ∧ 12 + i < 12 + 5) = true from decide_eq_true (by omega),
      Bool.and_true]
  · intro h0
    rw [if_neg (fun h => h h0)] at he
    rw [he]
    exact ⟨rfl, set_f_same _ _ _, rfl⟩

/-- The cause field after a result committed by `cp1_set`: the previous cause bits together
with the image of the flags of this operation. -/
theorem cp1_set_cause_accumulates (s : State) (reg data : Nat)
    (h0 : s.softfloat_exceptionFlags ≠ 0)
    (hen : ¬ enabled_cause (s.m_fcr31 ||| cause_image s.softfloat_exceptionFlags)) :
    (cp1_set s reg data).m_fcr31 &&& FCR31_CM
      = (s.m_fcr31 &&& FCR31_CM) ||| cause_image s.softfloat_exceptionFlags := by
  have he := cp1_set_eq s reg data
  rw [if_pos h0, if_neg (fun h => hen ((enabled_cause_iff _).1 h))] at he
  rw [he]
  show ((s.m_fcr31 ||| cause_image s.softfloat_exceptionFlags)
      ||| (((s.m_fcr31 ||| cause_image s.softfloat_exceptionFlags) &&& FCR31_CM)
        >>> 10)) &&& FCR31_CM = _
  have hsh : ∀ x, ((x &&& FCR31_CM) >>> 10) &&& FCR31_CM = 0 := by
    intro x
    apply Nat.eq_of_testBit_eq
    intro i
    rw [Nat.testBit_and, Nat.testBit_shiftRight, Nat.testBit_and,
      show FCR31_CM = (2 ^ 5 - 1) <<< 12 by decide, testBit_field, testBit_field,
      Nat.zero_testBit]
    by_cases h1 : 12 ≤ i ∧ i < 12 + 5
    · rw [show decide (12 ≤ 10 + i ∧ 10 + i < 12 + 5) = false from decide_eq_false (by omega)]
      simp
    · rw [show decide (12 ≤ i ∧ i < 12 + 5) = false from decide_eq_false h1]
      simp
  rw [and_or_right, hsh, Nat.or_zero, and_or_right, cause_image_le]

/-- C27, failing input: with coprocessor 1 usable and no trap enabled, ADD.S f0, f2, f4
(inexact) followed by DIV.S f0, f2, f4 (division by zero): the library reports only
divide-by-zero for the second operation, whose image is the cause bit Z, but the cause
field of FCR31 after it holds I and Z. -/
theorem cause_field_keeps_stale_bits :
    (execute_words example_softfloat_flags [0x46041000, 0x46041003]
        example_fpu_state).toOption.map
      (fun s' => (s'.softfloat_exceptionFlags, cause_image s'.softfloat_exceptionFlags,
        s'.m_fcr31 &&& FCR31_CM))
      = some (softfloat_flag_infinite, FCR31_CZ, FCR31_CI ||| FCR31_CZ)
    ∧ (execute_words example_softfloat_flags [0x46041000]
        example_fpu_state).toOption.map
      (fun s' => (s'.softfloat_exceptionFlags, s'.m_fcr31 &&& FCR31_CM))
      = some (softfloat_flag_inexact, FCR31_CI) := by
  decide

/-! ## TLB refill vector -/

/-- C29, failing input: a read of the unmapped-by-TLB address `0x2000` with Status.EXL clear
and no matching entry. In 32-bit kernel mode (Status = 0) the TLB-load exception is raised
at offset `0x080`, and in 64-bit kernel mode (Status.KX set, extended addressing) at offset
`0x000`: the two refill vectors are exchanged. -/
theorem refill_vectors_exchanged :
    ((translate (example_state 0) TRANSLATE_READ 0x2000).1,
      (translate (example_state 0) TRANSLATE_READ 0x2000).2.2.m_pc,
      (translate (example_state 0) TRANSLATE_READ 0x2000).2.2.CAUSE &&& CAUSE_EXCCODE)
      = (translate_t.MISS, 0xffffffff80000000 + 0x080, EXCEPTION_TLBL)
    ∧ ((translate ((example_state 0).set_cp0 CP0_Status SR_KX) TRANSLATE_READ 0x2000).1,
      (translate ((example_state 0).set_cp0 CP0_Status SR_KX) TRANSLATE_READ 0x2000).2.2.m_pc,
      (translate ((example_state 0).set_cp0 CP0_Status SR_KX) TRANSLATE_READ
        0x2000).2.2.CAUSE &&& CAUSE_EXCCODE)
      = (translate_t.MISS, 0xffffffff80000000 + 0x000, EXCEPTION_TLBL)
    ∧ (translate (example_state 0) TRANSLATE_WRITE 0x2000).2.2.CAUSE &&& CAUSE_EXCCODE
      = EXCEPTION_TLBS := by
  decide

/-! ## Interrupts -/

theorem execute_loop_budget_spent (sf : softfloat_t) (fuel : Nat) (s : State)
    (h : s.m_icount ≤ 0) : execute_loop sf fuel s = Except.ok s := by
  cases fuel with
  | zero => rfl
  | succ n =>
    unfold execute_loop
    rw [if_neg (by omega)]

theorem cp0_set_software_interrupt (s s' : State) (v : Nat) :
    (cp0_set s CP0_Status v = Except.ok s' → s'.CAUSE &&& s'.SR &&& SR_IMSW ≠ 0 →
      s'.m_icount = 0)
    ∧ (cp0_set s CP0_Cause v = Except.ok s' → s'.CAUSE &&& s'.SR &&& SR_IMSW ≠ 0 →
      s'.m_icount = 0) := by
  constructor
  · intro h hp
    unfold cp0_set at h
    rw [if_neg (by decide), if_neg (by decide), if_neg (by decide), if_pos rfl] at h
    dsimp only at h
    split at h
    · cases h
    · have h' := Except.ok.inj h
      rw [← h'] at hp ⊢
      split
      · rfl
      · rename_i hn
        rw [if_neg hn] at hp
        exact absurd hp hn
  · intro h hp
    unfold cp0_set at h
    rw [if_neg (by decide), if_neg (by decide), if_neg (by decide), if_neg (by decide),
      if_pos rfl] at h
    dsimp only at h
    have h' := Except.ok.inj h
    rw [← h'] at hp ⊢
    split
    · rfl
    · rename_i hn
      rw [if_neg hn] at hp
      exact absurd hp hn

/-- C22 (as amended): the interrupt condition is sampled at the entry of `execute_run`: if
it holds the interrupt exception is raised (exception code 0, general vector, EPC latched)
before the loop executes its first instruction, and if it does not hold the loop starts
from the state as it is. The loop itself does not sample it; a write to Status or Cause
that leaves a software interrupt pending and enabled zeroes the cycle budget, and a spent
budget ends the loop. -/
theorem interrupt_sampled_at_entry (sf : softfloat_t) (fuel : Nat) (s : State) :
    (interrupt_condition s →
      execute_run sf fuel s
        = execute_loop sf fuel (cpu_exception s EXCEPTION_INT GENERAL_VECTOR)
      ∧ (cpu_exception s EXCEPTION_INT GENERAL_VECTOR).CAUSE &&& CAUSE_EXCCODE = EXCEPTION_INT
      ∧ (cpu_exception s EXCEPTION_INT GENERAL_VECTOR).m_branch_state
          = branch_state_t.EXCEPTION
      ∧ (cpu_exception s EXCEPTION_INT GENERAL_VECTOR).m_pc = vector_base s + GENERAL_VECTOR
      ∧ (cpu_exception s EXCEPTION_INT GENERAL_VECTOR).SR &&& SR_EXL = SR_EXL)
    ∧ (¬ interrupt_condition s → execute_run sf fuel s = execute_loop sf fuel s)
    ∧ (∀ s' v, cp0_set s CP0_Status v = Except.ok s' →
        s'.CAUSE &&& s'.SR &&& SR_IMSW ≠ 0 → s'.m_icount = 0)
    ∧ (∀ s' v, cp0_set s CP0_Cause v = Except.ok s' →
        s'.CAUSE &&& s'.SR &&& SR_IMSW ≠ 0 → s'.m_icount = 0)
    ∧ (s.m_icount ≤ 0 → execute_loop sf fuel s = Except.ok s) := by
  refine ⟨?_, ?_, fun s' v => (cp0_set_software_interrupt s s' v).1,
    fun s' v => (cp0_set_software_interrupt s s' v).2, execute_loop_budget_spent sf fuel s⟩
  · intro hc
    have hE : s.SR &&& SR_EXL = 0 := by
      have h := hc.2.2
      have h2 := congrArg (· &&& SR_EXL) h
      simp only [Nat.and_assoc, Nat.zero_and] at h2
      rw [show (SR_EXL ||| SR_ERL) &&& SR_EXL = SR_EXL by decide] at h2
      exact h2
    refine ⟨?_, ?_, rfl, cpu_exception_vector s _ _ (by decide), ?_⟩
    · unfold execute_run
      unfold interrupt_condition at hc
      rw [if_pos hc]
    · rw [cpu_exception_exccode]
      decide
    · show (cpu_exception s EXCEPTION_INT GENERAL_VECTOR).m_cp0 CP0_Status &&& SR_EXL = SR_EXL
      rw [cpu_exception_Status, if_pos hE]
      exact or_and_self_right _ _
  · intro hc
    unfold execute_run
    unfold interrupt_condition at hc
    rw [if_neg hc]

/-- Counterexample to C22 as stated: in the example state the timer interrupt is pending
but not enabled. The first instruction of the run, MTC0 r3, Status, sets IM7 and IE, so the
interrupt condition holds at the next instruction boundary; the second iteration of the
same run nevertheless executes ORI r1, r0, 1 and no interrupt exception is raised. -/
theorem interrupt_not_sampled_in_loop :
    ¬ interrupt_condition example_interrupt_state
    ∧ (execute_run example_softfloat 1 example_interrupt_state).toOption.map
        (fun t => decide (interrupt_condition t)) = some true
    ∧ (execute_run example_softfloat 2 example_interrupt_state).toOption.map
        (fun t => (t.m_pc, t.m_r 1, t.m_cp0 CP0_EPC, t.SR &&& SR_EXL, t.m_branch_state,
          t.m_icount))
      = some (0xffffffff80001008, 1, 0, 0, branch_state_t.NONE, 98) := by
  decide

/-! ## The scan of the TLB -/

theorem tlb_scan_succ (s : State) (intention address key : Nat) (extended : Bool) (n : Nat) :
    tlb_scan s intention address key extended (n + 1)
      = if tlb_entry_matches s key extended (scan_index s intention (TLB_SIZE - (n + 1))) then
          scan_outcome s intention address (scan_index s intention (TLB_SIZE - (n + 1)))
        else tlb_scan s intention address key extended n := by
  rw [tlb_scan]
  unfold scan_outcome selected_pfn
  by_cases hm : tlb_entry_matches s key extended (scan_index s intention (TLB_SIZE - (n + 1)))
  · rw [if_pos hm]
    exact if_neg (not_not.mpr hm)
  · rw [if_neg hm]
    exact if_pos hm

theorem scan_outcome_ne_nomatch (s : State) (intention address index : Nat) :
    scan_outcome s intention address index ≠ scan_t.nomatch := by
  unfold scan_outcome
  split
  · exact fun h => scan_t.noConfusion h
  · split
    · exact fun h => scan_t.noConfusion h
    · exact fun h => scan_t.noConfusion h

/-- The scan stops at the first position whose entry matches, or runs to its end. -/
theorem tlb_scan_first (s : State) (intention address key : Nat) (extended : Bool) (n : Nat)
    (hn : n ≤ TLB_SIZE) :
    (∃ k, TLB_SIZE - n ≤ k ∧ k < TLB_SIZE
        ∧ tlb_entry_matches s key extended (scan_index s intention k)
        ∧ (∀ k', TLB_SIZE - n ≤ k' → k' < k →
            ¬ tlb_entry_matches s key extended (scan_index s intention k'))
        ∧ tlb_scan s intention address key extended n
            = scan_outcome s intention address (scan_index s intention k))
    ∨ ((∀ k, TLB_SIZE - n ≤ k → k < TLB_SIZE →
          ¬ tlb_entry_matches s key extended (scan_index s intention k))
        ∧ tlb_scan s intention address key extended n = scan_t.nomatch) := by
  have hT : TLB_SIZE = 48 := rfl
  induction n with
  | zero =>
    exact Or.inr ⟨fun k h1 h2 => by omega, rfl⟩
  | succ n ih =>
    rw [tlb_scan_succ]
    by_cases hm : tlb_entry_matches s key extended (scan_index s intention (TLB_SIZE - (n + 1)))
    · rw [if_pos hm]
      exact Or.inl ⟨TLB_SIZE - (n + 1), Nat.le_refl _, by omega, hm,
        fun k' h1 h2 => by omega, rfl⟩
    · rw [if_neg hm]
      rcases ih (by omega) with ⟨k, h1, h2, h3, h4, h5⟩ | ⟨h1, h2⟩
      · refine Or.inl ⟨k, by omega, h2, h3, fun k' h6 h7 => ?_, h5⟩
        by_cases hk : k' = TLB_SIZE - (n + 1)
        · rw [hk]
          exact hm
        · exact h4 k' (by omega) h7
      · refine Or.inr ⟨fun k h3 h4 => ?_, h2⟩
        by_cases hk : k = TLB_SIZE - (n + 1)
        · rw [hk]
          exact hm
        · exact h1 k (by omega) h4

theorem tlb_scan_of_first_match (s : State) (intention address key : Nat) (extended : Bool)
    (k index : Nat) (h : first_match s intention key extended k index) :
    tlb_scan s intention address key extended TLB_SIZE
      = scan_outcome s intention address index := by
  obtain ⟨hk, hi, hm, hf⟩ := h
  rcases tlb_scan_first s intention address key extended TLB_SIZE (Nat.le_refl _) with
    ⟨k0, -, h2, h3, h4, h5⟩ | ⟨h1, -⟩
  · have hkk : k0 = k := by
      rcases Nat.lt_trichotomy k0 k with hlt | heq | hgt
      · exact absurd h3 (hf k0 hlt)
      · exact heq
      · exact absurd (hi ▸ hm) (h4 k (by omega) hgt)
    rw [h5, hkk, hi]
  · exact absurd (hi ▸ hm) (h1 k (by omega) hk)

theorem scan_index_lt (s : State) (intention k : Nat) : scan_index s intention k < TLB_SIZE :=
  Nat.mod_lt _ (by decide)

/-- Started from an index of the TLB, the scan visits every index. -/
theorem scan_index_surjective (s : State) (intention j : Nat)
    (hl : s.m_last (intention &&& TRANSLATE_TYPE_MASK) < TLB_SIZE) (hj : j < TLB_SIZE) :
    ∃ k, k < TLB_SIZE ∧ scan_index s intention k = j := by
  have hT : TLB_SIZE = 48 := rfl
  refine ⟨(j + 48 - s.m_last (intention &&& TRANSLATE_TYPE_MASK)) % 48, ?_, ?_⟩
  · omega
  · unfold scan_index u32
    generalize s.m_last (intention &&& TRANSLATE_TYPE_MASK) = l at hl
    rw [hT] at hl hj ⊢
    omega

/-- With at most one matching entry the scan finds it wherever it starts. -/
theorem tlb_scan_unique (s : State) (intention address key : Nat) (extended : Bool)
    (hl : s.m_last (intention &&& TRANSLATE_TYPE_MASK) < TLB_SIZE)
    (hU : ∀ j j', j < TLB_SIZE → j' < TLB_SIZE → tlb_entry_matches s key extended j →
      tlb_entry_matches s key extended j' → j = j') :
    (∀ j, j < TLB_SIZE → tlb_entry_matches s key extended j →
      tlb_scan s intention address key extended TLB_SIZE
        = scan_outcome s intention address j)
    ∧ ((∀ j, j < TLB_SIZE → ¬ tlb_entry_matches s key extended j) →
      tlb_scan s intention address key extended TLB_SIZE = scan_t.nomatch) := by
  rcases tlb_scan_first s intention address key extended TLB_SIZE (Nat.le_refl _) with
    ⟨k0, -, h2, h3, h4, h5⟩ | ⟨h1, h2⟩
  · refine ⟨fun j hj hm => ?_, fun hn => absurd h3 (hn _ (scan_index_lt s intention k0))⟩
    rw [h5, hU j _ hj (scan_index_lt s intention k0) hm h3]
  · refine ⟨fun j hj hm => ?_, fun _ => h2⟩
    obtain ⟨k, hk, hkj⟩ := scan_index_surjective s intention j hl hj
    exact absurd (hkj ▸ hm) (h1 k (by omega) hk)

/-! ## The outcome of the TLB lookup -/

theorem tlb_exception_registers_SR (s : State) (address key : Nat) :
    (tlb_exception_registers s address key).SR = s.SR := rfl

theorem tlb_lookup_hit_state (s : State) (intention address : Nat) (extended : Bool)
    (index pfn : Nat)
    (h : tlb_scan s intention address (lookup_key s address extended) extended TLB_SIZE
      = scan_t.hit index pfn) :
    tlb_lookup s intention address extended
      = (if pfn &&& EL_C = C_2 then translate_t.UNCACHED else translate_t.CACHED,
        (address &&& (((s.m_tlb index).mask >>> 1) ||| 0xfff))
          ||| (((pfn &&& EL_PFN) <<< 6) &&& not64 ((s.m_tlb index).mask >>> 1)),
        { s with m_last := fun j =>
          if j = intention &&& TRANSLATE_TYPE_MASK then index else s.m_last j }) :=
  tlb_lookup_hit s intention address extended index pfn h

/-- The function `tlb_lookup` with the lookup key and the block loading the exception
registers named. -/
theorem tlb_lookup_eq (s : State) (intention address : Nat) (extended : Bool) :
    tlb_lookup s intention address extended
      = match tlb_scan s intention address (lookup_key s address extended) extended
          TLB_SIZE with
        | scan_t.hit index pfn =>
          (if pfn &&& EL_C = C_2 then translate_t.UNCACHED else translate_t.CACHED,
            (address &&& (((s.m_tlb index).mask >>> 1) ||| 0xfff))
              ||| (((pfn &&& EL_PFN) <<< 6) &&& not64 ((s.m_tlb index).mask >>> 1)),
            { s with m_last := fun j =>
              if j = intention &&& TRANSLATE_TYPE_MASK then index else s.m_last j })
        | r =>
          if ¬ s.side_effects_disabled ∧ intention &&& TRANSLATE_DEBUG_MASK = 0 then
            if decide (r = scan_t.invalid) = true ∨ decide (r = scan_t.modify) = true
                ∨ (tlb_exception_registers s address (lookup_key s address extended)).SR
                  &&& SR_EXL ≠ 0 then
              (translate_t.MISS, address,
                cpu_exception (tlb_exception_registers s address (lookup_key s address extended))
                  (if decide (r = scan_t.modify) = true then EXCEPTION_MOD
                    else if intention &&& TRANSLATE_WRITE ≠ 0 then EXCEPTION_TLBS
                    else EXCEPTION_TLBL)
                  GENERAL_VECTOR)
            else
              (translate_t.MISS, address,
                cpu_exception (tlb_exception_registers s address (lookup_key s address extended))
                  (if intention &&& TRANSLATE_WRITE ≠ 0 then EXCEPTION_TLBS else EXCEPTION_TLBL)
                  (if extended then 0x000 else 0x080))
          else
            (translate_t.MISS, address, s) := rfl

/-- The miss path of `translate` with side effects enabled. -/
theorem tlb_lookup_miss_state (s : State) (intention address : Nat) (extended : Bool)
    (r : scan_t)
    (hr : tlb_scan s intention address (lookup_key s address extended) extended TLB_SIZE = r)
    (hnh : ∀ index pfn, r ≠ scan_t.hit index pfn)
    (hs : ¬ s.side_effects_disabled ∧ intention &&& TRANSLATE_DEBUG_MASK = 0) :
    tlb_lookup s intention address extended
      = (translate_t.MISS, address,
        cpu_exception (tlb_exception_registers s address (lookup_key s address extended))
          (if r = scan_t.modify then EXCEPTION_MOD
            else if intention &&& TRANSLATE_WRITE ≠ 0 then EXCEPTION_TLBS else EXCEPTION_TLBL)
          (if r = scan_t.invalid ∨ r = scan_t.modify ∨ s.SR &&& SR_EXL ≠ 0 then GENERAL_VECTOR
            else if extended then 0x000 else 0x080)) := by
  rw [tlb_lookup_eq, hr, tlb_exception_registers_SR]
  cases r with
  | hit index pfn => exact absurd rfl (hnh index pfn)
  | invalid =>
    dsimp only
    rw [if_pos hs, if_pos (Or.inl (by decide)),
      if_neg (show ¬ decide (scan_t.invalid = scan_t.modify) = true by decide),
      if_neg (show ¬ scan_t.invalid = scan_t.modify by decide), if_pos (Or.inl rfl)]
  | modify =>
    dsimp only
    rw [if_pos hs, if_pos (Or.inr (Or.inl (by decide))),
      if_pos (show decide (scan_t.modify = scan_t.modify) = true by decide),
      if_pos (show scan_t.modify = scan_t.modify from rfl), if_pos (Or.inr (Or.inl rfl))]
  | _ =>
    dsimp only
    rw [if_pos hs, if_neg (show ¬ scan_t.nomatch = scan_t.modify by decide)]
    by_cases hE : s.SR &&& SR_EXL ≠ 0
    · rw [if_pos (Or.inr (Or.inr hE)),
        if_neg (show ¬ decide (scan_t.nomatch = scan_t.modify) = true by decide),
        if_pos (Or.inr (Or.inr hE))]
    · rw [if_neg (show ¬ (decide (scan_t.nomatch = scan_t.invalid) = true
          ∨ decide (scan_t.nomatch = scan_t.modify) = true ∨ s.SR &&& SR_EXL ≠ 0) from
          fun h => h.elim (by decide) (fun h => h.elim (by decide) hE)),
        if_neg (show ¬ (scan_t.nomatch = scan_t.invalid ∨ scan_t.nomatch = scan_t.modify
          ∨ s.SR &&& SR_EXL ≠ 0) from
          fun h => h.elim (by decide) (fun h => h.elim (by decide) hE))]

theorem tlb_lookup_miss_silent (s : State) (intention address : Nat) (extended : Bool)
    (hnh : ∀ index pfn,
      tlb_scan s intention address (lookup_key s address extended) extended TLB_SIZE
        ≠ scan_t.hit index pfn)
    (hs : ¬ (¬ s.side_effects_disabled ∧ intention &&& TRANSLATE_DEBUG_MASK = 0)) :
    tlb_lookup s intention address extended = (translate_t.MISS, address, s) := by
  rw [tlb_lookup_eq]
  split
  · rename_i index pfn hh
    exact absurd hh (hnh index pfn)
  · rw [if_neg hs]

/-! ## The start index of the scan -/

theorem cpu_exception_with_last (s : State) (e v : Nat) (l : Nat → Nat) :
    cpu_exception { s with m_last := l } e v = { cpu_exception s e v with m_last := l } := by
  have h := cpu_exception_with s e v s.mem s.m_tlb l
  rw [h, cpu_exception_eq s e v]

theorem tlb_scan_last (s : State) (l : Nat → Nat) (intention address key : Nat)
    (extended : Bool)
    (hl1 : s.m_last (intention &&& TRANSLATE_TYPE_MASK) < TLB_SIZE)
    (hl2 : l (intention &&& TRANSLATE_TYPE_MASK) < TLB_SIZE)
    (hU : ∀ j, j < TLB_SIZE → ∀ j', j' < TLB_SIZE → tlb_entry_matches s key extended j →
      tlb_entry_matches s key extended j' → j = j') :
    tlb_scan { s with m_last := l } intention address key extended TLB_SIZE
      = tlb_scan s intention address key extended TLB_SIZE := by
  have hU' : ∀ j j', j < TLB_SIZE → j' < TLB_SIZE → tlb_entry_matches s key extended j →
      tlb_entry_matches s key extended j' → j = j' := fun j j' h1 h2 => hU j h1 j' h2
  have h1 := tlb_scan_unique s intention address key extended hl1 hU'
  have h2 := tlb_scan_unique { s with m_last := l } intention address key extended hl2 hU'
  by_cases hex : ∃ j, j < TLB_SIZE ∧ tlb_entry_matches s key extended j
  · obtain ⟨j, hj, hm⟩ := hex
    rw [h1.1 j hj hm, h2.1 j hj hm]
    rfl
  · have hn : ∀ j, j < TLB_SIZE → ¬ tlb_entry_matches s key extended j :=
      fun j hj hm => hex ⟨j, hj, hm⟩
    rw [h1.2 hn, h2.2 hn]

/-- With at most one entry matching the key, the TLB lookup started from another last-used
index returns the same result and the same address, and leaves the same state but for the
last-used indices. -/
theorem tlb_lookup_last (s : State) (l : Nat → Nat) (intention address : Nat)
    (extended : Bool)
    (hl1 : s.m_last (intention &&& TRANSLATE_TYPE_MASK) < TLB_SIZE)
    (hl2 : l (intention &&& TRANSLATE_TYPE_MASK) < TLB_SIZE)
    (hU : ∀ j, j < TLB_SIZE → ∀ j', j' < TLB_SIZE →
      tlb_entry_matches s (lookup_key s address extended) extended j →
      tlb_entry_matches s (lookup_key s address extended) extended j' → j = j') :
    ∃ l', tlb_lookup { s with m_last := l } intention address extended
      = ((tlb_lookup s intention address extended).1,
        (tlb_lookup s intention address extended).2.1,
        { (tlb_lookup s intention address extended).2.2 with m_last := l' }) := by
  have hsc := tlb_scan_last s l intention address (lookup_key s address extended) extended
    hl1 hl2 hU
  have hsc' : tlb_scan { s with m_last := l } intention address
      (lookup_key { s with m_last := l } address extended) extended TLB_SIZE
      = tlb_scan s intention address (lookup_key s address extended) extended TLB_SIZE := hsc
  cases hr : tlb_scan s intention address (lookup_key s address extended) extended TLB_SIZE with
  | hit index pfn =>
    rw [hr] at hsc'
    rw [tlb_lookup_hit_state _ _ _ _ _ _ hsc', tlb_lookup_hit_state _ _ _ _ _ _ hr]
    exact ⟨_, rfl⟩
  | invalid =>
    rw [hr] at hsc'
    by_cases hs : ¬ s.side_effects_disabled ∧ intention &&& TRANSLATE_DEBUG_MASK = 0
    · rw [tlb_lookup_miss_state _ _ _ _ _ hsc' (fun _ _ h => scan_t.noConfusion h) hs,
        tlb_lookup_miss_state _ _ _ _ _ hr (fun _ _ h => scan_t.noConfusion h) hs]
      exact ⟨l, cpu_exception_with_last _ _ _ l ▸ rfl⟩
    · rw [tlb_lookup_miss_silent _ _ _ _ (fun _ _ h => scan_t.noConfusion (hsc'.symm.trans h)) hs,
        tlb_lookup_miss_silent _ _ _ _ (fun _ _ h => scan_t.noConfusion (hr.symm.trans h)) hs]
      exact ⟨l, rfl⟩
  | modify =>
    rw [hr] at hsc'
    by_cases hs : ¬ s.side_effects_disabled ∧ intention &&& TRANSLATE_DEBUG_MASK = 0
    · rw [tlb_lookup_miss_state _ _ _ _ _ hsc' (fun _ _ h => scan_t.noConfusion h) hs,
        tlb_lookup_miss_state _ _ _ _ _ hr (fun _ _ h => scan_t.noConfusion h) hs]
      exact ⟨l, cpu_exception_with_last _ _ _ l ▸ rfl⟩
    · rw [tlb_lookup_miss_silent _ _ _ _ (fun _ _ h => scan_t.noConfusion (hsc'.symm.trans h)) hs,
        tlb_lookup_miss_silent _ _ _ _ (fun _ _ h => scan_t.noConfusion (hr.symm.trans h)) hs]
      exact ⟨l, rfl⟩
  | _ =>
    rw [hr] at hsc'
    by_cases hs : ¬ s.side_effects_disabled ∧ intention &&& TRANSLATE_DEBUG_MASK = 0
    · rw [tlb_lookup_miss_state _ _ _ _ _ hsc' (fun _ _ h => scan_t.noConfusion h) hs,
        tlb_lookup_miss_state _ _ _ _ _ hr (fun _ _ h => scan_t.noConfusion h) hs]
      exact ⟨l, cpu_exception_with_last _ _ _ l ▸ rfl⟩
    · rw [tlb_lookup_miss_silent _ _ _ _ (fun _ _ h => scan_t.noConfusion (hsc'.symm.trans h)) hs,
        tlb_lookup_miss_silent _ _ _ _ (fun _ _ h => scan_t.noConfusion (hr.symm.trans h)) hs]
      exact ⟨l, rfl⟩

/-- The segment decode of `translate` reads Status and the address only: in two states with
the same Status, `translate` takes the same branch. -/
theorem translate_same_branch (s s2 : State) (intention address : Nat)
    (P : translate_t × Nat × State → translate_t × Nat × State → Prop)
    (hSR : s2.SR = s.SR)
    (h1 : ∀ extended,
      P (tlb_lookup s2 intention address extended) (tlb_lookup s intention address extended))
    (h2 : ∀ r a, P (r, a, s2) (r, a, s)) :
    P (translate s2 intention address) (translate s intention address) := by
  unfold translate
  rw [hSR]
  by_cases c1 : s.SR &&& SR_KSU = 0 ∨ s.SR &&& SR_EXL ≠ 0 ∨ s.SR &&& SR_ERL ≠ 0
  · rw [if_pos c1, if_pos c1]
    by_cases c2 : s.SR &&& SR_KX ≠ 0
    · rw [if_pos c2, if_pos c2]
      repeat' split
      all_goals first
        | exact h1 _
        | exact h2 _ _
    · rw [if_neg c2, if_neg c2]
      repeat' split
      all_goals first
        | exact h1 _
        | exact h2 _ _
  · rw [if_neg c1, if_neg c1]
    by_cases c3 : s.SR &&& SR_KSU = SR_KSU_S
    · rw [if_pos c3, if_pos c3]
      by_cases c2 : s.SR &&& SR_SX ≠ 0
      · rw [if_pos c2, if_pos c2]
        repeat' split
        all_goals first
          | exact h1 _
          | exact h2 _ _
      · rw [if_neg c2, if_neg c2]
        repeat' split
        all_goals first
          | exact h1 _
          | exact h2 _ _
    · rw [if_neg c3, if_neg c3]
      repeat' split
      all_goals first
        | exact h1 _
        | exact h2 _ _

/-- The function `translate` is its segment decode followed, in the mapped segments, by the
lookup in the TLB with the key of the width the decode selects. -/
theorem translate_decode (s : State) (intention address : Nat) :
    translate s intention address
      = match translate_segment s.SR address with
        | Sum.inl extended => tlb_lookup s intention address extended
        | Sum.inr rp => (rp.1, rp.2, s) := by
  unfold translate translate_segment
  by_cases c1 : s.SR &&& SR_KSU = 0 ∨ s.SR &&& SR_EXL ≠ 0 ∨ s.SR &&& SR_ERL ≠ 0
  · rw [if_pos c1, if_pos c1]
    by_cases c2 : s.SR &&& SR_KX ≠ 0
    · rw [if_pos c2, if_pos c2]
      split_ifs <;> rfl
    · rw [if_neg c2, if_neg c2]
      split_ifs <;> rfl
  · rw [if_neg c1, if_neg c1]
    by_cases c3 : s.SR &&& SR_KSU = SR_KSU_S
    · rw [if_pos c3, if_pos c3]
      by_cases c2 : s.SR &&& SR_SX ≠ 0
      · rw [if_pos c2, if_pos c2]
        split_ifs <;> rfl
      · rw [if_neg c2, if_neg c2]
        split_ifs <;> rfl
    · rw [if_neg c3, if_neg c3]
      split_ifs <;> rfl

/-- C30: when at most one TLB entry matches the lookup key of the address, the key of the
width that `translate` selects for the segment of the address, under its own page mask and
global flag, the outcome of `translate`, the physical address it produces and the state it
leaves, the CP0 registers of a miss among them, are the same from any last-used index of the
TLB as from any other, index 0 included; only the last-used indices themselves differ. In
the unmapped segments, where `translate` does not consult the TLB, nothing is asked of the
entries. -/
theorem scan_start_independent (s : State) (l : Nat → Nat) (intention address : Nat)
    (hl1 : s.m_last (intention &&& TRANSLATE_TYPE_MASK) < TLB_SIZE)
    (hl2 : l (intention &&& TRANSLATE_TYPE_MASK) < TLB_SIZE)
    (hU : ∀ extended, translate_segment s.SR address = Sum.inl extended →
      ∀ j, j < TLB_SIZE → ∀ j', j' < TLB_SIZE →
      tlb_entry_matches s (lookup_key s address extended) extended j →
      tlb_entry_matches s (lookup_key s address extended) extended j' → j = j') :
    (∃ l', translate { s with m_last := l } intention address
      = ((translate s intention address).1, (translate s intention address).2.1,
        { (translate s intention address).2.2 with m_last := l' }))
    ∧ (translate { s with m_last := l } intention address).1
        = (translate s intention address).1
    ∧ (translate { s with m_last := l } intention address).2.1
        = (translate s intention address).2.1
    ∧ (translate { s with m_last := l } intention address).2.2.m_cp0
        = (translate s intention address).2.2.m_cp0
    ∧ (translate { s with m_last := l } intention address).2.2.m_pc
        = (translate s intention address).2.2.m_pc
    ∧ (translate { s with m_last := l } intention address).2.2.m_branch_state
        = (translate s intention address).2.2.m_branch_state := by
  have h : ∃ l', translate { s with m_last := l } intention address
      = ((translate s intention address).1, (translate s intention address).2.1,
        { (translate s intention address).2.2 with m_last := l' }) := by
    rw [translate_decode s, translate_decode { s with m_last := l }]
    show ∃ l', (match translate_segment s.SR address with
        | Sum.inl extended => tlb_lookup { s with m_last := l } intention address extended
        | Sum.inr rp => (rp.1, rp.2, { s with m_last := l })) = _
    cases hseg : translate_segment s.SR address with
    | inl extended => exact tlb_lookup_last s l intention address extended hl1 hl2 (hU extended hseg)
    | inr rp => exact ⟨l, rfl⟩
  obtain ⟨l', h'⟩ := h
  refine ⟨⟨l', h'⟩, ?_, ?_, ?_, ?_, ?_⟩ <;> rw [h']

/-- Witness of C30: in the example state whose TLB holds a single entry that is not zero,
a read of `0x12348abc` translates to the same physical address with the last-used index at
0 and at 7. In the example state of the two keys a read of `0x100002000` is looked up with
the 64-bit key, which entry 3 alone matches although entries 3 and 9 both match the 32-bit
key of the address, and translates to the same physical address with the last-used index at
0 and at 9. -/
theorem scan_start_independent_witness :
    (translate { example_unique_state with m_last := fun _ => 7 } TRANSLATE_READ 0x12348abc).1
        = (translate example_unique_state TRANSLATE_READ 0x12348abc).1
    ∧ (translate { example_unique_state with m_last := fun _ => 7 } TRANSLATE_READ
        0x12348abc).2.1 = (translate example_unique_state TRANSLATE_READ 0x12348abc).2.1
    ∧ (translate example_unique_state TRANSLATE_READ 0x12348abc).1 = translate_t.CACHED
    ∧ (translate example_unique_state TRANSLATE_READ 0x12348abc).2.1 = 0x12344abc
    ∧ translate_segment example_two_key_state.SR 0x100002000 = Sum.inl true
    ∧ tlb_entry_matches example_two_key_state
        (lookup_key example_two_key_state 0x100002000 false) false 3
    ∧ tlb_entry_matches example_two_key_state
        (lookup_key example_two_key_state 0x100002000 false) false 9
    ∧ (translate { example_two_key_state with m_last := fun _ => 9 } TRANSLATE_READ
        0x100002000).1 = (translate example_two_key_state TRANSLATE_READ 0x100002000).1
    ∧ (translate { example_two_key_state with m_last := fun _ => 9 } TRANSLATE_READ
        0x100002000).2.1 = (translate example_two_key_state TRANSLATE_READ 0x100002000).2.1
    ∧ (translate example_two_key_state TRANSLATE_READ 0x100002000).1 = translate_t.CACHED
    ∧ (translate example_two_key_state TRANSLATE_READ 0x100002000).2.1 = 0x12345000 :=
  ⟨(scan_start_independent example_unique_state (fun _ => 7) TRANSLATE_READ 0x12348abc
      (by decide) (by decide) (by decide)).2.1,
    (scan_start_independent example_unique_state (fun _ => 7) TRANSLATE_READ 0x12348abc
      (by decide) (by decide) (by decide)).2.2.1,
    by decide, by decide, by decide, by decide, by decide,
    (scan_start_independent example_two_key_state (fun _ => 9) TRANSLATE_READ 0x100002000
      (by decide) (by decide) (by decide)).2.1,
    (scan_start_independent example_two_key_state (fun _ => 9) TRANSLATE_READ 0x100002000
      (by decide) (by decide) (by decide)).2.2.1,
    by decide, by decide⟩

/-! ## Clean and invalid entries -/

theorem tlb_lookup_refused (s : State) (intention address : Nat) (extended : Bool) (r : scan_t)
    (e : Nat)
    (hs : s.side_effects_disabled = false) (hd : intention &&& TRANSLATE_DEBUG_MASK = 0)
    (hr : tlb_scan s intention address (lookup_key s address extended) extended TLB_SIZE = r)
    (hc : r = scan_t.invalid ∨ r = scan_t.modify)
    (he : (if r = scan_t.modify then EXCEPTION_MOD
      else if intention &&& TRANSLATE_WRITE ≠ 0 then EXCEPTION_TLBS else EXCEPTION_TLBL) = e)
    (hm : e &&& CAUSE_EXCCODE = e) :
    ∃ s', tlb_lookup s intention address extended = (translate_t.MISS, address, s')
      ∧ s'.CAUSE &&& CAUSE_EXCCODE = e
      ∧ s'.m_pc = vector_base s + GENERAL_VECTOR
      ∧ s'.m_branch_state = branch_state_t.EXCEPTION
      ∧ s'.m_cp0 CP0_BadVAddr = address
      ∧ s'.m_last = s.m_last := by
  have hnh : ∀ index pfn, r ≠ scan_t.hit index pfn := by
    intro index pfn h
    rcases hc with hc | hc <;> rw [hc] at h <;> exact scan_t.noConfusion h
  have hs' : ¬ s.side_effects_disabled ∧ intention &&& TRANSLATE_DEBUG_MASK = 0 := by
    rw [hs]
    exact ⟨by decide, hd⟩
  have hv : (if r = scan_t.invalid ∨ r = scan_t.modify ∨ s.SR &&& SR_EXL ≠ 0 then GENERAL_VECTOR
      else if extended then 0x000 else 0x080) = GENERAL_VECTOR :=
    if_pos (hc.elim Or.inl (fun h => Or.inr (Or.inl h)))
  refine ⟨_, tlb_lookup_miss_state s intention address extended r hr hnh hs', ?_, ?_, ?_, ?_, ?_⟩
  · rw [cpu_exception_exccode, he, hm]
  · rw [hv]
    exact cpu_exception_vector_of s _ _ _ (by decide) (tlb_exception_registers_SR s _ _)
  · exact cpu_exception_branch_state _ _ _
  · rw [cpu_exception_cp0_other _ _ _ _ (by decide) (by decide) (by decide)]
    rfl
  · rw [(cpu_exception_frame _ _ _).2.2.2.2.2.2.2.2.2.2]
    rfl

/-- C25 (amended): take an address that `translate` maps through the TLB, in a state with
side effects enabled, a write intention `iw` and a read or fetch intention `ir`, neither
carrying the debug flag, and let `index` be the first entry matching the lookup key in the
scan order of both. If the selected descriptor is valid but not dirty, the write returns
MISS and raises the TLB-modified exception at the general vector, while the read or fetch
succeeds with the frame of the entry. If the selected descriptor is not valid, the write
returns MISS and raises the TLB-store exception, the read or fetch returns MISS and raises
the TLB-load exception, both at the general vector. -/
theorem clean_or_invalid_entry (s : State) (iw ir address : Nat) (extended : Bool)
    (kw kr index : Nat)
    (hse : s.side_effects_disabled = false)
    (hdw : iw &&& TRANSLATE_DEBUG_MASK = 0) (hdr : ir &&& TRANSLATE_DEBUG_MASK = 0)
    (hw : iw &&& TRANSLATE_WRITE ≠ 0) (hr : ir &&& TRANSLATE_WRITE = 0)
    (hmw : translate s iw address = tlb_lookup s iw address extended)
    (hmr : translate s ir address = tlb_lookup s ir address extended)
    (hfw : first_match s iw (lookup_key s address extended) extended kw index)
    (hfr : first_match s ir (lookup_key s address extended) extended kr index) :
    (selected_pfn s address index &&& EL_V ≠ 0 → selected_pfn s address index &&& EL_D = 0 →
      (∃ s', translate s iw address = (translate_t.MISS, address, s')
        ∧ s'.CAUSE &&& CAUSE_EXCCODE = EXCEPTION_MOD
        ∧ s'.m_pc = vector_base s + GENERAL_VECTOR
        ∧ s'.m_branch_state = branch_state_t.EXCEPTION
        ∧ s'.m_cp0 CP0_BadVAddr = address
        ∧ s'.m_last = s.m_last)
      ∧ translate s ir address
        = (if selected_pfn s address index &&& EL_C = C_2 then translate_t.UNCACHED
            else translate_t.CACHED,
          (address &&& (((s.m_tlb index).mask >>> 1) ||| 0xfff))
            ||| (((selected_pfn s address index &&& EL_PFN) <<< 6)
              &&& not64 ((s.m_tlb index).mask >>> 1)),
          { s with m_last := fun j =>
            if j = ir &&& TRANSLATE_TYPE_MASK then index else s.m_last j }))
    ∧ (selected_pfn s address index &&& EL_V = 0 →
      (∃ s', translate s iw address = (translate_t.MISS, address, s')
        ∧ s'.CAUSE &&& CAUSE_EXCCODE = EXCEPTION_TLBS
        ∧ s'.m_pc = vector_base s + GENERAL_VECTOR
        ∧ s'.m_branch_state = branch_state_t.EXCEPTION
        ∧ s'.m_cp0 CP0_BadVAddr = address
        ∧ s'.m_last = s.m_last)
      ∧ (∃ s', translate s ir address = (translate_t.MISS, address, s')
        ∧ s'.CAUSE &&& CAUSE_EXCCODE = EXCEPTION_TLBL
        ∧ s'.m_pc = vector_base s + GENERAL_VECTOR
        ∧ s'.m_branch_state = branch_state_t.EXCEPTION
        ∧ s'.m_cp0 CP0_BadVAddr = address
        ∧ s'.m_last = s.m_last)) := by
  have hsw := tlb_scan_of_first_match s iw address _ extended kw index hfw
  have hsr := tlb_scan_of_first_match s ir address _ extended kr index hfr
  rw [hmw, hmr]
  refine ⟨fun hV hD => ⟨?_, ?_⟩, fun hV => ⟨?_, ?_⟩⟩
  · have ho : scan_outcome s iw address index = scan_t.modify := by
      unfold scan_outcome
      rw [if_neg hV, if_pos ⟨hw, hD⟩]
    exact tlb_lookup_refused s iw address extended scan_t.modify EXCEPTION_MOD hse hdw
      (hsw.trans ho) (Or.inr rfl) (if_pos rfl) (by decide)
  · have ho : scan_outcome s ir address index
        = scan_t.hit index (selected_pfn s address index) := by
      unfold scan_outcome
      rw [if_neg hV, if_neg (fun h => h.1 hr)]
    exact tlb_lookup_hit_state s ir address extended index _ (hsr.trans ho)
  · have ho : scan_outcome s iw address index = scan_t.invalid := by
      unfold scan_outcome
      rw [if_pos hV]
    exact tlb_lookup_refused s iw address extended scan_t.invalid EXCEPTION_TLBS hse hdw
      (hsw.trans ho) (Or.inl rfl)
      ((if_neg (fun h => scan_t.noConfusion h)).trans (if_pos hw)) (by decide)
  · have ho : scan_outcome s ir address index = scan_t.invalid := by
      unfold scan_outcome
      rw [if_pos hV]
    exact tlb_lookup_refused s ir address extended scan_t.invalid EXCEPTION_TLBL hse hdr
      (hsr.trans ho) (Or.inl rfl)
      ((if_neg (fun h => scan_t.noConfusion h)).trans (if_neg (not_not.mpr hr))) (by decide)

/-- Witness of C25: in the example state of the clean page a write of `0x12348abc` (even
page, valid but not dirty) raises the TLB-modified exception while a read of it succeeds,
and a write and a read of `0x1234cabc` (odd page, not valid) raise the TLB-store and the
TLB-load exception. -/
theorem clean_or_invalid_entry_witness :
    ((∃ s', translate example_clean_state TRANSLATE_WRITE 0x12348abc
          = (translate_t.MISS, 0x12348abc, s')
        ∧ s'.CAUSE &&& CAUSE_EXCCODE = EXCEPTION_MOD
        ∧ s'.m_pc = vector_base example_clean_state + GENERAL_VECTOR
        ∧ s'.m_branch_state = branch_state_t.EXCEPTION
        ∧ s'.m_cp0 CP0_BadVAddr = 0x12348abc
        ∧ s'.m_last = example_clean_state.m_last)
      ∧ (translate example_clean_state TRANSLATE_READ 0x12348abc).1 = translate_t.CACHED
      ∧ (translate example_clean_state TRANSLATE_READ 0x12348abc).2.1 = 0x12344abc)
    ∧ ((∃ s', translate example_clean_state TRANSLATE_WRITE 0x1234cabc
          = (translate_t.MISS, 0x1234cabc, s')
        ∧ s'.CAUSE &&& CAUSE_EXCCODE = EXCEPTION_TLBS
        ∧ s'.m_pc = vector_base example_clean_state + GENERAL_VECTOR
        ∧ s'.m_branch_state = branch_state_t.EXCEPTION
        ∧ s'.m_cp0 CP0_BadVAddr = 0x1234cabc
        ∧ s'.m_last = example_clean_state.m_last)
      ∧ (∃ s', translate example_clean_state TRANSLATE_READ 0x1234cabc
          = (translate_t.MISS, 0x1234cabc, s')
        ∧ s'.CAUSE &&& CAUSE_EXCCODE = EXCEPTION_TLBL
        ∧ s'.m_pc = vector_base example_clean_state + GENERAL_VECTOR
        ∧ s'.m_branch_state = branch_state_t.EXCEPTION
        ∧ s'.m_cp0 CP0_BadVAddr = 0x1234cabc
        ∧ s'.m_last = example_clean_state.m_last)) :=
  ⟨⟨((clean_or_invalid_entry example_clean_state TRANSLATE_WRITE TRANSLATE_READ 0x12348abc
        false 5 5 5 rfl (by decide) (by decide) (by decide) (by decide) rfl rfl
        (by decide) (by decide)).1 (by decide) (by decide)).1,
      by decide, by decide⟩,
    (clean_or_invalid_entry example_clean_state TRANSLATE_WRITE TRANSLATE_READ 0x1234cabc
      false 5 5 5 rfl (by decide) (by decide) (by decide) (by decide) rfl rfl
      (by decide) (by decide)).2 (by decide)⟩

/-- Counterexample to C25 as stated: a write translation with the debug flag, of an address
whose first matching entry has the selected descriptor valid but not dirty, returns MISS
and raises nothing: the exception code, the program counter and the branch state are those
of the state before. -/
theorem debug_write_raises_nothing :
    example_clean_state.side_effects_disabled = false
    ∧ first_match example_clean_state (TRANSLATE_WRITE ||| TRANSLATE_DEBUG_MASK)
        (lookup_key example_clean_state 0x12348abc false) false 5 5
    ∧ selected_pfn example_clean_state 0x12348abc 5 &&& EL_V ≠ 0
    ∧ selected_pfn example_clean_state 0x12348abc 5 &&& EL_D = 0
    ∧ translate example_clean_state (TRANSLATE_WRITE ||| TRANSLATE_DEBUG_MASK) 0x12348abc
        = (translate_t.MISS, 0x12348abc, example_clean_state)
    ∧ example_clean_state.CAUSE &&& CAUSE_EXCCODE ≠ EXCEPTION_MOD
    ∧ example_clean_state.m_pc ≠ vector_base example_clean_state + GENERAL_VECTOR
    ∧ example_clean_state.m_branch_state = branch_state_t.NONE :=
  ⟨rfl, by decide, by decide, by decide, rfl, by decide, by decide, rfl⟩

/-! ## The range of the PC-relative branches -/

theorem branch_target_eq (s : State) (op : Nat) :
    (s.branch op).m_branch_target = ADDR s s.m_pc (s16 op * 4 + 4)
    ∧ (s.branch op).m_branch_state = branch_state_t.BRANCH := ⟨rfl, rfl⟩

/-- The macro `ADDR` casts its offset to 16 bits again: the stored target of a taken branch
agrees with the specification when the byte offset `4 * off + 4` fits in 16 bits, that is
for the offsets -8193 .. 8190. -/
theorem branch_target_in_range (s : State) (op : Nat)
    (h : -8193 ≤ s16 op ∧ s16 op ≤ 8190) :
    (s.branch op).m_branch_target = branch_target_spec s op := by
  have h16 : s16 (s16 op * 4 + 4) = s16 op * 4 + 4 := by
    generalize s16 op = x at h
    unfold s16
    omega
  rw [(branch_target_eq s op).1]
  unfold ADDR branch_target_spec
  rw [h16]
  by_cases h64 : s.m_64 = true
  · rw [if_pos h64, if_pos h64]
    have he : (s.m_pc : Int) + (s16 op * 4 + 4) = s.m_pc + 4 + 4 * s16 op := by omega
    rw [he]
  · rw [if_neg h64, if_neg h64, u32_cast, u32_cast]
    have he : s32 (((s.m_pc : Int) % 2 ^ 32 + (s16 op * 4 + 4)) % 2 ^ 32)
        = s32 (s.m_pc + 4 + 4 * s16 op) := by
      generalize s16 op = x
      unfold s32
      omega
    rw [he]

/-- Outside that range the stored target of a taken branch is another address than the one
the specification names. -/
theorem branch_target_out_of_range (s : State) (op : Nat)
    (h : s16 op < -8193 ∨ 8190 < s16 op) :
    (s.branch op).m_branch_target ≠ branch_target_spec s op := by
  have hr := s16_range (s16 op * 4 + 4)
  have hr2 := s16_range op
  have h16 : ∃ k : Int, k ≠ 0 ∧ -4 < k ∧ k < 4 ∧ s16 (s16 op * 4 + 4) = s16 op * 4 + 4 + 65536 * k := by
    generalize s16 op = x at h hr2
    refine ⟨-((x * 4 + 4 + 2 ^ 15) / 2 ^ 16), ?_, ?_, ?_, ?_⟩
    · omega
    · omega
    · omega
    · unfold s16
      omega
  obtain ⟨k, hk0, hk1, hk2, hk⟩ := h16
  rw [(branch_target_eq s op).1]
  unfold ADDR branch_target_spec
  rw [hk]
  generalize s16 op = x at hr2
  by_cases h64 : s.m_64 = true
  · rw [if_pos h64, if_pos h64]
    intro he
    have he2 := congrArg (fun n : Nat => (n : Int)) he
    simp only [u64_cast] at he2
    omega
  · rw [if_neg h64, if_neg h64, u32_cast, u32_cast]
    intro he
    have he2 := congrArg (fun n : Nat => (n : Int)) he
    simp only [u64_cast] at he2
    unfold s32 at he2
    omega

/-- C32, failing input: BEQ r0, r0 with the offset field `0x2000` at
`0xffffffff80001000` in 32-bit mode. The branch is taken; the specification asks for the
target `P + 4 + 4 * 0x2000 = 0xffffffff80009004`, the stored target is
`0x000000007fff9004`, that is `P + s16(0x8004) = P - 0x7ffc`. With the offset field
`0x1ffe` the stored target is the one the specification names. -/
theorem branch_offset_truncated :
    s16 (0x10002000 : Nat) = 0x2000
    ∧ (cpu_execute example_softfloat (example_state 0) 0x10002000).toOption.map
        (fun s' => (s'.m_branch_state, s'.m_branch_target))
      = some (branch_state_t.BRANCH, 0x000000007fff9004)
    ∧ branch_target_spec (example_state 0) 0x10002000 = 0xffffffff80009004
    ∧ (cpu_execute example_softfloat (example_state 0) 0x10001ffe).toOption.map
        (fun s' => (s'.m_branch_state, s'.m_branch_target))
      = some (branch_state_t.BRANCH, 0xffffffff80008ffc)
    ∧ branch_target_spec (example_state 0) 0x10001ffe = 0xffffffff80008ffc := by
  decide

/-! ## The trap-immediate instructions -/

/-- TLTIU and TGEIU with the same register and the same immediate do the same: both test
`m_r[RSREG] >= u16(op)`. -/
theorem tltiu_same_as_tgeiu (s : State) (op1 op2 : Nat)
    (h1 : (op1 >>> 16) &&& 0x1f = 0x0b) (h2 : (op2 >>> 16) &&& 0x1f = 0x09)
    (hrs : RSREG op1 = RSREG op2) (himm : u16 op1 = u16 op2) :
    cpu_regimm s op1 = cpu_regimm s op2 := by
  simp only [cpu_regimm, h1, h2, hrs, himm]

/-- The unsigned and the equality forms compare the register with the zero-extended
immediate `u16(op)`. -/
theorem trap_immediate_zero_extended (s : State) (op : Nat) :
    ((op >>> 16) &&& 0x1f = 0x09 ∨ (op >>> 16) &&& 0x1f = 0x0b →
      cpu_regimm s op = if s.m_r (RSREG op) ≥ u16 op
        then cpu_exception s EXCEPTION_TR GENERAL_VECTOR else s)
    ∧ ((op >>> 16) &&& 0x1f = 0x0c →
      cpu_regimm s op = if s.m_r (RSREG op) = u16 op
        then cpu_exception s EXCEPTION_TR GENERAL_VECTOR else s)
    ∧ ((op >>> 16) &&& 0x1f = 0x0e →
      cpu_regimm s op = if s.m_r (RSREG op) ≠ u16 op
        then cpu_exception s EXCEPTION_TR GENERAL_VECTOR else s) := by
  refine ⟨fun h => ?_, fun h => ?_, fun h => ?_⟩
  · rcases h with h | h <;> simp only [cpu_regimm, h]
  · simp only [cpu_regimm, h]
  · simp only [cpu_regimm, h]

/-- C35, failing input: TLTIU r0, 1 (`0x040b0001`) with `r0 = 0` does not trap although
`0 < 1`, and TLTIU r2, 1 (`0x044b0001`) with `r2 = 1` traps although `1 < 1` is false;
TGEIU r5, -1 (`0x04a9ffff`) with `r5 = 0x100000000` traps although `r5` is below the
sign-extended immediate `0xffffffffffffffff`; TEQI r3, -1 (`0x046cffff`) with
`r3 = 0xffffffffffffffff` does not trap although the two are equal. -/
theorem trap_immediate_unsigned_forms :
    (trap_immediate_relation 0x0b ((example_state 0).m_r 0) 0x040b0001
      ∧ (cpu_execute example_softfloat (example_state 0) 0x040b0001).toOption.map
          (fun s' => (s'.m_branch_state, s'.CAUSE))
        = some (branch_state_t.NONE, 0))
    ∧ (¬ trap_immediate_relation 0x0b ((example_state 0).m_r 2) 0x044b0001
      ∧ (cpu_execute example_softfloat (example_state 0) 0x044b0001).toOption.map
          (fun s' => (s'.m_branch_state, s'.CAUSE &&& CAUSE_EXCCODE))
        = some (branch_state_t.EXCEPTION, EXCEPTION_TR))
    ∧ (¬ trap_immediate_relation 0x09 ((example_state 0).m_r 5) 0x04a9ffff
      ∧ (cpu_execute example_softfloat (example_state 0) 0x04a9ffff).toOption.map
          (fun s' => (s'.m_branch_state, s'.CAUSE &&& CAUSE_EXCCODE))
        = some (branch_state_t.EXCEPTION, EXCEPTION_TR))
    ∧ (trap_immediate_relation 0x0c (((example_state 0).set_r 3 0xffffffffffffffff).m_r 3)
        0x046cffff
      ∧ (cpu_execute example_softfloat ((example_state 0).set_r 3 0xffffffffffffffff)
          0x046cffff).toOption.map (fun s' => (s'.m_branch_state, s'.CAUSE))
        = some (branch_state_t.NONE, 0)) := by
  decide

/-! ## The canonical form of 32-bit results -/

/-- A value written as `s64(s32(x))` is in canonical sign-extended form. -/
theorem canonical_of_s32 (x : Int) : canonical_32 (u64 (s64 (s32 x))) := by
  unfold canonical_32 sign_extend_32
  rw [s64_s32]
  unfold u64 s32
  split <;> omega

/-- SRL and SRLV write `u32(m_r[RTREG]) >> n`, which is in canonical form only when the
shift amount is not zero or bit 31 of the operand is clear. -/
theorem srl_canonical_iff (rt n : Nat) :
    canonical_32 (u32 rt >>> n) ↔ (n ≠ 0 ∨ rt % 2 ^ 32 < 2 ^ 31) := by
  have hu : u32 (rt : Int) = rt % 2 ^ 32 := by
    have := u32_cast rt
    omega
  rw [hu, Nat.shiftRight_eq_div_pow]
  unfold canonical_32 sign_extend_32
  have hlt : rt % 2 ^ 32 < 2 ^ 32 := Nat.mod_lt _ (by decide)
  by_cases hn : n = 0
  · subst hn
    rw [Nat.pow_zero, Nat.div_one]
    split <;> omega
  · have h2 : 2 ≤ 2 ^ n := by
      have := Nat.pow_le_pow_right (show 0 < 2 by decide) (Nat.one_le_iff_ne_zero.2 hn)
      simpa using this
    have hd : rt % 2 ^ 32 / 2 ^ n ≤ rt % 2 ^ 32 / 2 :=
      Nat.div_le_div_left h2 (by decide)
    have hd2 : rt % 2 ^ 32 / 2 ^ n < 2 ^ 31 := by omega
    have hm : rt % 2 ^ 32 / 2 ^ n % 2 ^ 32 = rt % 2 ^ 32 / 2 ^ n := Nat.mod_eq_of_lt (by omega)
    rw [hm, if_pos hd2]
    exact ⟨fun _ => Or.inl hn, fun _ => rfl⟩

/-- DIVU writes its quotient and its remainder as `s64` of an unsigned 32-bit value, which
is in canonical form only below `2 ^ 31`. -/
theorem zero_extended_canonical_iff (q : Nat) (h : q < 2 ^ 32) :
    canonical_32 (u64 (s64 (q : Int))) ↔ q < 2 ^ 31 := by
  unfold canonical_32 sign_extend_32 u64 s64
  split <;> omega

/-- C36, failing input: with `r3 = 0xffffffff80000000` (the canonical form of
`0x80000000`) and `r2 = 1`, SRL r4, r3, 0 (`0x00032002`) writes `0x0000000080000000` to r4
and DIVU r3, r2 (`0x0062001b`) writes `0x0000000080000000` to LO, neither of which is the
sign extension of its low 32 bits; SLL r4, r3, 0 (`0x00032000`) writes the canonical
`0xffffffff80000000`. -/
theorem srl_divu_zero_extend :
    (cpu_execute example_softfloat ((example_state 0).set_r 3 0xffffffff80000000)
        0x00032002).toOption.map (fun s' => (s'.m_r 4, decide (canonical_32 (s'.m_r 4))))
      = some (0x0000000080000000, false)
    ∧ (cpu_execute example_softfloat ((example_state 0).set_r 3 0xffffffff80000000)
        0x0062001b).toOption.map (fun s' => (s'.m_lo, decide (canonical_32 s'.m_lo), s'.m_hi))
      = some (0x0000000080000000, false, 0)
    ∧ (cpu_execute example_softfloat ((example_state 0).set_r 3 0xffffffff80000000)
        0x00032000).toOption.map (fun s' => (s'.m_r 4, decide (canonical_32 (s'.m_r 4))))
      = some (0xffffffff80000000, true)
    ∧ sign_extend_32 0x80000000 = 0xffffffff80000000 := by
  decide

/-! ## Misaligned stores -/

theorem store_misaligned (s : State) (size address data mem_mask : Nat)
    (h : address &&& (size - 1) ≠ 0) :
    store s size address data mem_mask = (false, address_error s TRANSLATE_READ address) := by
  unfold store
  rw [if_pos h]

theorem address_error_code (s : State) (intention address : Nat)
    (hs : s.side_effects_disabled = false) (hd : intention &&& TRANSLATE_DEBUG_MASK = 0) :
    (address_error s intention address).CAUSE &&& CAUSE_EXCCODE
      = (if intention &&& TRANSLATE_WRITE ≠ 0 then EXCEPTION_ADES else EXCEPTION_ADEL)
    ∧ (address_error s intention address).m_branch_state = branch_state_t.EXCEPTION
    ∧ (address_error s intention address).mem = s.mem := by
  have hc : ¬ s.side_effects_disabled ∧ intention &&& TRANSLATE_DEBUG_MASK = 0 := by
    rw [hs]
    exact ⟨by decide, hd⟩
  unfold address_error
  rw [if_pos hc]
  refine ⟨?_, cpu_exception_branch_state _ _ _, ?_⟩
  · rw [cpu_exception_exccode]
    split <;> rfl
  · rw [(cpu_exception_frame _ _ _).2.2.2.2.2.1]
    split <;> rfl

/-- What the code does with a misaligned store: the store template calls
`address_error(TRANSLATE_READ, address)`, so with side effects enabled the store is not
performed, the bus is untouched and the exception code is address-error-on-load, where an
address rejected by `translate` gets address-error-on-store. -/
theorem misaligned_store_code (s : State) (size address data mem_mask : Nat)
    (hs : s.side_effects_disabled = false) (h : address &&& (size - 1) ≠ 0) :
    (store s size address data mem_mask).1 = false
    ∧ (store s size address data mem_mask).2.CAUSE &&& CAUSE_EXCCODE = EXCEPTION_ADEL
    ∧ (store s size address data mem_mask).2.m_branch_state = branch_state_t.EXCEPTION
    ∧ (store s size address data mem_mask).2.mem = s.mem
    ∧ (address_error s TRANSLATE_WRITE address).CAUSE &&& CAUSE_EXCCODE = EXCEPTION_ADES := by
  rw [store_misaligned s size address data mem_mask h]
  have h1 := address_error_code s TRANSLATE_READ address hs (by decide)
  have h2 := address_error_code s TRANSLATE_WRITE address hs (by decide)
  exact ⟨rfl, h1.1, h1.2.1, h1.2.2, h2.1⟩

/-- C37, failing input: SW r2, 1(r0) (`0xac020001`) in the example state, a word store to
the address 1. The exception code in Cause is `0x10`, address-error-on-load, where the
specification names `0x14`, address-error-on-store; the bus is untouched. A store the
translation rejects, SW r2, 0(r3) to `0xffffffff80000000` in user mode (`0xac620000`), gets
the code `0x14`. -/
theorem misaligned_store_raises_load_error :
    (cpu_execute example_softfloat (example_state 0) 0xac020001).toOption.map
        (fun s' => (s'.m_branch_state, s'.CAUSE &&& CAUSE_EXCCODE, s'.m_cp0 CP0_BadVAddr,
          s'.mem 0))
      = some (branch_state_t.EXCEPTION, EXCEPTION_ADEL, 1, 0)
    ∧ EXCEPTION_ADEL ≠ EXCEPTION_ADES
    ∧ (cpu_execute example_softfloat (example_user_state.set_r 3 0xffffffff80000000)
        0xac620000).toOption.map
        (fun s' => (s'.m_branch_state, s'.CAUSE &&& CAUSE_EXCCODE, s'.m_cp0 CP0_BadVAddr))
      = some (branch_state_t.EXCEPTION, EXCEPTION_ADES, 0xffffffff80000000) := by
  decide

/-! ## The first instruction of the interrupt handler -/

/-- What the code does after the interrupt entry of `execute_run`, which leaves the branch
state EXCEPTION: when the instruction fetched at the vector leaves the branch state and the
program counter alone, the switch takes the case EXCEPTION and does not advance the program
counter, so that the next iteration fetches at the vector again. -/
theorem handler_entry_not_advanced (sf : softfloat_t) (s s1 s2 : State) (op : Nat)
    (hb : s.m_branch_state = branch_state_t.EXCEPTION)
    (hf : fetch s s.m_pc = (some op, s1)) (hx : cpu_execute sf s1 op = Except.ok s2)
    (hord : s2.m_branch_state = s1.m_branch_state ∧ s2.m_pc = s1.m_pc) :
    ∃ s3, execute_step sf s = Except.ok s3 ∧ s3.m_pc = s.m_pc
      ∧ s3.m_branch_state = branch_state_t.NONE := by
  obtain ⟨l, hl⟩ := fetch_some s _ op s1 hf
  have h1 : s1.m_branch_state = branch_state_t.EXCEPTION := by rw [hl]; exact hb
  have h2 : s1.m_pc = s.m_pc := by rw [hl]
  have h3 : (s2.set_r 0 0).m_branch_state = branch_state_t.EXCEPTION := hord.1.trans h1
  refine ⟨_, execute_step_of_fetch sf s s1 s2 op hf hx, ?_, ?_⟩
  · rw [(update_pc_EXCEPTION _ h3).1]
    exact hord.2.trans h2
  · exact (update_pc_EXCEPTION _ h3).2

/-- C38, failing input: `execute_run` entered with the timer interrupt pending and enabled,
the handler ADDIU r3, r3, 1; ADDIU r4, r4, 1 at the vector `V = 0xffffffff80000180` and
`r3 = r4 = 0`. After the first iteration the program counter is still `V` (not `V + 4`);
the second iteration executes the instruction at `V` again, so that after two iterations
`r3 = 2`, `r4 = 0` and the program counter is `V + 4`. When the exception is raised from
inside an instruction instead (SYSCALL at the program counter, Status zero), the handler
runs as the specification says: two iterations after the one of SYSCALL `r3 = 1`, `r4 = 1`
and the program counter is `V + 8`. -/
theorem handler_entry_executed_twice :
    interrupt_condition (example_vector_state 0)
    ∧ (execute_run example_softfloat 1 (example_vector_state 0)).toOption.map
        (fun t => (t.m_pc, t.m_r 3, t.m_r 4, t.m_branch_state, t.m_cp0 CP0_EPC))
      = some (0xffffffff80000180, 1, 0, branch_state_t.NONE, 0xffffffff80001000)
    ∧ (execute_run example_softfloat 2 (example_vector_state 0)).toOption.map
        (fun t => (t.m_pc, t.m_r 3, t.m_r 4, t.m_branch_state))
      = some (0xffffffff80000184, 2, 0, branch_state_t.NONE)
    ∧ ¬ interrupt_condition ((example_vector_state 0x0000000c00000000).set_cp0 CP0_Status 0)
    ∧ (execute_run example_softfloat 1
        ((example_vector_state 0x0000000c00000000).set_cp0 CP0_Status 0)).toOption.map
        (fun t => (t.m_pc, t.m_r 3, t.m_r 4, t.m_branch_state, t.CAUSE &&& CAUSE_EXCCODE))
      = some (0xffffffff80000180, 0, 0, branch_state_t.NONE, EXCEPTION_SYS)
    ∧ (execute_run example_softfloat 2
        ((example_vector_state 0x0000000c00000000).set_cp0 CP0_Status 0)).toOption.map
        (fun t => (t.m_pc, t.m_r 3, t.m_r 4, t.m_branch_state))
      = some (0xffffffff80000184, 1, 0, branch_state_t.NONE)
    ∧ (execute_run example_softfloat 3
        ((example_vector_state 0x0000000c00000000).set_cp0 CP0_Status 0)).toOption.map
        (fun t => (t.m_pc, t.m_r 3, t.m_r 4, t.m_branch_state))
      = some (0xffffffff80000188, 1, 1, branch_state_t.NONE) :=
  ⟨by decide, by decide, by decide, by decide, by decide, by decide, by decide⟩

/-! ## The result register of the conditional stores -/

/-- With the link set, SC and SCD end with `m_r[RTREG] = 1` whatever the store template
did: the result of `store` is not consulted. -/
theorem sc_writes_one (sf : softfloat_t) (s : State) (op : Nat)
    (hop : op >>> 26 = 0x38 ∨ op >>> 26 = 0x3c) (hl : s.m_ll_watch.isSome = true) :
    ∃ s', cpu_execute sf s op = Except.ok s' ∧ s'.m_r (RTREG op) = 1 := by
  rcases hop with h | h
  · refine ⟨_, by simp only [cpu_execute, h, hl, if_true]; rfl, ?_⟩
    simp only [State.set_r, if_true]
  · refine ⟨_, by simp only [cpu_execute, h, hl, if_true]; rfl, ?_⟩
    simp only [State.set_r, if_true]

/-- C39, failing input: with the link of a preceding LL set and `r1 = 0x7fffffff`,
SC r1, 1(r3) (`0xe0610001`, misaligned address) and SC r1, 0(r0) (`0xe0010000`, the
matching TLB entry is not valid) raise an exception, the bus word is not written, and r1
ends as 1, the success value, where the specification leaves it unchanged. The same holds
for SCD r1, 4(r3) (`0xf0610004`). -/
theorem sc_reports_success_on_fault :
    (example_ll_state true).m_r 1 = 0x7fffffff
    ∧ (cpu_execute example_softfloat (example_ll_state true) 0xe0610001).toOption.map
        (fun s' => (s'.m_branch_state, s'.CAUSE &&& CAUSE_EXCCODE, s'.m_r 1, s'.mem 0x200))
      = some (branch_state_t.EXCEPTION, EXCEPTION_ADEL, 1, 0)
    ∧ (cpu_execute example_softfloat (example_ll_state true) 0xe0010000).toOption.map
        (fun s' => (s'.m_branch_state, s'.CAUSE &&& CAUSE_EXCCODE, s'.m_r 1, s'.mem 0))
      = some (branch_state_t.EXCEPTION, EXCEPTION_TLBS, 1, 0)
    ∧ (cpu_execute example_softfloat (example_ll_state true) 0xf0610004).toOption.map
        (fun s' => (s'.m_branch_state, s'.CAUSE &&& CAUSE_EXCCODE, s'.m_r 1, s'.mem 0x200))
      = some (branch_state_t.EXCEPTION, EXCEPTION_ADEL, 1, 0) := by
  decide

/-! ## The conversions from long integers -/

/-- The case labels `0x02a00020` and `0x02a00021` of format L are compared with
`op & 0x3f`, which is at most `0x3f`: every word of format L takes the default case. -/
theorem cp1_l_unimplemented (sf : softfloat_t) (s : State) (op : Nat) :
    cp1_l sf s op = cp1_unimplemented s := by
  have hle : op &&& 0x3f ≤ 0x3f := Nat.and_le_right
  unfold cp1_l
  split
  · rename_i h
    rw [h] at hle
    exact absurd hle (by decide)
  · rename_i h
    rw [h] at hle
    exact absurd hle (by decide)
  · rfl

/-- Every COP1 word of format L executed with coprocessor 1 usable, CVT.S.L and CVT.D.L
among them, takes the unimplemented-operation path: the cause bit E of FCR31 is set, the
floating-point exception is raised and no floating-point register is written. -/
theorem format_l_unimplemented (sf : softfloat_t) (s : State) (op : Nat)
    (hop : op >>> 26 = 0x11) (hfmt : (op >>> 21) &&& 0x1f = 0x15)
    (hcu : s.SR &&& SR_CU1 ≠ 0) :
    ∃ s', cpu_execute sf s op = Except.ok s'
      ∧ s' = cp1_unimplemented { s with softfloat_exceptionFlags := 0 }
      ∧ s'.m_fcr31 = s.m_fcr31 ||| FCR31_CE
      ∧ s'.m_branch_state = branch_state_t.EXCEPTION
      ∧ s'.CAUSE &&& CAUSE_EXCCODE = EXCEPTION_FPE
      ∧ s'.m_f = s.m_f := by
  have h1 : cpu_execute sf s op = Except.ok (cp1_execute sf s op) := by
    simp only [cpu_execute, hop]
  have h2 : cp1_execute sf s op = cp1_unimplemented { s with softfloat_exceptionFlags := 0 } := by
    unfold cp1_execute
    rw [if_neg hcu]
    simp only [hop, cp1_cop1, hfmt]
    exact cp1_l_unimplemented sf _ op
  refine ⟨_, h1, h2, ?_, ?_, ?_, ?_⟩
  · rw [h2]
    unfold cp1_unimplemented
    rw [(cpu_exception_frame _ _ _).2.2.2.2.2.2.1]
  · rw [h2]
    exact cpu_exception_branch_state _ _ _
  · rw [h2]
    unfold cp1_unimplemented
    rw [cpu_exception_exccode]
    rfl
  · rw [h2]
    unfold cp1_unimplemented
    rw [(cpu_exception_frame _ _ _).2.2.2.1]

/-- C40, failing input: CVT.S.L f2, f4 (`0x46a020a0`) and CVT.D.L f2, f4 (`0x46a020a1`)
executed with CU1 and FR set, the integer 1 in f4 and a library that converts it to the bit
pattern of `1.0`. Neither writes f2: the cause bit E of FCR31 is set and the floating-point
exception is raised. -/
theorem long_conversions_unimplemented :
    example_long_state.SR &&& SR_CU1 ≠ 0 ∧ example_long_state.SR &&& SR_FR ≠ 0
    ∧ (example_softfloat_long.i64_to_f32 0 (s64 (example_long_state.m_f 4))).1 = 0x3f800000
    ∧ (cpu_execute example_softfloat_long example_long_state 0x46a020a0).toOption.map
        (fun s' => (s'.m_f 2, s'.m_fcr31 &&& FCR31_CE, s'.m_branch_state,
          s'.CAUSE &&& CAUSE_EXCCODE))
      = some (0, FCR31_CE, branch_state_t.EXCEPTION, EXCEPTION_FPE)
    ∧ (cpu_execute example_softfloat_long example_long_state 0x46a020a1).toOption.map
        (fun s' => (s'.m_f 2, s'.m_fcr31 &&& FCR31_CE, s'.m_branch_state,
          s'.CAUSE &&& CAUSE_EXCCODE))
      = some (0, FCR31_CE, branch_state_t.EXCEPTION, EXCEPTION_FPE) := by
  decide

/-! ## The 64-bit multiplications -/

theorem u32_nat (n : Nat) : u32 (n : Int) = n % 2 ^ 32 := by
  have := u32_cast n
  omega

theorem u64_nat (n : Nat) : u64 (n : Int) = n % 2 ^ 64 := by
  have := u64_cast n
  omega

/-- The four 32x32 partial products and the carry out of the middle column, combined as
DMULT and DMULTU combine them, give the 128-bit product without loss. -/
theorem mul64_parts (R T : Nat) (hR : R < 2 ^ 64) (hT : T < 2 ^ 64) :
    (R / 2 ^ 32 % 2 ^ 32 * (T / 2 ^ 32 % 2 ^ 32) % 2 ^ 64
          + R / 2 ^ 32 % 2 ^ 32 * (T % 2 ^ 32) % 2 ^ 64 / 2 ^ 32
          + R % 2 ^ 32 * (T / 2 ^ 32 % 2 ^ 32) % 2 ^ 64 / 2 ^ 32
          + (R % 2 ^ 32 * (T % 2 ^ 32) % 2 ^ 64 / 2 ^ 32
              + R / 2 ^ 32 % 2 ^ 32 * (T % 2 ^ 32) % 2 ^ 64 % 2 ^ 32
              + R % 2 ^ 32 * (T / 2 ^ 32 % 2 ^ 32) % 2 ^ 64 % 2 ^ 32) % 2 ^ 64 / 2 ^ 32
            % 2 ^ 32) % 2 ^ 64 * 2 ^ 64
      + (R % 2 ^ 32 * (T % 2 ^ 32) % 2 ^ 64
          + R / 2 ^ 32 % 2 ^ 32 * (T % 2 ^ 32) % 2 ^ 64 * 2 ^ 32 % 2 ^ 64
          + R % 2 ^ 32 * (T / 2 ^ 32 % 2 ^ 32) % 2 ^ 64 * 2 ^ 32 % 2 ^ 64) % 2 ^ 64
      = R * T := by
  have hRe : (R / 2 ^ 32 % 2 ^ 32) * 2 ^ 32 + R % 2 ^ 32 = R := by omega
  have hTe : (T / 2 ^ 32 % 2 ^ 32) * 2 ^ 32 + T % 2 ^ 32 = T := by omega
  have key : R * T
      = R / 2 ^ 32 % 2 ^ 32 * (T / 2 ^ 32 % 2 ^ 32) * 2 ^ 64
        + (R / 2 ^ 32 % 2 ^ 32 * (T % 2 ^ 32) + R % 2 ^ 32 * (T / 2 ^ 32 % 2 ^ 32)) * 2 ^ 32
        + R % 2 ^ 32 * (T % 2 ^ 32) := by
    calc R * T
        = ((R / 2 ^ 32 % 2 ^ 32) * 2 ^ 32 + R % 2 ^ 32)
            * ((T / 2 ^ 32 % 2 ^ 32) * 2 ^ 32 + T % 2 ^ 32) := by rw [hRe, hTe]
      _ = _ := by ring
  rw [key]
  have hA : R / 2 ^ 32 % 2 ^ 32 ≤ 2 ^ 32 - 1 := by omega
  have ha : R % 2 ^ 32 ≤ 2 ^ 32 - 1 := by omega
  have hB : T / 2 ^ 32 % 2 ^ 32 ≤ 2 ^ 32 - 1 := by omega
  have hb : T % 2 ^ 32 ≤ 2 ^ 32 - 1 := by omega
  have h1 := Nat.mul_le_mul ha hb
  have h2 := Nat.mul_le_mul hA hb
  have h3 := Nat.mul_le_mul ha hB
  have h4 := Nat.mul_le_mul hA hB
  generalize R % 2 ^ 32 * (T % 2 ^ 32) = p1 at h1 ⊢
  generalize R / 2 ^ 32 % 2 ^ 32 * (T % 2 ^ 32) = p2 at h2 ⊢
  generalize R % 2 ^ 32 * (T / 2 ^ 32 % 2 ^ 32) = p3 at h3 ⊢
  generalize R / 2 ^ 32 % 2 ^ 32 * (T / 2 ^ 32 % 2 ^ 32) = p4 at h4 ⊢
  omega

theorem dmultu_state (s : State) (op : Nat) (hf : op &&& 0x3f = 0x1d)
    (hrs : s.m_r (RSREG op) < 2 ^ 64) (hrt : s.m_r (RTREG op) < 2 ^ 64) :
    ∃ s', cpu_special s op = Except.ok s'
      ∧ s'.m_hi * 2 ^ 64 + s'.m_lo = s.m_r (RSREG op) * s.m_r (RTREG op)
      ∧ s'.m_hi < 2 ^ 64 ∧ s'.m_lo < 2 ^ 64
      ∧ s'.m_r = s.m_r ∧ s'.m_pc = s.m_pc ∧ s'.m_branch_state = s.m_branch_state
      ∧ s'.m_icount = s.m_icount - 7 := by
  refine ⟨_, (by simp only [cpu_special, hf]; rfl), ?_, ?_, ?_, ?_, ?_, ?_, ?_⟩
  · dsimp only
    generalize s.m_r (RSREG op) = R at hrs
    generalize s.m_r (RTREG op) = T at hrt
    simp only [← Nat.cast_mul, ← Nat.cast_add, u32_nat, u64_nat, Nat.shiftRight_eq_div_pow,
      Nat.shiftLeft_eq]
    exact mul64_parts R T hrs hrt
  · dsimp only
    unfold u64
    omega
  · dsimp only
    unfold u64
    omega
  · rfl
  · rfl
  · rfl
  · rfl

/-- What the code does for DMULT: the two comparisons of the sign adjustment are made on
unsigned registers and never hold, so that HI:LO receives the product of the operands read
as unsigned integers, as for DMULTU. -/
theorem dmult_unsigned_product (s : State) (op : Nat) (hf : op &&& 0x3f = 0x1c)
    (hrs : s.m_r (RSREG op) < 2 ^ 64) (hrt : s.m_r (RTREG op) < 2 ^ 64) :
    ∃ s', cpu_special s op = Except.ok s'
      ∧ s'.m_hi * 2 ^ 64 + s'.m_lo = s.m_r (RSREG op) * s.m_r (RTREG op)
      ∧ s'.m_hi < 2 ^ 64 ∧ s'.m_lo < 2 ^ 64 := by
  have hn : ∀ n : Nat, ¬ ((n : Int) < 0) := fun n => by omega
  refine ⟨_, (by simp only [cpu_special, hf, hn, if_false]; rfl), ?_, ?_, ?_⟩
  · dsimp only
    generalize s.m_r (RSREG op) = R at hrs
    generalize s.m_r (RTREG op) = T at hrt
    simp only [← Nat.cast_mul, ← Nat.cast_add, u32_nat, u64_nat, Nat.shiftRight_eq_div_pow,
      Nat.shiftLeft_eq]
    exact mul64_parts R T hrs hrt
  · dsimp only
    unfold u64
    omega
  · dsimp only
    unfold u64
    omega

/-- C33, failing input: DMULT r3, r2 (`0x0062001c`) with `r3 = 0xffffffffffffffff` (-1)
and `r2 = 1`. The 128-bit signed product is -1, HI = LO = `0xffffffffffffffff`; the code
leaves HI = 0 and LO = `0xffffffffffffffff`, the product of the operands read as
unsigned. -/
theorem dmult_ignores_sign :
    (cpu_execute example_softfloat ((example_state 0).set_r 3 0xffffffffffffffff)
        0x0062001c).toOption.map (fun s' => (s'.m_hi, s'.m_lo))
      = some (0, 0xffffffffffffffff)
    ∧ signed_product_128 0xffffffffffffffff 1 = (0xffffffffffffffff, 0xffffffffffffffff)
    ∧ ((example_state 0).set_r 3 0xffffffffffffffff).m_r (RSREG 0x0062001c)
        = 0xffffffffffffffff
    ∧ ((example_state 0).set_r 3 0xffffffffffffffff).m_r (RTREG 0x0062001c) = 1 := by
  decide

/-- C34: for all 64-bit values of rs and rt, DMULTU completes and leaves in HI:LO the
128-bit product of rs and rt read as unsigned integers, `HI * 2 ^ 64 + LO = rs * rt` with
both halves below `2 ^ 64`; the general registers, the program counter and the branch state
are untouched. -/
theorem dmultu_exact_product (sf : softfloat_t) (s : State) (op : Nat)
    (hop : op >>> 26 = 0x00) (hf : op &&& 0x3f = 0x1d)
    (hrs : s.m_r (RSREG op) < 2 ^ 64) (hrt : s.m_r (RTREG op) < 2 ^ 64) :
    ∃ s', cpu_execute sf s op = Except.ok s'
      ∧ s'.m_hi * 2 ^ 64 + s'.m_lo = s.m_r (RSREG op) * s.m_r (RTREG op)
      ∧ s'.m_hi < 2 ^ 64 ∧ s'.m_lo < 2 ^ 64
      ∧ s'.m_r = s.m_r ∧ s'.m_pc = s.m_pc ∧ s'.m_branch_state = s.m_branch_state
      ∧ s'.m_icount = s.m_icount - 7 := by
  rw [cpu_execute_special sf s op hop]
  exact dmultu_state s op hf hrs hrt

/-- Witness of C34: DMULTU r5, r5 (`0x00a5001d`) with `r5 = 0x100000000` leaves HI = 1 and
LO = 0, the product `2 ^ 64`. -/
theorem dmultu_exact_product_witness :
    (∃ s', cpu_execute example_softfloat (example_state 0) 0x00a5001d = Except.ok s'
      ∧ s'.m_hi * 2 ^ 64 + s'.m_lo
        = (example_state 0).m_r (RSREG 0x00a5001d) * (example_state 0).m_r (RTREG 0x00a5001d)
      ∧ s'.m_hi < 2 ^ 64 ∧ s'.m_lo < 2 ^ 64
      ∧ s'.m_r = (example_state 0).m_r ∧ s'.m_pc = (example_state 0).m_pc
      ∧ s'.m_branch_state = (example_state 0).m_branch_state
      ∧ s'.m_icount = (example_state 0).m_icount - 7)
    ∧ (cpu_execute example_softfloat (example_state 0) 0x00a5001d).toOption.map
        (fun s' => (s'.m_hi, s'.m_lo)) = some (1, 0)
    ∧ (example_state 0).m_r (RSREG 0x00a5001d) = 0x100000000 :=
  ⟨dmultu_exact_product example_softfloat (example_state 0) 0x00a5001d (by decide)
      (by decide) (by decide) (by decide),
    by decide, by decide⟩

/-! ## Unaligned word loads on a big-endian bus -/

/-- Masking with a field of `n` bits at position `lo` keeps that field. -/
theorem and_field (x lo n : Nat) :
    x &&& ((2 ^ n - 1) <<< lo) = ((x >>> lo) % 2 ^ n) <<< lo := by
  apply Nat.eq_of_testBit_eq
  intro i
  rw [Nat.testBit_and, testBit_field, Nat.testBit_shiftLeft, Nat.testBit_mod_two_pow,
    Nat.testBit_shiftRight]
  by_cases h1 : lo ≤ i
  · have h2 : lo + (i - lo) = i := by omega
    by_cases h3 : i < lo + n
    · have h4 : i - lo < n := by omega
      simp [h1, h2, h3, h4]
    · have h4 : ¬ i - lo < n := by omega
      simp [h1, h3, h4]
  · simp [h1]

/-- A value delivered by `load`: the access was aligned, `translate` returned a physical
address and the value is the lane of the bus at that address. -/
theorem load_some (s : State) (size address d : Nat)
    (h : (load s size address).1 = some d) :
    address &&& (size - 1) = 0
    ∧ ((translate s TRANSLATE_READ address).1 = translate_t.CACHED
      ∨ (translate s TRANSLATE_READ address).1 = translate_t.UNCACHED)
    ∧ load s size address = (some d, (translate s TRANSLATE_READ address).2.2)
    ∧ d = bus_read (translate s TRANSLATE_READ address).2.2 size
        (translate s TRANSLATE_READ address).2.1 := by
  unfold load at h ⊢
  by_cases hal : address &&& (size - 1) ≠ 0
  · rw [if_pos hal] at h
    cases h
  · rw [if_neg hal] at h ⊢
    rcases htr : translate s TRANSLATE_READ address with ⟨t, p, s1⟩
    rw [htr] at h
    cases t
    · cases h
    · cases h
    · dsimp only at h ⊢
      by_cases hw : watch_hit s1 WATCHLO_R p = true
      · rw [if_pos hw] at h
        cases h
      · rw [if_neg hw] at h ⊢
        have hd : bus_read s1 size p = d := Option.some.inj h
        exact ⟨not_not.mp hal, Or.inr rfl, by rw [hd], hd.symm⟩
    · dsimp only at h ⊢
      by_cases hw : watch_hit s1 WATCHLO_R p = true
      · rw [if_pos hw] at h
        cases h
      · rw [if_neg hw] at h ⊢
        have hd : bus_read s1 size p = d := Option.some.inj h
        exact ⟨not_not.mp hal, Or.inl rfl, by rw [hd], hd.symm⟩

/-- A successful translation keeps the low 12 bits of the address. -/
theorem translate_low12 (s : State) (intention address : Nat)
    (hr : (translate s intention address).1 = translate_t.CACHED
      ∨ (translate s intention address).1 = translate_t.UNCACHED) :
    (translate s intention address).2.1 &&& 0xfff = address &&& 0xfff := by
  rcases h : translate s intention address with ⟨r, a', s1⟩
  rw [h] at hr
  dsimp only at hr ⊢
  have hc := translate_cases s intention address
  rw [h] at hc
  rcases hc with ⟨extended, hl⟩ | hc | hc | hc | hc | hc
  · obtain ⟨index, pfn, -, ha, -⟩ :=
      tlb_lookup_success s intention address extended r a' s1 hl.symm hr
    have hm := frame_substitution address (s.m_tlb index).mask pfn
    rw [← ha] at hm
    exact and_low12_of_and_mask _ _ _ hm
  · exfalso
    have := congrArg (fun x => x.1) hc
    dsimp only at this
    rcases hr with hr | hr <;> rw [hr] at this <;> cases this
  · have ha : a' = address := congrArg (fun x => x.2.1) hc
    rw [ha]
  · have ha : a' = address &&& 0x0000000fffffffff := congrArg (fun x => x.2.1) hc
    rw [ha, Nat.and_assoc, show (0x0000000fffffffff &&& 0xfff : Nat) = 0xfff by decide]
  · have ha : a' = address &&& 0x7fffffff := congrArg (fun x => x.2.1) hc
    rw [ha, Nat.and_assoc, show (0x7fffffff &&& 0xfff : Nat) = 0xfff by decide]
  · have ha : a' = address &&& 0x1fffffff := congrArg (fun x => x.2.1) hc
    rw [ha, Nat.and_assoc, show (0x1fffffff &&& 0xfff : Nat) = 0xfff by decide]

/-- On a big-endian bus the byte at offset `j` of an aligned word is byte `j` of the word
read there, counted from the most significant one. -/
theorem bus_read_byte_be (s : State) (p j : Nat)
    (hBE : s.m_cp0 CP0_Config &&& CONFIG_BE ≠ 0) (hp : p % 4 = 0) (hj : j < 4) :
    bus_read s 1 (p + j) = bus_read s 4 p / 2 ^ (8 * (3 - j)) % 256 := by
  unfold bus_read bus_shift
  rw [if_pos hBE, if_pos hBE, u32_nat, u32_nat]
  have hx : (p + j) % 2 ^ 32 = p % 2 ^ 32 + j := by omega
  rw [hx]
  generalize hxe : p % 2 ^ 32 = x
  have hx4 : x % 4 = 0 := by omega
  have h7 : (x + j) &&& (8 - 1) = (x + j) % 8 :=
    Nat.and_pow_two_sub_one_eq_mod (x + j) 3
  have h4 : x &&& (8 - 4) = x % 8 := by
    have e1 : x &&& (8 - 4) = (x &&& 7) &&& 4 := by
      rw [Nat.and_assoc]
      rfl
    have e2 : x &&& 7 = x % 8 := Nat.and_pow_two_sub_one_eq_mod x 3
    rw [e1, e2]
    have : x % 8 = 0 ∨ x % 8 = 4 := by omega
    rcases this with h | h <;> rw [h] <;> rfl
  rw [h7, h4]
  have hq : (x + j) / 8 = x / 8 := by omega
  have e : (x + j) % 8 = x % 8 + j := by omega
  rw [hq, e]
  generalize s.mem (x / 8) = M
  simp only [Nat.shiftRight_eq_div_pow]
  have hr : x % 8 = 0 ∨ x % 8 = 4 := by omega
  have hj' : j = 0 ∨ j = 1 ∨ j = 2 ∨ j = 3 := by omega
  rcases hr with hr | hr <;> rcases hj' with rfl | rfl | rfl | rfl <;> rw [hr] <;>
    simp only [Nat.reduceSub, Nat.reduceMul, Nat.reduceAdd, Nat.reducePow] <;> omega

theorem cpu_lwl_value (s : State) (op a d : Nat) (sA : State)
    (hBE : s.m_cp0 CP0_Config &&& CONFIG_BE ≠ 0)
    (hrev : ¬ (s.SR &&& SR_RE ≠ 0 ∧ s.SR &&& SR_KSU = SR_KSU_U))
    (ha : ADDR s (s.m_r (RSREG op)) op = a)
    (hl : load s 4 (a &&& not64 3) = (some d, sA)) :
    cpu_lwl s op = sA.set_r (RTREG op)
      (u64 (s32 (((sA.m_r (RTREG op) &&& not32 (u32 (not32 0 <<< ((a % 4) <<< 3) : Nat)))
        ||| u32 (d <<< ((a % 4) <<< 3) : Nat) : Nat)))) := by
  have h3 : a &&& 3 = a % 4 := Nat.and_pow_two_sub_one_eq_mod a 2
  unfold cpu_lwl reverse R4000_ENDIAN_LE_BE
  rw [if_neg hrev, if_pos hBE, ha]
  simp only [Nat.xor_zero]
  rw [hl, h3]

theorem cpu_lwr_value (s : State) (op a d : Nat) (sA : State)
    (hBE : s.m_cp0 CP0_Config &&& CONFIG_BE ≠ 0)
    (hrev : ¬ (s.SR &&& SR_RE ≠ 0 ∧ s.SR &&& SR_KSU = SR_KSU_U))
    (ha : ADDR s (s.m_r (RSREG op)) op = a)
    (hl : load s 4 (a &&& not64 3) = (some d, sA)) :
    cpu_lwr s op = sA.set_r (RTREG op)
      (u64 (s32 (((sA.m_r (RTREG op) &&& not32 (not32 0 >>> (((a % 4) ^^^ 3) <<< 3)))
        ||| (d >>> (((a % 4) ^^^ 3) <<< 3)) : Nat)))) := by
  have h3 : a &&& 3 = a % 4 := Nat.and_pow_two_sub_one_eq_mod a 2
  unfold cpu_lwr reverse R4000_ENDIAN_LE_BE
  rw [if_neg hrev, if_pos hBE, ha]
  simp only [Nat.xor_zero]
  rw [hl, h3]

theorem u64_s32_nat (w : Nat) (h : w < 2 ^ 32) : u64 (s32 (w : Int)) = sign_extend_32 w := by
  unfold u64 s32 sign_extend_32
  split <;> omega

theorem u64_s32_mod (w : Nat) (h : w < 2 ^ 32) : u64 (s32 (w : Int)) % 2 ^ 32 = w := by
  unfold u64 s32
  omega

/-- The word LWL forms: the low `n` bits of the register are kept and the loaded word is
shifted above them. -/
theorem lwl_word (rt0 d1 n m : Nat) (hn : n ≤ 32) (hm : m = 2 ^ n - 1) :
    (rt0 &&& m) ||| u32 (d1 <<< n : Nat) = 2 ^ n * (d1 % 2 ^ (32 - n)) + rt0 % 2 ^ n := by
  subst hm
  have h32 : (2 : Nat) ^ 32 = 2 ^ n * 2 ^ (32 - n) := by
    rw [← Nat.pow_add]
    congr 1
    omega
  rw [Nat.and_pow_two_sub_one_eq_mod, u32_nat, Nat.shiftLeft_eq, h32, Nat.mul_comm d1,
    Nat.mul_mod_mul_left, Nat.lor_comm]
  exact (Nat.mul_add_lt_is_or (Nat.mod_lt _ (Nat.two_pow_pos n)) _).symm

/-- The word LWR forms: the bits of the register from `n` upwards are kept, within the low
32, and the loaded word is shifted below them. -/
theorem lwr_word (v d2 n m : Nat) (hn : n ≤ 32) (hd2 : d2 < 2 ^ 32)
    (hm : m = (2 ^ (32 - n) - 1) <<< n) :
    (v &&& m) ||| (d2 >>> (32 - n)) = 2 ^ n * ((v / 2 ^ n) % 2 ^ (32 - n)) + d2 / 2 ^ (32 - n) := by
  subst hm
  have h32 : (2 : Nat) ^ 32 = 2 ^ (32 - n) * 2 ^ n := by
    rw [← Nat.pow_add]
    congr 1
    omega
  have hlt : d2 / 2 ^ (32 - n) < 2 ^ n :=
    Nat.div_lt_of_lt_mul (by rw [← h32]; exact hd2)
  rw [and_field, Nat.shiftLeft_eq, Nat.shiftRight_eq_div_pow, Nat.shiftRight_eq_div_pow,
    Nat.mul_comm]
  exact (Nat.mul_add_lt_is_or hlt _).symm

/-- LWL with the offset `k` within the word followed by LWR with the offset `(k + 3) % 4`
on a big-endian bus: the register ends as the sign extension of the last `4 - k` bytes of
the word `d1` followed by the first `k` bytes of the word `d2`; for `k = 0` it is the
whole word `d2`. -/
theorem lwl_lwr_merge (k rt0 d1 d2 : Nat) (hk : k < 4) (hd2 : d2 < 2 ^ 32) :
    u64 (s32 (((u64 (s32 (((rt0 &&& not32 (u32 (not32 0 <<< (k <<< 3) : Nat)))
          ||| u32 (d1 <<< (k <<< 3) : Nat) : Nat)))
        &&& not32 (not32 0 >>> ((((k + 3) % 4) ^^^ 3) <<< 3)))
      ||| (d2 >>> ((((k + 3) % 4) ^^^ 3) <<< 3)) : Nat)))
      = sign_extend_32 (if k = 0 then d2
          else d1 % 2 ^ (32 - 8 * k) * 2 ^ (8 * k) + d2 / 2 ^ (32 - 8 * k)) := by
  interval_cases k
  · simp only [Nat.reduceAdd, Nat.reduceMod, Nat.reduceXor, Nat.reduceShiftLeft, if_true]
    rw [lwr_word _ d2 32 _ (by decide) hd2 (by decide)]
    simp only [Nat.reduceSub, Nat.reducePow]
    have e : ∀ x : Nat, 4294967296 * (x % 1) + d2 / 1 = d2 := fun x => by omega
    rw [e, u64_s32_nat d2 hd2]
  · simp only [Nat.reduceAdd, Nat.reduceMod, Nat.reduceXor, Nat.reduceShiftLeft,
      Nat.reduceMul, Nat.reduceSub, Nat.reducePow]
    rw [lwl_word rt0 d1 8 _ (by decide) (by decide),
      lwr_word _ d2 8 _ (by decide) hd2 (by decide)]
    simp only [Nat.reduceSub, Nat.reducePow]
    have hw : 256 * (d1 % 16777216) + rt0 % 256 < 2 ^ 32 := by omega
    have hv := u64_s32_mod _ hw
    generalize u64 (s32 ((256 * (d1 % 16777216) + rt0 % 256 : Nat) : Int)) = v at hv ⊢
    have e : 256 * (v / 256 % 16777216) + d2 / 16777216
        = d1 % 16777216 * 256 + d2 / 16777216 := by omega
    rw [e, if_neg (by decide), u64_s32_nat _ (by omega)]
  · simp only [Nat.reduceAdd, Nat.reduceMod, Nat.reduceXor, Nat.reduceShiftLeft,
      Nat.reduceMul, Nat.reduceSub, Nat.reducePow]
    rw [lwl_word rt0 d1 16 _ (by decide) (by decide),
      lwr_word _ d2 16 _ (by decide) hd2 (by decide)]
    simp only [Nat.reduceSub, Nat.reducePow]
    have hw : 65536 * (d1 % 65536) + rt0 % 65536 < 2 ^ 32 := by omega
    have hv := u64_s32_mod _ hw
    generalize u64 (s32 ((65536 * (d1 % 65536) + rt0 % 65536 : Nat) : Int)) = v at hv ⊢
    have e : 65536 * (v / 65536 % 65536) + d2 / 65536
        = d1 % 65536 * 65536 + d2 / 65536 := by omega
    rw [e, if_neg (by decide), u64_s32_nat _ (by omega)]
  · simp only [Nat.reduceAdd, Nat.reduceMod, Nat.reduceXor, Nat.reduceShiftLeft,
      Nat.reduceMul, Nat.reduceSub, Nat.reducePow]
    rw [lwl_word rt0 d1 24 _ (by decide) (by decide),
      lwr_word _ d2 24 _ (by decide) hd2 (by decide)]
    simp only [Nat.reduceSub, Nat.reducePow]
    have hw : 16777216 * (d1 % 256) + rt0 % 16777216 < 2 ^ 32 := by omega
    have hv := u64_s32_mod _ hw
    generalize u64 (s32 ((16777216 * (d1 % 256) + rt0 % 16777216 : Nat) : Int)) = v at hv ⊢
    have e : 16777216 * (v / 16777216 % 256) + d2 / 256
        = d1 % 256 * 16777216 + d2 / 256 := by omega
    rw [e, if_neg (by decide), u64_s32_nat _ (by omega)]

theorem bus_read_congr (s t : State) (size p : Nat) (hm : t.mem = s.mem)
    (hc : t.m_cp0 = s.m_cp0) : bus_read t size p = bus_read s size p := by
  unfold bus_read bus_shift
  rw [hm, hc]

theorem bus_read_lt (s : State) (p : Nat) : bus_read s 4 p < 2 ^ 32 := by
  unfold bus_read
  exact Nat.mod_lt _ (by decide)

/-- Clearing the two low bits of a 64-bit address. -/
theorem and_not64_3 (a : Nat) (h : a < 2 ^ 64) : a &&& not64 3 = a / 4 * 4 := by
  rw [show not64 3 = (2 ^ 62 - 1) <<< 2 by decide, and_field, Nat.shiftLeft_eq,
    Nat.shiftRight_eq_div_pow]
  omega

theorem ADDR_lt (s : State) (r : Nat) (o : Int) : ADDR s r o < 2 ^ 64 := by
  unfold ADDR u64
  split <;> omega

/-- What a delivered word load leaves behind: the state but for the last-used TLB indices,
and the word of the bus at the translated address, which is word-aligned. -/
theorem load_word_some (s : State) (address d : Nat)
    (h : (load s 4 address).1 = some d) :
    (∃ l, load s 4 address = (some d, { s with m_last := l }))
    ∧ d = bus_read s 4 (translate s TRANSLATE_READ address).2.1
    ∧ (translate s TRANSLATE_READ address).2.1 % 4 = address % 4 := by
  obtain ⟨hal, hr, hload, hd⟩ := load_some s 4 address d h
  have h12 := translate_low12 s TRANSLATE_READ address hr
  rcases htr : translate s TRANSLATE_READ address with ⟨t, p, s1⟩
  rw [htr] at hr hload hd h12
  dsimp only at hr hload hd h12 ⊢
  obtain ⟨l, hl⟩ := translate_success_frame s TRANSLATE_READ address t p s1 htr hr
  refine ⟨⟨l, by rw [hload, hl]⟩, ?_, ?_⟩
  · rw [hd, hl]
    rfl
  · have e : ∀ x : Nat, x &&& 3 = (x &&& 0xfff) &&& 3 := fun x => by
      rw [Nat.and_assoc]
      rfl
    have e1 : p &&& 3 = address &&& 3 := by rw [e, h12, ← e]
    have e2 : p &&& 3 = p % 4 := Nat.and_pow_two_sub_one_eq_mod p 2
    have e3 : address &&& 3 = address % 4 := Nat.and_pow_two_sub_one_eq_mod address 2
    omega

/-- C31: on a big-endian bus with the reverse-endian override inactive, LWL rt at the
address `a` followed by LWR rt at `a + 3`, both of whose word loads deliver data, leaves rt
equal to the sign extension of the big-endian word formed by the four bytes of the bus at
the translations of `a`, `a + 1`, `a + 2`, `a + 3`, whatever rt held before. When `a` is
word-aligned LWL alone leaves the sign extension of the word it read, LWR leaves the sign
extension of the word it read whatever LWL left in rt, and that is the value LW writes. -/
theorem lwl_lwr_big_endian (sf : softfloat_t) (s : State) (op1 op2 a d1 d2 : Nat)
    (hBE : s.m_cp0 CP0_Config &&& CONFIG_BE ≠ 0)
    (hrev : ¬ (s.SR &&& SR_RE ≠ 0 ∧ s.SR &&& SR_KSU = SR_KSU_U))
    (hop1 : op1 >>> 26 = 0x22) (hop2 : op2 >>> 26 = 0x26)
    (hrt : RTREG op2 = RTREG op1)
    (ha : ADDR s (s.m_r (RSREG op1)) op1 = a)
    (hl1 : (load s 4 (a &&& not64 3)).1 = some d1)
    (ha2 : ADDR (cpu_lwl s op1) ((cpu_lwl s op1).m_r (RSREG op2)) op2 = a + 3)
    (hl2 : (load (cpu_lwl s op1) 4 ((a + 3) &&& not64 3)).1 = some d2) :
    cpu_execute sf s op1 = Except.ok (cpu_lwl s op1)
    ∧ cpu_execute sf (cpu_lwl s op1) op2 = Except.ok (cpu_lwr (cpu_lwl s op1) op2)
    ∧ (cpu_lwr (cpu_lwl s op1) op2).m_r (RTREG op1)
      = sign_extend_32 (be_word
          (bus_read s 1 (unaligned_byte_address a
            (translate s TRANSLATE_READ (a &&& not64 3)).2.1
            (translate (cpu_lwl s op1) TRANSLATE_READ ((a + 3) &&& not64 3)).2.1 0))
          (bus_read s 1 (unaligned_byte_address a
            (translate s TRANSLATE_READ (a &&& not64 3)).2.1
            (translate (cpu_lwl s op1) TRANSLATE_READ ((a + 3) &&& not64 3)).2.1 1))
          (bus_read s 1 (unaligned_byte_address a
            (translate s TRANSLATE_READ (a &&& not64 3)).2.1
            (translate (cpu_lwl s op1) TRANSLATE_READ ((a + 3) &&& not64 3)).2.1 2))
          (bus_read s 1 (unaligned_byte_address a
            (translate s TRANSLATE_READ (a &&& not64 3)).2.1
            (translate (cpu_lwl s op1) TRANSLATE_READ ((a + 3) &&& not64 3)).2.1 3)))
    ∧ (a % 4 = 0 →
      (cpu_lwl s op1).m_r (RTREG op1) = sign_extend_32 d1
      ∧ (cpu_lwr (cpu_lwl s op1) op2).m_r (RTREG op1) = sign_extend_32 d2
      ∧ d1 = be_word
          (bus_read s 1 ((translate s TRANSLATE_READ a).2.1))
          (bus_read s 1 ((translate s TRANSLATE_READ a).2.1 + 1))
          (bus_read s 1 ((translate s TRANSLATE_READ a).2.1 + 2))
          (bus_read s 1 ((translate s TRANSLATE_READ a).2.1 + 3))
      ∧ ∀ op3, op3 >>> 26 = 0x23 → ADDR s (s.m_r (RSREG op3)) op3 = a →
          ∃ s3, cpu_execute sf s op3 = Except.ok s3 ∧ s3.m_r (RTREG op3) = sign_extend_32 d1) := by
  have halt : a < 2 ^ 64 := ha ▸ ADDR_lt s _ _
  -- the load of LWL
  obtain ⟨⟨l1, hload1⟩, hd1, hp1⟩ := load_word_some s _ d1 hl1
  have hv1 := cpu_lwl_value s op1 a d1 _ hBE hrev ha hload1
  have hcp0 : (cpu_lwl s op1).m_cp0 = s.m_cp0 := by rw [hv1]; rfl
  have hmem : (cpu_lwl s op1).mem = s.mem := by rw [hv1]; rfl
  have hBE1 : (cpu_lwl s op1).m_cp0 CP0_Config &&& CONFIG_BE ≠ 0 := by rw [hcp0]; exact hBE
  have hrev1 : ¬ ((cpu_lwl s op1).SR &&& SR_RE ≠ 0 ∧ (cpu_lwl s op1).SR &&& SR_KSU = SR_KSU_U) := by
    unfold State.SR
    rw [hcp0]
    exact hrev
  -- the load of LWR
  obtain ⟨⟨l2, hload2⟩, hd2, hp2⟩ := load_word_some (cpu_lwl s op1) _ d2 hl2
  have hv2 := cpu_lwr_value (cpu_lwl s op1) op2 (a + 3) d2 _ hBE1 hrev1 ha2 hload2
  rw [bus_read_congr s (cpu_lwl s op1) 4 _ hmem hcp0] at hd2
  have hlt1 : d1 < 2 ^ 32 := hd1 ▸ bus_read_lt s _
  have hlt2 : d2 < 2 ^ 32 := hd2 ▸ bus_read_lt s _
  -- the alignment of the physical addresses
  have hA1 : (a &&& not64 3) % 4 = 0 := by
    rw [and_not64_3 a halt]
    omega
  have hA2 : ((a + 3) &&& not64 3) % 4 = 0 := by
    rw [and_not64_3 (a + 3) (ha2 ▸ ADDR_lt _ _ _)]
    omega
  rw [hA1] at hp1
  rw [hA2] at hp2
  -- the value LWL leaves
  have hr1 : (cpu_lwl s op1).m_r (RTREG op1)
      = u64 (s32 (((s.m_r (RTREG op1) &&& not32 (u32 (not32 0 <<< ((a % 4) <<< 3) : Nat)))
        ||| u32 (d1 <<< ((a % 4) <<< 3) : Nat) : Nat))) := by
    rw [hv1]
    simp only [State.set_r, if_true]
  -- the value LWR leaves
  have hr2 : (cpu_lwr (cpu_lwl s op1) op2).m_r (RTREG op1)
      = u64 (s32 ((((cpu_lwl s op1).m_r (RTREG op1)
          &&& not32 (not32 0 >>> ((((a % 4 + 3) % 4) ^^^ 3) <<< 3)))
        ||| (d2 >>> ((((a % 4 + 3) % 4) ^^^ 3) <<< 3)) : Nat))) := by
    have e : (a + 3) % 4 = (a % 4 + 3) % 4 := by omega
    rw [hv2, hrt, e]
    simp only [State.set_r, if_true]
  have hmerge := lwl_lwr_merge (a % 4) (s.m_r (RTREG op1)) d1 d2 (Nat.mod_lt _ (by decide)) hlt2
  rw [← hr1, ← hr2] at hmerge
  -- the bytes of the bus
  have hb1 : ∀ j, j < 4 → bus_read s 1 ((translate s TRANSLATE_READ (a &&& not64 3)).2.1 + j)
      = d1 / 2 ^ (8 * (3 - j)) % 256 := fun j hj => by
    rw [bus_read_byte_be s _ j hBE hp1 hj, ← hd1]
  have hb2 : ∀ j, j < 4 →
      bus_read s 1 ((translate (cpu_lwl s op1) TRANSLATE_READ ((a + 3) &&& not64 3)).2.1 + j)
      = d2 / 2 ^ (8 * (3 - j)) % 256 := fun j hj => by
    rw [bus_read_byte_be s _ j hBE hp2 hj, ← hd2]
  have hbyte : ∀ i, i < 4 →
      bus_read s 1 (unaligned_byte_address a
        (translate s TRANSLATE_READ (a &&& not64 3)).2.1
        (translate (cpu_lwl s op1) TRANSLATE_READ ((a + 3) &&& not64 3)).2.1 i)
      = if (a + i) / 4 = (a + 3) / 4 then d2 / 2 ^ (8 * (3 - (a + i) % 4)) % 256
        else d1 / 2 ^ (8 * (3 - (a + i) % 4)) % 256 := fun i _ => by
    unfold unaligned_byte_address
    split
    · exact hb2 _ (Nat.mod_lt _ (by decide))
    · exact hb1 _ (Nat.mod_lt _ (by decide))
  refine ⟨by simp only [cpu_execute, hop1], by simp only [cpu_execute, hop2], ?_, ?_⟩
  · rw [hmerge, hbyte 0 (by decide), hbyte 1 (by decide), hbyte 2 (by decide),
      hbyte 3 (by decide)]
    unfold be_word
    have hk4 : a % 4 = 0 ∨ a % 4 = 1 ∨ a % 4 = 2 ∨ a % 4 = 3 := by omega
    rcases hk4 with hk | hk | hk | hk
    · -- offset 0 within the word
      have f0 : (a + 0) / 4 = (a + 3) / 4 := by omega
      have g0 : (a + 0) % 4 = 0 := by omega
      have f1 : (a + 1) / 4 = (a + 3) / 4 := by omega
      have g1 : (a + 1) % 4 = 1 := by omega
      have f2 : (a + 2) / 4 = (a + 3) / 4 := by omega
      have g2 : (a + 2) % 4 = 2 := by omega
      have f3 : (a + 3) / 4 = (a + 3) / 4 := by omega
      have g3 : (a + 3) % 4 = 3 := by omega
      rw [if_pos f0, g0, if_pos f1, g1, if_pos f2, g2, if_pos f3, g3]
      rw [if_pos hk]
      simp only [hk, Nat.reduceSub, Nat.reduceMul, Nat.reducePow]
      refine congrArg sign_extend_32 ?_
      omega
    · -- offset 1 within the word
      have f0 : ¬ (a + 0) / 4 = (a + 3) / 4 := by omega
      have g0 : (a + 0) % 4 = 1 := by omega
      have f1 : ¬ (a + 1) / 4 = (a + 3) / 4 := by omega
      have g1 : (a + 1) % 4 = 2 := by omega
      have f2 : ¬ (a + 2) / 4 = (a + 3) / 4 := by omega
      have g2 : (a + 2) % 4 = 3 := by omega
      have f3 : (a + 3) / 4 = (a + 3) / 4 := by omega
      have g3 : (a + 3) % 4 = 0 := by omega
      rw [if_neg f0, g0, if_neg f1, g1, if_neg f2, g2, if_pos f3, g3]
      rw [if_neg (by omega)]
      simp only [hk, Nat.reduceSub, Nat.reduceMul, Nat.reducePow]
      refine congrArg sign_extend_32 ?_
      omega
    · -- offset 2 within the word
      have f0 : ¬ (a + 0) / 4 = (a + 3) / 4 := by omega
      have g0 : (a + 0) % 4 = 2 := by omega
      have f1 : ¬ (a + 1) / 4 = (a + 3) / 4 := by omega
      have g1 : (a + 1) % 4 = 3 := by omega
      have f2 : (a + 2) / 4 = (a + 3) / 4 := by omega
      have g2 : (a + 2) % 4 = 0 := by omega
      have f3 : (a + 3) / 4 = (a + 3) / 4 := by omega
      have g3 : (a + 3) % 4 = 1 := by omega
      rw [if_neg f0, g0, if_neg f1, g1, if_pos f2, g2, if_pos f3, g3]
      rw [if_neg (by omega)]
      simp only [hk, Nat.reduceSub, Nat.reduceMul, Nat.reducePow]
      refine congrArg sign_extend_32 ?_
      omega
    · -- offset 3 within the word
      have f0 : ¬ (a + 0) / 4 = (a + 3) / 4 := by omega
      have g0 : (a + 0) % 4 = 3 := by omega
      have f1 : (a + 1) / 4 = (a + 3) / 4 := by omega
      have g1 : (a + 1) % 4 = 0 := by omega
      have f2 : (a + 2) / 4 = (a + 3) / 4 := by omega
      have g2 : (a + 2) % 4 = 1 := by omega
      have f3 : (a + 3) / 4 = (a + 3) / 4 := by omega
      have g3 : (a + 3) % 4 = 2 := by omega
      rw [if_neg f0, g0, if_pos f1, g1, if_pos f2, g2, if_pos f3, g3]
      rw [if_neg (by omega)]
      simp only [hk, Nat.reduceSub, Nat.reduceMul, Nat.reducePow]
      refine congrArg sign_extend_32 ?_
      omega
  · intro h0
    have hA : a &&& not64 3 = a := by
      rw [and_not64_3 a halt]
      omega
    rw [hA] at hload1 hb1
    refine ⟨?_, ?_, ?_, ?_⟩
    · rw [hr1, h0]
      simp only [Nat.reduceShiftLeft]
      rw [lwl_word _ d1 0 _ (by decide) (by decide)]
      simp only [Nat.reduceSub, Nat.reducePow]
      have e : 1 * (d1 % 4294967296) + s.m_r (RTREG op1) % 1 = d1 := by omega
      rw [e, u64_s32_nat d1 hlt1]
    · rw [hmerge, if_pos h0]
    · have h0' := hb1 0 (by decide)
      rw [Nat.add_zero] at h0'
      rw [h0', hb1 1 (by decide), hb1 2 (by decide), hb1 3 (by decide)]
      unfold be_word
      simp only [Nat.reduceSub, Nat.reduceMul, Nat.reducePow]
      omega
    · intro op3 hop3 ha3
      refine ⟨_, (by simp only [cpu_execute, hop3, ha3, hload1]; rfl), ?_⟩
      simp only [State.set_r, if_true]
      exact u64_s32_nat d1 hlt1

/-- Witness of C31: with the bytes `11 82 33 44 55 66 77 88` at physical address `0x1000`
and r3 pointing there, LWL r6, 1(r3) followed by LWR r6, 4(r3) leaves
`r6 = 0xffffffff82334455`, the sign extension of the bytes at offsets 1 to 4. -/
theorem lwl_lwr_big_endian_witness :
    (cpu_lwr (cpu_lwl example_unaligned_state 0x88660001) 0x98660004).m_r (RTREG 0x88660001)
      = sign_extend_32 (be_word
          (bus_read example_unaligned_state 1 (unaligned_byte_address 0xffffffff80001001
            (translate example_unaligned_state TRANSLATE_READ
              (0xffffffff80001001 &&& not64 3)).2.1
            (translate (cpu_lwl example_unaligned_state 0x88660001) TRANSLATE_READ
              ((0xffffffff80001001 + 3) &&& not64 3)).2.1 0))
          (bus_read example_unaligned_state 1 (unaligned_byte_address 0xffffffff80001001
            (translate example_unaligned_state TRANSLATE_READ
              (0xffffffff80001001 &&& not64 3)).2.1
            (translate (cpu_lwl example_unaligned_state 0x88660001) TRANSLATE_READ
              ((0xffffffff80001001 + 3) &&& not64 3)).2.1 1))
          (bus_read example_unaligned_state 1 (unaligned_byte_address 0xffffffff80001001
            (translate example_unaligned_state TRANSLATE_READ
              (0xffffffff80001001 &&& not64 3)).2.1
            (translate (cpu_lwl example_unaligned_state 0x88660001) TRANSLATE_READ
              ((0xffffffff80001001 + 3) &&& not64 3)).2.1 2))
          (bus_read example_unaligned_state 1 (unaligned_byte_address 0xffffffff80001001
            (translate example_unaligned_state TRANSLATE_READ
              (0xffffffff80001001 &&& not64 3)).2.1
            (translate (cpu_lwl example_unaligned_state 0x88660001) TRANSLATE_READ
              ((0xffffffff80001001 + 3) &&& not64 3)).2.1 3)))
    ∧ (execute_words example_softfloat [0x88660001, 0x98660004]
        example_unaligned_state).toOption.map (fun s' => s'.m_r 6)
      = some 0xffffffff82334455
    ∧ sign_extend_32 (be_word 0x82 0x33 0x44 0x55) = 0xffffffff82334455
    ∧ (bus_read example_unaligned_state 1 0x1001, bus_read example_unaligned_state 1 0x1002,
        bus_read example_unaligned_state 1 0x1003, bus_read example_unaligned_state 1 0x1004)
      = (0x82, 0x33, 0x44, 0x55) :=
  ⟨(lwl_lwr_big_endian example_softfloat example_unaligned_state 0x88660001 0x98660004
      0xffffffff80001001 0x11823344 0x55667788 (by decide) (by decide) (by decide)
      (by decide) (by decide) (by decide) (by decide) (by decide) (by decide)).2.2.1,
    by decide, by decide, by decide⟩

end R4000
